import Mathlib

/-!
# videobelajar backend: a shallow embedding of the controllers

The controllers of `videobelajar-backend/controllers/` are request handlers that
talk to a MySQL database through `executeQuery` (`config/database.js`).  They are
embedded as pure functions `Request → Db → Response × Db` (explicit state
passing); every `await executeQuery(...)` is one step on the `Db` state, and every
`try / catch` is the `.error` branch of that step.

* JavaScript values are the type `Value` (numbers are decimal literals
  `mantissa / 10 ^ scale`, so that `4.5` is `num 45 1`; no arithmetic is done on
  them by the controllers).
* A SQL statement is a `Statement`: the text and the bound parameters the
  controller passes to `executeQuery`, together with the meaning of that text on
  the tables.  The text is assembled the way the controller assembles it.
* The database is the two tables `users` and `courses` with their
  AUTO_INCREMENT counters and the clock that `CURRENT_TIMESTAMP` reads; `faults`
  is the schedule of connection errors and `log` records the statements issued.
-/

namespace VideoBelajar

/-! ## JavaScript values -/

/-- A JavaScript value as the controllers see it: a field of `req.body`,
`req.query` or `req.params`, a bound SQL parameter, or a column of a result row.
`num m s` is the number `m / 10 ^ s`, and `infinity` is `Infinity` or
`-Infinity`, which `parseInt` gives for digits beyond the range of a double.
Negative zero is written as zero: no controller tells the two apart. -/
inductive Value where
  | undefined
  | null
  | bool (b : Bool)
  | num (mantissa : Int) (scale : Nat)
  | nan
  | infinity (negative : Bool)
  | str (s : String)
  deriving DecidableEq, Repr, Inhabited

/-- JavaScript truthiness (`if (x)`, `x || y`, `x && y`). -/
def Value.truthy : Value → Bool
  | .undefined => false
  | .null => false
  | .bool b => b
  | .num m _ => m != 0
  | .nan => false
  | .infinity _ => true
  | .str s => s != ""

/-- The JavaScript expression `a || b`. -/
def Value.or (a b : Value) : Value := if a.truthy then a else b

/-- The JavaScript expression `a === b`. -/
def Value.strictEq : Value → Value → Bool
  | .num m s, .num m' s' => m * 10 ^ s' == m' * 10 ^ s
  | .nan, _ => false
  | _, .nan => false
  | a, b => a == b

/-- A JavaScript object with string keys (`req.body`, `req.query`, `req.params`). -/
abbrev Obj := List (String × Value)

/-- Property access `o.k`: `undefined` when the key is absent. -/
def Obj.get (o : Obj) (k : String) : Value := (o.lookup k).getD .undefined

/-- An object whose values are strings: the route parameters `req.params` and
the query string `req.query` (repeated and bracketed keys, which Express parses
to arrays and objects, are left out). -/
abbrev Strings := List (String × String)

/-- Property access `o.k` on `req.params` or `req.query`. -/
def Strings.get (o : Strings) (k : String) : Value :=
  match o.lookup k with
  | some v => .str v
  | none => .undefined

/-- The upper-case form of a character that JavaScript `toUpperCase` maps to one
character: ASCII letters, and the two letters outside ASCII whose upper-case form
is an ASCII letter (U+017F to `S`, U+0131 to `I`); other characters are left as
they are. -/
def upperChar (c : Char) : Char :=
  if c = Char.ofNat 0x17F then 'S' else if c = Char.ofNat 0x131 then 'I' else c.toUpper

/-- JavaScript `s.toUpperCase()`. -/
def toUpperCase (s : String) : String := ⟨s.data.map upperChar⟩

/-- Decimal digits of a character list read as a natural number; `none` when the
list is empty or holds a non-digit. -/
def digitsToNat : List Char → Option Nat
  | [] => none
  | cs => if cs.all Char.isDigit then
      some (cs.foldl (fun n c => 10 * n + (c.toNat - 48)) 0) else none

/-- An integer literal `[-+]?[0-9]+` read as an integer. -/
def intLiteral (s : String) : Option Int :=
  match s.data with
  | '-' :: ds => (digitsToNat ds).map (fun n => - (n : Int))
  | '+' :: ds => (digitsToNat ds).map (fun n => (n : Int))
  | ds => (digitsToNat ds).map (fun n => (n : Int))

/-- The number of binary digits of `n`, on fuel `n`. -/
def bitLength : Nat → Nat → Nat
  | 0, _ => 0
  | fuel + 1, n => if n = 0 then 0 else bitLength fuel (n / 2) + 1

/-- The ratio `p / (q * b ^ e)` for an integer exponent `e`, as numerator and
denominator. -/
def scaleRatio (b p q : Nat) (e : Int) : Nat × Nat :=
  if 0 ≤ e then (p, q * b ^ e.toNat) else (p * b ^ (-e).toNat, q)

/-- A ratio rounded to the nearest natural number, a tie to the even one. -/
def roundHalfEven (num den : Nat) : Nat :=
  if den < 2 * (num % den) ∨ (den = 2 * (num % den) ∧ (num / den) % 2 = 1) then num / den + 1
  else num / den

/-- The double nearest to `p / q`, for `p` and `q` positive: the significand `f`
and the exponent `e` of `f * 2 ^ e`, with `2 ^ 52 ≤ f < 2 ^ 53`, or `e = -1074`
for a subnormal; `none` beyond the largest double. -/
def nearestDouble (p q : Nat) : Option (Nat × Int) :=
  let l : Int := (bitLength p p : Int) - (bitLength q q : Int)
  let (n0, d0) := scaleRatio 2 p q l
  let e : Int := max ((if d0 ≤ n0 then l else l - 1) - 52) (-1074)
  let (num, den) := scaleRatio 2 p q e
  let f := roundHalfEven num den
  let (f, e) := if f = 2 ^ 53 then (2 ^ 52, e + 1) else (f, e)
  if 971 < e then none else some (f, e)

/-- How many times `p / q < 1` is multiplied by ten before it reaches one tenth. -/
def leadingZeros : Nat → Nat → Nat → Nat
  | 0, _, _ => 0
  | fuel + 1, p, q => if q ≤ 10 * p then 0 else leadingZeros fuel (10 * p) q + 1

/-- The decimal exponent `n` of `p / q`: `10 ^ (n - 1) ≤ p / q < 10 ^ n`. -/
def decimalExponent (p q : Nat) : Int :=
  if q ≤ p then ((Nat.toDigits 10 (p / q)).length : Int)
  else - (leadingZeros 400 p q : Int)

/-- The `k`-digit decimal `s * 10 ^ (n - k)` nearest to the double `f * 2 ^ e`
that reads back as that double, if there is one. -/
def digitsOfLength (f : Nat) (e : Int) (n : Int) (k : Nat) : Option Nat :=
  let (p, q) := scaleRatio 2 f 1 (-e)
  let (num, den) := scaleRatio 10 p q (n - k)
  let low := num / den
  let reads (s : Nat) : Bool :=
    let (sp, sq) := scaleRatio 10 s 1 (k - n)
    nearestDouble sp sq == some (f, e)
  let lowFirst : Bool :=
    2 * (num % den) < den ∨ (2 * (num % den) = den ∧ low % 2 = 0)
  if lowFirst then
    if reads low then some low else if reads (low + 1) then some (low + 1) else none
  else
    if reads (low + 1) then some (low + 1) else if reads low then some low else none

/-- The shortest decimal that reads back as the double `f * 2 ^ e`: its digits
and the exponent `n` of `0.digits * 10 ^ n`. -/
def shortestDigits (f : Nat) (e : Int) : List Char × Int :=
  let (p, q) := scaleRatio 2 f 1 (-e)
  let n := decimalExponent p q
  match (List.range 17).findSome? (fun i =>
      (digitsOfLength f e n (i + 1)).map (fun s => (s, i + 1))) with
  | some (s, k) =>
    let all := Nat.toDigits 10 s
    ((all.reverse.dropWhile (fun c => c == '0')).reverse, n + ((all.length : Int) - (k : Int)))
  | none => ([], n)

/-- The text `Number.prototype.toString` gives the number written `m / 10 ^ s`:
with the double nearest to it printed by its shortest decimal, `k` digits and
`10 ^ (n - 1) ≤ |x| < 10 ^ n`, the digits followed by zeros when `k ≤ n ≤ 21`, a
decimal point after `n` digits when `0 < n ≤ 21`, `0.` and `-n` zeros before the
digits when `-6 < n ≤ 0`, and the exponent form otherwise. -/
def numberText (m : Int) (s : Nat) : String :=
  match nearestDouble m.natAbs (10 ^ s) with
  | none => if m < 0 then "-Infinity" else "Infinity"
  | some (f, e) =>
    if f = 0 then "0"
    else
      let (digits, n) := shortestDigits f e
      let k := digits.length
      let body : List Char :=
        if (k : Int) ≤ n ∧ n ≤ 21 then digits ++ List.replicate (n.toNat - k) '0'
        else if 0 < n ∧ n ≤ 21 then digits.take n.toNat ++ '.' :: digits.drop n.toNat
        else if -6 < n ∧ n ≤ 0 then '0' :: '.' :: List.replicate (-n).toNat '0' ++ digits
        else
          let exponent := 'e' :: (if 0 < n - 1 then '+' else '-') ::
            Nat.toDigits 10 (n - 1).natAbs
          match digits with
          | [] => []
          | [c] => c :: exponent
          | c :: rest => c :: '.' :: rest ++ exponent
      ⟨(if m < 0 then ['-'] else []) ++ body⟩

/-- The text of a value: `String(x)`, a template literal, a string
concatenation. -/
def Value.text : Value → String
  | .str s => s
  | .undefined => "undefined"
  | .null => "null"
  | .bool b => if b then "true" else "false"
  | .nan => "NaN"
  | .infinity negative => if negative then "-Infinity" else "Infinity"
  | .num m s => numberText m s

/-- The white space `parseInt` skips: the ECMAScript `WhiteSpace` and
`LineTerminator` code points. -/
def isStrWhiteSpace (c : Char) : Bool :=
  c.toNat = 0x9 || c.toNat = 0xA || c.toNat = 0xB || c.toNat = 0xC || c.toNat = 0xD ||
  c.toNat = 0x20 || c.toNat = 0xA0 || c.toNat = 0x1680 ||
  (0x2000 ≤ c.toNat && c.toNat ≤ 0x200A) || c.toNat = 0x2028 || c.toNat = 0x2029 ||
  c.toNat = 0x202F || c.toNat = 0x205F || c.toNat = 0x3000 || c.toNat = 0xFEFF

/-- The value of a character as a digit of the radix: `0` to `9`, then the
letters of either case from ten on; `none` when it is no digit of the radix. -/
def radixDigit (radix : Nat) (c : Char) : Option Nat :=
  let v :=
    if c.isDigit then c.toNat - 48
    else if c.isLower then c.toNat - 87
    else if c.isUpper then c.toNat - 55
    else radix
  if v < radix then some v else none

/-- The values of the longest prefix of digits of the radix. -/
def leadingRadixDigits (radix : Nat) : List Char → List Nat
  | [] => []
  | c :: cs =>
    match radixDigit radix c with
    | some v => v :: leadingRadixDigits radix cs
    | none => []

/-- How many times `n` is halved before it is below `2 ^ 53`. -/
def excessBits : Nat → Nat → Nat
  | 0, _ => 0
  | fuel + 1, n => if n < 2 ^ 53 then 0 else excessBits fuel (n / 2) + 1

/-- The double nearest to a natural number, ties to the even significand: the
number itself below `2 ^ 53`, otherwise its 53 leading bits rounded; `none` is
`Infinity`, beyond the largest double `(2 ^ 53 - 1) * 2 ^ 971`. -/
def roundDouble (n : Nat) : Option Nat :=
  let e := excessBits n n
  let q := n / 2 ^ e
  let r := n % 2 ^ e
  let q := if 2 ^ (e - 1) < r ∨ (2 ^ (e - 1) = r ∧ q % 2 = 1) then q + 1 else q
  if 971 < e ∨ (e = 971 ∧ q = 2 ^ 53) then none else some (q * 2 ^ e)

/-- The number `parseInt` returns for the integer it read: the nearest double,
with the sign. -/
def integerValue (negative : Bool) (n : Nat) : Value :=
  match roundDouble n with
  | some d => .num (if negative then - (d : Int) else d) 0
  | none => .infinity negative

/-- The optional sign in front of the digits: whether it is `-`, and the
rest. -/
def readSign : List Char → Bool × List Char
  | '-' :: r => (true, r)
  | '+' :: r => (false, r)
  | r => (false, r)

/-- The radix `parseInt` takes when none is given: 16 after `0x` or `0X`, which
is stripped, and 10 otherwise. -/
def readRadix : List Char → Nat × List Char
  | '0' :: 'x' :: r => (16, r)
  | '0' :: 'X' :: r => (16, r)
  | r => (10, r)

/-- JavaScript `parseInt(s)` on a string, without a radix: leading white space
is skipped, an optional sign is read, `0x` or `0X` selects radix 16 (radix 10
otherwise), and the longest run of digits of the radix is read; the result is
the double nearest to the integer read, and `NaN` when there is no digit. -/
def parseIntText (s : String) : Value :=
  let (neg, rest) := readSign (s.data.dropWhile isStrWhiteSpace)
  let (radix, rest) := readRadix rest
  match leadingRadixDigits radix rest with
  | [] => .nan
  | ds => integerValue neg (ds.foldl (fun n d => radix * n + d) 0)

/-- JavaScript `parseInt(x)`: `parseInt` of the text of `x`.  An absent value
gives `NaN`. -/
def parseInt (x : Value) : Value := parseIntText x.text

/-! ## Tables -/

/-- A row of the `users` table. -/
structure UserRow where
  id : Nat
  name : Value
  email : Value
  password : Value
  phone : Value
  gender : Value
  role : Value
  avatar : Value
  created_at : Nat
  updated_at : Nat
  deriving DecidableEq, Repr

/-- A row of `SELECT id, name, email, phone, gender, role, avatar, created_at,
updated_at FROM users`: every column but the password. -/
structure UserView where
  id : Nat
  name : Value
  email : Value
  phone : Value
  gender : Value
  role : Value
  avatar : Value
  created_at : Nat
  updated_at : Nat
  deriving DecidableEq, Repr

/-- The projection of a user row on the columns of `UserView`. -/
def UserRow.view (u : UserRow) : UserView :=
  { id := u.id, name := u.name, email := u.email, phone := u.phone, gender := u.gender,
    role := u.role, avatar := u.avatar, created_at := u.created_at,
    updated_at := u.updated_at }

/-- A row of the `courses` table. -/
structure CourseRow where
  id : Nat
  title : Value
  description : Value
  photos : Value
  mentor : Value
  rolementor : Value
  avatar : Value
  company : Value
  rating : Value
  review_count : Value
  price : Value
  category : Value
  created_at : Nat
  updated_at : Nat
  deriving DecidableEq, Repr

/-- The kind of a SQL statement. -/
inductive StmtKind where
  | select | insert | update | delete | alter
  deriving DecidableEq, Repr

/-- One call of `executeQuery`: the statement text and its bound parameters. -/
structure LogEntry where
  kind : StmtKind
  sql : String
  params : List Value
  deriving DecidableEq, Repr

/-- The database behind the connection pool.  `usersNextId` and `coursesNextId`
are the AUTO_INCREMENT counters, `now` is what `CURRENT_TIMESTAMP` reads,
`faults` says for each coming statement whether the connection fails on it
(nothing left means no failure), and `log` is the list of statements issued so
far. -/
structure Db where
  users : List UserRow
  courses : List CourseRow
  usersNextId : Nat
  coursesNextId : Nat
  now : Nat
  faults : List Bool
  log : List LogEntry
  deriving DecidableEq, Repr

/-- The result header of an INSERT, UPDATE, DELETE or ALTER. -/
structure ResultHeader where
  insertId : Nat
  affectedRows : Nat
  deriving DecidableEq, Repr

/-- A SQL statement as passed to `executeQuery(query, params)`: its text, its
bound parameters, and what MySQL does with it on the tables. -/
structure Statement (α : Type) where
  kind : StmtKind
  sql : String
  params : List Value
  run : Db → Except String (α × Db)

/-- The state in which a statement runs: the fault of this call consumed and
the statement logged. -/
def Db.issue {α : Type} (db : Db) (st : Statement α) : Db :=
  { db with faults := db.faults.tail, log := db.log ++ [⟨st.kind, st.sql, st.params⟩] }

/-- The connection does not fail on the next statement. -/
def Db.connected (db : Db) : Prop := db.faults.head? ≠ some true

instance (db : Db) : Decidable db.connected := by unfold Db.connected; infer_instance

/-- The helper `executeQuery` of `config/database.js`: `pool.execute(query,
params)` returning the result rows, or throwing.  It throws when the connection
fails, when a bound parameter is `undefined` (mysql2 refuses it), and when MySQL
rejects the statement. -/
def executeQuery {α : Type} (st : Statement α) (db : Db) : Except String α × Db :=
  if db.faults.head? = some true then (.error "connection lost", db.issue st)
  else if st.params.contains .undefined then
    (.error "Bind parameters must not contain undefined", db.issue st)
  else match st.run (db.issue st) with
    | .ok (a, db') => (.ok a, db')
    | .error e => (.error e, db.issue st)

/-- SQL `column = ?` on the integer primary key: the parameter is a number or
an integer literal equal to the key. -/
def idMatches (rowId : Nat) : Value → Bool
  | .num m 0 => m == (rowId : Int)
  | .str s => intLiteral s == some (rowId : Int)
  | _ => false

/-- SQL `column = ?` on a stored value: two strings or two numbers that are
equal; a comparison with NULL never holds. -/
def sqlEq : Value → Value → Bool
  | .str a, .str b => a == b
  | .num m s, .num m' s' => m * 10 ^ s' == m' * 10 ^ s
  | .bool a, .bool b => a == b
  | _, _ => false

/-! ## Responses -/

/-- The user object of the auth responses (`userData`): no password. -/
structure UserData where
  id : Value
  name : Value
  email : Value
  phone : Value
  gender : Value
  role : Value
  avatar : Value
  deriving DecidableEq, Repr

/-- The payload signed into a token by `jwt.sign`, with the secret and the
expiry it was signed with. -/
structure Token where
  userId : Value
  email : Value
  role : Value
  secret : String
  expiresIn : String
  deriving DecidableEq, Repr

/-- The `pagination` object of `getAllCourses`. -/
structure Pagination where
  total : Nat
  count : Nat
  limit : Value
  offset : Value
  deriving DecidableEq, Repr

/-- The `data` field of a response body. -/
inductive Data where
  | absent
  | session (user : UserData) (token : Token)
  | user (user : UserData)
  | userView (row : Option UserView)
  | course (row : Option CourseRow)
  | courses (rows : List CourseRow)
  | created (rows : List (Option CourseRow))
  | users (rows : List UserView)
  | file (filename path : String)
  deriving DecidableEq, Repr

/-- An HTTP response: the status code and the JSON envelope. -/
structure Response where
  status : Nat
  success : Bool
  message : String
  data : Data := .absent
  errors : Option (List String) := none
  pagination : Option Pagination := none
  count : Option Nat := none
  deriving DecidableEq, Repr

/-- A request as the controller receives it: `errors` is
`validationResult(req).array()`, the outcome of the route's validation chain. -/
structure Request where
  errors : List String := []
  params : Strings := []
  query : Strings := []
  body : Obj := []
  headers : Strings := []
  deriving DecidableEq, Repr

/-- The response of every handler whose validation result is not empty. -/
def validationFailed (req : Request) : Response :=
  { status := 400, success := false, message := "Validation failed",
    errors := some req.errors }

/-! ## usersController.js -/

/-- The statement `SELECT * FROM users WHERE id = ?`. -/
def selectUserById (id : Value) : Statement (List UserRow) :=
  { kind := .select
    sql := "SELECT * FROM users WHERE id = ?"
    params := [id]
    run := fun db => .ok (db.users.filter (fun u => idMatches u.id id), db) }

/-- The statement `DELETE FROM users WHERE id = ?`. -/
def deleteUserById (id : Value) : Statement ResultHeader :=
  { kind := .delete
    sql := "DELETE FROM users WHERE id = ?"
    params := [id]
    run := fun db =>
      let kept := db.users.filter (fun u => !idMatches u.id id)
      .ok (⟨0, db.users.length - kept.length⟩, { db with users := kept }) }

/-- The handler `deleteUser`. -/
def deleteUser (req : Request) (db : Db) : Response × Db :=
  if !req.errors.isEmpty then (validationFailed req, db) else
  let id := req.params.get "id"
  match executeQuery (selectUserById id) db with
  | (.error _, db1) =>
    ({ status := 500, success := false,
       message := "Terjadi kesalahan saat menghapus user" }, db1)
  | (.ok existingUsers, db1) =>
    match existingUsers with
    | [] => ({ status := 404, success := false, message := "User tidak ditemukan" }, db1)
    | user :: _ =>
      if user.role.strictEq (.str "admin") then
        ({ status := 403, success := false, message := "Admin user tidak dapat dihapus" }, db1)
      else
        match executeQuery (deleteUserById id) db1 with
        | (.error _, db2) =>
          ({ status := 500, success := false,
             message := "Terjadi kesalahan saat menghapus user" }, db2)
        | (.ok _, db2) =>
          ({ status := 200, success := true, message := "User deleted successfully" }, db2)

/-! ## Partial updates: the dynamic `SET` clause -/

/-- JavaScript `fragments.join(separator)`. -/
def join (separator : String) : List String → String
  | [] => ""
  | [a] => a
  | a :: b :: rest => a ++ separator ++ join separator (b :: rest)

/-- One step of the construction of the `SET` clause:
`if (field !== undefined) { updateFields.push(fragment); updateValues.push(value) }`. -/
def pushField (acc : List String × List Value) (field : Value) (fragment : String)
    (value : Value) : List String × List Value :=
  if field ≠ .undefined then (acc.1 ++ [fragment], acc.2 ++ [value]) else acc

/-- The number of `?` placeholders of a statement text. -/
def placeholders (sql : String) : Nat := sql.data.count '?'

/-! ## coursesController.js: updateCourse -/

/-- What the assignment `fragment` of a `SET` clause does to a course row. -/
def CourseRow.assign (r : CourseRow) (fragment : String) (v : Value) : CourseRow :=
  if fragment = "title = ?" then { r with title := v }
  else if fragment = "description = ?" then { r with description := v }
  else if fragment = "photos = ?" then { r with photos := v }
  else if fragment = "mentor = ?" then { r with mentor := v }
  else if fragment = "rolementor = ?" then { r with rolementor := v }
  else if fragment = "avatar = ?" then { r with avatar := v }
  else if fragment = "company = ?" then { r with company := v }
  else if fragment = "rating = ?" then { r with rating := v }
  else if fragment = "review_count = ?" then { r with review_count := v }
  else if fragment = "price = ?" then { r with price := v }
  else if fragment = "category = ?" then { r with category := v }
  else r

/-- The assignments a `SET` clause on `courses` may hold. -/
def courseAssignments : List String :=
  ["title = ?", "description = ?", "photos = ?", "mentor = ?", "rolementor = ?",
   "avatar = ?", "company = ?", "rating = ?", "review_count = ?", "price = ?",
   "category = ?"]

/-- The statement `SELECT * FROM courses WHERE id = ?`. -/
def selectCourseById (id : Value) : Statement (List CourseRow) :=
  { kind := .select
    sql := "SELECT * FROM courses WHERE id = ?"
    params := [id]
    run := fun db => .ok (db.courses.filter (fun c => idMatches c.id id), db) }

/-- The statement `updatedCourseQuery` of `updateCourse` (also `newCourseQuery` of
`createCourse`): the course with the given id, all columns listed. -/
def selectCourseColumnsById (id : Value) : Statement (List CourseRow) :=
  { kind := .select
    sql := "\n            SELECT id, title, description, photos, mentor, rolementor, avatar, \n                   company, rating, review_count, price, category, created_at, updated_at\n            FROM courses WHERE id = ?\n        "
    params := [id]
    run := fun db => .ok (db.courses.filter (fun c => idMatches c.id id), db) }

/-- The statement `updateQuery` of `updateCourse`: the assignments
`updateFields` are bound to the leading values of `updateValues`, the last value
is the id of the `WHERE` clause, and `updated_at` is set to the current time. -/
def updateCourses (updateFields : List String) (updateValues : List Value) :
    Statement ResultHeader :=
  { kind := .update
    sql := "\n            UPDATE courses \n            SET " ++ join ", " updateFields ++
      ", updated_at = CURRENT_TIMESTAMP\n            WHERE id = ?\n        "
    params := updateValues
    run := fun db =>
      if updateValues.length ≠ updateFields.length + 1 then
        .error "Incorrect arguments to mysqld_stmt_execute"
      else if updateFields = [] ∨ ¬ (∀ f ∈ updateFields, f ∈ courseAssignments) then
        .error "You have an error in your SQL syntax"
      else
        let id := updateValues.getLast?.getD .null
        let set (r : CourseRow) : CourseRow :=
          { (updateFields.zip updateValues).foldl (fun r fv => r.assign fv.1 fv.2) r with
            updated_at := db.now }
        .ok (⟨0, (db.courses.filter (fun c => idMatches c.id id)).length⟩,
          { db with courses := db.courses.map (fun c => if idMatches c.id id then set c else c) }) }

/-- The arrays `updateFields` and `updateValues` of `updateCourse`, before the id
is pushed. -/
def courseUpdate (body : Obj) : List String × List Value :=
  let title := body.get "title"
  let description := body.get "description"
  let photos := body.get "photos"
  let mentor := body.get "mentor"
  let rolementor := body.get "rolementor"
  let avatar := body.get "avatar"
  let company := body.get "company"
  let rating := body.get "rating"
  let review_count := body.get "review_count"
  let price := body.get "price"
  let category := body.get "category"
  let acc : List String × List Value := ([], [])
  let acc := pushField acc title "title = ?" title
  let acc := pushField acc description "description = ?" description
  let acc := pushField acc photos "photos = ?" (photos.or .null)
  let acc := pushField acc mentor "mentor = ?" mentor
  let acc := pushField acc rolementor "rolementor = ?" rolementor
  let acc := pushField acc avatar "avatar = ?" (avatar.or .null)
  let acc := pushField acc company "company = ?" company
  let acc := pushField acc rating "rating = ?" rating
  let acc := pushField acc review_count "review_count = ?" review_count
  let acc := pushField acc price "price = ?" price
  let acc := pushField acc category "category = ?" category
  acc

/-- The handler `updateCourse`. -/
def updateCourse (req : Request) (db : Db) : Response × Db :=
  let failed : Response :=
    { status := 500, success := false, message := "Terjadi kesalahan saat mengupdate course" }
  if !req.errors.isEmpty then (validationFailed req, db) else
  let id := req.params.get "id"
  match executeQuery (selectCourseById id) db with
  | (.error _, db1) => (failed, db1)
  | (.ok existingCourses, db1) =>
    if existingCourses.length = 0 then
      ({ status := 404, success := false, message := "Course tidak ditemukan" }, db1)
    else
      let (updateFields, updateValues) := courseUpdate req.body
      if updateFields.length = 0 then
        ({ status := 400, success := false, message := "Tidak ada data yang diupdate" }, db1)
      else
        let updateValues := updateValues ++ [id]
        match executeQuery (updateCourses updateFields updateValues) db1 with
        | (.error _, db2) => (failed, db2)
        | (.ok _, db2) =>
          match executeQuery (selectCourseColumnsById id) db2 with
          | (.error _, db3) => (failed, db3)
          | (.ok updatedCourses, db3) =>
            ({ status := 200, success := true, message := "Course updated successfully",
               data := .course updatedCourses.head? }, db3)

/-! ## usersController.js: updateUser -/

/-- What the assignment `fragment` of a `SET` clause does to a user row. -/
def UserRow.assign (r : UserRow) (fragment : String) (v : Value) : UserRow :=
  if fragment = "name = ?" then { r with name := v }
  else if fragment = "email = ?" then { r with email := v }
  else if fragment = "phone = ?" then { r with phone := v }
  else if fragment = "gender = ?" then { r with gender := v }
  else if fragment = "role = ?" then { r with role := v }
  else if fragment = "avatar = ?" then { r with avatar := v }
  else if fragment = "password = ?" then { r with password := v }
  else r

/-- The assignments a `SET` clause on `users` may hold. -/
def userAssignments : List String :=
  ["name = ?", "email = ?", "phone = ?", "gender = ?", "role = ?", "avatar = ?",
   "password = ?"]

/-- The statement `SELECT id FROM users WHERE email = ? AND id != ?`. -/
def selectUserIdByEmailExcept (email id : Value) : Statement (List Nat) :=
  { kind := .select
    sql := "SELECT id FROM users WHERE email = ? AND id != ?"
    params := [email, id]
    run := fun db =>
      .ok (((db.users.filter (fun u => sqlEq u.email email && !idMatches u.id id)).map
        (fun u => u.id)), db) }

/-- The statement `updatedUserQuery` of `updateUser` (also `newUserQuery` of
`createUser`): the user with the given id, without the password. -/
def selectUserViewById (id : Value) : Statement (List UserView) :=
  { kind := .select
    sql := "\n            SELECT id, name, email, phone, gender, role, avatar, created_at, updated_at\n            FROM users WHERE id = ?\n        "
    params := [id]
    run := fun db =>
      .ok ((db.users.filter (fun u => idMatches u.id id)).map UserRow.view, db) }

/-- The statement `updateQuery` of `updateUser`, read like `updateCourses`. -/
def updateUsers (updateFields : List String) (updateValues : List Value) :
    Statement ResultHeader :=
  { kind := .update
    sql := "\n            UPDATE users \n            SET " ++ join ", " updateFields ++
      ", updated_at = CURRENT_TIMESTAMP\n            WHERE id = ?\n        "
    params := updateValues
    run := fun db =>
      if updateValues.length ≠ updateFields.length + 1 then
        .error "Incorrect arguments to mysqld_stmt_execute"
      else if updateFields = [] ∨ ¬ (∀ f ∈ updateFields, f ∈ userAssignments) then
        .error "You have an error in your SQL syntax"
      else
        let id := updateValues.getLast?.getD .null
        let set (r : UserRow) : UserRow :=
          { (updateFields.zip updateValues).foldl (fun r fv => r.assign fv.1 fv.2) r with
            updated_at := db.now }
        .ok (⟨0, (db.users.filter (fun u => idMatches u.id id)).length⟩,
          { db with users := db.users.map (fun u => if idMatches u.id id then set u else u) }) }

/-- The arrays `updateFields` and `updateValues` of `updateUser`, before the id is
pushed. -/
def userUpdate (body : Obj) : List String × List Value :=
  let name := body.get "name"
  let email := body.get "email"
  let phone := body.get "phone"
  let gender := body.get "gender"
  let role := body.get "role"
  let avatar := body.get "avatar"
  let acc : List String × List Value := ([], [])
  let acc := pushField acc name "name = ?" name
  let acc := pushField acc email "email = ?" email
  let acc := pushField acc phone "phone = ?" (phone.or .null)
  let acc := pushField acc gender "gender = ?" (gender.or .null)
  let acc := pushField acc role "role = ?" role
  let acc := pushField acc avatar "avatar = ?" avatar
  acc

/-- The tail of `updateUser`, from "Build update query dynamically" on. -/
def updateUserWrite (req : Request) (db : Db) : Response × Db :=
  let failed : Response :=
    { status := 500, success := false, message := "Terjadi kesalahan saat mengupdate user" }
  let id := req.params.get "id"
  let (updateFields, updateValues) := userUpdate req.body
  if updateFields.length = 0 then
    ({ status := 400, success := false, message := "Tidak ada data yang diupdate" }, db)
  else
    let updateValues := updateValues ++ [id]
    match executeQuery (updateUsers updateFields updateValues) db with
    | (.error _, db2) => (failed, db2)
    | (.ok _, db2) =>
      match executeQuery (selectUserViewById id) db2 with
      | (.error _, db3) => (failed, db3)
      | (.ok updatedUsers, db3) =>
        ({ status := 200, success := true, message := "User updated successfully",
           data := .userView updatedUsers.head? }, db3)

/-- The handler `updateUser`. -/
def updateUser (req : Request) (db : Db) : Response × Db :=
  let failed : Response :=
    { status := 500, success := false, message := "Terjadi kesalahan saat mengupdate user" }
  if !req.errors.isEmpty then (validationFailed req, db) else
  let id := req.params.get "id"
  let email := req.body.get "email"
  match executeQuery (selectUserById id) db with
  | (.error _, db1) => (failed, db1)
  | (.ok existingUsers, db1) =>
    match existingUsers with
    | [] => ({ status := 404, success := false, message := "User tidak ditemukan" }, db1)
    | existing :: _ =>
      if email.truthy && !email.strictEq existing.email then
        match executeQuery (selectUserIdByEmailExcept email id) db1 with
        | (.error _, db2) => (failed, db2)
        | (.ok emailExists, db2) =>
          if emailExists.length > 0 then
            ({ status := 400, success := false,
               message := "Email sudah digunakan oleh user lain" }, db2)
          else updateUserWrite req db2
      else updateUserWrite req db1

/-! ## coursesController.js: getAllCourses -/

/-- The first value of `query` in `getAllCourses`. -/
def courseListSelect : String :=
  "\n            SELECT id, title, description, photos, mentor, rolementor, avatar,\n                   company, rating, review_count, price, category, created_at, updated_at\n            FROM courses\n        "

/-- The constant `allowedSort`. -/
def allowedSort : List String := ["created_at", "title", "price", "rating"]

/-- JavaScript `allowedSort.includes(sortBy)`. -/
def includes (xs : List String) : Value → Bool
  | .str s => xs.contains s
  | _ => false

/-- The local variables of `getAllCourses` once the list query is assembled. -/
structure CourseList where
  query : String
  queryParams : List Value
  conditions : List String
  sortColumn : String
  sortOrder : String
  deriving DecidableEq, Repr

/-- The assembly of the list query in `getAllCourses`: filtering, searching,
sorting, pagination. -/
def courseList (q : Strings) : CourseList :=
  let category := q.get "category"
  let limit := q.get "limit"
  let offset := q.get "offset"
  let search := q.get "search"
  let sortBy := q.get "sortBy"
  let sort := q.get "sort"
  let query := courseListSelect
  let queryParams : List Value := []
  let conditions : List String := []
  -- Filtering
  let (conditions, queryParams) :=
    if category.truthy then (conditions ++ ["category = ?"], queryParams ++ [category])
    else (conditions, queryParams)
  -- Searching
  let (conditions, queryParams) :=
    if search.truthy then
      (conditions ++ ["title LIKE ?"], queryParams ++ [.str ("%" ++ search.text ++ "%")])
    else (conditions, queryParams)
  let query :=
    if conditions.length > 0 then query ++ " WHERE " ++ join " AND " conditions else query
  -- Sorting
  let sortColumn := if includes allowedSort sortBy then sortBy.text else "created_at"
  let sortOrder :=
    if sort.truthy && toUpperCase sort.text == "ASC" then "ASC" else "DESC"
  let query := query ++ " ORDER BY " ++ sortColumn ++ " " ++ sortOrder
  -- Add pagination if provided
  let (query, queryParams) :=
    if limit.truthy then
      let query := query ++ " LIMIT ?"
      let queryParams := queryParams ++ [parseInt limit]
      if offset.truthy then (query ++ " OFFSET ?", queryParams ++ [parseInt offset])
      else (query, queryParams)
    else (query, queryParams)
  { query := query, queryParams := queryParams, conditions := conditions,
    sortColumn := sortColumn, sortOrder := sortOrder }

/-- The local variables `countQuery` and `countParams` of `getAllCourses`. -/
def courseCount (l : CourseList) : String × List Value :=
  let countQuery := "SELECT COUNT(*) as total FROM courses"
  let countParams : List Value := []
  if l.conditions.length > 0 then
    (countQuery ++ " WHERE " ++ join " AND " l.conditions,
      countParams ++ l.queryParams.take l.conditions.length)
  else (countQuery, countParams)

/-- Whether some suffix of the text satisfies `f`. -/
def anySuffix (f : List Char → Bool) : List Char → Bool
  | [] => f []
  | c :: cs => f (c :: cs) || anySuffix f cs

/-- SQL `text LIKE pattern` on characters: `%` stands for any run of characters,
`_` for one character, and a backslash takes the next character literally. -/
def likeChars : List Char → List Char → Bool
  | [], s => s.isEmpty
  | [c], s =>
    if c = '%' then true
    else match s with
      | [d] => c = '_' || c == d
      | _ => false
  | c :: c' :: p, s =>
    if c = '%' then anySuffix (likeChars (c' :: p)) s
    else if c = Char.ofNat 92 then
      match s with
      | [] => false
      | d :: s' => c' == d && likeChars p s'
    else match s with
      | [] => false
      | d :: s' => (c = '_' || c == d) && likeChars (c' :: p) s'

/-- SQL `column LIKE ?`; never true on NULL. -/
def sqlLike : Value → Value → Bool
  | .str text, .str pattern => likeChars pattern.data text.data
  | _, _ => false

/-- What the condition `fragment` of a `WHERE` clause on `courses` says of a row,
its placeholder bound to `v`. -/
def courseCondition (fragment : String) (v : Value) (c : CourseRow) : Bool :=
  if fragment = "category = ?" then sqlEq c.category v
  else if fragment = "title LIKE ?" then sqlLike c.title v
  else false

/-- The conditions a `WHERE` clause on `courses` may hold. -/
def courseConditions : List String := ["category = ?", "title LIKE ?"]

/-- A row satisfies `conditions.join(' AND ')`, the placeholders bound in order. -/
def courseMatches (conditions : List String) (params : List Value) (c : CourseRow) : Bool :=
  (conditions.zip params).all (fun fv => courseCondition fv.1 fv.2 c)

/-- The order of two stored values under `ORDER BY`: NULL first, then numbers by
value, then strings by code point. -/
def sqlLe : Value → Value → Bool
  | .num m s, .num m' s' => m * 10 ^ s' ≤ m' * 10 ^ s
  | .str a, .str b => a ≤ b
  | .str _, _ => false
  | _, .str _ => true
  | .num _ _, _ => false
  | _, .num _ _ => true
  | _, _ => true

/-- Row `a` may stand before row `b` under `ORDER BY column ASC`. -/
def courseLe (column : String) (a b : CourseRow) : Bool :=
  if column = "created_at" then a.created_at ≤ b.created_at
  else if column = "title" then sqlLe a.title b.title
  else if column = "price" then sqlLe a.price b.price
  else if column = "rating" then sqlLe a.rating b.rating
  else true

/-- The rows in the order `ORDER BY column order`. -/
def orderBy (column order : String) (rows : List CourseRow) : List CourseRow :=
  if order = "ASC" then rows.insertionSort (fun a b => courseLe column a b = true)
  else rows.insertionSort (fun a b => courseLe column b a = true)

/-- A bound `LIMIT` or `OFFSET` value: a non-negative integer. -/
def rowCount : Option Value → Option Nat
  | some (.num (.ofNat n) 0) => some n
  | _ => none

/-- The list statement of `getAllCourses`: `text` is the assembled query, whose
`WHERE` clause holds `conditions`, whose `ORDER BY` clause is `sortColumn
sortOrder`, and which ends in `LIMIT ?` when `limited` and in `LIMIT ? OFFSET ?`
when also `paged`; `params` binds the placeholders from left to right. -/
def selectCourses (text : String) (conditions : List String) (sortColumn sortOrder : String)
    (limited paged : Bool) (params : List Value) : Statement (List CourseRow) :=
  { kind := .select
    sql := text
    params := params
    run := fun db =>
      let bound := conditions.length + (if limited then 1 else 0) +
        (if limited && paged then 1 else 0)
      if params.length ≠ bound then .error "Incorrect arguments to mysqld_stmt_execute"
      else if ¬ (∀ f ∈ conditions, f ∈ courseConditions) ∨ sortColumn ∉ allowedSort then
        .error "You have an error in your SQL syntax"
      else
        let rows := orderBy sortColumn sortOrder
          (db.courses.filter (courseMatches conditions params))
        if limited then
          match rowCount params[conditions.length]? with
          | none => .error "Incorrect arguments to mysqld_stmt_execute"
          | some n =>
            if paged then
              match rowCount params[conditions.length + 1]? with
              | none => .error "Incorrect arguments to mysqld_stmt_execute"
              | some k => .ok ((rows.drop k).take n, db)
            else .ok (rows.take n, db)
        else .ok (rows, db) }

/-- The count statement of `getAllCourses`: one row holding the number of
courses that satisfy `conditions`. -/
def countCourses (text : String) (conditions : List String) (params : List Value) :
    Statement (List Nat) :=
  { kind := .select
    sql := text
    params := params
    run := fun db =>
      if params.length ≠ conditions.length then
        .error "Incorrect arguments to mysqld_stmt_execute"
      else if ¬ (∀ f ∈ conditions, f ∈ courseConditions) then
        .error "You have an error in your SQL syntax"
      else .ok ([(db.courses.filter (courseMatches conditions params)).length], db) }

/-- The handler `getAllCourses`. -/
def getAllCourses (req : Request) (db : Db) : Response × Db :=
  let failed : Response :=
    { status := 500, success := false,
      message := "Terjadi kesalahan saat mengambil data courses" }
  if !req.errors.isEmpty then (validationFailed req, db) else
  let limit := req.query.get "limit"
  let offset := req.query.get "offset"
  let l := courseList req.query
  match executeQuery (selectCourses l.query l.conditions l.sortColumn l.sortOrder
      limit.truthy offset.truthy l.queryParams) db with
  | (.error _, db1) => (failed, db1)
  | (.ok courses, db1) =>
    let (countQuery, countParams) := courseCount l
    match executeQuery (countCourses countQuery l.conditions countParams) db1 with
    | (.error _, db2) => (failed, db2)
    | (.ok countResult, db2) =>
      match countResult with
      | [] => (failed, db2)
      | totalCount :: _ =>
        ({ status := 200, success := true, message := "Courses retrieved successfully",
           data := .courses courses,
           pagination := some
             { total := totalCount, count := courses.length,
               limit := if limit.truthy then parseInt limit else .null,
               offset := if offset.truthy then parseInt offset else .null } }, db2)

/-! ## coursesController.js: resetToDefaultCourses -/

/-- The eleven fields of a course as a request or a seed gives them. -/
structure CourseFields where
  title : Value
  description : Value
  photos : Value
  mentor : Value
  rolementor : Value
  avatar : Value
  company : Value
  rating : Value
  review_count : Value
  price : Value
  category : Value
  deriving DecidableEq, Repr

/-- The constant `defaultCourses` of `resetToDefaultCourses`. -/
def defaultCourses : List CourseFields :=
  [ { title := .str "Big 4 Auditor Financial Analyst"
      description := .str "Mulai transformasi dengan instruktur profesional, harga yang terjangkau, dan sistem pembelajaran yang mudah dipahami."
      photos := .str "/images/cards/card1.png"
      mentor := .str "Jenna Ortega"
      rolementor := .str "Senior Accountant"
      avatar := .str "/images/tutors/tutor-card1.png"
      company := .str "Gojek"
      rating := .num 45 1
      review_count := .num 126 0
      price := .str "300K"
      category := .str "Bisnis" },
    { title := .str "Digital Marketing Strategy"
      description := .str "Pelajari strategi pemasaran digital yang efektif untuk meningkatkan brand awareness dan konversi."
      photos := .str "/images/cards/card2.png"
      mentor := .str "Sarah Johnson"
      rolementor := .str "Marketing Director"
      avatar := .str "/images/tutors/tutor-card2.png"
      company := .str "Tokopedia"
      rating := .num 42 1
      review_count := .num 98 0
      price := .str "250K"
      category := .str "Pemasaran" },
    { title := .str "UI/UX Design Fundamentals"
      description := .str "Kuasai dasar-dasar desain UI/UX untuk menciptakan pengalaman pengguna yang luar biasa."
      photos := .str "/images/cards/card3.png"
      mentor := .str "Michael Chen"
      rolementor := .str "Lead Designer"
      avatar := .str "/images/tutors/tutor-card3.png"
      company := .str "Grab"
      rating := .num 47 1
      review_count := .num 204 0
      price := .str "400K"
      category := .str "Desain" } ]

/-- The statement `DELETE FROM courses`. -/
def deleteAllCourses : Statement ResultHeader :=
  { kind := .delete
    sql := "DELETE FROM courses"
    params := []
    run := fun db => .ok (⟨0, db.courses.length⟩, { db with courses := [] }) }

/-- The statement `ALTER TABLE courses AUTO_INCREMENT = 1`: the counter becomes
1, or one more than the largest id in the table when that is larger. -/
def resetCoursesAutoIncrement : Statement ResultHeader :=
  { kind := .alter
    sql := "ALTER TABLE courses AUTO_INCREMENT = 1"
    params := []
    run := fun db =>
      .ok (⟨0, 0⟩,
        { db with coursesNextId := max 1 ((db.courses.map (fun c => c.id)).foldl max 0 + 1) }) }

/-- The row an `INSERT INTO courses` stores: the next id, the bound values, and
the current time in both timestamps. -/
def CourseFields.toRow (c : CourseFields) (id now : Nat) : CourseRow :=
  { id := id, title := c.title, description := c.description, photos := c.photos,
    mentor := c.mentor, rolementor := c.rolementor, avatar := c.avatar,
    company := c.company, rating := c.rating, review_count := c.review_count,
    price := c.price, category := c.category, created_at := now, updated_at := now }

/-- The statement `insertQuery` of `resetToDefaultCourses` and `createCourse`,
bound to the eleven fields in the order of its column list. -/
def insertCourse (c : CourseFields) : Statement ResultHeader :=
  { kind := .insert
    sql := "\n            INSERT INTO courses (\n                title, description, photos, mentor, rolementor, avatar, \n                company, rating, review_count, price, category\n            ) VALUES (?, ?, ?, ?, ?, ?, ?, ?, ?, ?, ?)\n        "
    params := [c.title, c.description, c.photos, c.mentor, c.rolementor, c.avatar,
      c.company, c.rating, c.review_count, c.price, c.category]
    run := fun db =>
      .ok (⟨db.coursesNextId, 1⟩,
        { db with courses := db.courses ++ [c.toRow db.coursesNextId db.now],
                  coursesNextId := db.coursesNextId + 1 }) }

/-- The statement `newCourseQuery` inside the loop of `resetToDefaultCourses`. -/
def selectSeededCourseById (id : Value) : Statement (List CourseRow) :=
  { kind := .select
    sql := "\n                SELECT id, title, description, photos, mentor, rolementor, avatar, \n                       company, rating, review_count, price, category, created_at, updated_at\n                FROM courses WHERE id = ?\n            "
    params := [id]
    run := fun db => .ok (db.courses.filter (fun c => idMatches c.id id), db) }

/-- The loop `for (const course of defaultCourses)` of `resetToDefaultCourses`:
insert the course, read it back, push the first row read. -/
def insertDefaults :
    List CourseFields → List (Option CourseRow) → Db → Except String (List (Option CourseRow)) × Db
  | [], createdCourses, db => (.ok createdCourses, db)
  | course :: rest, createdCourses, db =>
    match executeQuery (insertCourse course) db with
    | (.error e, db1) => (.error e, db1)
    | (.ok result, db1) =>
      match executeQuery (selectSeededCourseById (.num result.insertId 0)) db1 with
      | (.error e, db2) => (.error e, db2)
      | (.ok newCourses, db2) =>
        insertDefaults rest (createdCourses ++ [newCourses.head?]) db2

/-- The handler `resetToDefaultCourses`. -/
def resetToDefaultCourses (_req : Request) (db : Db) : Response × Db :=
  let failed : Response :=
    { status := 500, success := false, message := "Terjadi kesalahan saat mereset courses" }
  match executeQuery deleteAllCourses db with
  | (.error _, db1) => (failed, db1)
  | (.ok _, db1) =>
    match executeQuery resetCoursesAutoIncrement db1 with
    | (.error _, db2) => (failed, db2)
    | (.ok _, db2) =>
      match insertDefaults defaultCourses [] db2 with
      | (.error _, db3) => (failed, db3)
      | (.ok createdCourses, db3) =>
        ({ status := 200, success := true, message := "Courses reset to default successfully",
           data := .created createdCourses, count := some createdCourses.length }, db3)

/-! ## authController.js -/

/-- What the auth and users controllers take from outside the request and the
database: the environment variables they read, the `bcryptjs` and `jsonwebtoken`
functions they call, and the random numbers they draw.  `hash password rounds
salt` is `bcrypt.hash(password, rounds)` for the salt drawn; `verify token
secret` is `jwt.verify(token, secret)`, the decoded payload or an exception;
`timespan` tells which `expiresIn` values `jwt.sign` accepts; `random` is
`Math.floor(Math.random() * 100)`. -/
structure Env where
  JWT_SECRET : Option String
  JWT_EXPIRES_IN : Option String
  BCRYPT_SALT_ROUNDS : Option String
  hash : String → Value → Nat → String
  compare : String → String → Bool
  verify : String → Option String → Except String Token
  timespan : String → Bool
  random : Fin 100
  salt : Nat

/-- The value of `process.env.NAME`. -/
def envValue : Option String → Value
  | some s => .str s
  | none => .undefined

/-- The function `generateToken`: `jwt.sign` of the payload `{ userId, email,
role }` with `process.env.JWT_SECRET` and the expiry `process.env.JWT_EXPIRES_IN
|| '7d'`.  `jwt.sign` throws when the secret is missing or empty, and when it
does not accept the expiry. -/
def generateToken (env : Env) (userId email role : Value) : Except String Token :=
  let expiresIn := ((envValue env.JWT_EXPIRES_IN).or (.str "7d")).text
  match env.JWT_SECRET with
  | none => .error "secretOrPrivateKey must have a value"
  | some secret =>
    if secret = "" then .error "secretOrPrivateKey must have a value"
    else if !env.timespan expiresIn then
      .error "expiresIn should be a number of seconds or string representing a timespan"
    else .ok { userId := userId, email := email, role := role, secret := secret,
               expiresIn := expiresIn }

/-- JavaScript `s.startsWith(p)`. -/
def startsWith (s p : String) : Bool := p.data.isPrefixOf s.data

/-- The password check of `login`: `bcrypt.compare` when the stored password
starts with `$2`, plain `===` otherwise.  It throws when the stored password is
not a string, and `bcrypt.compare` throws when the submitted one is not. -/
def checkPassword (env : Env) (password stored : Value) : Except String Bool :=
  match stored with
  | .str hashed =>
    if startsWith hashed "$2" then
      match password with
      | .str p => .ok (env.compare p hashed)
      | _ => .error "Illegal arguments"
    else .ok (password.strictEq stored)
  | _ => .error "user.password.startsWith is not a function"

/-- The call `bcrypt.hash(password, saltRounds)` with `saltRounds =
parseInt(process.env.BCRYPT_SALT_ROUNDS) || 12`; it throws when the password is
not a string. -/
def hashPassword (env : Env) (password : Value) : Except String String :=
  let saltRounds := (parseInt (envValue env.BCRYPT_SALT_ROUNDS)).or (.num 12 0)
  match password with
  | .str p => .ok (env.hash p saltRounds env.salt)
  | _ => .error "Illegal arguments"

/-- The statement `SELECT * FROM users WHERE email = ?`. -/
def selectUserByEmail (email : Value) : Statement (List UserRow) :=
  { kind := .select
    sql := "SELECT * FROM users WHERE email = ?"
    params := [email]
    run := fun db => .ok (db.users.filter (fun u => sqlEq u.email email), db) }

/-- The statement `SELECT id FROM users WHERE email = ?`. -/
def selectUserIdByEmail (email : Value) : Statement (List Nat) :=
  { kind := .select
    sql := "SELECT id FROM users WHERE email = ?"
    params := [email]
    run := fun db =>
      .ok ((db.users.filter (fun u => sqlEq u.email email)).map (fun u => u.id), db) }

/-- The row an `INSERT INTO users` stores: the next id, the bound values, and the
current time in both timestamps. -/
def newUserRow (id now : Nat) (name email password phone gender role avatar : Value) :
    UserRow :=
  { id := id, name := name, email := email, password := password, phone := phone,
    gender := gender, role := role, avatar := avatar, created_at := now, updated_at := now }

/-- The statement `insertQuery` of `register` and `createUser`. -/
def insertUser (name email password phone gender role avatar : Value) :
    Statement ResultHeader :=
  { kind := .insert
    sql := "\n            INSERT INTO users (name, email, password, phone, gender, role, avatar)\n            VALUES (?, ?, ?, ?, ?, ?, ?)\n        "
    params := [name, email, password, phone, gender, role, avatar]
    run := fun db =>
      .ok (⟨db.usersNextId, 1⟩,
        { db with
          users := db.users ++
            [newUserRow db.usersNextId db.now name email password phone gender role avatar],
          usersNextId := db.usersNextId + 1 }) }

/-- The `userData` object built from a stored user by `register` and
`verifyToken`. -/
def userData (user : UserRow) : UserData :=
  { id := .num user.id 0, name := user.name, email := user.email, phone := user.phone,
    gender := user.gender, role := user.role, avatar := user.avatar }

/-- The stock-photo URL with the given number. -/
def stockAvatar (n : Nat) : String :=
  "https://cdn.jsdelivr.net/gh/faker-js/assets-person-portrait/male/512/" ++ toString n ++
    ".jpg"

/-- The handler `login`. -/
def login (env : Env) (req : Request) (db : Db) : Response × Db :=
  let failed : Response :=
    { status := 500, success := false, message := "Terjadi kesalahan saat login" }
  let rejected : Response :=
    { status := 401, success := false, message := "Email atau password salah" }
  if !req.errors.isEmpty then (validationFailed req, db) else
  let email := req.body.get "email"
  let password := req.body.get "password"
  -- Check hardcoded accounts first (for backward compatibility)
  if email.strictEq (.str "admin@videobelajar.com") && password.strictEq (.str "admin123") then
    match generateToken env (.str "admin") email (.str "admin") with
    | .error _ => (failed, db)
    | .ok token =>
      ({ status := 200, success := true, message := "Login successful",
         data := .session
           { id := .str "admin", name := .str "Administrator", email := email,
             phone := .undefined, gender := .undefined, role := .str "admin",
             avatar := .undefined } token }, db)
  else if email.strictEq (.str "user@example.com") && password.strictEq (.str "123456") then
    match generateToken env (.str "demo") email (.str "user") with
    | .error _ => (failed, db)
    | .ok token =>
      ({ status := 200, success := true, message := "Login successful",
         data := .session
           { id := .str "demo", name := .str "Demo User", email := email,
             phone := .undefined, gender := .undefined, role := .str "user",
             avatar := .undefined } token }, db)
  else
  -- Check database users
  match executeQuery (selectUserByEmail email) db with
  | (.error _, db1) => (failed, db1)
  | (.ok users, db1) =>
    match users with
    | [] => (rejected, db1)
    | user :: _ =>
      match checkPassword env password user.password with
      | .error _ => (failed, db1)
      | .ok isPasswordValid =>
        if !isPasswordValid then (rejected, db1)
        else
          match generateToken env (.num user.id 0) user.email user.role with
          | .error _ => (failed, db1)
          | .ok token =>
            ({ status := 200, success := true, message := "Login successful",
               data := .session
                 { id := .num user.id 0, name := user.name, email := user.email,
                   phone := user.phone, gender := user.gender,
                   role := user.role.or (.str "user"), avatar := user.avatar } token }, db1)

/-- The handler `register`. -/
def register (env : Env) (req : Request) (db : Db) : Response × Db :=
  let failed : Response :=
    { status := 500, success := false,
      message := "Terjadi kesalahan saat mendaftar. Silakan coba lagi." }
  if !req.errors.isEmpty then (validationFailed req, db) else
  let name := req.body.get "name"
  let email := req.body.get "email"
  let password := req.body.get "password"
  let phone := req.body.get "phone"
  let gender := req.body.get "gender"
  -- Check if email already exists
  match executeQuery (selectUserIdByEmail email) db with
  | (.error _, db1) => (failed, db1)
  | (.ok existingUsers, db1) =>
    if existingUsers.length > 0 then
      ({ status := 400, success := false,
         message := "Email sudah terdaftar. Silakan gunakan email lain." }, db1)
    else
      -- Hash password
      match hashPassword env password with
      | .error _ => (failed, db1)
      | .ok hashedPassword =>
        -- Generate random avatar
        let avatarId := env.random.val + 1
        let avatar := stockAvatar avatarId
        -- Insert new user
        match executeQuery (insertUser name email (.str hashedPassword) (phone.or .null)
            (gender.or .null) (.str "student") (.str avatar)) db1 with
        | (.error _, db2) => (failed, db2)
        | (.ok result, db2) =>
          -- Get the created user
          match executeQuery (selectUserById (.num result.insertId 0)) db2 with
          | (.error _, db3) => (failed, db3)
          | (.ok newUsers, db3) =>
            match newUsers with
            | [] => (failed, db3)
            | newUser :: _ =>
              ({ status := 201, success := true, message := "Pendaftaran berhasil",
                 data := .user (userData newUser) }, db3)

/-- Characters split at every occurrence of the separator (JavaScript
`s.split(separator)` for a one-character separator). -/
def splitChars (separator : Char) : List Char → List (List Char)
  | [] => [[]]
  | c :: cs =>
    if c = separator then [] :: splitChars separator cs
    else match splitChars separator cs with
      | [] => [[c]]
      | piece :: pieces => (c :: piece) :: pieces

/-- The expression `req.headers.authorization?.split(' ')[1]`. -/
def bearerToken (headers : Strings) : Value :=
  match headers.get "authorization" with
  | .str s =>
    match (splitChars ' ' s.data)[1]? with
    | some piece => .str ⟨piece⟩
    | none => .undefined
  | _ => .undefined

/-- The handler `verifyToken`. -/
def verifyToken (env : Env) (req : Request) (db : Db) : Response × Db :=
  let invalid : Response :=
    { status := 401, success := false, message := "Token tidak valid" }
  let token := bearerToken req.headers
  if !token.truthy then
    ({ status := 401, success := false, message := "Token tidak ditemukan" }, db)
  else
    match env.verify token.text env.JWT_SECRET with
    | .error _ => (invalid, db)
    | .ok decoded =>
      -- Get user from database
      match executeQuery (selectUserById decoded.userId) db with
      | (.error _, db1) => (invalid, db1)
      | (.ok users, db1) =>
        match users with
        | [] => ({ status := 401, success := false, message := "User tidak ditemukan" }, db1)
        | user :: _ =>
          ({ status := 200, success := true, message := "Token valid",
             data := .user (userData user) }, db1)

/-! ## usersController.js: the other handlers -/

/-- The rows of `users` in the order `ORDER BY created_at DESC`. -/
def latestUsersFirst (rows : List UserRow) : List UserRow :=
  rows.insertionSort (fun a b => b.created_at ≤ a.created_at)

/-- The statement `query` of `getAllUsers`. -/
def selectAllUsers : Statement (List UserView) :=
  { kind := .select
    sql := "\n            SELECT id, name, email, phone, gender, role, avatar, created_at, updated_at\n            FROM users\n            ORDER BY created_at DESC\n        "
    params := []
    run := fun db => .ok ((latestUsersFirst db.users).map UserRow.view, db) }

/-- The handler `getAllUsers`. -/
def getAllUsers (_req : Request) (db : Db) : Response × Db :=
  match executeQuery selectAllUsers db with
  | (.error _, db1) =>
    ({ status := 500, success := false,
       message := "Terjadi kesalahan saat mengambil data users" }, db1)
  | (.ok users, db1) =>
    ({ status := 200, success := true, message := "Users retrieved successfully",
       data := .users users, count := some users.length }, db1)

/-- The statement `query` of `getUserById`. -/
def selectUserViewWhereId (id : Value) : Statement (List UserView) :=
  { kind := .select
    sql := "\n            SELECT id, name, email, phone, gender, role, avatar, created_at, updated_at\n            FROM users\n            WHERE id = ?\n        "
    params := [id]
    run := fun db =>
      .ok ((db.users.filter (fun u => idMatches u.id id)).map UserRow.view, db) }

/-- The handler `getUserById`. -/
def getUserById (req : Request) (db : Db) : Response × Db :=
  if !req.errors.isEmpty then (validationFailed req, db) else
  let id := req.params.get "id"
  match executeQuery (selectUserViewWhereId id) db with
  | (.error _, db1) =>
    ({ status := 500, success := false,
       message := "Terjadi kesalahan saat mengambil data user" }, db1)
  | (.ok users, db1) =>
    if users.length = 0 then
      ({ status := 404, success := false, message := "User tidak ditemukan" }, db1)
    else
      ({ status := 200, success := true, message := "User retrieved successfully",
         data := .userView users.head? }, db1)

/-- The handler `createUser`. -/
def createUser (env : Env) (req : Request) (db : Db) : Response × Db :=
  let failed : Response :=
    { status := 500, success := false, message := "Terjadi kesalahan saat membuat user" }
  if !req.errors.isEmpty then (validationFailed req, db) else
  let name := req.body.get "name"
  let email := req.body.get "email"
  let password := req.body.get "password"
  let phone := req.body.get "phone"
  let gender := req.body.get "gender"
  let role := req.body.get "role"
  let avatar := req.body.get "avatar"
  -- Check if email already exists
  match executeQuery (selectUserIdByEmail email) db with
  | (.error _, db1) => (failed, db1)
  | (.ok existingUsers, db1) =>
    if existingUsers.length > 0 then
      ({ status := 400, success := false, message := "Email sudah terdaftar" }, db1)
    else
      -- Hash password
      match hashPassword env password with
      | .error _ => (failed, db1)
      | .ok hashedPassword =>
        -- Generate default avatar if not provided
        let userAvatar := avatar.or (.str (stockAvatar env.random.val))
        match executeQuery (insertUser name email (.str hashedPassword) (phone.or .null)
            (gender.or .null) (role.or (.str "student")) userAvatar) db1 with
        | (.error _, db2) => (failed, db2)
        | (.ok result, db2) =>
          -- Get the created user
          match executeQuery (selectUserViewById (.num result.insertId 0)) db2 with
          | (.error _, db3) => (failed, db3)
          | (.ok newUsers, db3) =>
            ({ status := 201, success := true, message := "User created successfully",
               data := .userView newUsers.head? }, db3)

/-- The handler `resetPassword`. -/
def resetPassword (env : Env) (req : Request) (db : Db) : Response × Db :=
  let failed : Response :=
    { status := 500, success := false, message := "Terjadi kesalahan saat mereset password" }
  if !req.errors.isEmpty then (validationFailed req, db) else
  let id := req.params.get "id"
  let newPassword := req.body.get "newPassword"
  -- Check if user exists
  match executeQuery (selectUserById id) db with
  | (.error _, db1) => (failed, db1)
  | (.ok existingUsers, db1) =>
    if existingUsers.length = 0 then
      ({ status := 404, success := false, message := "User tidak ditemukan" }, db1)
    else
      -- Hash new password
      match hashPassword env newPassword with
      | .error _ => (failed, db1)
      | .ok hashedPassword =>
        match executeQuery (updateUsers ["password = ?"] [.str hashedPassword, id]) db1 with
        | (.error _, db2) => (failed, db2)
        | (.ok _, db2) =>
          -- Get updated user (without password)
          match executeQuery (selectUserViewById id) db2 with
          | (.error _, db3) => (failed, db3)
          | (.ok updatedUsers, db3) =>
            ({ status := 200, success := true, message := "Password reset successfully",
               data := .userView updatedUsers.head? }, db3)

/-! ## coursesController.js: the other handlers -/

/-- The statement `query` of `getCourseById`. -/
def selectCourseWhereId (id : Value) : Statement (List CourseRow) :=
  { kind := .select
    sql := "\n            SELECT id, title, description, photos, mentor, rolementor, avatar, \n                   company, rating, review_count, price, category, created_at, updated_at\n            FROM courses\n            WHERE id = ?\n        "
    params := [id]
    run := fun db => .ok (db.courses.filter (fun c => idMatches c.id id), db) }

/-- The handler `getCourseById`. -/
def getCourseById (req : Request) (db : Db) : Response × Db :=
  if !req.errors.isEmpty then (validationFailed req, db) else
  let id := req.params.get "id"
  match executeQuery (selectCourseWhereId id) db with
  | (.error _, db1) =>
    ({ status := 500, success := false,
       message := "Terjadi kesalahan saat mengambil data course" }, db1)
  | (.ok courses, db1) =>
    if courses.length = 0 then
      ({ status := 404, success := false, message := "Course tidak ditemukan" }, db1)
    else
      ({ status := 200, success := true, message := "Course retrieved successfully",
         data := .course courses.head? }, db1)

/-- The statement `query` of `getCoursesByCategory`. -/
def selectCoursesByCategory (category : Value) : Statement (List CourseRow) :=
  { kind := .select
    sql := "\n            SELECT id, title, description, photos, mentor, rolementor, avatar, \n                   company, rating, review_count, price, category, created_at, updated_at\n            FROM courses\n            WHERE category = ?\n            ORDER BY created_at DESC\n        "
    params := [category]
    run := fun db =>
      .ok (orderBy "created_at" "DESC" (db.courses.filter (fun c => sqlEq c.category category)),
        db) }

/-- The handler `getCoursesByCategory`. -/
def getCoursesByCategory (req : Request) (db : Db) : Response × Db :=
  if !req.errors.isEmpty then (validationFailed req, db) else
  let category := req.params.get "category"
  match executeQuery (selectCoursesByCategory category) db with
  | (.error _, db1) =>
    ({ status := 500, success := false,
       message := "Terjadi kesalahan saat mengambil data courses" }, db1)
  | (.ok courses, db1) =>
    ({ status := 200, success := true,
       message := "Courses in category '" ++ category.text ++ "' retrieved successfully",
       data := .courses courses, count := some courses.length }, db1)

/-- The handler `createCourse`. -/
def createCourse (req : Request) (db : Db) : Response × Db :=
  let failed : Response :=
    { status := 500, success := false, message := "Terjadi kesalahan saat membuat course" }
  if !req.errors.isEmpty then (validationFailed req, db) else
  let title := req.body.get "title"
  let description := req.body.get "description"
  let photos := req.body.get "photos"
  let mentor := req.body.get "mentor"
  let rolementor := req.body.get "rolementor"
  let avatar := req.body.get "avatar"
  let company := req.body.get "company"
  let rating := req.body.get "rating"
  let review_count := req.body.get "review_count"
  let price := req.body.get "price"
  let category := req.body.get "category"
  match executeQuery (insertCourse
      { title := title, description := description, photos := photos.or .null,
        mentor := mentor, rolementor := rolementor, avatar := avatar.or .null,
        company := company, rating := rating.or (.num 0 0),
        review_count := review_count.or (.num 0 0), price := price,
        category := category }) db with
  | (.error _, db1) => (failed, db1)
  | (.ok result, db1) =>
    -- Get the created course
    match executeQuery (selectCourseColumnsById (.num result.insertId 0)) db1 with
    | (.error _, db2) => (failed, db2)
    | (.ok newCourses, db2) =>
      ({ status := 201, success := true, message := "Course created successfully",
         data := .course newCourses.head? }, db2)

/-- The statement `DELETE FROM courses WHERE id = ?`. -/
def deleteCourseById (id : Value) : Statement ResultHeader :=
  { kind := .delete
    sql := "DELETE FROM courses WHERE id = ?"
    params := [id]
    run := fun db =>
      let kept := db.courses.filter (fun c => !idMatches c.id id)
      .ok (⟨0, db.courses.length - kept.length⟩, { db with courses := kept }) }

/-- The handler `deleteCourse`. -/
def deleteCourse (req : Request) (db : Db) : Response × Db :=
  let failed : Response :=
    { status := 500, success := false, message := "Terjadi kesalahan saat menghapus course" }
  if !req.errors.isEmpty then (validationFailed req, db) else
  let id := req.params.get "id"
  -- Check if course exists
  match executeQuery (selectCourseById id) db with
  | (.error _, db1) => (failed, db1)
  | (.ok existingCourses, db1) =>
    if existingCourses.length = 0 then
      ({ status := 404, success := false, message := "Course tidak ditemukan" }, db1)
    else
      match executeQuery (deleteCourseById id) db1 with
      | (.error _, db2) => (failed, db2)
      | (.ok _, db2) =>
        ({ status := 200, success := true, message := "Course deleted successfully" }, db2)

/-! ## uploadRoutes.js -/

/-- The object `req.file` that the upload middleware leaves on the request. -/
structure UploadedFile where
  filename : String
  path : String
  deriving DecidableEq, Repr

/-- The handler of `POST /upload`, after `upload.single('file')`. -/
def uploadFile (file : Option UploadedFile) : Response :=
  match file with
  | none => { status := 400, success := false, message := "No file uploaded" }
  | some f =>
    { status := 200, success := true, message := "File uploaded successfully",
      data := .file f.filename f.path }

/-! ## store/redux: the courses and users slices -/

/-- JavaScript `array.findIndex(p)`: the index of the first element that
satisfies `p`; `none` is the result `-1`. -/
def findIndex {α : Type} (p : α → Bool) : List α → Option Nat
  | [] => none
  | a :: as => if p a then some 0 else (findIndex p as).map (fun i => i + 1)

/-- The state of the courses slice (`coursesSlice.js` and
`updatedCoursesSlice.js`); the entries of `courses` are objects. -/
structure CoursesState where
  courses : List Obj
  loading : Bool
  error : Value
  activeCategory : Value
  deriving DecidableEq, Repr

/-- The constant `initialState` of the courses slices. -/
def CoursesState.initialState : CoursesState :=
  { courses := [], loading := false, error := .null, activeCategory := .str "Semua Kelas" }

/-- The async thunks of the courses slices. -/
inductive CourseThunk where
  | fetchCourses
  | fetchCoursesByCategory
  | addCourse
  | updateCourse
  | deleteCourse
  | resetCoursesToDefault
  deriving DecidableEq, Repr

/-- What a thunk of the courses slices returns on success, the payload of its
fulfilled action: the transformed list, the transformed course, or the id that
was passed in. -/
def CourseThunk.Payload : CourseThunk → Type
  | .fetchCourses => List Obj
  | .fetchCoursesByCategory => List Obj
  | .addCourse => Obj
  | .updateCourse => Obj
  | .deleteCourse => Value
  | .resetCoursesToDefault => List Obj

/-- The actions of the courses slices; a rejected action carries the value given
to `rejectWithValue`. -/
inductive CoursesAction where
  | setActiveCategory (payload : Value)
  | clearError
  | resetCourses
  | pending (thunk : CourseThunk)
  | fulfilled (thunk : CourseThunk) (payload : thunk.Payload)
  | rejected (thunk : CourseThunk) (payload : Value)

/-- The reducer of `updatedCoursesSlice.js`: `reducers` and `extraReducers`. -/
def updatedCoursesReducer (state : CoursesState) : CoursesAction → CoursesState
  | .setActiveCategory payload => { state with activeCategory := payload }
  | .clearError => { state with error := .null }
  | .resetCourses => { state with courses := [], error := .null, loading := false }
  -- Handle fetchCourses
  | .pending .fetchCourses => { state with loading := true, error := .null }
  | .fulfilled .fetchCourses payload =>
    { state with loading := false, courses := payload, error := .null }
  | .rejected .fetchCourses payload => { state with loading := false, error := payload }
  -- Handle fetchCoursesByCategory
  | .pending .fetchCoursesByCategory => { state with loading := true, error := .null }
  | .fulfilled .fetchCoursesByCategory payload =>
    { state with loading := false, courses := payload, error := .null }
  | .rejected .fetchCoursesByCategory payload =>
    { state with loading := false, error := payload }
  -- Handle addCourse
  | .pending .addCourse => { state with loading := true, error := .null }
  | .fulfilled .addCourse payload =>
    { state with loading := false, courses := state.courses ++ ([payload] : List Obj), error := .null }
  | .rejected .addCourse payload => { state with loading := false, error := payload }
  -- Handle updateCourse
  | .pending .updateCourse => { state with loading := true, error := .null }
  | .fulfilled .updateCourse payload =>
    let index := findIndex (fun course => (course.get "id").strictEq (payload.get "id"))
      state.courses
    let courses := match index with
      | some i => state.courses.set i payload
      | none => state.courses
    { state with loading := false, courses := courses, error := .null }
  | .rejected .updateCourse payload => { state with loading := false, error := payload }
  -- Handle deleteCourse
  | .pending .deleteCourse => { state with loading := true, error := .null }
  | .fulfilled .deleteCourse payload =>
    { state with
      loading := false,
      courses := state.courses.filter (fun course => !(course.get "id").strictEq payload),
      error := .null }
  | .rejected .deleteCourse payload => { state with loading := false, error := payload }
  -- Handle resetCoursesToDefault
  | .pending .resetCoursesToDefault => { state with loading := true, error := .null }
  | .fulfilled .resetCoursesToDefault payload =>
    { state with loading := false, courses := payload, error := .null }
  | .rejected .resetCoursesToDefault payload =>
    { state with loading := false, error := payload }

/-- The reducer of `coursesSlice.js`, the slice of the mock API: as
`updatedCoursesSlice.js`, without the thunk `fetchCoursesByCategory`, whose
actions it leaves unhandled. -/
def coursesReducer (state : CoursesState) : CoursesAction → CoursesState
  | .setActiveCategory payload => { state with activeCategory := payload }
  | .clearError => { state with error := .null }
  | .resetCourses => { state with courses := [], error := .null, loading := false }
  -- Handle fetchCourses
  | .pending .fetchCourses => { state with loading := true, error := .null }
  | .fulfilled .fetchCourses payload =>
    { state with loading := false, courses := payload, error := .null }
  | .rejected .fetchCourses payload => { state with loading := false, error := payload }
  -- Handle addCourse
  | .pending .addCourse => { state with loading := true, error := .null }
  | .fulfilled .addCourse payload =>
    { state with loading := false, courses := state.courses ++ ([payload] : List Obj), error := .null }
  | .rejected .addCourse payload => { state with loading := false, error := payload }
  -- Handle updateCourse
  | .pending .updateCourse => { state with loading := true, error := .null }
  | .fulfilled .updateCourse payload =>
    let index := findIndex (fun course => (course.get "id").strictEq (payload.get "id"))
      state.courses
    let courses := match index with
      | some i => state.courses.set i payload
      | none => state.courses
    { state with loading := false, courses := courses, error := .null }
  | .rejected .updateCourse payload => { state with loading := false, error := payload }
  -- Handle deleteCourse
  | .pending .deleteCourse => { state with loading := true, error := .null }
  | .fulfilled .deleteCourse payload =>
    { state with
      loading := false,
      courses := state.courses.filter (fun course => !(course.get "id").strictEq payload),
      error := .null }
  | .rejected .deleteCourse payload => { state with loading := false, error := payload }
  -- Handle resetCoursesToDefault
  | .pending .resetCoursesToDefault => { state with loading := true, error := .null }
  | .fulfilled .resetCoursesToDefault payload =>
    { state with loading := false, courses := payload, error := .null }
  | .rejected .resetCoursesToDefault payload =>
    { state with loading := false, error := payload }
  -- no case for the actions of `fetchCoursesByCategory`
  | .pending .fetchCoursesByCategory => state
  | .fulfilled .fetchCoursesByCategory _ => state
  | .rejected .fetchCoursesByCategory _ => state

/-- The state of the users slice (`updatedUsersSlice.js`). -/
structure UsersState where
  users : List Obj
  loading : Bool
  error : Value
  deriving DecidableEq, Repr

/-- The constant `initialState` of the users slice. -/
def UsersState.initialState : UsersState := { users := [], loading := false, error := .null }

/-- The async thunks of the users slice. -/
inductive UserThunk where
  | fetchUsers
  | addUser
  | updateUser
  | deleteUser
  | resetUserPassword
  deriving DecidableEq, Repr

/-- What a thunk of the users slice returns on success: the list or the user
the API answered with, or the id that was passed in. -/
def UserThunk.Payload : UserThunk → Type
  | .fetchUsers => List Obj
  | .addUser => Obj
  | .updateUser => Obj
  | .deleteUser => Value
  | .resetUserPassword => Obj

/-- The actions of the users slice. -/
inductive UsersAction where
  | clearUsersError
  | resetUsers
  | pending (thunk : UserThunk)
  | fulfilled (thunk : UserThunk) (payload : thunk.Payload)
  | rejected (thunk : UserThunk) (payload : Value)

/-- The reducer of `updatedUsersSlice.js`. -/
def updatedUsersReducer (state : UsersState) : UsersAction → UsersState
  | .clearUsersError => { state with error := .null }
  | .resetUsers => { state with users := [], error := .null, loading := false }
  -- Fetch users
  | .pending .fetchUsers => { state with loading := true, error := .null }
  | .fulfilled .fetchUsers payload =>
    { state with loading := false, users := payload, error := .null }
  | .rejected .fetchUsers payload => { state with loading := false, error := payload }
  -- Add user
  | .pending .addUser => { state with loading := true, error := .null }
  | .fulfilled .addUser payload =>
    { state with loading := false, users := state.users ++ ([payload] : List Obj), error := .null }
  | .rejected .addUser payload => { state with loading := false, error := payload }
  -- Update user
  | .pending .updateUser => { state with loading := true, error := .null }
  | .fulfilled .updateUser payload =>
    let index := findIndex (fun user => (user.get "id").strictEq (payload.get "id"))
      state.users
    let users := match index with
      | some i => state.users.set i payload
      | none => state.users
    { state with loading := false, users := users, error := .null }
  | .rejected .updateUser payload => { state with loading := false, error := payload }
  -- Delete user
  | .pending .deleteUser => { state with loading := true, error := .null }
  | .fulfilled .deleteUser payload =>
    { state with
      loading := false,
      users := state.users.filter (fun user => !(user.get "id").strictEq payload),
      error := .null }
  | .rejected .deleteUser payload => { state with loading := false, error := payload }
  -- Reset password
  | .pending .resetUserPassword => { state with loading := true, error := .null }
  | .fulfilled .resetUserPassword payload =>
    let index := findIndex (fun user => (user.get "id").strictEq (payload.get "id"))
      state.users
    let users := match index with
      | some i => state.users.set i payload
      | none => state.users
    { state with loading := false, users := users, error := .null }
  | .rejected .resetUserPassword payload => { state with loading := false, error := payload }

/-! ## store/redux: the auth slices -/

/-- A JavaScript value that may be an object: a primitive, or an object of
primitive fields. -/
inductive Js where
  | prim (v : Value)
  | obj (fields : Obj)
  deriving DecidableEq, Repr

/-- JavaScript truthiness; every object is truthy. -/
def Js.truthy : Js → Bool
  | .prim v => v.truthy
  | .obj _ => true

/-- The expression `x.k`: a `TypeError` on `null` and `undefined`, `undefined` on
the other primitives. -/
def Js.getProp (x : Js) (k : String) : Except String Value :=
  match x with
  | .prim .undefined => .error ("Cannot read properties of undefined (reading '" ++ k ++ "')")
  | .prim .null => .error ("Cannot read properties of null (reading '" ++ k ++ "')")
  | .prim _ => .ok .undefined
  | .obj fields => .ok (fields.get k)

/-- The expression `x?.k`. -/
def Js.getOptional (x : Js) (k : String) : Value :=
  match x with
  | .prim _ => .undefined
  | .obj fields => fields.get k

/-- The assignment `o[k] = v` on an object. -/
def Obj.set : Obj → String → Value → Obj
  | [], k, v => [(k, v)]
  | (k', v') :: rest, k, v => if k' = k then (k, v) :: rest else (k', v') :: Obj.set rest k v

/-- The own enumerable properties `...x` spreads: the fields of an object, the
characters of a string by index, nothing for the other primitives. -/
def Js.spread : Js → Obj
  | .obj fields => fields
  | .prim (.str s) => s.data.enum.map (fun ic => (toString ic.1, .str ic.2.toString))
  | .prim _ => []

/-- The object literal `{ ...a, ...b }`. -/
def spreadBoth (a b : Js) : Obj :=
  (a.spread ++ b.spread).foldl (fun o kv => o.set kv.1 kv.2) []

/-- The constant `guestUser` of `setGuestUser`. -/
def guestUser : Obj :=
  [("id", .str "guest"), ("name", .str "Guest User"), ("email", .str "guest@example.com"),
   ("role", .str "guest")]

/-- The state of the auth slice of the mock API (`authSlice.js`). -/
structure AuthState where
  user : Js
  isLoggedIn : Bool
  loading : Bool
  error : Value
  deriving DecidableEq, Repr

/-- The constant `initialState` of `authSlice.js`. -/
def AuthState.initialState : AuthState :=
  { user := .prim .null, isLoggedIn := false, loading := false, error := .null }

/-- The async thunks of the auth slices; `authSlice.js` has no `verifyToken`. -/
inductive AuthThunk where
  | loginUser
  | registerUser
  | verifyToken
  deriving DecidableEq, Repr

/-- The actions of the auth slices.  The writes to `localStorage` that some
reducers make are outside the state of the slice and left out. -/
inductive AuthAction where
  | logout
  | clearAuthError
  | setUserFromStorage (payload : Js)
  | setGuestUser
  | pending (thunk : AuthThunk)
  | fulfilled (thunk : AuthThunk) (payload : Js)
  | rejected (thunk : AuthThunk) (payload : Value)
  deriving DecidableEq, Repr

/-- The reducer of `authSlice.js`. -/
def authReducer (state : AuthState) : AuthAction → AuthState
  | .logout => { state with user := .prim .null, isLoggedIn := false, error := .null }
  | .clearAuthError => { state with error := .null }
  | .setUserFromStorage payload => { state with user := payload, isLoggedIn := payload.truthy }
  | .setGuestUser => { state with user := .obj guestUser, isLoggedIn := true, error := .null }
  -- Login
  | .pending .loginUser => { state with loading := true, error := .null }
  | .fulfilled .loginUser payload =>
    { state with loading := false, user := payload, isLoggedIn := true, error := .null }
  | .rejected .loginUser payload =>
    { state with loading := false, error := payload, isLoggedIn := false, user := .prim .null }
  -- Register
  | .pending .registerUser => { state with loading := true, error := .null }
  | .fulfilled .registerUser _ => { state with loading := false, error := .null }
  | .rejected .registerUser payload => { state with loading := false, error := payload }
  -- no case for the actions of `verifyToken`
  | .pending .verifyToken => state
  | .fulfilled .verifyToken _ => state
  | .rejected .verifyToken _ => state

/-- The state of the auth slice of the Node API (`updatedAuthSlice.js`). -/
structure UpdatedAuthState where
  user : Js
  isLoggedIn : Bool
  loading : Bool
  error : Value
  token : Value
  deriving DecidableEq, Repr

/-- The constant `initialState` of `updatedAuthSlice.js`. -/
def UpdatedAuthState.initialState : UpdatedAuthState :=
  { user := .prim .null, isLoggedIn := false, loading := false, error := .null,
    token := .null }

/-- The reducer of `updatedAuthSlice.js`; it throws where a reducer reads a
property of a `null` or `undefined` payload, and the store then keeps the state
it had. -/
def updatedAuthReducer (state : UpdatedAuthState) :
    AuthAction → Except String UpdatedAuthState
  | .logout =>
    .ok { state with user := .prim .null, isLoggedIn := false, error := .null, token := .null }
  | .clearAuthError => .ok { state with error := .null }
  | .setUserFromStorage payload =>
    .ok { state with
      user := payload, isLoggedIn := payload.truthy,
      token := (payload.getOptional "token").or .null }
  | .setGuestUser =>
    .ok { state with
      user := .obj guestUser, isLoggedIn := true, error := .null, token := .null }
  -- Login
  | .pending .loginUser => .ok { state with loading := true, error := .null }
  | .fulfilled .loginUser payload =>
    match payload.getProp "token" with
    | .error e => .error e
    | .ok token =>
      .ok { state with
        loading := false, user := payload, isLoggedIn := true, error := .null,
        token := token.or .null }
  | .rejected .loginUser payload =>
    .ok { state with
      loading := false, error := payload, isLoggedIn := false, user := .prim .null,
      token := .null }
  -- Register
  | .pending .registerUser => .ok { state with loading := true, error := .null }
  | .fulfilled .registerUser _ => .ok { state with loading := false, error := .null }
  | .rejected .registerUser payload => .ok { state with loading := false, error := payload }
  -- Verify token
  | .pending .verifyToken => .ok { state with loading := true, error := .null }
  | .fulfilled .verifyToken payload =>
    .ok { state with
      loading := false, user := .obj (spreadBoth state.user payload), isLoggedIn := true,
      error := .null }
  | .rejected .verifyToken payload =>
    .ok { state with
      loading := false, error := payload, user := .prim .null, isLoggedIn := false,
      token := .null }

/-! ## services: apiService.js and nodeApiServices.js -/

/-- The method `usersAPI.findByEmail` of `apiService.js`, the service of the mock
API; `users` is what `apiRequest('/users')` settles to, and `none` is the
`undefined` that `find` returns when no element passes. -/
def ApiService.findByEmail (users : Except String (List Obj)) (email : Value) :
    Except String (Option Obj) :=
  match users with
  | .error e => .error e
  | .ok users => .ok (users.find? (fun user => (user.get "email").strictEq email))

/-- The method `usersAPI.emailExists` of `apiService.js`. -/
def ApiService.emailExists (users : Except String (List Obj)) (email : Value) :
    Except String Bool :=
  match users with
  | .error e => .error e
  | .ok users => .ok (users.any (fun user => (user.get "email").strictEq email))

/-- The value of `this` inside the methods of `usersAPI` in `nodeApiServices.js`.
They are arrow functions, which have no `this` of their own and read that of the
enclosing scope: the top level of an ES module, where `this` is `undefined`.
`none` is `undefined`; `some getAll` is an object with the method `getAll`. -/
def NodeApiServices.moduleThis : Option (Unit → Except String (List Obj)) := none

/-- The call `this.getAll()` in the methods of `nodeApiServices.js`. -/
def NodeApiServices.thisGetAll : Except String (List Obj) :=
  match NodeApiServices.moduleThis with
  | none => .error "Cannot read properties of undefined (reading 'getAll')"
  | some getAll => getAll ()

/-- The method `usersAPI.findByEmail` of `nodeApiServices.js`; `getAll` is what
`usersAPI.getAll()` settles to, the list the API serves, which the method never
reaches. -/
def NodeApiServices.findByEmail (_getAll : Except String (List Obj)) (email : Value) :
    Except String (Option Obj) :=
  match NodeApiServices.thisGetAll with
  | .error e => .error e
  | .ok users => .ok (users.find? (fun user => (user.get "email").strictEq email))

/-- The method `usersAPI.emailExists` of `nodeApiServices.js`: the `catch` block
answers `false`. -/
def NodeApiServices.emailExists (_getAll : Except String (List Obj)) (email : Value) :
    Except String Bool :=
  match NodeApiServices.thisGetAll with
  | .error _ => .ok false
  | .ok users => .ok (users.any (fun user => (user.get "email").strictEq email))

/-- The JavaScript built-ins on numbers that the transformations call and that
are taken as given: `parseFloat` (`none` is `NaN`, `some (m, s)` the number
`m / 10 ^ s`) and the text `Number.prototype.toString` gives a number. -/
structure Builtins where
  parseFloat : Value → Option (Int × Nat)
  numberToString : Int → Nat → String

/-- The call `parseFloat(x)` as a value. -/
def Builtins.float (js : Builtins) (x : Value) : Value :=
  match js.parseFloat x with
  | some (m, s) => .num m s
  | none => .nan

/-- The string a value turns into in `x + 'K'`. -/
def Builtins.string (js : Builtins) : Value → String
  | .str s => s
  | .undefined => "undefined"
  | .null => "null"
  | .bool b => if b then "true" else "false"
  | .nan => "NaN"
  | .infinity negative => if negative then "-Infinity" else "Infinity"
  | .num m s => js.numberToString m s

/-- The call `x.toString()`: a `TypeError` on `null` and `undefined`. -/
def Builtins.toStringOf (js : Builtins) (x : Value) : Except String String :=
  match x with
  | .undefined => .error "Cannot read properties of undefined (reading 'toString')"
  | .null => .error "Cannot read properties of null (reading 'toString')"
  | x => .ok (js.string x)

/-- The first occurrence of a character removed. -/
def removeFirst (c : Char) : List Char → List Char
  | [] => []
  | d :: ds => if d = c then ds else d :: removeFirst c ds

/-- The call `x.replace('K', '')`: the first `K` of a string removed; a
`TypeError` on `null`, `undefined` and on a value that has no method `replace`. -/
def replaceK (x : Value) : Except String String :=
  match x with
  | .str s => .ok ⟨removeFirst 'K' s.data⟩
  | .undefined => .error "Cannot read properties of undefined (reading 'replace')"
  | .null => .error "Cannot read properties of null (reading 'replace')"
  | _ => .error "apiProduct.price.replace is not a function"

/-- The function `transformProductData` of `apiService.js`. -/
def ApiService.transformProductData (js : Builtins) (courseData : Obj) : Obj :=
  [("photos", courseData.get "courseImage"),
   ("title", courseData.get "title"),
   ("description", courseData.get "description"),
   ("mentor", courseData.get "tutorName"),
   ("rolementor", courseData.get "position"),
   ("avatar", courseData.get "tutorImage"),
   ("company", courseData.get "company"),
   ("rating", js.float (courseData.get "rating")),
   ("reviewCount", parseInt (courseData.get "reviewCount")),
   ("price", .str (js.string (courseData.get "price") ++ "K")),
   ("category", courseData.get "category")]

/-- The function `transformApiProductToForm` of `apiService.js`. -/
def ApiService.transformApiProductToForm (js : Builtins) (apiProduct : Obj) :
    Except String Obj :=
  match js.toStringOf (apiProduct.get "rating") with
  | .error e => .error e
  | .ok rating =>
    match js.toStringOf (apiProduct.get "reviewCount") with
    | .error e => .error e
    | .ok reviewCount =>
      match replaceK (apiProduct.get "price") with
      | .error e => .error e
      | .ok price =>
        .ok [("title", apiProduct.get "title"),
             ("description", apiProduct.get "description"),
             ("tutorName", apiProduct.get "mentor"),
             ("position", apiProduct.get "rolementor"),
             ("company", apiProduct.get "company"),
             ("rating", .str rating),
             ("reviewCount", .str reviewCount),
             ("price", .str price),
             ("category", apiProduct.get "category"),
             ("courseImage", apiProduct.get "photos"),
             ("tutorImage", apiProduct.get "avatar")]

/-- The function `transformProductData` of `nodeApiServices.js`. -/
def NodeApiServices.transformProductData (js : Builtins) (courseData : Obj) : Obj :=
  [("photos", courseData.get "courseImage"),
   ("title", courseData.get "title"),
   ("description", courseData.get "description"),
   ("mentor", courseData.get "tutorName"),
   ("rolementor", courseData.get "position"),
   ("avatar", courseData.get "tutorImage"),
   ("company", courseData.get "company"),
   ("rating", js.float (courseData.get "rating")),
   ("review_count", parseInt (courseData.get "reviewCount")),
   ("price", .str (js.string (courseData.get "price") ++ "K")),
   ("category", courseData.get "category")]

/-- The expression `x?.toString() || '0'`. -/
def Builtins.toStringOrZero (js : Builtins) (x : Value) : String :=
  match x with
  | .undefined => "0"
  | .null => "0"
  | x => if js.string x = "" then "0" else js.string x

/-- The expression `x?.replace('K', '') || '0'`. -/
def replaceKOrZero (x : Value) : Except String String :=
  match x with
  | .undefined => .ok "0"
  | .null => .ok "0"
  | x =>
    match replaceK x with
    | .error e => .error e
    | .ok price => .ok (if price = "" then "0" else price)

/-- The function `transformApiProductToForm` of `nodeApiServices.js`. -/
def NodeApiServices.transformApiProductToForm (js : Builtins) (apiProduct : Obj) :
    Except String Obj :=
  match replaceKOrZero (apiProduct.get "price") with
  | .error e => .error e
  | .ok price =>
    .ok [("title", apiProduct.get "title"),
         ("description", apiProduct.get "description"),
         ("tutorName", apiProduct.get "mentor"),
         ("position", apiProduct.get "rolementor"),
         ("company", apiProduct.get "company"),
         ("rating", .str (js.toStringOrZero (apiProduct.get "rating"))),
         ("reviewCount", .str (js.toStringOrZero (apiProduct.get "review_count"))),
         ("price", .str price),
         ("category", apiProduct.get "category"),
         ("courseImage", apiProduct.get "photos"),
         ("tutorImage", apiProduct.get "avatar")]

/-! ## data/CoursesData.js -/

/-- The constant `defaultCoursesData`. -/
def CoursesData.defaultCoursesData : List Obj :=
  [[("id", .num 1 0),
    ("photos", .str "/images/cards/card1.png"),
    ("title", .str "Big 4 Auditor Financial Analyst"),
    ("description", .str "Mulai transformasi dengan instruktur profesional, harga yang terjangkau, dan sistem pembelajaran yang mudah dipahami."),
    ("avatar", .str "/images/tutors/tutor-card1.png"),
    ("mentor", .str "Jenna Ortega"),
    ("rolementor", .str "Senior Accountant"),
    ("company", .str "Gojek"),
    ("rating", .num 45 1),
    ("reviewCount", .num 126 0),
    ("price", .str "300K"),
    ("category", .str "Bisnis")],
   [("id", .num 2 0),
    ("photos", .str "/images/cards/card2.png"),
    ("title", .str "Digital Marketing Strategy"),
    ("description", .str "Pelajari strategi pemasaran digital yang efektif untuk meningkatkan brand awareness dan konversi."),
    ("avatar", .str "/images/tutors/tutor-card2.png"),
    ("mentor", .str "Sarah Johnson"),
    ("rolementor", .str "Marketing Director"),
    ("company", .str "Tokopedia"),
    ("rating", .num 42 1),
    ("reviewCount", .num 98 0),
    ("price", .str "250K"),
    ("category", .str "Pemasaran")],
   [("id", .num 3 0),
    ("photos", .str "/images/cards/card3.png"),
    ("title", .str "UI/UX Design Fundamentals"),
    ("description", .str "Kuasai dasar-dasar desain UI/UX untuk menciptakan pengalaman pengguna yang luar biasa."),
    ("avatar", .str "/images/tutors/tutor-card3.png"),
    ("mentor", .str "Michael Chen"),
    ("rolementor", .str "Lead Designer"),
    ("company", .str "Grab"),
    ("rating", .num 47 1),
    ("reviewCount", .num 204 0),
    ("price", .str "400K"),
    ("category", .str "Desain")]]

/-- The function `transformApiDataForComponents`. -/
def CoursesData.transformApiDataForComponents (apiData : List Obj) : List Obj :=
  apiData.map (fun item =>
    [("id", item.get "id"),
     ("courseImage", item.get "photos"),
     ("title", item.get "title"),
     ("description", item.get "description"),
     ("tutorImage", item.get "avatar"),
     ("tutorName", item.get "mentor"),
     ("position", item.get "rolementor"),
     ("company", item.get "company"),
     ("rating", item.get "rating"),
     ("reviewCount", item.get "reviewCount"),
     ("price", item.get "price"),
     ("category", item.get "category")])

/-- The module variables `coursesCache` (`none` is `null`) and `cacheTimestamp`,
and, beside them, the requests made to `productsAPI` so far. -/
structure CoursesData.State where
  coursesCache : Option (List Obj)
  cacheTimestamp : Int
  requests : List String
  deriving DecidableEq, Repr

/-- The module variables as they are declared (`let coursesCache = null; let
cacheTimestamp = 0;`): no cache, and no request made yet.  The last statement of
the module, `export const coursesData = getAllCourses()`, then makes the first
call; `CoursesData.State.imported` is the module after it. -/
def CoursesData.State.initial : CoursesData.State :=
  { coursesCache := none, cacheTimestamp := 0, requests := [] }

/-- The constant `CACHE_DURATION`, in milliseconds. -/
def CoursesData.CACHE_DURATION : Int := 30000

/-- A request to `productsAPI` is made. -/
def CoursesData.State.request (s : CoursesData.State) (name : String) : CoursesData.State :=
  { s with requests := s.requests ++ [name] }

/-- The function `clearCache`. -/
def CoursesData.clearCache (s : CoursesData.State) : CoursesData.State :=
  { s with coursesCache := none, cacheTimestamp := 0 }

/-- The function `getAllCourses`: `now` is what `Date.now()` reads, `api` what
`productsAPI.getAll()` settles to if it is called. -/
def CoursesData.getAllCourses (now : Int) (api : Except String (List Obj))
    (s : CoursesData.State) : Except String (List Obj) × CoursesData.State :=
  -- Use cache if still valid
  match (if now - s.cacheTimestamp < CoursesData.CACHE_DURATION then s.coursesCache
      else none) with
  | some coursesCache => (.ok coursesCache, s)
  | none =>
    match api with
    | .ok apiData =>
      let transformedData := CoursesData.transformApiDataForComponents apiData
      -- Update cache
      (.ok transformedData,
        { s.request "getAll" with
          coursesCache := some transformedData, cacheTimestamp := now })
    | .error _ =>
      -- Return default data as fallback
      let transformedDefault :=
        CoursesData.transformApiDataForComponents CoursesData.defaultCoursesData
      (.ok transformedDefault,
        { s.request "getAll" with
          coursesCache := some transformedDefault, cacheTimestamp := now })

/-- The module once it is imported: the call `getAllCourses()` of `export const
coursesData = getAllCourses()` ran at time `now`, and `productsAPI.getAll()`
settled to `api`. -/
def CoursesData.State.imported (now : Int) (api : Except String (List Obj)) :
    CoursesData.State :=
  (CoursesData.getAllCourses now api CoursesData.State.initial).2

/-- The function `getCoursesByCategory`; `api` is what `apiRequest('/product')`
settles to inside `productsAPI.getByCategory`. -/
def CoursesData.getCoursesByCategory (category : Value) (api : Except String (List Obj))
    (s : CoursesData.State) : Except String (List Obj) × CoursesData.State :=
  match api with
  | .ok products =>
    let apiData :=
      if category.strictEq (.str "Semua Kelas") then products
      else products.filter (fun product => (product.get "category").strictEq category)
    (.ok (CoursesData.transformApiDataForComponents apiData), s.request "getByCategory")
  | .error _ =>
    -- Fallback to default data filtered by category
    let defaultTransformed :=
      CoursesData.transformApiDataForComponents CoursesData.defaultCoursesData
    if category.strictEq (.str "Semua Kelas") then
      (.ok defaultTransformed, s.request "getByCategory")
    else
      (.ok (defaultTransformed.filter
        (fun course => (course.get "category").strictEq category)),
        s.request "getByCategory")

/-- The function `getFeaturedCourses`. -/
def CoursesData.getFeaturedCourses (limit : Nat) (now : Int)
    (api : Except String (List Obj)) (s : CoursesData.State) :
    Except String (List Obj) × CoursesData.State :=
  match CoursesData.getAllCourses now api s with
  | (.ok allCourses, s1) => (.ok (allCourses.take limit), s1)
  | (.error _, s1) =>
    (.ok ((CoursesData.transformApiDataForComponents
      CoursesData.defaultCoursesData).take limit), s1)

/-- The function `addCourse`; `api` is what `productsAPI.create(courseData)`
settles to. -/
def CoursesData.addCourse (api : Except String Obj) (s : CoursesData.State) :
    Except String Obj × CoursesData.State :=
  match api with
  | .ok newCourse => (.ok newCourse, CoursesData.clearCache (s.request "create"))
  | .error error => (.error error, s.request "create")

/-- The function `updateCourse`; `api` is what `productsAPI.update(id,
courseData)` settles to. -/
def CoursesData.updateCourse (api : Except String Obj) (s : CoursesData.State) :
    Except String Obj × CoursesData.State :=
  match api with
  | .ok updatedCourse => (.ok updatedCourse, CoursesData.clearCache (s.request "update"))
  | .error error => (.error error, s.request "update")

/-- The function `deleteCourse`; `api` is what `productsAPI.delete(id)` settles
to. -/
def CoursesData.deleteCourse (api : Except String Unit) (s : CoursesData.State) :
    Except String Bool × CoursesData.State :=
  match api with
  | .ok _ => (.ok true, CoursesData.clearCache (s.request "delete"))
  | .error error => (.error error, s.request "delete")

/-- The loop `for (const course of existingCourses) await productsAPI.delete(course.id)`. -/
def CoursesData.deleteEach (delete : Value → Except String Unit) :
    List Obj → CoursesData.State → Except String Unit × CoursesData.State
  | [], s => (.ok (), s)
  | course :: rest, s =>
    match delete (course.get "id") with
    | .ok _ => CoursesData.deleteEach delete rest (s.request "delete")
    | .error error => (.error error, s.request "delete")

/-- The loop over `defaultCoursesData` that creates each course without its id. -/
def CoursesData.createEach (create : Obj → Except String Obj) :
    List Obj → CoursesData.State → Except String Unit × CoursesData.State
  | [], s => (.ok (), s)
  | course :: rest, s =>
    let courseWithoutId := course.filter (fun kv => kv.1 != "id")
    match create courseWithoutId with
    | .ok _ => CoursesData.createEach create rest (s.request "create")
    | .error error => (.error error, s.request "create")

/-- The function `resetToDefaultCourses`; `getAll`, `delete` and `create` are
what the calls of `productsAPI` settle to. -/
def CoursesData.resetToDefaultCourses (getAll : Except String (List Obj))
    (delete : Value → Except String Unit) (create : Obj → Except String Obj)
    (s : CoursesData.State) : Except String Bool × CoursesData.State :=
  match getAll with
  | .error error => (.error error, s.request "getAll")
  | .ok existingCourses =>
    match CoursesData.deleteEach delete existingCourses (s.request "getAll") with
    | (.error error, s1) => (.error error, s1)
    | (.ok _, s1) =>
      match CoursesData.createEach create CoursesData.defaultCoursesData s1 with
      | (.error error, s2) => (.error error, s2)
      | (.ok _, s2) => (.ok true, CoursesData.clearCache s2)

/-- The function `refreshCoursesData`. -/
def CoursesData.refreshCoursesData (now : Int) (api : Except String (List Obj))
    (s : CoursesData.State) : Except String (List Obj) × CoursesData.State :=
  CoursesData.getAllCourses now api (CoursesData.clearCache s)

/-! ## Vocabulary of the claims -/

/-- The body fields `updateCourse` recognises, in the order it reads them. -/
def courseFields : List String :=
  ["title", "description", "photos", "mentor", "rolementor", "avatar", "company",
   "rating", "review_count", "price", "category"]

/-- The body fields `updateUser` recognises, in the order it reads them. -/
def userFields : List String :=
  ["name", "email", "phone", "gender", "role", "avatar"]

/-- Between `before` and `after` no statement of kind `kind` was issued. -/
def noneIssued (kind : StmtKind) (before after : Db) : Prop :=
  ∃ issued, after.log = before.log ++ issued ∧ ∀ e ∈ issued, e.kind ≠ kind

/-- The `WHERE` conditions of the course list, given whether the category filter
and the search filter are in force. -/
def filterConditions (byCategory bySearch : Bool) : List String :=
  (if byCategory then ["category = ?"] else []) ++
  (if bySearch then ["title LIKE ?"] else [])

/-- The values bound to the `WHERE` conditions of the course list: the category,
then the pattern `%search%`. -/
def filterParams (category search : Value) : List Value :=
  (if category.truthy then [category] else []) ++
  (if search.truthy then [.str ("%" ++ search.text ++ "%")] else [])

/-- The `WHERE` clause of the course list for the given conditions. -/
def whereClause (conditions : List String) : String :=
  if conditions = [] then "" else " WHERE " ++ join " AND " conditions

/-- The pagination clause of the course list, given whether a limit and an
offset are supplied. -/
def limitClause (limited paged : Bool) : String :=
  if limited then (if paged then " LIMIT ? OFFSET ?" else " LIMIT ?") else ""

/-- The values bound to the pagination clause. -/
def limitParams (limit offset : Value) : List Value :=
  if limit.truthy then
    (if offset.truthy then [parseInt limit, parseInt offset] else [parseInt limit])
  else []

/-- The text of the course list query for the given filters, sort column, sort
order and pagination. -/
def courseListText (byCategory bySearch : Bool) (sortColumn sortOrder : String)
    (limited paged : Bool) : String :=
  courseListSelect ++ whereClause (filterConditions byCategory bySearch) ++ " ORDER BY " ++
    sortColumn ++ " " ++ sortOrder ++ limitClause limited paged

/-- The courses that pass the filters of the course list: the category equals
`category` when that filter is in force, and the title matches `%search%` when
the search is in force. -/
def matchingCourses (category search : Value) (db : Db) : List CourseRow :=
  db.courses.filter (fun c =>
    (!category.truthy || sqlEq c.category category) &&
    (!search.truthy || sqlLike c.title (.str ("%" ++ search.text ++ "%"))))

/-- The request `GET /api/courses?search=a&limit=1&offset=5`. -/
def samplePagedRequest : Request :=
  { query := [("search", "a"), ("limit", "1"), ("offset", "5")] }

/-- The recognised fields present in a body, in declaration order. -/
def presentFields (fields : List String) (body : Obj) : List String :=
  fields.filter (fun f => body.get f != .undefined)

/-- The value `updateCourse` binds for a field: `photos` and `avatar` go through
`|| null`. -/
def courseValue (body : Obj) (f : String) : Value :=
  if f = "photos" ∨ f = "avatar" then (body.get f).or .null else body.get f

/-- The value `updateUser` binds for a field: `phone` and `gender` go through
`|| null`. -/
def userValue (body : Obj) (f : String) : Value :=
  if f = "phone" ∨ f = "gender" then (body.get f).or .null else body.get f

/-- The text of the `UPDATE` statement that assigns the given columns, then
`updated_at`. -/
def updateText (table : String) (columns : List String) : String :=
  "\n            UPDATE " ++ table ++ " \n            SET " ++
    join ", " (columns.map (fun f => f ++ " = ?")) ++
    ", updated_at = CURRENT_TIMESTAMP\n            WHERE id = ?\n        "

/-- The stored value of a named column of a course row (the columns a request
body can name). -/
def CourseRow.column (r : CourseRow) (f : String) : Value :=
  if f = "title" then r.title
  else if f = "description" then r.description
  else if f = "photos" then r.photos
  else if f = "mentor" then r.mentor
  else if f = "rolementor" then r.rolementor
  else if f = "avatar" then r.avatar
  else if f = "company" then r.company
  else if f = "rating" then r.rating
  else if f = "review_count" then r.review_count
  else if f = "price" then r.price
  else if f = "category" then r.category
  else .undefined

/-- The stored value of a named column of a user row. -/
def UserRow.column (r : UserRow) (f : String) : Value :=
  if f = "name" then r.name
  else if f = "email" then r.email
  else if f = "phone" then r.phone
  else if f = "gender" then r.gender
  else if f = "role" then r.role
  else if f = "avatar" then r.avatar
  else if f = "password" then r.password
  else .undefined

/-- The rows stored by inserting the given courses one after the other, the
first at id `start`. -/
def seededRows (start now : Nat) : List CourseFields → List CourseRow
  | [] => []
  | c :: rest => c.toRow start now :: seededRows (start + 1) now rest

/-- The connection does not fail on any of the next `n` statements. -/
def Db.connectedFor (n : Nat) (db : Db) : Prop := ∀ b ∈ db.faults.take n, b = false

instance (n : Nat) (db : Db) : Decidable (db.connectedFor n) := by
  unfold Db.connectedFor; infer_instance

/-- The query parameters `getAllCourses` reads. -/
def courseListParameters : List String :=
  ["category", "limit", "offset", "search", "sortBy", "sort"]

/-- A course row with the given id, title, category and creation time. -/
def sampleCourse (id : Nat) (title category : String) (created : Nat) : CourseRow :=
  { id := id, title := .str title, description := .str "A course description",
    photos := .null, mentor := .str "Mentor", rolementor := .str "Lead", avatar := .null,
    company := .str "Gojek", rating := .num 45 1, review_count := .num 10 0,
    price := .str "300K", category := .str category, created_at := created,
    updated_at := created }

/-- A database with three courses, stored out of creation order. -/
def sampleCatalog : Db :=
  { users := [],
    courses := [sampleCourse 1 "Data" "Bisnis" 20, sampleCourse 2 "Brand" "Pemasaran" 30,
      sampleCourse 3 "UX" "Desain" 10],
    usersNextId := 1, coursesNextId := 4, now := 40, faults := [], log := [] }

/-- The request `GET /api/courses`. -/
def sampleListRequest : Request := {}

/-- The request `GET /api/courses?sortBy=foo&sort=ASC`. -/
def sampleSortQuery : Strings := [("sortBy", "foo"), ("sort", "ASC")]

/-- The environment lets `generateToken` sign: the secret is set and not empty,
and `jwt.sign` accepts the configured expiry. -/
def Env.signs (env : Env) : Prop :=
  (∃ secret, env.JWT_SECRET = some secret ∧ secret ≠ "") ∧
  env.timespan ((envValue env.JWT_EXPIRES_IN).or (.str "7d")).text = true

/-- The two guarantees of `bcryptjs` the claims rely on: a hash starts with
`$2`, and a password compares equal to its own hash. -/
def Env.bcryptSound (env : Env) : Prop :=
  (∀ p rounds salt, startsWith (env.hash p rounds salt) "$2" = true) ∧
  (∀ p rounds salt, env.compare p (env.hash p rounds salt) = true)

/-- The credentials of a request body: both are strings. -/
def hasCredentials (req : Request) (email password : String) : Prop :=
  req.body.get "email" = .str email ∧ req.body.get "password" = .str password

/-- The row `register` stores for a request body. -/
def registeredRow (env : Env) (req : Request) (db : Db) (password : String) : UserRow :=
  newUserRow db.usersNextId db.now (req.body.get "name") (req.body.get "email")
    (.str (env.hash password ((parseInt (envValue env.BCRYPT_SALT_ROUNDS)).or (.num 12 0))
      env.salt))
    ((req.body.get "phone").or .null) ((req.body.get "gender").or .null) (.str "student")
    (.str (stockAvatar (env.random.val + 1)))

/-- The user object `login` returns for the hardcoded administrator. -/
def hardcodedAdmin : UserData :=
  { id := .str "admin", name := .str "Administrator", email := .str "admin@videobelajar.com",
    phone := .undefined, gender := .undefined, role := .str "admin", avatar := .undefined }

/-- The user object `login` returns for the hardcoded demo user. -/
def hardcodedDemo : UserData :=
  { id := .str "demo", name := .str "Demo User", email := .str "user@example.com",
    phone := .undefined, gender := .undefined, role := .str "user", avatar := .undefined }

/-- The submitted password is valid for a stored one: the hash comparison when
the stored password starts with `$2`, exact string equality otherwise. -/
def passwordValid (env : Env) (password : String) (stored : Value) : Bool :=
  match stored with
  | .str s => if startsWith s "$2" then env.compare password s else password == s
  | _ => false

/-- The response of `login` to an unknown email and to a wrong password. -/
def loginRejected : Response :=
  { status := 401, success := false, message := "Email atau password salah" }

/-- The statement changes neither the statement log nor the fault schedule when
it runs. -/
def Statement.quiet {α : Type} (st : Statement α) : Prop :=
  ∀ d a d', st.run d = .ok (a, d') → d'.log = d.log ∧ d'.faults = d.faults

/-- A handler outcome in which every connection error was answered by `failed`:
if the connection failed on one of the statements the handler issued, the
response is `failed`. -/
def caught (failed : Response) (db : Db) (out : Response × Db) : Prop :=
  ∀ i, db.faults[i]? = some true → db.log.length + i < out.2.log.length → out.1 = failed

/-- The outcome issued `n` statements for some `n`, consuming one fault each, and
answered `failed` if the connection failed on one of them. -/
def guarded (failed : Response) (db : Db) (out : Response × Db) : Prop :=
  ∃ n, out.2.log.length = db.log.length + n ∧ out.2.faults = db.faults.drop n ∧
    ((∃ i, i < n ∧ db.faults[i]? = some true) → out.1 = failed)

/-- The response of a handler's `catch` block: status 500, `success` false, and
the handler's message. -/
def serverError (message : String) : Response :=
  { status := 500, success := false, message := message }

/-- The body of a login request holds one of the two hardcoded credential
pairs. -/
def isHardcoded (req : Request) : Bool :=
  ((req.body.get "email").strictEq (.str "admin@videobelajar.com") &&
    (req.body.get "password").strictEq (.str "admin123")) ||
  ((req.body.get "email").strictEq (.str "user@example.com") &&
    (req.body.get "password").strictEq (.str "123456"))

/-- The response of `verifyToken`'s `catch` block. -/
def tokenInvalid : Response :=
  { status := 401, success := false, message := "Token tidak valid" }

/-- Two database states that differ at most in the stored password values: the
rows of `users` agree on every other column, and all the rest is equal. -/
def samePublic (d1 d2 : Db) : Prop :=
  d1.users.map UserRow.view = d2.users.map UserRow.view ∧ d1.courses = d2.courses ∧
  d1.usersNextId = d2.usersNextId ∧ d1.coursesNextId = d2.coursesNextId ∧
  d1.now = d2.now ∧ d1.faults = d2.faults ∧ d1.log = d2.log

instance (d1 d2 : Db) : Decidable (samePublic d1 d2) := by
  unfold samePublic; infer_instance

/-- A statement whose outcome does not depend on the stored passwords: on two
states that differ only there it fails on both or succeeds on both, with results
related by `R` and states that again differ only in the stored passwords. -/
def Statement.blind {α : Type} (st : Statement α) (R : α → α → Prop) : Prop :=
  ∀ d1 d2, samePublic d1 d2 →
    (∃ e1 e2, st.run d1 = .error e1 ∧ st.run d2 = .error e2) ∨
    (∃ a1 a2 e1 e2, st.run d1 = .ok (a1, e1) ∧ st.run d2 = .ok (a2, e2) ∧ R a1 a2 ∧
      samePublic e1 e2)

/-- Two lists of user rows that agree on every column but the password. -/
def sameViews (a1 a2 : List UserRow) : Prop := a1.map UserRow.view = a2.map UserRow.view

/-- Two outcomes of a handler with the same response, on states that differ at
most in the stored passwords. -/
def sameOutcome (o1 o2 : Response × Db) : Prop := o1.1 = o2.1 ∧ samePublic o1.2 o2.2

/-- No two rows of `users` share an email. -/
def emailsUnique (db : Db) : Prop := db.users.Pairwise (fun a b => a.email ≠ b.email)

/-- The primary key of `users`: no two rows share an id, and AUTO_INCREMENT is
above every id in use. -/
def usersKeyed (db : Db) : Prop :=
  db.users.Pairwise (fun a b => a.id ≠ b.id) ∧ ∀ u ∈ db.users, u.id < db.usersNextId

instance (db : Db) : Decidable (emailsUnique db) := by unfold emailsUnique; infer_instance

instance (db : Db) : Decidable (usersKeyed db) := by unfold usersKeyed; infer_instance

/-- What `isEmail()` leaves of `req.body.email` when validation passed: a
non-empty string. -/
def validatedEmail (req : Request) : Prop :=
  req.errors = [] → ∃ e, req.body.get "email" = .str e ∧ e ≠ ""

/-- What `optional().isEmail()` leaves of `req.body.email` when validation
passed: nothing, or a non-empty string. -/
def validatedOptionalEmail (req : Request) : Prop :=
  req.errors = [] →
    req.body.get "email" = .undefined ∨ ∃ e, req.body.get "email" = .str e ∧ e ≠ ""

/-- A statement that leaves the table `users` and its counter as they are. -/
def Statement.keepsUsers {α : Type} (st : Statement α) : Prop :=
  ∀ d a d', st.run d = .ok (a, d') → d'.users = d.users ∧ d'.usersNextId = d.usersNextId

/-- The success flag of a response agrees with its status: true exactly at 200
and 201, false exactly at 400, 401, 403, 404 and 500. -/
def Response.flagged (r : Response) : Prop :=
  (r.success = true ↔ r.status = 200 ∨ r.status = 201) ∧
  (r.success = false ↔
    r.status = 400 ∨ r.status = 401 ∨ r.status = 403 ∨ r.status = 404 ∨ r.status = 500)

/-- The categories the routes accept: the list given to `isIn` in
`coursesRoutes.js`. -/
def courseCategories : List String := ["Pemasaran", "Desain", "Pengembangan Diri", "Bisnis"]

/-- A decimal literal, an optional sign and digits with at most one point, as
mantissa and scale (`"4.5"` is `(45, 1)`); exponent forms are left out. -/
def decimalLiteral (s : String) : Option (Int × Nat) :=
  let (neg, rest) := match s.data with
    | '-' :: r => (true, r)
    | '+' :: r => (false, r)
    | r => (false, r)
  let whole := rest.takeWhile (fun c => c != '.')
  let frac := (rest.dropWhile (fun c => c != '.')).drop 1
  match digitsToNat (whole ++ frac) with
  | some m => some (if neg then - (m : Int) else m, frac.length)
  | none => none

/-- A rating between 0 and 5: a number in that range, or its decimal literal. -/
def inRating : Value → Bool
  | .num m s => decide (0 ≤ m ∧ m ≤ 5 * 10 ^ s)
  | .str t =>
    match decimalLiteral t with
    | some (m, s) => decide (0 ≤ m ∧ m ≤ 5 * 10 ^ s)
    | none => false
  | _ => false

/-- A category of the closed enumeration. -/
def inCategories : Value → Bool
  | .str s => courseCategories.contains s
  | _ => false

/-- The course data model on one row. -/
def CourseRow.modelled (c : CourseRow) : Bool := inRating c.rating && inCategories c.category

/-- The course data model on the table: every row has a rating between 0 and 5
and a category of the enumeration. -/
def coursesModelled (db : Db) : Prop := ∀ c ∈ db.courses, c.modelled = true

instance (db : Db) : Decidable (coursesModelled db) := by
  unfold coursesModelled; infer_instance

/-- A body of `POST /api/courses` that passed validation and gives `rating` and
`category` as single values in plain form: `rating` absent, or a number or
decimal literal between 0 and 5, and `category` one of the four names.  The
rules of the route accept more than this: `isIn` and `isFloat` run on every
element of an array, and `isFloat` also reads exponent forms. -/
def singleValuedCourse (req : Request) : Prop :=
  req.errors = [] →
    (req.body.get "rating" = .undefined ∨ inRating (req.body.get "rating") = true) ∧
    inCategories (req.body.get "category") = true

/-- A body of `PUT /api/courses/:id` that passed validation and gives `rating` and
`category`, where present, as single values in plain form. -/
def singleValuedCourseUpdate (req : Request) : Prop :=
  req.errors = [] →
    (req.body.get "rating" = .undefined ∨ inRating (req.body.get "rating") = true) ∧
    (req.body.get "category" = .undefined ∨ inCategories (req.body.get "category") = true)

/-- A statement that leaves the table `courses` as it is. -/
def Statement.keepsCourses {α : Type} (st : Statement α) : Prop :=
  ∀ d a d', st.run d = .ok (a, d') → d'.courses = d.courses

/-- The thunks `coursesSlice.js` defines: all but `fetchCoursesByCategory`. -/
def CourseThunk.mock (t : CourseThunk) : Prop := t ≠ .fetchCoursesByCategory

/-- The sentence `isLoggedIn is true iff user is not null`. -/
def loggedInIffUser (isLoggedIn : Bool) (user : Js) : Prop :=
  isLoggedIn = true ↔ user ≠ .prim .null

instance (isLoggedIn : Bool) (user : Js) : Decidable (loggedInIffUser isLoggedIn user) := by
  unfold loggedInIffUser; infer_instance

/-- The payloads C30 admits: any for the plain actions, non-null for a fulfilled
action. -/
def AuthAction.nonNullFulfilled : AuthAction → Prop
  | .fulfilled _ payload => payload ≠ .prim .null
  | _ => True

/-- The payloads of `setUserFromStorage` on which `!!payload` tells whether the
payload is null: `null` itself and the truthy values, a stored user object among
them. -/
def AuthAction.storedUser : AuthAction → Prop
  | .setUserFromStorage payload => payload = .prim .null ∨ payload.truthy = true
  | _ => True

/-- The form fields C26 follows through the two transformations. -/
def roundTripFields : List String :=
  ["price", "title", "description", "tutorName", "position", "company", "category",
   "courseImage", "tutorImage"]

/-- The cache holds the result `r`, stored at time `t`. -/
def CoursesData.State.holds (s : CoursesData.State) (r : List Obj) (t : Int) : Prop :=
  s.coursesCache = some r ∧ s.cacheTimestamp = t

/-- What a `getAllCourses` call that queries the API resolves to: the transformed
answer, or the transformed defaults when the call fails. -/
def CoursesData.fresh (api : Except String (List Obj)) : List Obj :=
  match api with
  | .ok apiData => CoursesData.transformApiDataForComponents apiData
  | .error _ => CoursesData.transformApiDataForComponents CoursesData.defaultCoursesData

/-- The call `getAllCourses()` at time `now` queries the API: it makes the
request `getAll`, resolves to what the request gives and stores that at `now`. -/
def CoursesData.queries (now : Int) (api : Except String (List Obj))
    (s : CoursesData.State) : Prop :=
  CoursesData.getAllCourses now api s =
    (.ok (CoursesData.fresh api),
      { coursesCache := some (CoursesData.fresh api), cacheTimestamp := now,
        requests := s.requests ++ ["getAll"] })

/-- The calls of the module other than `addCourse`, `updateCourse`,
`deleteCourse`, `resetToDefaultCourses` and `refreshCoursesData`. -/
inductive CoursesData.Read where
  | getAllCourses (now : Int) (api : Except String (List Obj))
  | getCoursesByCategory (category : Value) (api : Except String (List Obj))
  | getFeaturedCourses (limit : Nat) (now : Int) (api : Except String (List Obj))

/-- The state a call leaves. -/
def CoursesData.Read.run : CoursesData.Read → CoursesData.State → CoursesData.State
  | .getAllCourses now api, s => (CoursesData.getAllCourses now api s).2
  | .getCoursesByCategory category api, s => (CoursesData.getCoursesByCategory category api s).2
  | .getFeaturedCourses limit now api, s => (CoursesData.getFeaturedCourses limit now api s).2

/-- A call that reads the clock does so less than 30 seconds after `t`. -/
def CoursesData.Read.within (t : Int) : CoursesData.Read → Prop
  | .getAllCourses now _ => now - t < 30000
  | .getCoursesByCategory _ _ => True
  | .getFeaturedCourses _ now _ => now - t < 30000

/-- The state a sequence of calls leaves. -/
def CoursesData.runReads (calls : List CoursesData.Read) (s : CoursesData.State) :
    CoursesData.State :=
  calls.foldl (fun s call => call.run s) s

/-- JavaScript `typeof x === 'string'`. -/
def Value.isString : Value → Bool
  | .str _ => true
  | _ => false

/-- The password check of `login` throws: the stored password is not a string
(`user.password.startsWith` is not a function), or it starts with `$2` and the
submitted password is not a string (`bcrypt.compare` refuses it). -/
def checkThrows (password stored : Value) : Bool :=
  match stored with
  | .str s => startsWith s "$2" && !password.isString
  | _ => true

/-! ## Sample data -/

/-- A stored administrator. -/
def sampleAdmin : UserRow :=
  { id := 1, name := .str "Root", email := .str "root@x.com", password := .str "pw",
    phone := .null, gender := .null, role := .str "admin", avatar := .null,
    created_at := 0, updated_at := 0 }

/-- A stored student. -/
def sampleStudent : UserRow :=
  { id := 2, name := .str "Ann", email := .str "ann@x.com", password := .str "secret1",
    phone := .null, gender := .null, role := .str "student", avatar := .null,
    created_at := 5, updated_at := 5 }

/-- A database with two users and no course. -/
def sampleDb : Db :=
  { users := [sampleAdmin, sampleStudent], courses := [], usersNextId := 3,
    coursesNextId := 1, now := 10, faults := [], log := [] }

/-- The request `DELETE /api/users/1`. -/
def sampleDeleteAdmin : Request := { params := [("id", "1")] }

/-- The request `PUT /api/courses/7` (or `/api/users/7`) with an empty body. -/
def sampleEmptyUpdate : Request := { params := [("id", "7")] }

/-- The request `PUT /api/users/2` with an empty body. -/
def sampleEmptyUserUpdate : Request := { params := [("id", "2")] }

/-- The request `PUT /api/courses/2` with a new title and an empty photo. -/
def sampleCourseUpdate : Request :=
  { params := [("id", "2")], body := [("photos", .str ""), ("title", .str "Brand building")] }

/-- The request `PUT /api/users/2` with a new phone number and name. -/
def sampleUserUpdate : Request :=
  { params := [("id", "2")], body := [("phone", .str "0811"), ("name", .str "Ann B")] }

/-- A database holding the sample users and the sample courses. -/
def sampleSchool : Db :=
  { sampleCatalog with users := [sampleAdmin, sampleStudent], usersNextId := 3 }

/-- A database whose courses table holds rows with scattered ids. -/
def sampleUsedCatalog : Db :=
  { sampleCatalog with
    courses := [sampleCourse 7 "Old" "Bisnis" 3, sampleCourse 12 "Older" "Desain" 2],
    coursesNextId := 13 }

/-- An environment with a toy hash (the password behind the marker `$2a$`), a
secret, and a decoder that accepts only the token text `good` (as user 2). -/
def sampleEnv : Env :=
  { JWT_SECRET := some "secret", JWT_EXPIRES_IN := none, BCRYPT_SALT_ROUNDS := none,
    hash := fun p _ _ => "$2a$" ++ p,
    compare := fun p h => h == "$2a$" ++ p,
    verify := fun t _ =>
      if t = "good" then
        .ok { userId := .num 2 0, email := .str "ann@x.com", role := .str "student",
              secret := "secret", expiresIn := "7d" }
      else .error "invalid token",
    timespan := fun _ => true, random := 41, salt := 7 }

/-- The request `POST /api/auth/register` of the spec's example. -/
def sampleRegister : Request :=
  { body := [("name", .str "Ann"), ("email", .str "ann2@x.com"), ("password", .str "secret1")] }

/-- The request `POST /api/auth/login` with the same credentials. -/
def sampleLogin : Request :=
  { body := [("email", .str "ann2@x.com"), ("password", .str "secret1")] }

/-- The request `GET /api/auth/verify` with the bearer token `good`. -/
def sampleVerify : Request := { headers := [("authorization", "Bearer good")] }

/-- A database whose users table holds the administrator's email with another
password. -/
def sampleShadowDb : Db :=
  { sampleDb with
    users := [{ sampleAdmin with email := .str "admin@videobelajar.com",
                                 password := .str "another-password" }] }

/-- The request `POST /api/auth/login` with the hardcoded administrator pair. -/
def sampleAdminLogin : Request :=
  { body := [("email", .str "admin@videobelajar.com"), ("password", .str "admin123")] }

/-- The request `POST /api/auth/login` of the stored student, whose password is
stored in plain text. -/
def sampleStudentLogin : Request :=
  { body := [("email", .str "ann@x.com"), ("password", .str "secret1")] }

/-- A database with one legacy user: the role is NULL and the password is stored
in plain text. -/
def sampleLegacyDb : Db :=
  { sampleDb with
    users := [{ sampleStudent with id := 5, email := .str "old@x.com", role := .null }],
    usersNextId := 6 }

/-- The request `POST /api/auth/login` of the legacy user. -/
def sampleLegacyLogin : Request :=
  { body := [("email", .str "old@x.com"), ("password", .str "secret1")] }

/-- A register request that also sends a role. -/
def sampleRegisterAsAdmin : Request :=
  { body := [("name", .str "Eve"), ("email", .str "eve@x.com"), ("password", .str "secret1"),
      ("role", .str "admin")] }

/-- A register request with the email of the stored student. -/
def sampleRegisterTaken : Request :=
  { body := [("name", .str "Ann"), ("email", .str "ann@x.com"), ("password", .str "secret2")] }

/-- A request that failed validation, with one error. -/
def sampleInvalid : Request :=
  { errors := ["Course ID must be a valid integer"], params := [("id", "x")] }

/-- The sample database on a connection that fails on the second statement. -/
def sampleFlakyDb : Db := { sampleDb with faults := [false, true] }

/-- The request `DELETE /api/users/2`. -/
def sampleDeleteStudent : Request := { params := [("id", "2")] }

/-- The sample database with another stored password for the student. -/
def sampleRehashedDb : Db :=
  { sampleDb with users := [sampleAdmin, { sampleStudent with password := .str "$2a$other" }] }

/-- The request `PUT /api/users/2` that asks for the email of the administrator. -/
def sampleTakeEmail : Request :=
  { params := [("id", "2")], body := [("email", .str "root@x.com")] }

/-- The request `GET /api/courses?offset=1`. -/
def sampleOffsetRequest : Request := { query := [("offset", "1")] }

/-- The request `GET /api/courses?offset=9007199254740993`. -/
def sampleLargeOffsetRequest : Request := { query := [("offset", "9007199254740993")] }

/-- The request `POST /api/courses` for a course rated 4.5 in `Desain`. -/
def sampleCreateCourse : Request :=
  { body := [("title", .str "Figma"), ("description", .str "Design with Figma"),
      ("mentor", .str "Ann"), ("rolementor", .str "Designer"), ("company", .str "Grab"),
      ("rating", .str "4.5"), ("price", .str "100K"), ("category", .str "Desain")] }

/-- Three courses in component shape, by id. -/
def sampleCourseEntries : List Obj :=
  [[("id", .num 1 0), ("title", .str "Data")], [("id", .num 2 0), ("title", .str "Brand")],
   [("id", .num 3 0), ("title", .str "UX")]]

/-- The courses slice holding the three sample entries. -/
def sampleCoursesState : CoursesState :=
  { CoursesState.initialState with courses := sampleCourseEntries }

/-- A user object as `loginUser` stores it. -/
def sampleStoredUser : Js :=
  .obj [("id", .num 2 0), ("name", .str "Ann"), ("email", .str "ann@x.com"),
    ("token", .str "good")]

/-- Two users as the API serves them. -/
def sampleServedUsers : List Obj :=
  [[("id", .num 1 0), ("email", .str "root@x.com")],
   [("id", .num 2 0), ("email", .str "ann@x.com")]]

/-- Built-ins for the samples: `parseFloat` of an integer literal, and integers
in decimal. -/
def sampleBuiltins : Builtins :=
  { parseFloat := fun x =>
      match x with
      | .str s => (intLiteral s).map (fun m => (m, 0))
      | _ => none
    numberToString := fun m _ => toString m }

/-- A course form whose price is still empty. -/
def sampleEmptyPriceForm : Obj :=
  [("title", .str "Figma"), ("description", .str "Design with Figma"),
   ("tutorName", .str "Ann"), ("position", .str "Designer"), ("company", .str "Grab"),
   ("rating", .str "4"), ("reviewCount", .str "10"), ("price", .str ""),
   ("category", .str "Desain"), ("courseImage", .str "/a.png"), ("tutorImage", .str "/b.png")]

/-- The same form with the price `300`. -/
def samplePricedForm : Obj :=
  [("title", .str "Figma"), ("description", .str "Design with Figma"),
   ("tutorName", .str "Ann"), ("position", .str "Designer"), ("company", .str "Grab"),
   ("rating", .str "4"), ("reviewCount", .str "10"), ("price", .str "300"),
   ("category", .str "Desain"), ("courseImage", .str "/a.png"), ("tutorImage", .str "/b.png")]

/-- Two courses as the API serves them. -/
def sampleProducts : List Obj :=
  [[("id", .num 7 0), ("title", .str "Figma"), ("category", .str "Desain")],
   [("id", .num 8 0), ("title", .str "Ads"), ("category", .str "Pemasaran")]]

/-- The module imported at time 1000, its first `getAllCourses()` answered with
the two sample courses. -/
def sampleCached : CoursesData.State :=
  (CoursesData.getAllCourses 1000 (.ok sampleProducts) CoursesData.State.initial).2

/-- The module imported at time 0 while the API was down. -/
def sampleOffline : CoursesData.State := CoursesData.State.imported 0 (.error "offline")

/-- A stored user whose password is a bcrypt hash. -/
def sampleHashedDb : Db :=
  { sampleDb with users := [{ sampleStudent with password := .str "$2a$secret1" }] }

/-- The request `POST /api/auth/login` whose password is the JSON number
`1234567`. -/
def sampleNumericLogin : Request :=
  { body := [("email", .str "ann@x.com"), ("password", .num 1234567 0)] }

/-- The request `POST /api/auth/register` whose password is the JSON number
`1234567`. -/
def sampleRegisterNumeric : Request :=
  { body := [("name", .str "Ann"), ("email", .str "ann3@x.com"), ("password", .num 1234567 0)] }

/-- The login that follows it, with the same email and password. -/
def sampleLoginNumeric : Request :=
  { body := [("email", .str "ann3@x.com"), ("password", .num 1234567 0)] }

/-! ## Verification -/

theorem executeQuery_fault {α : Type} (st : Statement α) (db : Db)
    (h : db.faults.head? = some true) :
    executeQuery st db = (.error "connection lost", db.issue st) := by
  simp [executeQuery, h]

theorem executeQuery_run {α : Type} (st : Statement α) (db : Db)
    (h : db.connected) (hp : st.params.contains .undefined = false) :
    executeQuery st db =
      match st.run (db.issue st) with
      | .ok (a, db') => (.ok a, db')
      | .error e => (.error e, db.issue st) := by
  unfold Db.connected at h
  simp only [executeQuery, h, hp]
  simp

theorem filter_eq_cons_of_find? {α : Type} {p : α → Bool} {l : List α} {a : α}
    (h : l.find? p = some a) : ∃ rest, l.filter p = a :: rest := by
  induction l with
  | nil => simp at h
  | cons b l ih =>
    by_cases hb : p b = true
    · simp [List.find?, hb] at h
      subst h
      exact ⟨l.filter p, by simp [List.filter, hb]⟩
    · simp [List.find?, hb] at h
      obtain ⟨rest, hr⟩ := ih h
      exact ⟨rest, by simp [List.filter, hb, hr]⟩

theorem idMatches_ne_undefined {n : Nat} {v : Value} (h : idMatches n v = true) :
    v ≠ .undefined := by
  intro hv; subst hv; simp [idMatches] at h

/-- C1. Deleting a user whose id names a row with role `admin` leaves the users
table as it was, whatever the validation result and the connection do; and when
the request passed validation and the connection answers the lookup, the response
is 403 and the only statement issued is the lookup `SELECT` (no `DELETE`). -/
theorem deleteUser_admin_forbidden (req : Request) (db : Db) (user : UserRow)
    (hrow : db.users.find? (fun u => idMatches u.id (req.params.get "id")) = some user)
    (hadmin : user.role = .str "admin") :
    (deleteUser req db).2.users = db.users ∧
    (req.errors = [] → db.connected →
      (deleteUser req db).1.status = 403 ∧
      (deleteUser req db).1.success = false ∧
      (deleteUser req db).2.log =
        db.log ++ [⟨.select, "SELECT * FROM users WHERE id = ?", [req.params.get "id"]⟩]) := by
  have hid : req.params.get "id" ≠ .undefined := by
    have h := List.find?_some hrow
    exact idMatches_ne_undefined h
  have hsel : ∀ d : Db, d.users = db.users → d.connected →
      executeQuery (selectUserById (req.params.get "id")) d =
        (.ok (d.users.filter (fun u => idMatches u.id (req.params.get "id"))),
          d.issue (selectUserById (req.params.get "id"))) := by
    intro d _ hc
    rw [executeQuery_run _ _ hc (by simp [selectUserById]; exact fun h => hid h.symm)]
    simp [selectUserById, Db.issue]
  obtain ⟨rest, hfil⟩ := filter_eq_cons_of_find? hrow
  have hstrict : user.role.strictEq (.str "admin") = true := by
    rw [hadmin]; decide
  constructor
  · unfold deleteUser
    by_cases hv : req.errors = []
    · by_cases hc : db.connected
      · simp [hv, hsel db rfl hc, hfil, hstrict, Db.issue]
      · have hf : db.faults.head? = some true := by
          unfold Db.connected at hc; exact not_not.mp hc
        simp [hv, executeQuery_fault _ _ hf, Db.issue]
    · simp [hv]
  · intro hv hc
    unfold deleteUser
    simp only [hv, hsel db rfl hc, hfil, hstrict]
    simp [Db.issue, selectUserById]

/-- C1 at a concrete table: deleting the admin row 1 of a two-row table. -/
theorem deleteUser_admin_forbidden_witness :
    (deleteUser sampleDeleteAdmin sampleDb).2.users = sampleDb.users ∧
    (sampleDeleteAdmin.errors = [] → sampleDb.connected →
      (deleteUser sampleDeleteAdmin sampleDb).1.status = 403 ∧
      (deleteUser sampleDeleteAdmin sampleDb).1.success = false ∧
      (deleteUser sampleDeleteAdmin sampleDb).2.log =
        sampleDb.log ++ [⟨.select, "SELECT * FROM users WHERE id = ?",
          [sampleDeleteAdmin.params.get "id"]⟩]) :=
  deleteUser_admin_forbidden sampleDeleteAdmin sampleDb sampleAdmin (by decide) (by decide)

theorem pushField_undefined (acc : List String × List Value) (f : String) (v : Value) :
    pushField acc .undefined f v = acc := by
  simp [pushField]

theorem courseUpdate_none (body : Obj)
    (h : ∀ f ∈ courseFields, body.get f = .undefined) : courseUpdate body = ([], []) := by
  simp only [courseFields, List.forall_mem_cons, List.not_mem_nil, IsEmpty.forall_iff,
    implies_true] at h
  obtain ⟨h1, h2, h3, h4, h5, h6, h7, h8, h9, h10, h11, _⟩ := h
  simp only [courseUpdate, h1, h2, h3, h4, h5, h6, h7, h8, h9, h10, h11, pushField_undefined]

theorem userUpdate_none (body : Obj)
    (h : ∀ f ∈ userFields, body.get f = .undefined) : userUpdate body = ([], []) := by
  simp only [userFields, List.forall_mem_cons, List.not_mem_nil, IsEmpty.forall_iff,
    implies_true] at h
  obtain ⟨h1, h2, h3, h4, h5, h6, _⟩ := h
  simp only [userUpdate, h1, h2, h3, h4, h5, h6, pushField_undefined]

theorem noneIssued_refl (k : StmtKind) (db : Db) : noneIssued k db db :=
  ⟨[], by simp, by simp⟩

theorem noneIssued_one (k : StmtKind) (db db' : Db) (e : LogEntry)
    (h : db'.log = db.log ++ [e]) (hk : e.kind ≠ k) : noneIssued k db db' :=
  ⟨[e], h, by simpa using hk⟩

/-- A statement that only reads: `executeQuery` logs it and returns its rows,
or throws on a lost connection or an `undefined` parameter. -/
theorem executeQuery_readonly {α : Type} (st : Statement α) (f : Db → α)
    (hrun : ∀ d, st.run d = .ok (f d, d)) (db : Db) :
    executeQuery st db =
      (if db.faults.head? = some true then .error "connection lost"
       else if st.params.contains .undefined then
         .error "Bind parameters must not contain undefined"
       else .ok (f (db.issue st)), db.issue st) := by
  unfold executeQuery
  split
  · rfl
  · split
    · rfl
    · simp [hrun]

theorem executeQuery_log {α : Type} (st : Statement α) (db : Db)
    (hrun : ∀ d a d', st.run d = .ok (a, d') → d'.log = d.log) :
    (executeQuery st db).2.log = db.log ++ [⟨st.kind, st.sql, st.params⟩] := by
  unfold executeQuery
  split
  · simp [Db.issue]
  · split
    · simp [Db.issue]
    · split
      · rename_i a d' h
        simp [hrun _ _ _ h, Db.issue]
      · simp [Db.issue]

/-- `updateCourse` on a body without recognised fields: validation, the lookup,
then 404 or 400. -/
theorem updateCourse_of_no_field (req : Request) (db : Db)
    (h : ∀ f ∈ courseFields, req.body.get f = .undefined) :
    updateCourse req db =
      if !req.errors.isEmpty then (validationFailed req, db) else
      match executeQuery (selectCourseById (req.params.get "id")) db with
      | (.error _, db1) =>
        ({ status := 500, success := false,
           message := "Terjadi kesalahan saat mengupdate course" }, db1)
      | (.ok existingCourses, db1) =>
        if existingCourses.length = 0 then
          ({ status := 404, success := false, message := "Course tidak ditemukan" }, db1)
        else
          ({ status := 400, success := false, message := "Tidak ada data yang diupdate" }, db1) := by
  unfold updateCourse
  simp only [courseUpdate_none req.body h, List.length_nil, if_true]

/-- `updateUser` on a body without recognised fields: validation, the lookup,
then 404 or 400. -/
theorem updateUser_of_no_field (req : Request) (db : Db)
    (h : ∀ f ∈ userFields, req.body.get f = .undefined) :
    updateUser req db =
      if !req.errors.isEmpty then (validationFailed req, db) else
      match executeQuery (selectUserById (req.params.get "id")) db with
      | (.error _, db1) =>
        ({ status := 500, success := false,
           message := "Terjadi kesalahan saat mengupdate user" }, db1)
      | (.ok existingUsers, db1) =>
        if existingUsers.length = 0 then
          ({ status := 404, success := false, message := "User tidak ditemukan" }, db1)
        else
          ({ status := 400, success := false, message := "Tidak ada data yang diupdate" }, db1) := by
  have hemail : req.body.get "email" = .undefined := h "email" (by simp [userFields])
  have hwrite : ∀ d : Db, updateUserWrite req d =
      ({ status := 400, success := false, message := "Tidak ada data yang diupdate" }, d) := by
    intro d; unfold updateUserWrite
    simp only [userUpdate_none req.body h, List.length_nil, if_true]
  unfold updateUser
  simp only [hemail, hwrite, Value.truthy, Bool.false_and, Bool.false_eq_true, if_false]
  split
  · rfl
  · split
    · rfl
    · rename_i rows _ _
      cases rows <;> simp

/-- C2 (as amended). An update request whose body holds none of the recognised
fields never issues an `UPDATE` and leaves the table as it was, for every id and
every database state.  The status is 400 when validation failed; when validation
passed and the lookup ran, it is 404 if no row has the id and 400 if one has. -/
theorem empty_update_no_write (reqC reqU : Request) (db : Db)
    (hc : ∀ f ∈ courseFields, reqC.body.get f = .undefined)
    (hu : ∀ f ∈ userFields, reqU.body.get f = .undefined) :
    (noneIssued .update db (updateCourse reqC db).2 ∧
      (updateCourse reqC db).2.courses = db.courses ∧
      (reqC.errors ≠ [] → (updateCourse reqC db).1.status = 400) ∧
      (reqC.errors = [] → db.connected → reqC.params.get "id" ≠ .undefined →
        ((∀ c ∈ db.courses, idMatches c.id (reqC.params.get "id") = false) →
          (updateCourse reqC db).1.status = 404) ∧
        ((∃ c ∈ db.courses, idMatches c.id (reqC.params.get "id") = true) →
          (updateCourse reqC db).1.status = 400))) ∧
    (noneIssued .update db (updateUser reqU db).2 ∧
      (updateUser reqU db).2.users = db.users ∧
      (reqU.errors ≠ [] → (updateUser reqU db).1.status = 400) ∧
      (reqU.errors = [] → db.connected → reqU.params.get "id" ≠ .undefined →
        ((∀ u ∈ db.users, idMatches u.id (reqU.params.get "id") = false) →
          (updateUser reqU db).1.status = 404) ∧
        ((∃ u ∈ db.users, idMatches u.id (reqU.params.get "id") = true) →
          (updateUser reqU db).1.status = 400))) := by
  constructor
  · -- updateCourse
    rw [updateCourse_of_no_field reqC db hc,
      executeQuery_readonly (selectCourseById (reqC.params.get "id"))
        (fun d => d.courses.filter (fun c => idMatches c.id (reqC.params.get "id")))
        (fun d => rfl) db]
    have hnone : noneIssued .update db (db.issue (selectCourseById (reqC.params.get "id"))) :=
      noneIssued_one .update db _ _ rfl (fun h => StmtKind.noConfusion h)
    by_cases hv : reqC.errors = []
    · simp only [hv, List.isEmpty_nil, Bool.not_true, Bool.false_eq_true, if_false]
      refine ⟨?_, ?_, fun h => absurd rfl h, ?_⟩
      · split_ifs <;> dsimp only <;> (try split_ifs) <;> exact hnone
      · split_ifs <;> dsimp only <;> (try split_ifs) <;> rfl
      · intro _ hconn hid
        have hp : (selectCourseById (reqC.params.get "id")).params.contains .undefined
            = false := by
          simp [selectCourseById]; exact fun e => hid e.symm
        unfold Db.connected at hconn
        simp only [hconn, hp, if_false, Bool.false_eq_true]
        constructor
        · intro hno
          have hnil : db.courses.filter
              (fun c => idMatches c.id (reqC.params.get "id")) = [] := by
            rw [List.filter_eq_nil_iff]; intro c hcm; simp [hno c hcm]
          simp [Db.issue, hnil]
        · intro hex
          obtain ⟨c, hcm, hcid⟩ := hex
          have hne : (db.courses.filter
              (fun c => idMatches c.id (reqC.params.get "id"))).length ≠ 0 := by
            intro h0
            have := List.length_eq_zero.mp h0
            rw [List.filter_eq_nil_iff] at this
            exact this c hcm hcid
          simp [Db.issue, hne]
    · have hv' : (!reqC.errors.isEmpty) = true := by
        cases h : reqC.errors with
        | nil => exact absurd h hv
        | cons _ _ => rfl
      rw [if_pos hv']
      exact ⟨noneIssued_refl _ _, rfl, fun _ => rfl, fun h => absurd h hv⟩
  · -- updateUser
    rw [updateUser_of_no_field reqU db hu,
      executeQuery_readonly (selectUserById (reqU.params.get "id"))
        (fun d => d.users.filter (fun u => idMatches u.id (reqU.params.get "id")))
        (fun d => rfl) db]
    have hnone : noneIssued .update db (db.issue (selectUserById (reqU.params.get "id"))) :=
      noneIssued_one .update db _ _ rfl (fun h => StmtKind.noConfusion h)
    by_cases hv : reqU.errors = []
    · simp only [hv, List.isEmpty_nil, Bool.not_true, Bool.false_eq_true, if_false]
      refine ⟨?_, ?_, fun h => absurd rfl h, ?_⟩
      · split_ifs <;> dsimp only <;> (try split_ifs) <;> exact hnone
      · split_ifs <;> dsimp only <;> (try split_ifs) <;> rfl
      · intro _ hconn hid
        have hp : (selectUserById (reqU.params.get "id")).params.contains .undefined
            = false := by
          simp [selectUserById]; exact fun e => hid e.symm
        unfold Db.connected at hconn
        simp only [hconn, hp, if_false, Bool.false_eq_true]
        constructor
        · intro hno
          have hnil : db.users.filter
              (fun u => idMatches u.id (reqU.params.get "id")) = [] := by
            rw [List.filter_eq_nil_iff]; intro u hum; simp [hno u hum]
          simp [Db.issue, hnil]
        · intro hex
          obtain ⟨u, hum, huid⟩ := hex
          have hne : (db.users.filter
              (fun u => idMatches u.id (reqU.params.get "id"))).length ≠ 0 := by
            intro h0
            have := List.length_eq_zero.mp h0
            rw [List.filter_eq_nil_iff] at this
            exact this u hum huid
          simp [Db.issue, hne]
    · have hv' : (!reqU.errors.isEmpty) = true := by
        cases h : reqU.errors with
        | nil => exact absurd h hv
        | cons _ _ => rfl
      rw [if_pos hv']
      exact ⟨noneIssued_refl _ _, rfl, fun _ => rfl, fun h => absurd h hv⟩

/-- C2 at concrete requests: empty bodies sent to course 7 (absent) and user 2
(present) of the sample database. -/
theorem empty_update_no_write_witness :
    (noneIssued .update sampleDb (updateCourse sampleEmptyUpdate sampleDb).2 ∧
      (updateCourse sampleEmptyUpdate sampleDb).2.courses = sampleDb.courses ∧
      (updateCourse sampleEmptyUpdate sampleDb).1.status = 404) ∧
    (noneIssued .update sampleDb (updateUser sampleEmptyUserUpdate sampleDb).2 ∧
      (updateUser sampleEmptyUserUpdate sampleDb).2.users = sampleDb.users ∧
      (updateUser sampleEmptyUserUpdate sampleDb).1.status = 400) := by
  have h := empty_update_no_write sampleEmptyUpdate sampleEmptyUserUpdate sampleDb
    (by decide) (by decide)
  refine ⟨⟨h.1.1, h.1.2.1, ?_⟩, ⟨h.2.1, h.2.2.1, ?_⟩⟩
  · exact (h.1.2.2.2 rfl (by decide) (by decide)).1 (by decide)
  · exact (h.2.2.2.2 rfl (by decide) (by decide)).2 ⟨sampleStudent, by decide, by decide⟩

/-- C2 refuted as stated: an empty-body update of a course id that names no row
is answered 404, not 400. -/
theorem empty_update_not_always_400 :
    (∀ f ∈ courseFields, sampleEmptyUpdate.body.get f = .undefined) ∧
    (updateCourse sampleEmptyUpdate sampleDb).1.status = 404 ∧
    (updateUser sampleEmptyUpdate sampleDb).1.status = 404 := by
  decide

/-! ### The course list -/

theorem courseList_conditions (q : Strings) :
    (courseList q).conditions =
      filterConditions (q.get "category").truthy (q.get "search").truthy := by
  unfold courseList filterConditions
  by_cases hc : (q.get "category").truthy = true <;>
    by_cases hs : (q.get "search").truthy = true <;> simp [hc, hs]

theorem courseList_sortColumn (q : Strings) :
    (courseList q).sortColumn =
      if includes allowedSort (q.get "sortBy") then (q.get "sortBy").text else "created_at" := by
  unfold courseList
  by_cases hc : (q.get "category").truthy = true <;>
    by_cases hs : (q.get "search").truthy = true <;> simp [hc, hs]

theorem courseList_sortOrder (q : Strings) :
    (courseList q).sortOrder =
      if (q.get "sort").truthy && toUpperCase (q.get "sort").text == "ASC" then "ASC"
      else "DESC" := by
  unfold courseList
  by_cases hc : (q.get "category").truthy = true <;>
    by_cases hs : (q.get "search").truthy = true <;> simp [hc, hs]

theorem string_append_assoc (a b c : String) : a ++ b ++ c = a ++ (b ++ c) := by
  apply String.ext; simp [List.append_assoc]

theorem courseList_query (q : Strings) :
    (courseList q).query =
      courseListText (q.get "category").truthy (q.get "search").truthy
        (courseList q).sortColumn (courseList q).sortOrder
        (q.get "limit").truthy (q.get "offset").truthy := by
  unfold courseList courseListText whereClause limitClause filterConditions
  by_cases hc : (q.get "category").truthy = true <;>
    by_cases hs : (q.get "search").truthy = true <;>
    by_cases hl : (q.get "limit").truthy = true <;>
    by_cases ho : (q.get "offset").truthy = true <;>
    simp [hc, hs, hl, ho, string_append_assoc]

theorem courseList_queryParams (q : Strings) :
    (courseList q).queryParams =
      filterParams (q.get "category") (q.get "search") ++
        limitParams (q.get "limit") (q.get "offset") := by
  unfold courseList filterParams limitParams
  by_cases hc : (q.get "category").truthy = true <;>
    by_cases hs : (q.get "search").truthy = true <;>
    by_cases hl : (q.get "limit").truthy = true <;>
    by_cases ho : (q.get "offset").truthy = true <;>
    simp [hc, hs, hl, ho]

theorem includes_mem {xs : List String} {v : Value} (h : includes xs v = true) :
    v.text ∈ xs := by
  cases v <;> simp [includes] at h
  simpa [Value.text] using h

/-- C3 (as amended). When `sortBy` is not a recognised sort column the list is
ordered by `created_at`; the direction is `DESC` unless the upper-case form of
`sort` is `ASC`, in which case it is `ASC` (so it is `DESC` when `sort` is
absent). -/
theorem unrecognised_sortBy_falls_back (q : Strings)
    (h : includes allowedSort (q.get "sortBy") = false) :
    (courseList q).sortColumn = "created_at" ∧
    (courseList q).sortOrder =
      (if (q.get "sort").truthy && toUpperCase (q.get "sort").text == "ASC" then "ASC"
       else "DESC") ∧
    (q.get "sort" = .undefined → (courseList q).sortOrder = "DESC") ∧
    (courseList q).query =
      courseListText (q.get "category").truthy (q.get "search").truthy "created_at"
        (if (q.get "sort").truthy && toUpperCase (q.get "sort").text == "ASC" then "ASC"
         else "DESC")
        (q.get "limit").truthy (q.get "offset").truthy := by
  have hcol : (courseList q).sortColumn = "created_at" := by
    rw [courseList_sortColumn, h]; rfl
  have hord := courseList_sortOrder q
  refine ⟨hcol, hord, ?_, ?_⟩
  · intro hs
    rw [hord, hs]; rfl
  · rw [courseList_query, hcol, hord]

set_option maxRecDepth 100000 in
/-- C3 at `sortBy=foo&sort=ASC`. -/
theorem unrecognised_sortBy_falls_back_witness :
    (courseList sampleSortQuery).sortColumn = "created_at" ∧
    (courseList sampleSortQuery).sortOrder = "ASC" ∧
    (courseList sampleSortQuery).query = courseListSelect ++ " ORDER BY created_at ASC" := by
  have h := unrecognised_sortBy_falls_back sampleSortQuery (by decide)
  refine ⟨h.1, ?_, ?_⟩
  · rw [h.2.1]; decide
  · rw [h.2.2.2]; decide

set_option maxRecDepth 100000 in
/-- C3 refuted as stated: with the unrecognised `sortBy=foo` and `sort=ASC` the
query is ordered by `created_at ASC`, not `created_at DESC`. -/
theorem unrecognised_sortBy_keeps_ASC :
    includes allowedSort (sampleSortQuery.get "sortBy") = false ∧
    (courseList sampleSortQuery).query = courseListSelect ++ " ORDER BY created_at ASC" ∧
    (courseList sampleSortQuery).query ≠ courseListSelect ++ " ORDER BY created_at DESC" := by
  decide

/-- C7. Whatever `sortBy` and `sort` are, the `ORDER BY` clause is a column of
the allow-list followed by `ASC` or `DESC`, and the query text is the fixed text
`courseListText` of that column, that direction and four flags (whether category,
search, limit and offset are supplied): the values of category, search, limit and
offset occur only among the bound parameters. -/
theorem courseList_text_allowlisted (q : Strings) :
    (courseList q).sortColumn ∈ allowedSort ∧
    ((courseList q).sortOrder = "ASC" ∨ (courseList q).sortOrder = "DESC") ∧
    (courseList q).query =
      courseListText (q.get "category").truthy (q.get "search").truthy
        (courseList q).sortColumn (courseList q).sortOrder
        (q.get "limit").truthy (q.get "offset").truthy ∧
    (courseList q).queryParams =
      filterParams (q.get "category") (q.get "search") ++
        limitParams (q.get "limit") (q.get "offset") ∧
    ((courseCount (courseList q)).1 =
      "SELECT COUNT(*) as total FROM courses" ++
        whereClause (filterConditions (q.get "category").truthy (q.get "search").truthy)) := by
  refine ⟨?_, ?_, courseList_query q, courseList_queryParams q, ?_⟩
  · rw [courseList_sortColumn]
    split
    · rename_i hin
      exact includes_mem hin
    · decide
  · rw [courseList_sortOrder]
    split
    · exact Or.inl rfl
    · exact Or.inr rfl
  · unfold courseCount whereClause
    rw [courseList_conditions]
    unfold filterConditions
    by_cases hc : (q.get "category").truthy = true <;>
      by_cases hs : (q.get "search").truthy = true <;> simp [hc, hs] <;> rfl

theorem filterParams_length (category search : Value) :
    (filterParams category search).length =
      (filterConditions category.truthy search.truthy).length := by
  unfold filterParams filterConditions
  by_cases hc : category.truthy = true <;> by_cases hs : search.truthy = true <;>
    simp [hc, hs]

theorem filterConditions_known (c s : Bool) :
    ∀ f ∈ filterConditions c s, f ∈ courseConditions := by
  cases c <;> cases s <;> simp [filterConditions, courseConditions]

theorem courseMatches_filter (category search : Value) (c : CourseRow) :
    courseMatches (filterConditions category.truthy search.truthy)
      (filterParams category search) c =
    ((!category.truthy || sqlEq c.category category) &&
     (!search.truthy || sqlLike c.title (.str ("%" ++ search.text ++ "%")))) := by
  unfold courseMatches filterParams filterConditions
  by_cases hc : category.truthy = true <;> by_cases hs : search.truthy = true <;>
    simp [hc, hs, courseCondition]

theorem courseCount_eq (q : Strings) :
    courseCount (courseList q) =
      ("SELECT COUNT(*) as total FROM courses" ++
        whereClause (filterConditions (q.get "category").truthy (q.get "search").truthy),
       filterParams (q.get "category") (q.get "search")) := by
  have hlen := filterParams_length (q.get "category") (q.get "search")
  unfold courseCount
  rw [courseList_queryParams, courseList_conditions, ← hlen, List.take_left']
  · unfold whereClause filterParams filterConditions
    by_cases hc : (q.get "category").truthy = true <;>
      by_cases hs : (q.get "search").truthy = true <;> simp [hc, hs] <;> rfl
  · rfl

/-- The count statement of the course list counts the courses that pass the
filters. -/
theorem countCourses_run (text : String) (category search : Value) (d : Db) :
    (countCourses text (filterConditions category.truthy search.truthy)
      (filterParams category search)).run d =
      .ok ([(matchingCourses category search d).length], d) := by
  have hk := filterConditions_known category.truthy search.truthy
  have hfun : courseMatches (filterConditions category.truthy search.truthy)
      (filterParams category search) = (fun c =>
        (!category.truthy || sqlEq c.category category) &&
        (!search.truthy || sqlLike c.title (.str ("%" ++ search.text ++ "%")))) :=
    funext (courseMatches_filter category search)
  simp only [countCourses, filterParams_length, ne_eq, not_true_eq_false, if_false,
    hfun, matchingCourses]
  rw [if_neg (not_not.mpr hk)]

/-- A statement whose run never changes the database leaves it as issued. -/
theorem executeQuery_snd_readonly {α : Type} (st : Statement α) (db : Db)
    (hrun : ∀ d a d', st.run d = .ok (a, d') → d' = d) :
    (executeQuery st db).2 = db.issue st := by
  unfold executeQuery
  split
  · rfl
  · split
    · rfl
    · split
      · rename_i a d' h
        exact hrun _ _ _ h
      · rfl

theorem selectCourses_readonly (text : String) (conditions : List String)
    (sortColumn sortOrder : String) (limited paged : Bool) (params : List Value)
    (d : Db) (a : List CourseRow) (d' : Db)
    (h : (selectCourses text conditions sortColumn sortOrder limited paged params).run d
      = .ok (a, d')) : d' = d := by
  simp only [selectCourses] at h
  split_ifs at h
  all_goals first
    | (injection h with h; injection h with _ h; exact h.symm)
    | (split at h
       · cases h
       · first
         | (injection h with h; injection h with _ h; exact h.symm)
         | (split at h
            · cases h
            · injection h with h; injection h with _ h; exact h.symm))

/-- C8. The count query of the course list has the `WHERE` clause of the list
query and is bound to the filter values only (the category, then the pattern
`%search%`), never to `limit` or `offset`; and in every successful response
`pagination.total` is the number of courses that pass the filters, a number in
which `limit` and `offset` play no part. -/
theorem count_query_follows_filters (req : Request) (db : Db) :
    (courseList req.query).query =
      courseListSelect ++ whereClause (courseList req.query).conditions ++ " ORDER BY " ++
        (courseList req.query).sortColumn ++ " " ++ (courseList req.query).sortOrder ++
        limitClause (req.query.get "limit").truthy (req.query.get "offset").truthy ∧
    (courseCount (courseList req.query)).1 =
      "SELECT COUNT(*) as total FROM courses" ++ whereClause (courseList req.query).conditions ∧
    (courseCount (courseList req.query)).2 =
      filterParams (req.query.get "category") (req.query.get "search") ∧
    ((getAllCourses req db).1.status = 200 →
      ∃ p, (getAllCourses req db).1.pagination = some p ∧
        p.total = (matchingCourses (req.query.get "category") (req.query.get "search")
          db).length) := by
  refine ⟨?_, ?_, ?_, ?_⟩
  · rw [courseList_query, courseList_conditions]; rfl
  · rw [courseCount_eq, courseList_conditions]
  · rw [courseCount_eq]
  · intro hok
    unfold getAllCourses at hok ⊢
    by_cases hv : (!req.errors.isEmpty) = true
    · rw [if_pos hv] at hok; simp [validationFailed] at hok
    · rw [if_neg hv] at hok ⊢
      dsimp only at hok ⊢
      have hdb := executeQuery_snd_readonly
        (selectCourses (courseList req.query).query (courseList req.query).conditions
          (courseList req.query).sortColumn (courseList req.query).sortOrder
          (req.query.get "limit").truthy (req.query.get "offset").truthy
          (courseList req.query).queryParams) db (selectCourses_readonly _ _ _ _ _ _ _)
      rcases h1 : executeQuery
        (selectCourses (courseList req.query).query (courseList req.query).conditions
          (courseList req.query).sortColumn (courseList req.query).sortOrder
          (req.query.get "limit").truthy (req.query.get "offset").truthy
          (courseList req.query).queryParams) db with ⟨r, db1⟩
      rw [h1] at hok hdb
      cases r with
      | error e => simp at hok
      | ok courses =>
        dsimp only at hdb hok ⊢
        subst hdb
        rw [courseCount_eq] at hok ⊢
        dsimp only at hok ⊢
        rw [courseList_conditions,
          executeQuery_readonly _ _ (countCourses_run _ _ _)] at hok ⊢
        by_cases hf : (db.issue (selectCourses (courseList req.query).query
            (filterConditions (req.query.get "category").truthy (req.query.get "search").truthy)
            (courseList req.query).sortColumn (courseList req.query).sortOrder
            (req.query.get "limit").truthy (req.query.get "offset").truthy
            (courseList req.query).queryParams)).faults.head? = some true
        · rw [if_pos hf] at hok; simp at hok
        · rw [if_neg hf] at hok ⊢
          by_cases hp : (countCourses
              ("SELECT COUNT(*) as total FROM courses" ++ whereClause
                (filterConditions (req.query.get "category").truthy
                  (req.query.get "search").truthy))
              (filterConditions (req.query.get "category").truthy
                (req.query.get "search").truthy)
              (filterParams (req.query.get "category") (req.query.get "search"))).params.contains
                .undefined = true
          · rw [if_pos hp] at hok; simp at hok
          · rw [if_neg hp]
            exact ⟨_, rfl, rfl⟩

/-- C8 at `search=a&limit=1&offset=5` on the sample catalogue: the page is empty
and the total counts the two titles that hold an `a`. -/
theorem count_query_follows_filters_witness :
    (getAllCourses samplePagedRequest sampleCatalog).1.data = .courses [] ∧
    ∃ p, (getAllCourses samplePagedRequest sampleCatalog).1.pagination = some p ∧
      p.total = (matchingCourses (samplePagedRequest.query.get "category")
        (samplePagedRequest.query.get "search") sampleCatalog).length ∧ p.total = 2 := by
  obtain ⟨p, hp, ht⟩ :=
    (count_query_follows_filters samplePagedRequest sampleCatalog).2.2.2 (by decide)
  refine ⟨by decide, p, hp, ht, ?_⟩
  rw [ht]; decide

theorem connectedFor_succ {n : Nat} {db : Db} (h : db.connectedFor (n + 1)) :
    db.connected := by
  unfold Db.connected
  unfold Db.connectedFor at h
  cases hf : db.faults with
  | nil => simp
  | cons b rest =>
    rw [hf] at h
    have := h b (by simp)
    simp [this]

theorem connectedFor_issue {α : Type} {n : Nat} {db : Db} (st : Statement α)
    (h : db.connectedFor (n + 1)) : (db.issue st).connectedFor n := by
  unfold Db.connectedFor at h ⊢
  intro b hb
  apply h b
  cases hf : db.faults with
  | nil => simp [Db.issue, hf] at hb
  | cons c rest =>
    simp only [Db.issue, hf, List.tail_cons] at hb
    simp [List.take_succ_cons, hb]

theorem courseList_of_no_parameter (q : Strings)
    (hq : ∀ k ∈ courseListParameters, q.get k = .undefined) :
    courseList q =
      { query := courseListSelect ++ " ORDER BY created_at DESC", queryParams := [],
        conditions := [], sortColumn := "created_at", sortOrder := "DESC" } := by
  simp only [courseListParameters, List.forall_mem_cons, List.not_mem_nil,
    IsEmpty.forall_iff, implies_true] at hq
  obtain ⟨h1, h2, h3, h4, h5, h6, _⟩ := hq
  unfold courseList
  simp [h1, h2, h3, h4, h5, h6, Value.truthy, includes, string_append_assoc]

theorem orderBy_created_desc_perm (rows : List CourseRow) :
    (orderBy "created_at" "DESC" rows).Perm rows := by
  unfold orderBy
  rw [if_neg (by decide)]
  exact List.perm_insertionSort _ _

theorem orderBy_created_desc_sorted (rows : List CourseRow) :
    (orderBy "created_at" "DESC" rows).Sorted (fun a b => b.created_at ≤ a.created_at) := by
  unfold orderBy
  rw [if_neg (by decide)]
  have hrel : ∀ a b : CourseRow,
      courseLe "created_at" b a = true ↔ b.created_at ≤ a.created_at := by
    intro a b
    simp [courseLe]
  haveI : IsTotal CourseRow (fun a b : CourseRow => courseLe "created_at" b a = true) :=
    ⟨fun a b => by
      rcases Nat.le_total b.created_at a.created_at with h | h
      · exact Or.inl ((hrel a b).mpr h)
      · exact Or.inr ((hrel b a).mpr h)⟩
  haveI : IsTrans CourseRow (fun a b : CourseRow => courseLe "created_at" b a = true) :=
    ⟨fun a b c hab hbc =>
      (hrel a c).mpr (Nat.le_trans ((hrel b c).mp hbc) ((hrel a b).mp hab))⟩
  exact (List.sorted_insertionSort
    (fun a b : CourseRow => courseLe "created_at" b a = true) rows).imp
    (fun {a b} h => (hrel a b).mp h)

/-- C6. A list request that passed validation and supplies none of the query
parameters issues the list query with no `WHERE` and no `LIMIT`/`OFFSET`, ordered
by `created_at DESC`, then the bare count query; the response holds every row of
the courses table, latest first, and `pagination.total` is the number of rows
returned. -/
theorem list_without_parameters (req : Request) (db : Db)
    (hv : req.errors = [])
    (hq : ∀ k ∈ courseListParameters, req.query.get k = .undefined)
    (hconn : db.connectedFor 2) :
    ∃ rows,
      (getAllCourses req db).1.status = 200 ∧
      (getAllCourses req db).1.data = .courses rows ∧
      rows.Perm db.courses ∧
      rows.Sorted (fun a b => b.created_at ≤ a.created_at) ∧
      (getAllCourses req db).1.pagination =
        some { total := rows.length, count := rows.length, limit := .null, offset := .null } ∧
      (getAllCourses req db).2.log = db.log ++
        [⟨.select, courseListSelect ++ " ORDER BY created_at DESC", []⟩,
         ⟨.select, "SELECT COUNT(*) as total FROM courses", []⟩] ∧
      (getAllCourses req db).2.courses = db.courses := by
  have hl := courseList_of_no_parameter req.query hq
  have hlimit : (req.query.get "limit").truthy = false := by
    rw [hq "limit" (by simp [courseListParameters])]; rfl
  have hoffset : (req.query.get "offset").truthy = false := by
    rw [hq "offset" (by simp [courseListParameters])]; rfl
  have hc1 : db.connected := connectedFor_succ hconn
  have hall : courseMatches [] [] = fun _ => true := by
    funext c; simp [courseMatches]
  refine ⟨orderBy "created_at" "DESC" db.courses, ?_⟩
  have hlen : (orderBy "created_at" "DESC" db.courses).length = db.courses.length :=
    (orderBy_created_desc_perm db.courses).length_eq
  have hrun1 : ∀ d : Db, (selectCourses (courseListSelect ++ " ORDER BY created_at DESC") []
      "created_at" "DESC" false false []).run d =
        .ok (orderBy "created_at" "DESC" d.courses, d) := by
    intro d
    simp [selectCourses, allowedSort, hall]
  have hrun2 : ∀ d : Db, (countCourses "SELECT COUNT(*) as total FROM courses" [] []).run d =
      .ok ([d.courses.length], d) := by
    intro d
    simp [countCourses, hall]
  have hcount : courseCount
      { query := courseListSelect ++ " ORDER BY created_at DESC", queryParams := [],
        conditions := [], sortColumn := "created_at", sortOrder := "DESC" } =
      ("SELECT COUNT(*) as total FROM courses", []) := rfl
  have hc2 : (db.issue (selectCourses (courseListSelect ++ " ORDER BY created_at DESC") []
      "created_at" "DESC" false false [])).connected :=
    connectedFor_succ (connectedFor_issue _ hconn)
  unfold Db.connected at hc1 hc2
  have hresult : getAllCourses req db =
      ({ status := 200, success := true, message := "Courses retrieved successfully",
         data := .courses (orderBy "created_at" "DESC" db.courses),
         pagination := some
           { total := db.courses.length,
             count := (orderBy "created_at" "DESC" db.courses).length,
             limit := .null, offset := .null } },
       (db.issue (selectCourses (courseListSelect ++ " ORDER BY created_at DESC") []
          "created_at" "DESC" false false [])).issue
          (countCourses "SELECT COUNT(*) as total FROM courses" [] [])) := by
    unfold getAllCourses
    simp only [hv, hl, hlimit, hoffset, hcount, List.isEmpty_nil, Bool.not_true,
      Bool.false_eq_true, if_false]
    rw [executeQuery_readonly _ _ hrun1]
    simp only [hc1, if_false]
    rw [if_neg (by simp [selectCourses])]
    simp only []
    rw [executeQuery_readonly _ _ hrun2]
    simp only [hc2, if_false]
    rw [if_neg (by simp [countCourses])]
    rfl
  rw [hresult]
  refine ⟨rfl, rfl, orderBy_created_desc_perm _, orderBy_created_desc_sorted _, ?_, ?_, rfl⟩
  · simp only [hlen]
  · simp [Db.issue, selectCourses, countCourses]

/-- C6 at the sample catalogue: the three courses come back latest first. -/
theorem list_without_parameters_witness :
    ∃ rows,
      (getAllCourses sampleListRequest sampleCatalog).1.status = 200 ∧
      (getAllCourses sampleListRequest sampleCatalog).1.data = .courses rows ∧
      rows.Perm sampleCatalog.courses ∧
      rows.Sorted (fun a b => b.created_at ≤ a.created_at) ∧
      (getAllCourses sampleListRequest sampleCatalog).1.pagination =
        some { total := rows.length, count := rows.length, limit := .null, offset := .null } ∧
      (getAllCourses sampleListRequest sampleCatalog).2.log = sampleCatalog.log ++
        [⟨.select, courseListSelect ++ " ORDER BY created_at DESC", []⟩,
         ⟨.select, "SELECT COUNT(*) as total FROM courses", []⟩] ∧
      (getAllCourses sampleListRequest sampleCatalog).2.courses = sampleCatalog.courses :=
  list_without_parameters sampleListRequest sampleCatalog (by decide) (by decide) (by decide)

/-! ### Partial updates -/

theorem pushField_eq (acc : List String × List Value) (field : Value) (f : String)
    (v : Value) :
    pushField acc field f v =
      (acc.1 ++ (if field != .undefined then [f] else []),
       acc.2 ++ (if field != .undefined then [v] else [])) := by
  unfold pushField
  by_cases h : field = .undefined <;> simp [h]

theorem filter_map_eq_flatMap {α β : Type} (p : α → Bool) (g : α → β) (l : List α) :
    (l.filter p).map g = l.flatMap (fun a => if p a then [g a] else []) := by
  induction l with
  | nil => rfl
  | cons a l ih =>
    by_cases h : p a = true <;> simp [List.filter_cons, List.flatMap_cons, h, ih]

theorem courseUpdate_eq (body : Obj) :
    courseUpdate body =
      ((presentFields courseFields body).map (fun f => f ++ " = ?"),
       (presentFields courseFields body).map (courseValue body)) := by
  unfold presentFields
  rw [filter_map_eq_flatMap, filter_map_eq_flatMap]
  simp only [courseUpdate, pushField_eq, courseFields, List.flatMap_cons, List.flatMap_nil,
    List.nil_append, List.append_nil, List.append_assoc, courseValue]
  simp

theorem userUpdate_eq (body : Obj) :
    userUpdate body =
      ((presentFields userFields body).map (fun f => f ++ " = ?"),
       (presentFields userFields body).map (userValue body)) := by
  unfold presentFields
  rw [filter_map_eq_flatMap, filter_map_eq_flatMap]
  simp only [userUpdate, pushField_eq, userFields, List.flatMap_cons, List.flatMap_nil,
    List.nil_append, List.append_nil, List.append_assoc, userValue]
  simp

theorem placeholders_append (a b : String) :
    placeholders (a ++ b) = placeholders a + placeholders b := by
  simp [placeholders, List.count_append]

theorem placeholders_join (fs : List String) (h : ∀ f ∈ fs, placeholders f = 1) :
    placeholders (join ", " fs) = fs.length := by
  induction fs with
  | nil => rfl
  | cons a rest ih =>
    cases rest with
    | nil => simpa [join] using h a (by simp)
    | cons b rest =>
      have ha := h a (by simp)
      have hr := ih (fun f hf => h f (by simp [hf]))
      simp only [join, placeholders_append, ha] at hr ⊢
      rw [hr]
      have : placeholders ", " = 0 := by decide
      simp [this]; omega

theorem placeholders_updateText (table : String) (columns : List String)
    (ht : placeholders table = 0) (hc : ∀ f ∈ columns, placeholders f = 0) :
    placeholders (updateText table columns) = columns.length + 1 := by
  have hj : placeholders (join ", " (columns.map (fun f => f ++ " = ?"))) =
      (columns.map (fun f => f ++ " = ?")).length := by
    apply placeholders_join
    intro f hf
    obtain ⟨g, hg, rfl⟩ := List.mem_map.mp hf
    rw [placeholders_append, hc g hg]
    decide
  have h1 : placeholders "\n            UPDATE " = 0 := by decide
  have h2 : placeholders " \n            SET " = 0 := by decide
  have h3 : placeholders
      ", updated_at = CURRENT_TIMESTAMP\n            WHERE id = ?\n        " = 1 := by
    decide
  simp only [updateText, placeholders_append, hj, h1, h2, h3, ht, List.length_map]
  omega

theorem updateCourses_sql (columns : List String) (values : List Value) :
    (updateCourses (columns.map (fun f => f ++ " = ?")) values).sql =
      updateText "courses" columns := rfl

theorem updateUsers_sql (columns : List String) (values : List Value) :
    (updateUsers (columns.map (fun f => f ++ " = ?")) values).sql =
      updateText "users" columns := rfl

theorem presentFields_ne_nil {fields : List String} {body : Obj}
    (h : ∃ f ∈ fields, body.get f ≠ .undefined) : presentFields fields body ≠ [] := by
  obtain ⟨f, hf, hne⟩ := h
  intro hnil
  have : f ∈ presentFields fields body := by
    simp [presentFields, hf, hne]
  rw [hnil] at this
  simp at this

theorem updateCourses_log (fs : List String) (vs : List Value) (d : Db)
    (a : ResultHeader) (d' : Db) (h : (updateCourses fs vs).run d = .ok (a, d')) :
    d'.log = d.log := by
  simp only [updateCourses] at h
  split_ifs at h
  injection h with h
  injection h with _ h
  rw [← h]

theorem updateUsers_log (fs : List String) (vs : List Value) (d : Db)
    (a : ResultHeader) (d' : Db) (h : (updateUsers fs vs).run d = .ok (a, d')) :
    d'.log = d.log := by
  simp only [updateUsers] at h
  split_ifs at h
  injection h with h
  injection h with _ h
  rw [← h]

/-- From the `UPDATE` on, `updateCourse` logs the update and at most the final
`SELECT`. -/
theorem updateCourse_tail_log (fs : List String) (vs : List Value) (id : Value) (d : Db)
    (failed : Response) :
    ∃ rest,
      (match executeQuery (updateCourses fs vs) d with
        | (.error _, db2) => (failed, db2)
        | (.ok _, db2) =>
          match executeQuery (selectCourseColumnsById id) db2 with
          | (.error _, db3) => (failed, db3)
          | (.ok updatedCourses, db3) =>
            ({ status := 200, success := true, message := "Course updated successfully",
               data := .course updatedCourses.head? }, db3)).2.log =
        d.log ++ ⟨.update, (updateCourses fs vs).sql, vs⟩ :: rest ∧
      ∀ e ∈ rest, e.kind = .select := by
  have h1 := executeQuery_log (updateCourses fs vs) d (updateCourses_log fs vs)
  rcases hq : executeQuery (updateCourses fs vs) d with ⟨r, d2⟩
  rw [hq] at h1
  cases r with
  | error e => exact ⟨[], by simpa [updateCourses] using h1, by simp⟩
  | ok a =>
    dsimp only
    have h2 := executeQuery_log (selectCourseColumnsById id) d2
      (fun _ _ _ h => by simp only [selectCourseColumnsById] at h; cases h; rfl)
    rcases hq2 : executeQuery (selectCourseColumnsById id) d2 with ⟨r2, d3⟩
    rw [hq2] at h2
    refine ⟨[⟨.select, (selectCourseColumnsById id).sql, [id]⟩], ?_, by simp⟩
    have h1' : d2.log = d.log ++ [⟨.update, (updateCourses fs vs).sql, vs⟩] := by
      simpa [updateCourses] using h1
    have h2' : d3.log = d2.log ++ [⟨.select, (selectCourseColumnsById id).sql, [id]⟩] := by
      simpa [selectCourseColumnsById] using h2
    cases r2 <;> simp [h2', h1']

/-- From the `UPDATE` on, `updateUser` logs the update and at most the final
`SELECT`, when some recognised field is present. -/
theorem updateUserWrite_log (req : Request) (d : Db)
    (hfield : ∃ f ∈ userFields, req.body.get f ≠ .undefined) :
    ∃ rest,
      (updateUserWrite req d).2.log =
        d.log ++ ⟨.update, updateText "users" (presentFields userFields req.body),
          (presentFields userFields req.body).map (userValue req.body) ++
            [req.params.get "id"]⟩ :: rest ∧
      ∀ e ∈ rest, e.kind = .select := by
  have hne := presentFields_ne_nil hfield
  unfold updateUserWrite
  simp only [userUpdate_eq, List.length_map, List.length_eq_zero, hne, if_false]
  have h1 := executeQuery_log (updateUsers
    ((presentFields userFields req.body).map (fun f => f ++ " = ?"))
    ((presentFields userFields req.body).map (userValue req.body) ++ [req.params.get "id"])) d
    (updateUsers_log _ _)
  rcases hq : executeQuery (updateUsers
    ((presentFields userFields req.body).map (fun f => f ++ " = ?"))
    ((presentFields userFields req.body).map (userValue req.body) ++ [req.params.get "id"])) d
    with ⟨r, d2⟩
  rw [hq] at h1
  rw [updateUsers_sql] at h1
  cases r with
  | error e => exact ⟨[], by simpa [updateUsers] using h1, by simp⟩
  | ok a =>
    dsimp only
    have h2 := executeQuery_log (selectUserViewById (req.params.get "id")) d2
      (fun _ _ _ h => by simp only [selectUserViewById] at h; cases h; rfl)
    rcases hq2 : executeQuery (selectUserViewById (req.params.get "id")) d2 with ⟨r2, d3⟩
    rw [hq2] at h2
    refine ⟨[⟨.select, (selectUserViewById (req.params.get "id")).sql,
      [req.params.get "id"]⟩], ?_, by simp⟩
    have h1' : d2.log = d.log ++ [⟨.update, updateText "users"
        (presentFields userFields req.body),
        (presentFields userFields req.body).map (userValue req.body) ++
          [req.params.get "id"]⟩] := by
      simpa [updateUsers] using h1
    have h2' : d3.log = d2.log ++ [⟨.select,
        (selectUserViewById (req.params.get "id")).sql, [req.params.get "id"]⟩] := by
      simpa [selectUserViewById] using h2
    cases r2 <;> simp [h2', h1']

theorem presentFields_placeholders {fields : List String} (body : Obj)
    (h : ∀ f ∈ fields, placeholders f = 0) :
    ∀ f ∈ presentFields fields body, placeholders f = 0 := by
  intro f hf
  exact h f (List.mem_filter.mp hf).1

/-- C9. An update that passed validation, targets an existing row and carries at
least one recognised field issues, after the lookup (and, for a user whose email
changes to an unused one, the email check), one `UPDATE` whose `SET` clause
assigns exactly the recognised fields present in the body, in declaration order,
then `updated_at`; its bound parameters are the values of those fields in the
same order followed by the row id, one for each `?` placeholder.  Each handler is
taken on its own: `updateCourse` under the conditions on the course request and
the courses table, `updateUser` under those on the user request and the users
table. -/
theorem set_clause_follows_body (reqC reqU : Request) (db : Db) :
    (reqC.errors = [] →
      (∃ c ∈ db.courses, idMatches c.id (reqC.params.get "id") = true) →
      (∃ f ∈ courseFields, reqC.body.get f ≠ .undefined) →
      db.connectedFor 1 →
      (∃ rest, (updateCourse reqC db).2.log =
        db.log ++
          ⟨.select, "SELECT * FROM courses WHERE id = ?", [reqC.params.get "id"]⟩ ::
          ⟨.update, updateText "courses" (presentFields courseFields reqC.body),
            (presentFields courseFields reqC.body).map (courseValue reqC.body) ++
              [reqC.params.get "id"]⟩ :: rest ∧
        ∀ e ∈ rest, e.kind = .select) ∧
      placeholders (updateText "courses" (presentFields courseFields reqC.body)) =
        ((presentFields courseFields reqC.body).map (courseValue reqC.body) ++
          [reqC.params.get "id"]).length) ∧
    (reqU.errors = [] →
      (∃ u ∈ db.users, idMatches u.id (reqU.params.get "id") = true) →
      (∃ f ∈ userFields, reqU.body.get f ≠ .undefined) →
      (∀ u ∈ db.users, sqlEq u.email (reqU.body.get "email") = true →
        idMatches u.id (reqU.params.get "id") = true) →
      db.connectedFor 2 →
      (∃ pre rest, (updateUser reqU db).2.log =
        db.log ++ pre ++
          ⟨.update, updateText "users" (presentFields userFields reqU.body),
            (presentFields userFields reqU.body).map (userValue reqU.body) ++
              [reqU.params.get "id"]⟩ :: rest ∧
        (∀ e ∈ pre, e.kind = .select) ∧ ∀ e ∈ rest, e.kind = .select) ∧
      placeholders (updateText "users" (presentFields userFields reqU.body)) =
        ((presentFields userFields reqU.body).map (userValue reqU.body) ++
          [reqU.params.get "id"]).length) := by
  refine ⟨fun hvC hrowC hfC hconn => ⟨?_, ?_⟩,
    fun hvU hrowU hfU hmail hconn => ⟨?_, ?_⟩⟩
  · -- the statements of updateCourse
    have hc1 : db.connected := connectedFor_succ hconn
    unfold Db.connected at hc1
    obtain ⟨c, hcm, hcid⟩ := hrowC
    have hid : reqC.params.get "id" ≠ .undefined := idMatches_ne_undefined hcid
    have hp : (selectCourseById (reqC.params.get "id")).params.contains .undefined
        = false := by
      simp [selectCourseById]; exact fun e => hid e.symm
    have hne : ¬ (db.courses.filter
        (fun c => idMatches c.id (reqC.params.get "id"))).length = 0 := by
      intro h0
      have := List.length_eq_zero.mp h0
      rw [List.filter_eq_nil_iff] at this
      exact this c hcm hcid
    have hcols := presentFields_ne_nil hfC
    obtain ⟨rest, hrest, hsel⟩ := updateCourse_tail_log
      ((presentFields courseFields reqC.body).map (fun f => f ++ " = ?"))
      ((presentFields courseFields reqC.body).map (courseValue reqC.body) ++
        [reqC.params.get "id"]) (reqC.params.get "id")
      (db.issue (selectCourseById (reqC.params.get "id")))
      { status := 500, success := false,
        message := "Terjadi kesalahan saat mengupdate course" }
    refine ⟨rest, ?_, hsel⟩
    unfold updateCourse
    simp only [hvC, List.isEmpty_nil, Bool.not_true, Bool.false_eq_true, if_false]
    rw [executeQuery_readonly (selectCourseById (reqC.params.get "id"))
      (fun d => d.courses.filter (fun c => idMatches c.id (reqC.params.get "id")))
      (fun d => rfl) db]
    simp only [hc1, hp, if_false, Bool.false_eq_true]
    rw [if_neg (by simpa [Db.issue] using hne)]
    simp only [courseUpdate_eq, List.length_map, List.length_eq_zero, hcols, if_false]
    rw [hrest, updateCourses_sql]
    simp [Db.issue, selectCourseById]
  · rw [placeholders_updateText "courses" _ (by decide)
      (presentFields_placeholders reqC.body (by decide))]
    simp
  · -- the statements of updateUser
    have hc1 : db.connected := connectedFor_succ hconn
    unfold Db.connected at hc1
    obtain ⟨u, hum, huid⟩ := hrowU
    have hid : reqU.params.get "id" ≠ .undefined := idMatches_ne_undefined huid
    have hp : (selectUserById (reqU.params.get "id")).params.contains .undefined
        = false := by
      simp [selectUserById]; exact fun e => hid e.symm
    obtain ⟨existing, others, hrows⟩ : ∃ x xs, db.users.filter
        (fun u => idMatches u.id (reqU.params.get "id")) = x :: xs := by
      cases hf : db.users.filter (fun u => idMatches u.id (reqU.params.get "id")) with
      | nil =>
        rw [List.filter_eq_nil_iff] at hf
        exact absurd huid (hf u hum)
      | cons x xs => exact ⟨x, xs, rfl⟩
    unfold updateUser
    simp only [hvU, List.isEmpty_nil, Bool.not_true, Bool.false_eq_true, if_false]
    rw [executeQuery_readonly (selectUserById (reqU.params.get "id"))
      (fun d => d.users.filter (fun u => idMatches u.id (reqU.params.get "id")))
      (fun d => rfl) db]
    simp only [hc1, hp, if_false, Bool.false_eq_true]
    have hrows' : (db.issue (selectUserById (reqU.params.get "id"))).users.filter
        (fun u => idMatches u.id (reqU.params.get "id")) = existing :: others := hrows
    rw [hrows']
    dsimp only
    by_cases hchk : ((reqU.body.get "email").truthy &&
        !(reqU.body.get "email").strictEq existing.email) = true
    · rw [if_pos hchk]
      have htruthy : (reqU.body.get "email").truthy = true := by
        simp only [Bool.and_eq_true] at hchk; exact hchk.1
      have hemail : reqU.body.get "email" ≠ .undefined := by
        intro h; rw [h] at htruthy; exact absurd htruthy (by decide)
      have hp2 : (selectUserIdByEmailExcept (reqU.body.get "email")
          (reqU.params.get "id")).params.contains .undefined = false := by
        simp [selectUserIdByEmailExcept]
        exact ⟨fun e => hemail e.symm, fun e => hid e.symm⟩
      have hc2 : (db.issue (selectUserById (reqU.params.get "id"))).connected :=
        connectedFor_succ (connectedFor_issue _ hconn)
      unfold Db.connected at hc2
      have hnone : db.users.filter (fun u => sqlEq u.email (reqU.body.get "email") &&
          !idMatches u.id (reqU.params.get "id")) = [] := by
        rw [List.filter_eq_nil_iff]
        intro x hx
        by_cases he : sqlEq x.email (reqU.body.get "email") = true
        · simp [he, hmail x hx he]
        · simp [he]
      rw [executeQuery_readonly (selectUserIdByEmailExcept (reqU.body.get "email")
          (reqU.params.get "id"))
        (fun d => (d.users.filter (fun u : UserRow =>
          sqlEq u.email (reqU.body.get "email") &&
          !idMatches u.id (reqU.params.get "id"))).map (fun u : UserRow => u.id))
        (fun d => rfl)]
      simp only [hc2, hp2, if_false, Bool.false_eq_true]
      have hnone' : ((db.issue (selectUserById (reqU.params.get "id"))).issue
          (selectUserIdByEmailExcept (reqU.body.get "email")
            (reqU.params.get "id"))).users.filter
          (fun u => sqlEq u.email (reqU.body.get "email") &&
            !idMatches u.id (reqU.params.get "id")) = [] := hnone
      rw [hnone']
      simp only [List.map_nil, List.length_nil, gt_iff_lt, Nat.lt_irrefl, if_false]
      obtain ⟨rest, hrest, hsel⟩ := updateUserWrite_log reqU
        ((db.issue (selectUserById (reqU.params.get "id"))).issue
          (selectUserIdByEmailExcept (reqU.body.get "email") (reqU.params.get "id"))) hfU
      refine ⟨[⟨.select, "SELECT * FROM users WHERE id = ?", [reqU.params.get "id"]⟩,
        ⟨.select, "SELECT id FROM users WHERE email = ? AND id != ?",
          [reqU.body.get "email", reqU.params.get "id"]⟩], rest, ?_, by simp, hsel⟩
      rw [hrest]
      simp [Db.issue, selectUserById, selectUserIdByEmailExcept]
    · rw [if_neg hchk]
      obtain ⟨rest, hrest, hsel⟩ := updateUserWrite_log reqU
        (db.issue (selectUserById (reqU.params.get "id"))) hfU
      refine ⟨[⟨.select, "SELECT * FROM users WHERE id = ?", [reqU.params.get "id"]⟩],
        rest, ?_, by simp, hsel⟩
      rw [hrest]
      simp [Db.issue, selectUserById]
  · rw [placeholders_updateText "users" _ (by decide)
      (presentFields_placeholders reqU.body (by decide))]
    simp

set_option maxRecDepth 100000 in
/-- C9 at two concrete updates: course 2 of the sample catalogue, whose users
table is empty, gets a title and an empty photo (bound as NULL); user 2 of the
sample database, whose courses table is empty, gets a name and a phone number. -/
theorem set_clause_follows_body_witness :
    sampleCatalog.users = [] ∧ sampleDb.courses = [] ∧
    ((∃ rest, (updateCourse sampleCourseUpdate sampleCatalog).2.log =
        sampleCatalog.log ++
          ⟨.select, "SELECT * FROM courses WHERE id = ?", [.str "2"]⟩ ::
          ⟨.update, updateText "courses" ["title", "photos"],
            [.str "Brand building", .null, .str "2"]⟩ :: rest ∧
        ∀ e ∈ rest, e.kind = .select) ∧
      placeholders (updateText "courses" ["title", "photos"]) = 3) ∧
    ((∃ pre rest, (updateUser sampleUserUpdate sampleDb).2.log =
        sampleDb.log ++ pre ++
          ⟨.update, updateText "users" ["name", "phone"],
            [.str "Ann B", .str "0811", .str "2"]⟩ :: rest ∧
        (∀ e ∈ pre, e.kind = .select) ∧ ∀ e ∈ rest, e.kind = .select) ∧
      placeholders (updateText "users" ["name", "phone"]) = 3) :=
  ⟨rfl, rfl,
    (set_clause_follows_body sampleCourseUpdate sampleUserUpdate sampleCatalog).1
      (by decide) (by decide) (by decide) (by decide),
    (set_clause_follows_body sampleCourseUpdate sampleUserUpdate sampleDb).2
      (by decide) (by decide) (by decide) (by decide) (by decide)⟩

/-! ### The effect of an update on the table -/

theorem executeQuery_ok_run {α : Type} (st : Statement α) (db : Db) (a : α) (d' : Db)
    (h : executeQuery st db = (.ok a, d')) : st.run (db.issue st) = .ok (a, d') := by
  unfold executeQuery at h
  split at h
  · cases h
  · split at h
    · cases h
    · split at h
      · rename_i a' d'' hrun
        cases h
        exact hrun
      · cases h

theorem fragment_injective {f g : String} (h : f ++ " = ?" = g ++ " = ?") : f = g := by
  have := congrArg String.data h
  simp only [String.data_append] at this
  exact String.ext (List.append_cancel_right this)

theorem CourseRow.column_assign (r : CourseRow) (frag : String) (v : Value) (g : String)
    (hg : g ∈ courseFields) :
    (r.assign frag v).column g = if frag = g ++ " = ?" then v else r.column g := by
  simp only [courseFields, List.mem_cons, List.mem_singleton, List.not_mem_nil, or_false] at hg
  rcases hg with rfl | rfl | rfl | rfl | rfl | rfl | rfl | rfl | rfl | rfl | rfl
  all_goals
    split
    · rename_i h
      subst h
      rfl
    · rename_i h
      simp only [String.reduceAppend] at h
      simp only [CourseRow.assign, CourseRow.column, apply_ite (fun r : CourseRow => r.title),
        apply_ite (fun r : CourseRow => r.description),
        apply_ite (fun r : CourseRow => r.photos),
        apply_ite (fun r : CourseRow => r.mentor),
        apply_ite (fun r : CourseRow => r.rolementor),
        apply_ite (fun r : CourseRow => r.avatar),
        apply_ite (fun r : CourseRow => r.company),
        apply_ite (fun r : CourseRow => r.rating),
        apply_ite (fun r : CourseRow => r.review_count),
        apply_ite (fun r : CourseRow => r.price),
        apply_ite (fun r : CourseRow => r.category),
        String.reduceEq, if_true, if_false, h, ite_self]

theorem UserRow.assign_column (r : UserRow) (frag : String) (v : Value) (g : String)
    (hg : g ∈ "password" :: userFields) :
    (r.assign frag v).column g = if frag = g ++ " = ?" then v else r.column g := by
  simp only [userFields, List.mem_cons, List.mem_singleton, List.not_mem_nil, or_false] at hg
  rcases hg with rfl | rfl | rfl | rfl | rfl | rfl | rfl
  all_goals
    split
    · rename_i h
      subst h
      rfl
    · rename_i h
      simp only [String.reduceAppend] at h
      simp only [UserRow.assign, UserRow.column, apply_ite (fun r : UserRow => r.name),
        apply_ite (fun r : UserRow => r.email),
        apply_ite (fun r : UserRow => r.phone),
        apply_ite (fun r : UserRow => r.gender),
        apply_ite (fun r : UserRow => r.role),
        apply_ite (fun r : UserRow => r.avatar),
        apply_ite (fun r : UserRow => r.password),
        String.reduceEq, if_true, if_false, h, ite_self]

theorem CourseRow.keys_assign (r : CourseRow) (frag : String) (v : Value) :
    (r.assign frag v).id = r.id ∧ (r.assign frag v).created_at = r.created_at := by
  simp only [CourseRow.assign, apply_ite (fun r : CourseRow => r.id),
    apply_ite (fun r : CourseRow => r.created_at), ite_self, and_self]

theorem UserRow.assign_keys (r : UserRow) (frag : String) (v : Value) :
    (r.assign frag v).id = r.id ∧ (r.assign frag v).created_at = r.created_at := by
  simp only [UserRow.assign, apply_ite (fun r : UserRow => r.id),
    apply_ite (fun r : UserRow => r.created_at), ite_self, and_self]

theorem zip_fragments_values {α : Type} (cols : List String) (frag : String → String)
    (value : String → α) (last : α) :
    (cols.map frag).zip (cols.map value ++ [last]) = cols.map (fun f => (frag f, value f)) := by
  induction cols with
  | nil => rfl
  | cons c cols ih => simp [ih]

theorem CourseRow.column_foldl_assign (value : String → Value) (cols : List String) (r : CourseRow) :
    (((cols.map (fun f => (f ++ " = ?", value f))).foldl
        (fun r fv => CourseRow.assign r fv.1 fv.2) r).id = r.id ∧
     ((cols.map (fun f => (f ++ " = ?", value f))).foldl
        (fun r fv => CourseRow.assign r fv.1 fv.2) r).created_at = r.created_at) ∧
    ∀ g ∈ courseFields,
      ((cols.map (fun f => (f ++ " = ?", value f))).foldl
        (fun r fv => CourseRow.assign r fv.1 fv.2) r).column g =
      if g ∈ cols then value g else r.column g := by
  induction cols generalizing r with
  | nil => simp
  | cons c cols ih =>
    simp only [List.map_cons, List.foldl_cons]
    obtain ⟨⟨hid, hcr⟩, hcol⟩ := ih (r.assign (c ++ " = ?") (value c))
    refine ⟨⟨by rw [hid, (r.keys_assign _ _).1], by rw [hcr, (r.keys_assign _ _).2]⟩, ?_⟩
    intro g hg
    rw [hcol g hg, CourseRow.column_assign r _ _ g hg]
    by_cases hgc : g ∈ cols
    · simp [hgc]
    · by_cases hcg : c = g
      · subst hcg; simp
      · have hne : ¬ c ++ " = ?" = g ++ " = ?" := fun h => hcg (fragment_injective h)
        have hne' : ¬ g = c := fun h => hcg h.symm
        simp [hgc, hne, hne']

theorem UserRow.foldl_assign (value : String → Value) (cols : List String) (r : UserRow) :
    (((cols.map (fun f => (f ++ " = ?", value f))).foldl
        (fun r fv => UserRow.assign r fv.1 fv.2) r).id = r.id ∧
     ((cols.map (fun f => (f ++ " = ?", value f))).foldl
        (fun r fv => UserRow.assign r fv.1 fv.2) r).created_at = r.created_at) ∧
    ∀ g ∈ "password" :: userFields,
      ((cols.map (fun f => (f ++ " = ?", value f))).foldl
        (fun r fv => UserRow.assign r fv.1 fv.2) r).column g =
      if g ∈ cols then value g else r.column g := by
  induction cols generalizing r with
  | nil => simp
  | cons c cols ih =>
    simp only [List.map_cons, List.foldl_cons]
    obtain ⟨⟨hid, hcr⟩, hcol⟩ := ih (r.assign (c ++ " = ?") (value c))
    refine ⟨⟨by rw [hid, (r.assign_keys _ _).1], by rw [hcr, (r.assign_keys _ _).2]⟩, ?_⟩
    intro g hg
    rw [hcol g hg, UserRow.assign_column r _ _ g hg]
    by_cases hgc : g ∈ cols
    · simp [hgc]
    · by_cases hcg : c = g
      · subst hcg; simp
      · have hne : ¬ c ++ " = ?" = g ++ " = ?" := fun h => hcg (fragment_injective h)
        have hne' : ¬ g = c := fun h => hcg h.symm
        simp [hgc, hne, hne']

/-- A successful `updateCourse` ran its `UPDATE`, and ends with the tables that
statement left. -/
theorem updateCourse_success (req : Request) (db : Db)
    (hok : (updateCourse req db).1.status = 200) :
    ∃ d a d',
      (updateCourses ((presentFields courseFields req.body).map (fun f => f ++ " = ?"))
        ((presentFields courseFields req.body).map (courseValue req.body) ++
          [req.params.get "id"])).run d = .ok (a, d') ∧
      d.courses = db.courses ∧ d.users = db.users ∧ d.now = db.now ∧
      (updateCourse req db).2.courses = d'.courses ∧
      (updateCourse req db).2.users = d'.users := by
  unfold updateCourse at hok ⊢
  by_cases hv : (!req.errors.isEmpty) = true
  · rw [if_pos hv] at hok; simp [validationFailed] at hok
  · rw [if_neg hv] at hok ⊢
    dsimp only at hok ⊢
    have hdb := executeQuery_snd_readonly (selectCourseById (req.params.get "id")) db
      (fun _ _ _ h => by simp only [selectCourseById] at h; cases h; rfl)
    rcases h1 : executeQuery (selectCourseById (req.params.get "id")) db with ⟨r, db1⟩
    rw [h1] at hok hdb
    cases r with
    | error e => simp at hok
    | ok rows =>
      dsimp only at hdb hok ⊢
      subst hdb
      by_cases hrows : rows.length = 0
      · rw [if_pos hrows] at hok; simp at hok
      · rw [if_neg hrows] at hok ⊢
        rw [courseUpdate_eq] at hok ⊢
        dsimp only at hok ⊢
        by_cases hfs : ((presentFields courseFields req.body).map
            (fun f => f ++ " = ?")).length = 0
        · rw [if_pos hfs] at hok; simp at hok
        · rw [if_neg hfs] at hok ⊢
          rcases h2 : executeQuery (updateCourses
            ((presentFields courseFields req.body).map (fun f => f ++ " = ?"))
            ((presentFields courseFields req.body).map (courseValue req.body) ++
              [req.params.get "id"]))
            (db.issue (selectCourseById (req.params.get "id"))) with ⟨r2, db2⟩
          rw [h2] at hok
          cases r2 with
          | error e => simp at hok
          | ok a =>
            dsimp only at hok ⊢
            have hrun := executeQuery_ok_run _ _ _ _ h2
            have hdb3 := executeQuery_snd_readonly
              (selectCourseColumnsById (req.params.get "id")) db2
              (fun _ _ _ h => by simp only [selectCourseColumnsById] at h; cases h; rfl)
            rcases h3 : executeQuery (selectCourseColumnsById (req.params.get "id")) db2
              with ⟨r3, db3⟩
            rw [h3] at hok hdb3
            dsimp only at hdb3
            subst hdb3
            refine ⟨_, a, db2, hrun, rfl, rfl, rfl, ?_, ?_⟩ <;> cases r3 <;> rfl

theorem updateCourses_run_ok (cols : List String) (value : String → Value) (id : Value)
    (d : Db) (a : ResultHeader) (d' : Db)
    (h : (updateCourses (cols.map (fun f => f ++ " = ?"))
      (cols.map value ++ [id])).run d = .ok (a, d')) :
    d'.users = d.users ∧
    d'.courses = d.courses.map (fun c => if idMatches c.id id then
      { (cols.map (fun f => (f ++ " = ?", value f))).foldl
          (fun r fv => CourseRow.assign r fv.1 fv.2) c with updated_at := d.now }
      else c) := by
  simp only [updateCourses] at h
  split_ifs at h
  injection h with h
  injection h with _ h
  subst h
  simp [zip_fragments_values]

theorem updateUsers_run_ok (cols : List String) (value : String → Value) (id : Value)
    (d : Db) (a : ResultHeader) (d' : Db)
    (h : (updateUsers (cols.map (fun f => f ++ " = ?"))
      (cols.map value ++ [id])).run d = .ok (a, d')) :
    d'.courses = d.courses ∧
    d'.users = d.users.map (fun u => if idMatches u.id id then
      { (cols.map (fun f => (f ++ " = ?", value f))).foldl
          (fun r fv => UserRow.assign r fv.1 fv.2) u with updated_at := d.now }
      else u) := by
  simp only [updateUsers] at h
  split_ifs at h
  injection h with h
  injection h with _ h
  subst h
  simp [zip_fragments_values]

theorem updateUserWrite_success (req : Request) (d : Db)
    (hok : (updateUserWrite req d).1.status = 200) :
    ∃ d0 a d',
      (updateUsers ((presentFields userFields req.body).map (fun f => f ++ " = ?"))
        ((presentFields userFields req.body).map (userValue req.body) ++
          [req.params.get "id"])).run d0 = .ok (a, d') ∧
      d0.courses = d.courses ∧ d0.users = d.users ∧ d0.now = d.now ∧
      (updateUserWrite req d).2.courses = d'.courses ∧
      (updateUserWrite req d).2.users = d'.users := by
  unfold updateUserWrite at hok ⊢
  rw [userUpdate_eq] at hok ⊢
  dsimp only at hok ⊢
  by_cases hfs : ((presentFields userFields req.body).map
      (fun f => f ++ " = ?")).length = 0
  · rw [if_pos hfs] at hok; simp at hok
  · rw [if_neg hfs] at hok ⊢
    rcases h2 : executeQuery (updateUsers
      ((presentFields userFields req.body).map (fun f => f ++ " = ?"))
      ((presentFields userFields req.body).map (userValue req.body) ++
        [req.params.get "id"])) d with ⟨r2, db2⟩
    rw [h2] at hok
    cases r2 with
    | error e => simp at hok
    | ok a =>
      dsimp only at hok ⊢
      have hrun := executeQuery_ok_run _ _ _ _ h2
      have hdb3 := executeQuery_snd_readonly
        (selectUserViewById (req.params.get "id")) db2
        (fun _ _ _ h => by simp only [selectUserViewById] at h; cases h; rfl)
      rcases h3 : executeQuery (selectUserViewById (req.params.get "id")) db2
        with ⟨r3, db3⟩
      rw [h3] at hok hdb3
      dsimp only at hdb3
      subst hdb3
      refine ⟨_, a, db2, hrun, rfl, rfl, rfl, ?_, ?_⟩ <;> cases r3 <;> rfl

/-- A successful `updateUser` ran its `UPDATE`, and ends with the tables that
statement left. -/
theorem updateUser_success (req : Request) (db : Db)
    (hok : (updateUser req db).1.status = 200) :
    ∃ d a d',
      (updateUsers ((presentFields userFields req.body).map (fun f => f ++ " = ?"))
        ((presentFields userFields req.body).map (userValue req.body) ++
          [req.params.get "id"])).run d = .ok (a, d') ∧
      d.courses = db.courses ∧ d.users = db.users ∧ d.now = db.now ∧
      (updateUser req db).2.courses = d'.courses ∧
      (updateUser req db).2.users = d'.users := by
  unfold updateUser at hok ⊢
  by_cases hv : (!req.errors.isEmpty) = true
  · rw [if_pos hv] at hok; simp [validationFailed] at hok
  · rw [if_neg hv] at hok ⊢
    dsimp only at hok ⊢
    have hdb := executeQuery_snd_readonly (selectUserById (req.params.get "id")) db
      (fun _ _ _ h => by simp only [selectUserById] at h; cases h; rfl)
    rcases h1 : executeQuery (selectUserById (req.params.get "id")) db with ⟨r, db1⟩
    rw [h1] at hok hdb
    cases r with
    | error e => simp at hok
    | ok rows =>
      dsimp only at hdb hok ⊢
      subst hdb
      cases rows with
      | nil => simp at hok
      | cons existing others =>
        dsimp only at hok ⊢
        by_cases hchk : ((req.body.get "email").truthy &&
            !(req.body.get "email").strictEq existing.email) = true
        · rw [if_pos hchk] at hok ⊢
          have hdb2 := executeQuery_snd_readonly
            (selectUserIdByEmailExcept (req.body.get "email") (req.params.get "id"))
            (db.issue (selectUserById (req.params.get "id")))
            (fun _ _ _ h => by simp only [selectUserIdByEmailExcept] at h; cases h; rfl)
          rcases h2 : executeQuery
            (selectUserIdByEmailExcept (req.body.get "email") (req.params.get "id"))
            (db.issue (selectUserById (req.params.get "id"))) with ⟨r2, db2⟩
          rw [h2] at hok hdb2
          cases r2 with
          | error e => simp at hok
          | ok emailExists =>
            dsimp only at hdb2 hok ⊢
            subst hdb2
            by_cases hex : emailExists.length > 0
            · rw [if_pos hex] at hok; simp at hok
            · rw [if_neg hex] at hok ⊢
              exact updateUserWrite_success req _ hok
        · rw [if_neg hchk] at hok ⊢
          exact updateUserWrite_success req _ hok

theorem mem_presentFields {fields : List String} {body : Obj} {g : String}
    (hg : g ∈ fields) : g ∈ presentFields fields body ↔ body.get g ≠ .undefined := by
  simp [presentFields, hg]

/-- C10 (as amended). A successful `updateCourse` leaves the users table and every
course with another id as they were; in the course with the requested id, `id`
and `created_at` keep their values, every recognised field absent from the body
keeps its stored value, every recognised field present takes the bound value,
and `updated_at` is set to the current time.  A successful `updateUser` does the
same on the users table, where the password is kept as well, and leaves the
courses table as it was.  Each handler is taken on its own: the success of one
is not asked of the other. -/
theorem partial_update_frame (reqC reqU : Request) (db : Db) :
    ((updateCourse reqC db).1.status = 200 →
      (updateCourse reqC db).2.users = db.users ∧
      ∃ set : CourseRow → CourseRow,
        (updateCourse reqC db).2.courses = db.courses.map (fun c =>
          if idMatches c.id (reqC.params.get "id") then set c else c) ∧
        ∀ c, (set c).id = c.id ∧ (set c).created_at = c.created_at ∧
          (set c).updated_at = db.now ∧
          ∀ f ∈ courseFields, (set c).column f =
            if reqC.body.get f = .undefined then c.column f else courseValue reqC.body f) ∧
    ((updateUser reqU db).1.status = 200 →
      (updateUser reqU db).2.courses = db.courses ∧
      ∃ set : UserRow → UserRow,
        (updateUser reqU db).2.users = db.users.map (fun u =>
          if idMatches u.id (reqU.params.get "id") then set u else u) ∧
        ∀ u, (set u).id = u.id ∧ (set u).created_at = u.created_at ∧
          (set u).updated_at = db.now ∧ (set u).password = u.password ∧
          ∀ f ∈ userFields, (set u).column f =
            if reqU.body.get f = .undefined then u.column f else userValue reqU.body f) := by
  refine ⟨fun hokC => ?_, fun hokU => ?_⟩
  · obtain ⟨d, a, d', hrun, hdc, hdu, hnow, hc, hu⟩ := updateCourse_success reqC db hokC
    obtain ⟨husers, hcourses⟩ := updateCourses_run_ok _ _ _ d a d' hrun
    refine ⟨by rw [hu, husers, hdu], _, by rw [hc, hcourses, hdc], ?_⟩
    intro c
    obtain ⟨⟨hid, hcr⟩, hcol⟩ := CourseRow.column_foldl_assign (courseValue reqC.body)
      (presentFields courseFields reqC.body) c
    refine ⟨hid, hcr, hnow, ?_⟩
    intro f hf
    have hcolf := hcol f hf
    have hview : ∀ (r : CourseRow) (n : Nat),
        ({ r with updated_at := n } : CourseRow).column f = r.column f := fun _ _ => rfl
    rw [hview, hcolf]
    by_cases hp : reqC.body.get f = .undefined
    · rw [if_neg (fun h => (mem_presentFields hf).mp h hp), if_pos hp]
    · rw [if_pos ((mem_presentFields hf).mpr hp), if_neg hp]
  · obtain ⟨d, a, d', hrun, hdc, hdu, hnow, hc, hu⟩ := updateUser_success reqU db hokU
    obtain ⟨hcourses, husers⟩ := updateUsers_run_ok _ _ _ d a d' hrun
    refine ⟨by rw [hc, hcourses, hdc], _, by rw [hu, husers, hdu], ?_⟩
    intro u
    obtain ⟨⟨hid, hcr⟩, hcol⟩ := UserRow.foldl_assign (userValue reqU.body)
      (presentFields userFields reqU.body) u
    have hview : ∀ (r : UserRow) (n : Nat) (f : String),
        ({ r with updated_at := n } : UserRow).column f = r.column f := fun _ _ _ => rfl
    refine ⟨hid, hcr, hnow, ?_, ?_⟩
    · have hpw := hcol "password" (by simp)
      have hnot : "password" ∉ presentFields userFields reqU.body := by
        intro h
        have := (List.mem_filter.mp h).1
        revert this
        decide
      rw [if_neg hnot] at hpw
      exact hpw
    · intro f hf
      have hcolf := hcol f (List.mem_cons_of_mem _ hf)
      rw [hview, hcolf]
      by_cases hp : reqU.body.get f = .undefined
      · rw [if_neg (fun h => (mem_presentFields hf).mp h hp), if_pos hp]
      · rw [if_pos ((mem_presentFields hf).mpr hp), if_neg hp]

set_option maxRecDepth 100000 in
/-- C10 at two sample updates: in the sample catalogue, whose users table is
empty, the title and photo of course 2 change and its `updated_at` becomes the
current time 40; in the sample database, whose courses table is empty, the name
and phone number of user 2 change and its `updated_at` becomes the current time
10; nothing else does. -/
theorem partial_update_frame_witness :
    ((updateCourse sampleCourseUpdate sampleCatalog).2.users = [] ∧
      (updateCourse sampleCourseUpdate sampleCatalog).2.courses =
        [sampleCourse 1 "Data" "Bisnis" 20,
         { sampleCourse 2 "Brand" "Pemasaran" 30 with
           title := .str "Brand building", photos := .null, updated_at := 40 },
         sampleCourse 3 "UX" "Desain" 10]) ∧
    ((updateUser sampleUserUpdate sampleDb).2.courses = [] ∧
      (updateUser sampleUserUpdate sampleDb).2.users =
        [sampleAdmin,
         { sampleStudent with name := .str "Ann B", phone := .str "0811", updated_at := 10 }]) := by
  have hC := (partial_update_frame sampleCourseUpdate sampleUserUpdate sampleCatalog).1
    (by decide)
  have hU := (partial_update_frame sampleCourseUpdate sampleUserUpdate sampleDb).2
    (by decide)
  exact ⟨⟨hC.1, by decide⟩, ⟨hU.1, by decide⟩⟩

set_option maxRecDepth 100000 in
/-- C10 refuted as stated: the successful update of course 2 sends no
`updated_at`, yet the stored `updated_at` of that row changes from 30 to 40. -/
theorem partial_update_touches_updated_at :
    (updateCourse sampleCourseUpdate sampleSchool).1.status = 200 ∧
    sampleCourseUpdate.body.get "updated_at" = .undefined ∧
    sampleSchool.courses.map (fun c => (c.id, c.updated_at)) = [(1, 20), (2, 30), (3, 10)] ∧
    (updateCourse sampleCourseUpdate sampleSchool).2.courses.map
      (fun c => (c.id, c.updated_at)) = [(1, 20), (2, 40), (3, 10)] := by
  decide

/-! ### Reset to the default courses -/

theorem idMatches_num (n m : Nat) : idMatches n (.num (m : Int) 0) = decide (m = n) := by
  simp only [idMatches]
  by_cases h : m = n
  · subst h; simp
  · simp only [h, decide_False, beq_eq_false_iff_ne, ne_eq]
    exact_mod_cast h

theorem filter_fresh_id (rows : List CourseRow) (row : CourseRow)
    (hfresh : ∀ c ∈ rows, c.id < row.id) :
    (rows ++ [row]).filter (fun c => idMatches c.id (.num (row.id : Int) 0)) = [row] := by
  have hnone : rows.filter (fun c => idMatches c.id (.num (row.id : Int) 0)) = [] := by
    rw [List.filter_eq_nil_iff]
    intro c hc
    have := hfresh c hc
    rw [idMatches_num]
    simp only [decide_eq_true_eq]
    omega
  rw [List.filter_append, hnone]
  simp [idMatches_num]

theorem executeQuery_insertCourse_ok (c : CourseFields) (db : Db) (result : ResultHeader)
    (db1 : Db) (h : executeQuery (insertCourse c) db = (.ok result, db1)) :
    result.insertId = db.coursesNextId ∧
    db1.courses = db.courses ++ [c.toRow db.coursesNextId db.now] ∧
    db1.coursesNextId = db.coursesNextId + 1 ∧ db1.now = db.now ∧ db1.users = db.users := by
  have hrun := executeQuery_ok_run _ _ _ _ h
  have hdef : (insertCourse c).run (db.issue (insertCourse c)) =
      .ok (⟨db.coursesNextId, 1⟩,
        { db.issue (insertCourse c) with
          courses := db.courses ++ [c.toRow db.coursesNextId db.now],
          coursesNextId := db.coursesNextId + 1 }) := rfl
  rw [hdef] at hrun
  injection hrun with hrun
  injection hrun with hres hdb
  subst hres hdb
  exact ⟨rfl, rfl, rfl, rfl, rfl⟩

theorem executeQuery_selectSeeded_ok (id : Value) (db : Db) (rows : List CourseRow)
    (db2 : Db) (h : executeQuery (selectSeededCourseById id) db = (.ok rows, db2)) :
    rows = db.courses.filter (fun c => idMatches c.id id) ∧
    db2.courses = db.courses ∧ db2.coursesNextId = db.coursesNextId ∧ db2.now = db.now ∧
    db2.users = db.users := by
  have hrun := executeQuery_ok_run _ _ _ _ h
  have hdef : (selectSeededCourseById id).run (db.issue (selectSeededCourseById id)) =
      .ok (db.courses.filter (fun c => idMatches c.id id),
        db.issue (selectSeededCourseById id)) := rfl
  rw [hdef] at hrun
  injection hrun with hrun
  injection hrun with hres hdb
  subst hres hdb
  exact ⟨rfl, rfl, rfl, rfl, rfl⟩

/-- The loop of `resetToDefaultCourses`, when it runs to its end on a table whose
ids lie below the counter: the courses are appended with consecutive ids, and
each is read back. -/
theorem insertDefaults_ok (cs : List CourseFields) :
    ∀ (acc : List (Option CourseRow)) (db : Db) (out : List (Option CourseRow)) (db' : Db),
      (∀ c ∈ db.courses, c.id < db.coursesNextId) →
      insertDefaults cs acc db = (.ok out, db') →
      db'.courses = db.courses ++ seededRows db.coursesNextId db.now cs ∧
      out = acc ++ (seededRows db.coursesNextId db.now cs).map some ∧
      db'.users = db.users := by
  induction cs with
  | nil =>
    intro acc db out db' _ h
    simp only [insertDefaults] at h
    cases h
    simp [seededRows]
  | cons c rest ih =>
    intro acc db out db' hfresh h
    simp only [insertDefaults] at h
    rcases h1 : executeQuery (insertCourse c) db with ⟨r1, db1⟩
    rw [h1] at h
    cases r1 with
    | error e => simp at h
    | ok result =>
      dsimp only at h
      obtain ⟨hid, hc1, hn1, hnow1, hu1⟩ := executeQuery_insertCourse_ok c db result db1 h1
      rcases h2 : executeQuery (selectSeededCourseById (.num result.insertId 0)) db1
        with ⟨r2, db2⟩
      rw [h2] at h
      cases r2 with
      | error e => simp at h
      | ok newCourses =>
        dsimp only at h
        obtain ⟨hrows, hc2, hn2, hnow2, hu2⟩ := executeQuery_selectSeeded_ok _ db1 _ db2 h2
        have hnew : newCourses = [c.toRow db.coursesNextId db.now] := by
          rw [hrows, hc1, hid]
          exact filter_fresh_id db.courses (c.toRow db.coursesNextId db.now) hfresh
        have hfresh' : ∀ x ∈ db2.courses, x.id < db2.coursesNextId := by
          rw [hc2, hc1, hn2, hn1]
          intro x hx
          rcases List.mem_append.mp hx with hx | hx
          · exact Nat.lt_succ_of_lt (hfresh x hx)
          · simp only [List.mem_singleton] at hx
            subst hx
            exact Nat.lt_succ_self _
        obtain ⟨hc, ho, hu⟩ := ih _ _ out db' hfresh' h
        rw [hc2, hc1, hn2, hn1, hnow2, hnow1] at hc
        rw [hn2, hn1, hnow2, hnow1, hnew] at ho
        refine ⟨?_, ?_, ?_⟩
        · rw [hc]; simp [seededRows]
        · rw [ho]; simp [seededRows]
        · rw [hu, hu2, hu1]

theorem connectedFor_of_faults {n : Nat} {db d' : Db} (h : db.connectedFor (n + 1))
    (hf : d'.faults = db.faults.tail) : d'.connectedFor n := by
  unfold Db.connectedFor at h ⊢
  intro b hb
  apply h b
  rw [hf] at hb
  cases hfl : db.faults with
  | nil => simp [hfl] at hb
  | cons c rest =>
    simp only [hfl, List.tail_cons] at hb
    simp [List.take_succ_cons, hb]

/-- A statement that always runs, on a connection that answers, with no
`undefined` parameter: `executeQuery` returns, and one fault is consumed. -/
theorem executeQuery_total {α : Type} (st : Statement α) (db : Db)
    (hrun : ∀ d, ∃ a d', st.run d = .ok (a, d') ∧ d'.faults = d.faults)
    (hc : db.connected) (hp : st.params.contains .undefined = false) :
    ∃ a d', executeQuery st db = (.ok a, d') ∧ d'.faults = db.faults.tail := by
  obtain ⟨a, d', hr, hf⟩ := hrun (db.issue st)
  refine ⟨a, d', ?_, by rw [hf]; rfl⟩
  rw [executeQuery_run st db hc hp, hr]

/-- The loop of `resetToDefaultCourses` runs to its end when the connection
answers two statements for each course. -/
theorem insertDefaults_connected (cs : List CourseFields)
    (hdef : ∀ c ∈ cs, (insertCourse c).params.contains .undefined = false) :
    ∀ (acc : List (Option CourseRow)) (db : Db), db.connectedFor (2 * cs.length) →
      ∃ out db', insertDefaults cs acc db = (.ok out, db') := by
  induction cs with
  | nil => intro acc db _; exact ⟨acc, db, rfl⟩
  | cons c rest ih =>
    intro acc db hconn
    have hconn' : db.connectedFor (2 * rest.length + 1 + 1) := by
      simpa [Nat.mul_add, Nat.add_assoc] using hconn
    obtain ⟨a1, d1, h1, hf1⟩ := executeQuery_total (insertCourse c) db
      (fun d => ⟨_, _, rfl, rfl⟩) (connectedFor_succ hconn') (hdef c (by simp))
    have hconn1 : d1.connectedFor (2 * rest.length + 1) := connectedFor_of_faults hconn' hf1
    obtain ⟨a2, d2, h2, hf2⟩ := executeQuery_total
      (selectSeededCourseById (.num a1.insertId 0)) d1
      (fun d => ⟨_, _, rfl, rfl⟩) (connectedFor_succ hconn1)
      (by simp [selectSeededCourseById])
    have hconn2 : d2.connectedFor (2 * rest.length) := connectedFor_of_faults hconn1 hf2
    simp only [insertDefaults]
    rw [h1]
    dsimp only
    rw [h2]
    dsimp only
    exact ih (fun x hx => hdef x (by simp [hx])) _ _ hconn2

/-- C4. Whatever the courses table held, a successful `resetToDefaultCourses`
leaves in it exactly the three default courses, in their order, with ids 1, 2
and 3, and returns those three rows with count 3; the users table is untouched.
The reset does succeed whenever the connection answers its eight statements. -/
theorem reset_yields_three_seeded_rows (req : Request) (db : Db) :
    (db.connectedFor 8 → (resetToDefaultCourses req db).1.status = 200) ∧
    ((resetToDefaultCourses req db).1.status = 200 →
      (resetToDefaultCourses req db).2.courses = seededRows 1 db.now defaultCourses ∧
      (resetToDefaultCourses req db).2.courses.map (fun c => (c.id, c.title)) =
        [(1, .str "Big 4 Auditor Financial Analyst"), (2, .str "Digital Marketing Strategy"),
         (3, .str "UI/UX Design Fundamentals")] ∧
      (resetToDefaultCourses req db).1.data =
        .created ((seededRows 1 db.now defaultCourses).map some) ∧
      (resetToDefaultCourses req db).1.count = some 3 ∧
      (resetToDefaultCourses req db).2.users = db.users) := by
  constructor
  · intro hconn
    obtain ⟨a1, d1, h1, hf1⟩ := executeQuery_total deleteAllCourses db
      (fun d => ⟨_, _, rfl, rfl⟩) (connectedFor_succ hconn) rfl
    have hconn1 : d1.connectedFor 7 := connectedFor_of_faults hconn hf1
    obtain ⟨a2, d2, h2, hf2⟩ := executeQuery_total resetCoursesAutoIncrement d1
      (fun d => ⟨_, _, rfl, rfl⟩) (connectedFor_succ hconn1) rfl
    have hconn2 : d2.connectedFor (2 * defaultCourses.length) :=
      connectedFor_of_faults hconn1 hf2
    obtain ⟨out, db3, h3⟩ := insertDefaults_connected defaultCourses (by decide) [] d2 hconn2
    unfold resetToDefaultCourses
    rw [h1]
    dsimp only
    rw [h2]
    dsimp only
    rw [h3]
  · intro hok
    unfold resetToDefaultCourses at hok ⊢
    rcases h1 : executeQuery deleteAllCourses db with ⟨r1, db1⟩
    rw [h1] at hok
    cases r1 with
    | error e => simp at hok
    | ok a1 =>
      dsimp only at hok ⊢
      have hrun1 := executeQuery_ok_run _ _ _ _ h1
      have hdef1 : deleteAllCourses.run (db.issue deleteAllCourses) =
          .ok (⟨0, db.courses.length⟩, { db.issue deleteAllCourses with courses := [] }) := rfl
      rw [hdef1] at hrun1
      injection hrun1 with hrun1
      injection hrun1 with _ hdb1
      rcases h2 : executeQuery resetCoursesAutoIncrement db1 with ⟨r2, db2⟩
      rw [h2] at hok
      cases r2 with
      | error e => simp at hok
      | ok a2 =>
        dsimp only at hok ⊢
        have hrun2 := executeQuery_ok_run _ _ _ _ h2
        have hdef2 : resetCoursesAutoIncrement.run (db1.issue resetCoursesAutoIncrement) =
            .ok (⟨0, 0⟩, { db1.issue resetCoursesAutoIncrement with
              coursesNextId := max 1 ((db1.courses.map (fun c => c.id)).foldl max 0 + 1) }) :=
          rfl
        rw [hdef2] at hrun2
        injection hrun2 with hrun2
        injection hrun2 with _ hdb2
        have hc2 : db2.courses = [] := by rw [← hdb2, ← hdb1]; rfl
        have hn2 : db2.coursesNextId = 1 := by rw [← hdb2, ← hdb1]; rfl
        have hnow2 : db2.now = db.now := by rw [← hdb2, ← hdb1]; rfl
        have hu2 : db2.users = db.users := by rw [← hdb2, ← hdb1]; rfl
        rcases h3 : insertDefaults defaultCourses [] db2 with ⟨r3, db3⟩
        rw [h3] at hok
        cases r3 with
        | error e => simp at hok
        | ok created =>
          dsimp only
          obtain ⟨hc, ho, hu⟩ := insertDefaults_ok defaultCourses [] db2 created db3
            (by rw [hc2]; simp) h3
          rw [hc2, hn2, hnow2] at hc
          rw [hn2, hnow2] at ho
          simp only [List.nil_append] at hc ho
          refine ⟨hc, ?_, ?_, ?_, ?_⟩
          · rw [hc]; rfl
          · rw [ho]
          · rw [ho]; rfl
          · rw [hu, hu2]

set_option maxRecDepth 100000 in
/-- C4 on a table that held two rows with ids 7 and 12. -/
theorem reset_yields_three_seeded_rows_witness :
    (resetToDefaultCourses {} sampleUsedCatalog).1.status = 200 ∧
    (resetToDefaultCourses {} sampleUsedCatalog).2.courses.map (fun c => (c.id, c.title)) =
      [(1, .str "Big 4 Auditor Financial Analyst"), (2, .str "Digital Marketing Strategy"),
       (3, .str "UI/UX Design Fundamentals")] ∧
    (resetToDefaultCourses {} sampleUsedCatalog).1.count = some 3 := by
  have h := reset_yields_three_seeded_rows {} sampleUsedCatalog
  have hok := h.1 (by decide)
  exact ⟨hok, (h.2 hok).2.1, (h.2 hok).2.2.2.1⟩

/-! ### Register, then login -/

theorem generateToken_ok (env : Env) (h : env.signs) (userId email role : Value) :
    ∃ token, generateToken env userId email role = .ok token ∧
      token.userId = userId ∧ token.email = email ∧ token.role = role := by
  obtain ⟨⟨secret, hs, hne⟩, ht⟩ := h
  refine ⟨{ userId := userId, email := email, role := role, secret := secret,
            expiresIn := ((envValue env.JWT_EXPIRES_IN).or (.str "7d")).text }, ?_, rfl, rfl, rfl⟩
  simp [generateToken, hs, hne, ht]

theorem executeQuery_select_ok {α : Type} (st : Statement α) (f : Db → α)
    (hrun : ∀ d, st.run d = .ok (f d, d)) (db : Db) (hc : db.connected)
    (hp : st.params.contains .undefined = false) :
    executeQuery st db = (.ok (f (db.issue st)), db.issue st) := by
  unfold Db.connected at hc
  rw [executeQuery_readonly st f hrun db, if_neg hc, hp]
  rfl

/-- A login with the credentials of a stored row whose password is the hash of
the submitted one succeeds. -/
theorem login_stored_ok (env : Env) (hsign : env.signs) (hb : env.bcryptSound)
    (req : Request) (db : Db) (email password : String) (user : UserRow)
    (rest : List UserRow) (rounds : Value) (salt : Nat)
    (hv : req.errors = []) (hcred : hasCredentials req email password)
    (hc : db.connected)
    (hrows : db.users.filter (fun u => sqlEq u.email (.str email)) = user :: rest)
    (hpw : user.password = .str (env.hash password rounds salt)) :
    (login env req db).1.status = 200 ∧ (login env req db).1.success = true ∧
    ∃ u token, (login env req db).1.data = .session u token := by
  obtain ⟨he, hp⟩ := hcred
  unfold login
  simp only [hv, he, hp, List.isEmpty_nil, Bool.not_true, Bool.false_eq_true, if_false]
  split
  · obtain ⟨t, ht, _⟩ := generateToken_ok env hsign (.str "admin") (.str email) (.str "admin")
    rw [ht]
    exact ⟨rfl, rfl, _, _, rfl⟩
  · split
    · obtain ⟨t, ht, _⟩ := generateToken_ok env hsign (.str "demo") (.str email) (.str "user")
      rw [ht]
      exact ⟨rfl, rfl, _, _, rfl⟩
    · rw [executeQuery_select_ok (selectUserByEmail (.str email))
        (fun d => d.users.filter (fun u => sqlEq u.email (.str email))) (fun _ => rfl) db hc
        (by simp [selectUserByEmail])]
      have hrows' : (db.issue (selectUserByEmail (.str email))).users.filter
          (fun u => sqlEq u.email (.str email)) = user :: rest := hrows
      simp only [hrows']
      have hchk : checkPassword env (.str password) user.password = .ok true := by
        rw [hpw]
        simp [checkPassword, hb.1, hb.2]
      rw [hchk]
      obtain ⟨t, ht, _⟩ := generateToken_ok env hsign (.num user.id 0) user.email user.role
      simp only [Bool.not_true, Bool.false_eq_true, if_false, ht]
      exact ⟨trivial, trivial, _, _, rfl⟩

theorem or_null_ne_undefined (v : Value) : v.or .null ≠ .undefined := by
  unfold Value.or
  split
  · rename_i h
    intro hv
    rw [hv] at h
    exact absurd h (by decide)
  · intro h; cases h

theorem executeQuery_insertUser (name email password phone gender role avatar : Value)
    (d : Db) (hc : d.connected)
    (hp : (insertUser name email password phone gender role avatar).params.contains
      .undefined = false) :
    ∃ d', executeQuery (insertUser name email password phone gender role avatar) d =
        (.ok ⟨d.usersNextId, 1⟩, d') ∧
      d'.users = d.users ++
        [newUserRow d.usersNextId d.now name email password phone gender role avatar] ∧
      d'.usersNextId = d.usersNextId + 1 ∧ d'.courses = d.courses ∧ d'.now = d.now ∧
      d'.faults = d.faults.tail := by
  refine ⟨{ d.issue (insertUser name email password phone gender role avatar) with
    users := d.users ++
      [newUserRow d.usersNextId d.now name email password phone gender role avatar],
    usersNextId := d.usersNextId + 1 }, ?_, rfl, rfl, rfl, rfl, rfl⟩
  rw [executeQuery_run _ _ hc hp]
  rfl

/-- `register` with a validated body whose email no stored row has: the email
check, then the insert of `registeredRow`; status 201 if the row is read back. -/
theorem register_fresh (env : Env) (req : Request) (db : Db) (email password : String)
    (hv : req.errors = []) (hname : req.body.get "name" ≠ .undefined)
    (hcred : hasCredentials req email password)
    (hfresh : ∀ u ∈ db.users, sqlEq u.email (.str email) = false)
    (hconn : db.connectedFor 2) :
    (register env req db).2.users = db.users ++ [registeredRow env req db password] ∧
    (register env req db).2.courses = db.courses ∧
    (db.connectedFor 3 →
      (register env req db).1.status = 201 ∧
      (register env req db).2.faults = db.faults.tail.tail.tail) := by
  obtain ⟨he, hpw⟩ := hcred
  have hc1 : db.connected := connectedFor_succ hconn
  have hnone : db.users.filter (fun u => sqlEq u.email (.str email)) = [] := by
    rw [List.filter_eq_nil_iff]
    intro u hu
    simp [hfresh u hu]
  have h1 := executeQuery_select_ok (selectUserIdByEmail (.str email))
    (fun d => (d.users.filter (fun u : UserRow => sqlEq u.email (.str email))).map
      (fun u : UserRow => u.id))
    (fun _ => rfl) db hc1 (by simp [selectUserIdByEmail])
  have hnone' : (db.issue (selectUserIdByEmail (.str email))).users.filter
      (fun u => sqlEq u.email (.str email)) = [] := hnone
  simp only [hnone', List.map_nil] at h1
  have hc2 : (db.issue (selectUserIdByEmail (.str email))).connected :=
    connectedFor_succ (connectedFor_issue _ hconn)
  obtain ⟨d2, h2, hu2, hn2, hcs2, hnow2, hf2⟩ := executeQuery_insertUser
    (req.body.get "name") (.str email)
    (.str (env.hash password ((parseInt (envValue env.BCRYPT_SALT_ROUNDS)).or (.num 12 0))
      env.salt))
    ((req.body.get "phone").or .null) ((req.body.get "gender").or .null) (.str "student")
    (.str (stockAvatar (env.random.val + 1)))
    (db.issue (selectUserIdByEmail (.str email))) hc2
    (by
      have h1 := or_null_ne_undefined (req.body.get "phone")
      have h2 := or_null_ne_undefined (req.body.get "gender")
      simp [insertUser]
      exact ⟨fun h => hname h.symm, fun h => h1 h.symm, fun h => h2 h.symm⟩)
  have hsel := executeQuery_snd_readonly
    (selectUserById (.num ((db.issue (selectUserIdByEmail (.str email))).usersNextId : Int) 0))
    d2 (fun _ _ _ h => by simp only [selectUserById] at h; cases h; rfl)
  have hreg : register env req db =
      (match executeQuery (selectUserById
          (.num ((db.issue (selectUserIdByEmail (.str email))).usersNextId : Int) 0)) d2 with
        | (.error _, db3) =>
          ({ status := 500, success := false,
             message := "Terjadi kesalahan saat mendaftar. Silakan coba lagi." }, db3)
        | (.ok newUsers, db3) =>
          match newUsers with
          | [] =>
            ({ status := 500, success := false,
               message := "Terjadi kesalahan saat mendaftar. Silakan coba lagi." }, db3)
          | newUser :: _ =>
            ({ status := 201, success := true, message := "Pendaftaran berhasil",
               data := .user (userData newUser) }, db3)) := by
    unfold register
    simp only [hv, he, hpw, List.isEmpty_nil, Bool.not_true, Bool.false_eq_true, if_false,
      h1, List.length_nil, gt_iff_lt, Nat.lt_irrefl, hashPassword, h2]
  have hstate : (register env req db).2 = d2.issue (selectUserById
      (.num ((db.issue (selectUserIdByEmail (.str email))).usersNextId : Int) 0)) := by
    rw [hreg, ← hsel]
    rcases executeQuery (selectUserById
      (.num ((db.issue (selectUserIdByEmail (.str email))).usersNextId : Int) 0)) d2
      with ⟨r, d3⟩
    cases r with
    | error e => rfl
    | ok rows => cases rows <;> rfl
  refine ⟨?_, ?_, ?_⟩
  · rw [hstate]
    show d2.users = _
    rw [hu2]
    simp [registeredRow, he, Db.issue]
  · rw [hstate]
    show d2.courses = _
    rw [hcs2]; rfl
  · intro hconn3
    have hc3 : d2.connected := by
      have hx : d2.connectedFor 1 :=
        connectedFor_of_faults (connectedFor_issue _ hconn3) hf2
      exact connectedFor_succ hx
    constructor
    · rw [hreg, executeQuery_select_ok (selectUserById _)
        (fun d => d.users.filter (fun u : UserRow => idMatches u.id
          (.num ((db.issue (selectUserIdByEmail (.str email))).usersNextId : Int) 0)))
        (fun _ => rfl) d2 hc3 (by simp [selectUserById])]
      have hmem : (d2.issue (selectUserById
          (.num ((db.issue (selectUserIdByEmail (.str email))).usersNextId : Int) 0))).users.filter
          (fun u => idMatches u.id
            (.num ((db.issue (selectUserIdByEmail (.str email))).usersNextId : Int) 0)) ≠ [] := by
        intro hnil
        rw [List.filter_eq_nil_iff] at hnil
        have hin : newUserRow (db.issue (selectUserIdByEmail (.str email))).usersNextId
            (db.issue (selectUserIdByEmail (.str email))).now (req.body.get "name")
            (.str email)
            (.str (env.hash password
              ((parseInt (envValue env.BCRYPT_SALT_ROUNDS)).or (.num 12 0)) env.salt))
            ((req.body.get "phone").or .null) ((req.body.get "gender").or .null)
            (.str "student") (.str (stockAvatar (env.random.val + 1))) ∈
            (d2.issue (selectUserById
              (.num ((db.issue (selectUserIdByEmail (.str email))).usersNextId : Int) 0))).users := by
          show _ ∈ d2.users
          rw [hu2]; simp
        have := hnil _ hin
        simp [newUserRow, idMatches_num] at this
      cases hrows : (d2.issue (selectUserById
          (.num ((db.issue (selectUserIdByEmail (.str email))).usersNextId : Int) 0))).users.filter
          (fun u => idMatches u.id
            (.num ((db.issue (selectUserIdByEmail (.str email))).usersNextId : Int) 0)) with
      | nil => exact absurd hrows hmem
      | cons x xs => rfl
    · rw [hstate]
      show d2.faults.tail = _
      rw [hf2]; rfl

theorem connectedFor_mono {n m : Nat} {db : Db} (h : db.connectedFor n) (hm : m ≤ n) :
    db.connectedFor m := by
  unfold Db.connectedFor at h ⊢
  intro b hb
  apply h b
  have : db.faults.take m = (db.faults.take n).take m := by
    rw [List.take_take, Nat.min_eq_left hm]
  rw [this] at hb
  exact List.mem_of_mem_take hb

theorem hashPassword_not_string (env : Env) {password : Value}
    (h : ∀ p, password ≠ .str p) : hashPassword env password = .error "Illegal arguments" := by
  cases password with
  | str p => exact absurd rfl (h p)
  | undefined => rfl
  | null => rfl
  | bool b => rfl
  | num m k => rfl
  | nan => rfl
  | infinity b => rfl

/-- `register` with a password that is not a string and an email no stored row
has: the email check is the only statement, and the answer is that of the
`catch` block. -/
theorem register_not_string (env : Env) (req : Request) (db : Db) (email : String)
    (hv : req.errors = []) (hemail : req.body.get "email" = .str email)
    (hfresh : ∀ u ∈ db.users, sqlEq u.email (.str email) = false) (hc : db.connected)
    (hpw : ∀ p, req.body.get "password" ≠ .str p) :
    register env req db =
      (serverError "Terjadi kesalahan saat mendaftar. Silakan coba lagi.",
        db.issue (selectUserIdByEmail (.str email))) := by
  have hnone : db.users.filter (fun u => sqlEq u.email (.str email)) = [] := by
    rw [List.filter_eq_nil_iff]
    intro u hu
    simp [hfresh u hu]
  have h1 := executeQuery_select_ok (selectUserIdByEmail (.str email))
    (fun d => (d.users.filter (fun u : UserRow => sqlEq u.email (.str email))).map
      (fun u : UserRow => u.id))
    (fun _ => rfl) db hc (by simp [selectUserIdByEmail])
  have hnone' : (db.issue (selectUserIdByEmail (.str email))).users.filter
      (fun u => sqlEq u.email (.str email)) = [] := hnone
  unfold register
  simp only [hv, hemail, List.isEmpty_nil, Bool.not_true, Bool.false_eq_true, if_false, h1,
    hnone', List.map_nil, List.length_nil, gt_iff_lt, Nat.lt_irrefl,
    hashPassword_not_string env hpw]
  rfl

/-- C5 (as amended). A register request that passed validation, with an email
no stored row has (the connection serving the four statements, `jwt.sign`
accepting the configuration, and `bcryptjs` comparing a password equal to its own
hash).  When the password is a string, register is answered 201, and a login
issued afterwards with the same email and password is answered 200 with success
and a token.  When the password is not a string, register is answered with the
500 of its `catch` block and the users table stays as it was. -/
theorem register_then_login (env : Env) (hsign : env.signs) (hb : env.bcryptSound)
    (req reqL : Request) (db : Db) (email : String)
    (hv : req.errors = []) (hname : req.body.get "name" ≠ .undefined)
    (hemail : req.body.get "email" = .str email)
    (hfresh : ∀ u ∈ db.users, sqlEq u.email (.str email) = false)
    (hvL : reqL.errors = []) (hemailL : reqL.body.get "email" = req.body.get "email")
    (hpassL : reqL.body.get "password" = req.body.get "password")
    (hconn : db.connectedFor 4) :
    (∀ password, req.body.get "password" = .str password →
      (register env req db).1.status = 201 ∧
      (login env reqL (register env req db).2).1.status = 200 ∧
      (login env reqL (register env req db).2).1.success = true ∧
      ∃ u token, (login env reqL (register env req db).2).1.data = .session u token) ∧
    ((∀ password, req.body.get "password" ≠ .str password) →
      (register env req db).1 =
        serverError "Terjadi kesalahan saat mendaftar. Silakan coba lagi." ∧
      (register env req db).2.users = db.users) := by
  constructor
  · intro password hpass
    have hcred : hasCredentials req email password := ⟨hemail, hpass⟩
    have hcredL : hasCredentials reqL email password :=
      ⟨hemailL.trans hemail, hpassL.trans hpass⟩
    obtain ⟨husers, _, hthree⟩ := register_fresh env req db email password hv hname hcred
      hfresh (connectedFor_mono hconn (by omega))
    obtain ⟨hstatus, hfaults⟩ := hthree (connectedFor_mono hconn (by omega))
    refine ⟨hstatus, ?_⟩
    have hc : (register env req db).2.connected := by
      have h1 : Db.connectedFor 1 (register env req db).2 := by
        unfold Db.connectedFor at hconn ⊢
        intro b hb
        apply hconn b
        rw [hfaults] at hb
        have hsub : ∀ l : List Bool, b ∈ l.tail.tail.tail.take 1 → b ∈ l.take 4 := by
          intro l hl
          match l, hl with
          | _ :: _ :: _ :: x :: _, hl => simp at hl; simp [hl]
        exact hsub _ hb
      exact connectedFor_succ h1
    have hrows : (register env req db).2.users.filter
        (fun u => sqlEq u.email (.str email)) = [registeredRow env req db password] := by
      rw [husers, List.filter_append]
      have hnone : db.users.filter (fun u => sqlEq u.email (.str email)) = [] := by
        rw [List.filter_eq_nil_iff]
        intro u hu
        simp [hfresh u hu]
      rw [hnone]
      simp [registeredRow, newUserRow, hcred.1, sqlEq]
    exact login_stored_ok env hsign hb reqL _ email password _ [] _ _ hvL hcredL hc hrows rfl
  · intro hpw
    have hc : db.connected :=
      connectedFor_succ (connectedFor_mono hconn (show 0 + 1 ≤ 4 by omega))
    rw [register_not_string env req db email hv hemail hfresh hc hpw]
    exact ⟨rfl, rfl⟩

/-- C5 at the spec's example: `Ann` registers on the sample database and logs
in. -/
theorem register_then_login_witness :
    (register sampleEnv sampleRegister sampleDb).1.status = 201 ∧
    (login sampleEnv sampleLogin (register sampleEnv sampleRegister sampleDb).2).1.status
      = 200 ∧
    (login sampleEnv sampleLogin (register sampleEnv sampleRegister sampleDb).2).1.success
      = true ∧
    ∃ u token, (login sampleEnv sampleLogin
      (register sampleEnv sampleRegister sampleDb).2).1.data = .session u token :=
  (register_then_login sampleEnv
    ⟨⟨"secret", rfl, by decide⟩, rfl⟩
    ⟨fun p _ _ => by simp [sampleEnv, startsWith], fun p _ _ => by simp [sampleEnv]⟩
    sampleRegister sampleLogin sampleDb "ann2@x.com"
    rfl (by decide) rfl (by decide) rfl rfl rfl (by decide)).1 "secret1" rfl

/-- C5 refuted as stated: the register body `{name: "Ann", email: "ann3@x.com",
password: 1234567}` passes the rule `isLength({ min: 6 })`, which reads the
number as the text `1234567`; no stored row has the email; register is answered
500, and the login that follows with the same email and password 401. -/
theorem register_numeric_password_fails :
    sampleRegisterNumeric.errors = [] ∧ sampleLoginNumeric.errors = [] ∧
    (∀ u ∈ sampleDb.users, sqlEq u.email (.str "ann3@x.com") = false) ∧
    (register sampleEnv sampleRegisterNumeric sampleDb).1.status = 500 ∧
    (login sampleEnv sampleLoginNumeric
      (register sampleEnv sampleRegisterNumeric sampleDb).2).1.status = 401 := by
  decide

/-! ### Token verification -/

theorem bearerToken_cases (headers : Strings) :
    bearerToken headers = .undefined ∨ ∃ s, bearerToken headers = .str s := by
  unfold bearerToken
  split
  · split
    · exact Or.inr ⟨_, rfl⟩
    · exact Or.inl rfl
  · exact Or.inl rfl

/-- C11. `verifyToken` answers 200 or 401 and never changes a table.  It answers
200 only if the authorization header holds a non-empty bearer token, `jwt.verify`
decodes it under the secret, the connection answers the lookup and a user row has
the decoded `userId`; the data is then that row without its password.  In every
other case the status is 401, `success` is false and no data is returned. -/
theorem verifyToken_fails_closed (env : Env) (req : Request) (db : Db) :
    ((verifyToken env req db).1.status = 200 →
      ∃ text decoded user,
        bearerToken req.headers = .str text ∧ text ≠ "" ∧
        env.verify text env.JWT_SECRET = .ok decoded ∧
        db.connected ∧ user ∈ db.users ∧ idMatches user.id decoded.userId = true ∧
        (verifyToken env req db).1.data = .user (userData user)) ∧
    ((verifyToken env req db).1.status ≠ 200 →
      (verifyToken env req db).1.status = 401 ∧
      (verifyToken env req db).1.success = false ∧
      (verifyToken env req db).1.data = .absent) ∧
    (verifyToken env req db).2.users = db.users ∧
    (verifyToken env req db).2.courses = db.courses := by
  unfold verifyToken
  by_cases htok : (bearerToken req.headers).truthy = true
  · simp only [htok, Bool.not_true, Bool.false_eq_true, if_false]
    obtain ⟨text, htext, hne⟩ : ∃ s, bearerToken req.headers = .str s ∧ s ≠ "" := by
      rcases bearerToken_cases req.headers with h | ⟨s, h⟩
      · rw [h] at htok; cases htok
      · exact ⟨s, h, by rw [h] at htok; simpa [Value.truthy] using htok⟩
    simp only [htext, Value.text]
    cases hdec : env.verify text env.JWT_SECRET with
    | error e => simp
    | ok decoded =>
      dsimp only
      rw [executeQuery_readonly (selectUserById decoded.userId)
        (fun d => d.users.filter (fun u : UserRow => idMatches u.id decoded.userId))
        (fun _ => rfl) db]
      by_cases hf : db.faults.head? = some true
      · simp only [hf, if_true]
        simp [Db.issue]
      · simp only [hf, if_false]
        by_cases hp : (selectUserById decoded.userId).params.contains .undefined = true
        · simp only [hp, if_true]
          simp [Db.issue]
        · simp only [hp, if_false, Bool.false_eq_true]
          have husers : (db.issue (selectUserById decoded.userId)).users = db.users := rfl
          rw [husers]
          cases hrows : db.users.filter
              (fun u : UserRow => idMatches u.id decoded.userId) with
          | nil => simp [Db.issue]
          | cons user rest =>
            have hmem : user ∈ db.users.filter
                (fun u : UserRow => idMatches u.id decoded.userId) := by
              rw [hrows]; simp
            obtain ⟨hin, hid⟩ := List.mem_filter.mp hmem
            refine ⟨fun _ => ⟨text, decoded, user, rfl, hne, hdec, hf, hin, hid, rfl⟩,
              fun h => absurd rfl h, rfl, rfl⟩
  · simp only [htok, Bool.not_false, if_true]
    simp

/-- C11 at a request whose token decodes to user 2 of the sample database. -/
theorem verifyToken_fails_closed_witness :
    (verifyToken sampleEnv sampleVerify sampleDb).1.status = 200 ∧
    ∃ text decoded user,
      bearerToken sampleVerify.headers = .str text ∧ text ≠ "" ∧
      sampleEnv.verify text sampleEnv.JWT_SECRET = .ok decoded ∧
      sampleDb.connected ∧ user ∈ sampleDb.users ∧ idMatches user.id decoded.userId = true ∧
      (verifyToken sampleEnv sampleVerify sampleDb).1.data = .user (userData user) :=
  ⟨by decide, (verifyToken_fails_closed sampleEnv sampleVerify sampleDb).1 (by decide)⟩

/-! ### Login -/

/-- C12. For the two hardcoded credential pairs the response of `login` is the
same on any two database states and the database, its statement log included, is
left as it was (no query is issued); when the request passed validation and
`jwt.sign` accepts the configuration the login succeeds with the fixed user:
id `admin` and role `admin`, respectively id `demo` and role `user`. -/
theorem hardcoded_login_ignores_database (env : Env) (req : Request) (db1 db2 : Db)
    (h : hasCredentials req "admin@videobelajar.com" "admin123" ∨
         hasCredentials req "user@example.com" "123456") :
    (login env req db1).1 = (login env req db2).1 ∧
    (login env req db1).2 = db1 ∧
    (req.errors = [] → env.signs →
      (login env req db1).1.status = 200 ∧ (login env req db1).1.success = true ∧
      ∃ token, (login env req db1).1.data =
        .session (if req.body.get "email" = .str "admin@videobelajar.com" then hardcodedAdmin
                  else hardcodedDemo) token) := by
  have hshape : ∀ db : Db, login env req db =
      ((login env req db1).1, db) ∧
      (req.errors = [] → env.signs →
        (login env req db).1.status = 200 ∧ (login env req db).1.success = true ∧
        ∃ token, (login env req db).1.data =
          .session (if req.body.get "email" = .str "admin@videobelajar.com" then hardcodedAdmin
                    else hardcodedDemo) token) := by
    intro db
    by_cases hv : req.errors = []
    · rcases h with ⟨he, hp⟩ | ⟨he, hp⟩
      · have hadmin : ((Value.str "admin@videobelajar.com").strictEq
            (.str "admin@videobelajar.com") &&
            (Value.str "admin123").strictEq (.str "admin123")) = true := by decide
        unfold login
        simp only [hv, he, hp, hadmin, List.isEmpty_nil, Bool.not_true, Bool.false_eq_true,
          if_false, if_true]
        cases hg : generateToken env (.str "admin") (.str "admin@videobelajar.com")
            (.str "admin") with
        | error e =>
          refine ⟨rfl, fun _ hs => ?_⟩
          obtain ⟨t, ht, _⟩ := generateToken_ok env hs (.str "admin")
            (.str "admin@videobelajar.com") (.str "admin")
          rw [ht] at hg; cases hg
        | ok token => exact ⟨rfl, fun _ _ => ⟨rfl, rfl, token, rfl⟩⟩
      · have hnot : ((Value.str "user@example.com").strictEq
            (.str "admin@videobelajar.com") &&
            (Value.str "123456").strictEq (.str "admin123")) = false := by decide
        have hdemo : ((Value.str "user@example.com").strictEq (.str "user@example.com") &&
            (Value.str "123456").strictEq (.str "123456")) = true := by decide
        have hne : ¬ (Value.str "user@example.com" = .str "admin@videobelajar.com") := by
          decide
        unfold login
        simp only [hv, he, hp, hnot, hdemo, hne, List.isEmpty_nil, Bool.not_true,
          Bool.false_eq_true, if_false, if_true]
        cases hg : generateToken env (.str "demo") (.str "user@example.com")
            (.str "user") with
        | error e =>
          refine ⟨rfl, fun _ hs => ?_⟩
          obtain ⟨t, ht, _⟩ := generateToken_ok env hs (.str "demo")
            (.str "user@example.com") (.str "user")
          rw [ht] at hg; cases hg
        | ok token => exact ⟨rfl, fun _ _ => ⟨rfl, rfl, token, rfl⟩⟩
    · have hv' : (!req.errors.isEmpty) = true := by
        cases hq : req.errors with
        | nil => exact absurd hq hv
        | cons _ _ => rfl
      unfold login
      simp only [hv', if_true]
      exact ⟨trivial, fun h => absurd h hv⟩
  refine ⟨?_, ?_, (hshape db1).2⟩
  · rw [(hshape db1).1, (hshape db2).1]
  · rw [(hshape db1).1]

/-- C12 at the administrator pair, on a database that stores that email with
another password, against the sample database. -/
theorem hardcoded_login_ignores_database_witness :
    (login sampleEnv sampleAdminLogin sampleShadowDb).1 =
      (login sampleEnv sampleAdminLogin sampleDb).1 ∧
    (login sampleEnv sampleAdminLogin sampleShadowDb).2 = sampleShadowDb ∧
    (login sampleEnv sampleAdminLogin sampleShadowDb).1.status = 200 ∧
    ∃ token, (login sampleEnv sampleAdminLogin sampleShadowDb).1.data =
      .session hardcodedAdmin token := by
  have h := hardcoded_login_ignores_database sampleEnv sampleAdminLogin sampleShadowDb
    sampleDb (Or.inl ⟨rfl, rfl⟩)
  obtain ⟨hs, _, t, ht⟩ := h.2.2 rfl ⟨⟨"secret", rfl, by decide⟩, rfl⟩
  exact ⟨h.1, h.2.1, hs, t, ht⟩

theorem find?_of_filter_eq_cons {α : Type} {p : α → Bool} {l : List α} {a : α}
    {rest : List α} (h : l.filter p = a :: rest) : l.find? p = some a := by
  induction l with
  | nil => simp at h
  | cons b l ih =>
    by_cases hb : p b = true
    · simp only [List.filter_cons, hb, if_true] at h
      injection h with h1 _
      subst h1
      simp [List.find?, hb]
    · simp only [List.filter_cons, hb, if_false] at h
      simp [List.find?, hb, ih h]

theorem find?_none_of_filter_nil {α : Type} {p : α → Bool} {l : List α}
    (h : l.filter p = []) : l.find? p = none := by
  rw [List.find?_eq_none]
  intro x hx hp
  rw [List.filter_eq_nil_iff] at h
  exact h x hx hp

theorem strictEq_str (a b : String) :
    (Value.str a).strictEq (.str b) = decide (a = b) := by
  by_cases h : a = b
  · subst h; simp [Value.strictEq]
  · have hne : ¬ (Value.str a = Value.str b) := fun hv => h (by injection hv)
    simp [Value.strictEq, h, hne]

theorem checkPassword_str (env : Env) (password stored : String) :
    checkPassword env (.str password) (.str stored) =
      .ok (passwordValid env password (.str stored)) := by
  simp only [checkPassword, passwordValid, strictEq_str]
  by_cases h : startsWith stored "$2" = true
  · simp [h]
  · by_cases hp : password = stored
    · subst hp; simp [h]
    · simp [h, hp]

theorem isHardcoded_false {req : Request} (h : isHardcoded req = false) :
    ((req.body.get "email").strictEq (.str "admin@videobelajar.com") &&
      (req.body.get "password").strictEq (.str "admin123")) = false ∧
    ((req.body.get "email").strictEq (.str "user@example.com") &&
      (req.body.get "password").strictEq (.str "123456")) = false := by
  unfold isHardcoded at h
  rw [Bool.or_eq_false_iff] at h
  exact h

theorem checkThrows_of_valid {env : Env} {p : String} {stored : Value}
    (h : passwordValid env p stored = true) : checkThrows (.str p) stored = false := by
  cases stored with
  | str s => simp [checkThrows, Value.isString]
  | _ => simp [passwordValid] at h

/-- What `checkPassword` gives for each shape of the two passwords. -/
theorem checkPassword_cases (env : Env) (password stored : Value) :
    (checkThrows password stored = true ∧ ∃ e, checkPassword env password stored = .error e) ∨
    (checkThrows password stored = false ∧
      ∃ b, checkPassword env password stored = .ok b ∧
        (b = true ↔ ∃ p, password = .str p ∧ passwordValid env p stored = true)) := by
  cases stored with
  | str s =>
    by_cases h2 : startsWith s "$2" = true
    · cases password with
      | str p =>
        refine Or.inr ⟨by simp [checkThrows, Value.isString], env.compare p s,
          by simp [checkPassword, h2], ?_⟩
        simp [passwordValid, h2]
      | undefined =>
        exact Or.inl ⟨by simp [checkThrows, Value.isString, h2], "Illegal arguments",
          by simp [checkPassword, h2]⟩
      | null =>
        exact Or.inl ⟨by simp [checkThrows, Value.isString, h2], "Illegal arguments",
          by simp [checkPassword, h2]⟩
      | bool b =>
        exact Or.inl ⟨by simp [checkThrows, Value.isString, h2], "Illegal arguments",
          by simp [checkPassword, h2]⟩
      | num m k =>
        exact Or.inl ⟨by simp [checkThrows, Value.isString, h2], "Illegal arguments",
          by simp [checkPassword, h2]⟩
      | nan =>
        exact Or.inl ⟨by simp [checkThrows, Value.isString, h2], "Illegal arguments",
          by simp [checkPassword, h2]⟩
      | infinity b =>
        exact Or.inl ⟨by simp [checkThrows, Value.isString, h2], "Illegal arguments",
          by simp [checkPassword, h2]⟩
    · have h2' : startsWith s "$2" = false := by simpa using h2
      refine Or.inr ⟨by simp [checkThrows, h2'],
        password.strictEq (.str s), by simp [checkPassword, h2'], ?_⟩
      cases password with
      | str p => simp [strictEq_str, passwordValid, h2']
      | undefined => simp [Value.strictEq]
      | null => simp [Value.strictEq]
      | bool b => simp [Value.strictEq]
      | num m k => simp [Value.strictEq]
      | nan => simp [Value.strictEq]
      | infinity b => simp [Value.strictEq]
  | undefined => exact Or.inl ⟨rfl, _, rfl⟩
  | null => exact Or.inl ⟨rfl, _, rfl⟩
  | bool b => exact Or.inl ⟨rfl, _, rfl⟩
  | num m k => exact Or.inl ⟨rfl, _, rfl⟩
  | nan => exact Or.inl ⟨rfl, _, rfl⟩
  | infinity b => exact Or.inl ⟨rfl, _, rfl⟩

/-- C13 (as amended). A login that passed validation with credentials that are
not a hardcoded pair, on a connection that answers and a configuration
`jwt.sign` accepts.  It succeeds exactly when a stored row has the email, the
submitted password is a string, and it is valid for the first such row.  It is
answered 500 exactly when a stored row has the email and the password check
throws on the first such row: its stored password is not a string, or it starts
with `$2` and the submitted password is not a string.  Every other outcome is the
one response 401 `Email atau password salah`, the same for an unknown email and
for a wrong password. -/
theorem login_succeeds_iff_valid (env : Env) (req : Request) (db : Db) (email : String)
    (hv : req.errors = []) (hemail : req.body.get "email" = .str email)
    (hnot : isHardcoded req = false) (hc : db.connected) (hsign : env.signs) :
    ((login env req db).1.status = 200 ↔
      ∃ user p, db.users.find? (fun u => sqlEq u.email (.str email)) = some user ∧
        req.body.get "password" = .str p ∧ passwordValid env p user.password = true) ∧
    ((login env req db).1 = serverError "Terjadi kesalahan saat login" ↔
      ∃ user, db.users.find? (fun u => sqlEq u.email (.str email)) = some user ∧
        checkThrows (req.body.get "password") user.password = true) ∧
    ((login env req db).1.status ≠ 200 →
      (login env req db).1 ≠ serverError "Terjadi kesalahan saat login" →
      (login env req db).1 = loginRejected) := by
  obtain ⟨h1, h2⟩ := isHardcoded_false hnot
  have hlogin : login env req db =
      (match db.users.filter (fun u => sqlEq u.email (.str email)) with
        | [] => (loginRejected, db.issue (selectUserByEmail (.str email)))
        | user :: _ =>
          match checkPassword env (req.body.get "password") user.password with
          | .error _ =>
            (serverError "Terjadi kesalahan saat login",
              db.issue (selectUserByEmail (.str email)))
          | .ok isPasswordValid =>
            if !isPasswordValid then
              (loginRejected, db.issue (selectUserByEmail (.str email)))
            else
              match generateToken env (.num user.id 0) user.email user.role with
              | .error _ =>
                (serverError "Terjadi kesalahan saat login",
                  db.issue (selectUserByEmail (.str email)))
              | .ok token =>
                ({ status := 200, success := true, message := "Login successful",
                   data := .session
                     { id := .num user.id 0, name := user.name, email := user.email,
                       phone := user.phone, gender := user.gender,
                       role := user.role.or (.str "user"), avatar := user.avatar } token },
                  db.issue (selectUserByEmail (.str email)))) := by
    unfold login
    simp only [hv, h1, h2, List.isEmpty_nil, Bool.not_true, Bool.false_eq_true, if_false]
    rw [hemail]
    rw [executeQuery_select_ok (selectUserByEmail (.str email))
      (fun d => d.users.filter (fun u : UserRow => sqlEq u.email (.str email)))
      (fun _ => rfl) db hc (by simp [selectUserByEmail])]
    rfl
  rw [hlogin]
  cases hrows : db.users.filter (fun u => sqlEq u.email (.str email)) with
  | nil =>
    rw [find?_none_of_filter_nil hrows]
    simp [loginRejected, serverError]
  | cons user rest =>
    rw [find?_of_filter_eq_cons hrows]
    dsimp only
    rcases checkPassword_cases env (req.body.get "password") user.password with
      ⟨hthrow, e, he⟩ | ⟨hthrow, b, hb, hvalid⟩
    · rw [he]
      dsimp only
      refine ⟨?_, ?_, ?_⟩
      · constructor
        · intro h; simp [serverError] at h
        · rintro ⟨u, p, hu, hp, hval⟩
          cases hu
          rw [hp, checkThrows_of_valid hval] at hthrow
          cases hthrow
      · exact ⟨fun _ => ⟨user, rfl, hthrow⟩, fun _ => rfl⟩
      · intro _ h; exact absurd rfl h
    · rw [hb]
      dsimp only
      cases b with
      | true =>
        obtain ⟨t, ht, _⟩ := generateToken_ok env hsign (.num user.id 0) user.email user.role
        obtain ⟨p, hp, hval⟩ := hvalid.mp rfl
        simp only [Bool.not_true, Bool.false_eq_true, if_false, ht]
        refine ⟨⟨fun _ => ⟨user, p, rfl, hp, hval⟩, fun _ => by simp⟩, ?_, ?_⟩
        · constructor
          · intro h; simp [serverError] at h
          · rintro ⟨u, hu, hthrow'⟩
            cases hu
            rw [hthrow] at hthrow'; cases hthrow'
        · intro h; exact absurd (by simp) h
      | false =>
        simp only [Bool.not_false, if_true]
        refine ⟨⟨fun h => by simp [loginRejected] at h, ?_⟩, ?_, fun _ _ => by simp⟩
        · rintro ⟨u, p, hu, hp, hval⟩
          cases hu
          have := hvalid.mpr ⟨p, hp, hval⟩
          cases this
        · constructor
          · intro h; simp [loginRejected, serverError] at h
          · rintro ⟨u, hu, hthrow'⟩
            cases hu
            rw [hthrow] at hthrow'; cases hthrow'

/-- C13 at the stored student, whose plain-text password matches. -/
theorem login_succeeds_iff_valid_witness :
    (login sampleEnv sampleStudentLogin sampleDb).1.status = 200 ∧
    ∃ user p, sampleDb.users.find? (fun u => sqlEq u.email (.str "ann@x.com")) = some user ∧
      sampleStudentLogin.body.get "password" = .str p ∧
      passwordValid sampleEnv p user.password = true := by
  have h := login_succeeds_iff_valid sampleEnv sampleStudentLogin sampleDb "ann@x.com"
    rfl rfl (by decide) (by decide) ⟨⟨"secret", rfl, by decide⟩, rfl⟩
  exact ⟨by decide, h.1.mp (by decide)⟩

/-- C13 refuted as stated: a login that passed validation with the JSON number
`1234567` as password (`isLength({ min: 6 })` reads it as the text `1234567`),
against a stored bcrypt hash, fails with status 500 and the message of the
`catch` block, not with 401 `Email atau password salah`. -/
theorem login_numeric_password_500 :
    sampleNumericLogin.errors = [] ∧ isHardcoded sampleNumericLogin = false ∧
    (login sampleEnv sampleNumericLogin sampleHashedDb).1 =
      serverError "Terjadi kesalahan saat login" ∧
    (login sampleEnv sampleNumericLogin sampleHashedDb).1 ≠ loginRejected := by
  decide

/-- C14 at a stored user whose role is NULL: the login succeeds, the response
reports the role `user`, and the token is signed with the role NULL. -/
theorem login_token_role_differs :
    (login sampleEnv sampleLegacyLogin sampleLegacyDb).1.status = 200 ∧
    (login sampleEnv sampleLegacyLogin sampleLegacyDb).1.data =
      .session
        { id := .num 5 0, name := .str "Ann", email := .str "old@x.com", phone := .null,
          gender := .null, role := .str "user", avatar := .null }
        { userId := .num 5 0, email := .str "old@x.com", role := .null, secret := "secret",
          expiresIn := "7d" } := by
  decide

/-! ### Register -/

/-- The salt rounds `parseInt(process.env.BCRYPT_SALT_ROUNDS) || 12` of
`register`: 12 when the variable is absent, not a number or zero, and the number
it holds otherwise, read in radix 16 after `0x`. -/
theorem saltRounds_examples :
    (parseInt (envValue none)).or (.num 12 0) = .num 12 0 ∧
    (parseInt (envValue (some "ten"))).or (.num 12 0) = .num 12 0 ∧
    (parseInt (envValue (some "0"))).or (.num 12 0) = .num 12 0 ∧
    (parseInt (envValue (some "10"))).or (.num 12 0) = .num 10 0 ∧
    (parseInt (envValue (some "0x10"))).or (.num 12 0) = .num 16 0 := by
  decide

/-- C15 (as amended). A register request that passed validation, on a connection
that answers the check and the insert.  When no stored row has the email and the
password is a string, it appends exactly one row to the users table, with the
next id, role `student` whatever the body holds, the hash of the submitted
password in the password column, and the stock-photo URL numbered between 1 and
100 as avatar.  When a stored row has the email it answers 400, leaves the table
as it was and issues no `INSERT`.  When no stored row has the email and the
password is not a string it answers 500, leaves the table as it was and issues no
`INSERT`. -/
theorem register_inserts_student (env : Env) (req : Request) (db : Db) (email : String)
    (hv : req.errors = []) (hname : req.body.get "name" ≠ .undefined)
    (hemail : req.body.get "email" = .str email) (hconn : db.connectedFor 2) :
    (∀ password, req.body.get "password" = .str password →
      (∀ u ∈ db.users, sqlEq u.email (.str email) = false) →
      ∃ row, (register env req db).2.users = db.users ++ [row] ∧
        row.id = db.usersNextId ∧ row.email = .str email ∧ row.role = .str "student" ∧
        row.password = .str (env.hash password
          ((parseInt (envValue env.BCRYPT_SALT_ROUNDS)).or (.num 12 0)) env.salt) ∧
        ∃ n, 1 ≤ n ∧ n ≤ 100 ∧ row.avatar = .str (stockAvatar n)) ∧
    ((∃ u ∈ db.users, sqlEq u.email (.str email) = true) →
      (register env req db).1.status = 400 ∧
      (register env req db).2.users = db.users ∧
      noneIssued .insert db (register env req db).2) ∧
    ((∀ password, req.body.get "password" ≠ .str password) →
      (∀ u ∈ db.users, sqlEq u.email (.str email) = false) →
      (register env req db).1.status = 500 ∧
      (register env req db).2.users = db.users ∧
      noneIssued .insert db (register env req db).2) := by
  refine ⟨?_, ?_, ?_⟩
  · intro password hpass hfresh
    obtain ⟨husers, _, _⟩ := register_fresh env req db email password hv hname
      ⟨hemail, hpass⟩ hfresh hconn
    refine ⟨registeredRow env req db password, husers, rfl, ?_, rfl, rfl,
      env.random.val + 1, by omega, ?_, rfl⟩
    · simp [registeredRow, newUserRow, hemail]
    · have := env.random.isLt
      omega
  · rintro ⟨u, hu, hmatch⟩
    have hc1 : db.connected := connectedFor_succ hconn
    have h1 := executeQuery_select_ok (selectUserIdByEmail (.str email))
      (fun d => (d.users.filter (fun u : UserRow => sqlEq u.email (.str email))).map
        (fun u : UserRow => u.id))
      (fun _ => rfl) db hc1 (by simp [selectUserIdByEmail])
    have hlen : (((db.issue (selectUserIdByEmail (.str email))).users.filter
        (fun u : UserRow => sqlEq u.email (.str email))).map
          (fun u : UserRow => u.id)).length > 0 := by
      rw [List.length_map]
      apply List.length_pos_of_mem (a := u)
      exact List.mem_filter.mpr ⟨hu, hmatch⟩
    have hreg : register env req db =
        ({ status := 400, success := false,
           message := "Email sudah terdaftar. Silakan gunakan email lain." },
          db.issue (selectUserIdByEmail (.str email))) := by
      unfold register
      simp only [hv, hemail, List.isEmpty_nil, Bool.not_true, Bool.false_eq_true, if_false,
        h1]
      rw [if_pos hlen]
    rw [hreg]
    exact ⟨rfl, rfl, noneIssued_one .insert db _ _ rfl (fun h => StmtKind.noConfusion h)⟩
  · intro hpw hfresh
    rw [register_not_string env req db email hv hemail hfresh (connectedFor_succ hconn) hpw]
    exact ⟨rfl, rfl, noneIssued_one .insert db _ _ rfl (fun h => StmtKind.noConfusion h)⟩

/-- C15 at a request that asks for the role `admin`, and at one whose email is
taken. -/
theorem register_inserts_student_witness :
    (∃ row, (register sampleEnv sampleRegisterAsAdmin sampleDb).2.users =
        sampleDb.users ++ [row] ∧
      row.id = 3 ∧ row.email = .str "eve@x.com" ∧ row.role = .str "student" ∧
      row.password = .str "$2a$secret1" ∧
      ∃ n, 1 ≤ n ∧ n ≤ 100 ∧ row.avatar = .str (stockAvatar n)) ∧
    ((register sampleEnv sampleRegisterTaken sampleDb).1.status = 400 ∧
      (register sampleEnv sampleRegisterTaken sampleDb).2.users = sampleDb.users ∧
      noneIssued .insert sampleDb (register sampleEnv sampleRegisterTaken sampleDb).2) :=
  ⟨(register_inserts_student sampleEnv sampleRegisterAsAdmin sampleDb "eve@x.com"
      rfl (by decide) rfl (by decide)).1 "secret1" rfl (by decide),
   (register_inserts_student sampleEnv sampleRegisterTaken sampleDb "ann@x.com"
      rfl (by decide) rfl (by decide)).2.1 ⟨sampleStudent, by decide, by decide⟩⟩

/-- C15 refuted as stated: the validated register body whose password is the
JSON number `1234567`, with an email no stored row has, inserts no row: the users
table is as before, the email check is the only statement issued, and the answer
is 500. -/
theorem register_numeric_password_inserts_nothing :
    sampleRegisterNumeric.errors = [] ∧
    (∀ u ∈ sampleDb.users, sqlEq u.email (sampleRegisterNumeric.body.get "email") = false) ∧
    (register sampleEnv sampleRegisterNumeric sampleDb).2.users = sampleDb.users ∧
    (register sampleEnv sampleRegisterNumeric sampleDb).2.log =
      [⟨.select, "SELECT id FROM users WHERE email = ?", [.str "ann3@x.com"]⟩] ∧
    (register sampleEnv sampleRegisterNumeric sampleDb).1.status = 500 := by
  decide

/-! ### Validation failures -/

theorem not_isEmpty_of_ne_nil {α : Type} {l : List α} (h : l ≠ []) :
    (!l.isEmpty) = true := by
  cases l with
  | nil => exact absurd rfl h
  | cons _ _ => rfl

/-- C17. Every handler that checks `validationResult` answers a non-empty error
list with status 400, `success` false, the message `Validation failed` and the
error list, and returns the database as it was, its statement log included: no
query is executed. -/
theorem validation_failure_answers_400 (env : Env) (req : Request) (db : Db)
    (h : req.errors ≠ []) :
    (validationFailed req).status = 400 ∧ (validationFailed req).success = false ∧
    (validationFailed req).message = "Validation failed" ∧
    (validationFailed req).errors = some req.errors ∧
    (validationFailed req).data = .absent ∧
    login env req db = (validationFailed req, db) ∧
    register env req db = (validationFailed req, db) ∧
    getAllCourses req db = (validationFailed req, db) ∧
    getCourseById req db = (validationFailed req, db) ∧
    getCoursesByCategory req db = (validationFailed req, db) ∧
    createCourse req db = (validationFailed req, db) ∧
    updateCourse req db = (validationFailed req, db) ∧
    deleteCourse req db = (validationFailed req, db) ∧
    getUserById req db = (validationFailed req, db) ∧
    createUser env req db = (validationFailed req, db) ∧
    updateUser req db = (validationFailed req, db) ∧
    deleteUser req db = (validationFailed req, db) ∧
    resetPassword env req db = (validationFailed req, db) := by
  have hv := not_isEmpty_of_ne_nil h
  refine ⟨rfl, rfl, rfl, rfl, rfl, ?_, ?_, ?_, ?_, ?_, ?_, ?_, ?_, ?_, ?_, ?_, ?_, ?_⟩
  · unfold login; rw [if_pos hv]
  · unfold register; rw [if_pos hv]
  · unfold getAllCourses; rw [if_pos hv]
  · unfold getCourseById; rw [if_pos hv]
  · unfold getCoursesByCategory; rw [if_pos hv]
  · unfold createCourse; rw [if_pos hv]
  · unfold updateCourse; rw [if_pos hv]
  · unfold deleteCourse; rw [if_pos hv]
  · unfold getUserById; rw [if_pos hv]
  · unfold createUser; rw [if_pos hv]
  · unfold updateUser; rw [if_pos hv]
  · unfold deleteUser; rw [if_pos hv]
  · unfold resetPassword; rw [if_pos hv]

/-- C17 at a request with one validation error. -/
theorem validation_failure_answers_400_witness :
    (validationFailed sampleInvalid).status = 400 ∧
    (validationFailed sampleInvalid).errors = some ["Course ID must be a valid integer"] ∧
    updateCourse sampleInvalid sampleDb = (validationFailed sampleInvalid, sampleDb) ∧
    createUser sampleEnv sampleInvalid sampleDb = (validationFailed sampleInvalid, sampleDb) ∧
    login sampleEnv sampleInvalid sampleDb = (validationFailed sampleInvalid, sampleDb) := by
  have h := validation_failure_answers_400 sampleEnv sampleInvalid sampleDb (by decide)
  exact ⟨h.1, h.2.2.2.1, h.2.2.2.2.2.2.2.2.2.2.2.1, h.2.2.2.2.2.2.2.2.2.2.2.2.2.2.2.1,
    h.2.2.2.2.2.1⟩

/-! ### The response envelope -/

/-- C19 refuted as stated: the successful response of `getAllUsers` has the
top-level key `count`, which is none of `data`, `errors` and `pagination`. -/
theorem envelope_has_count_key :
    (getAllUsers {} sampleDb).1.status = 200 ∧ (getAllUsers {} sampleDb).1.count = some 2 ∧
    (getCoursesByCategory { params := [("category", "Bisnis")] } sampleCatalog).1.count
      = some 1 := by
  decide

/-- C19 (as amended). Beside `success` and `message`, a response body holds only
`data`, `errors`, `pagination` and `count`; the key `count` is present exactly in
the successful responses of `getAllUsers`, `getCoursesByCategory` and
`resetToDefaultCourses`, and in no response of any other handler. -/
theorem envelope_keys (env : Env) (req : Request) (db : Db) (file : Option UploadedFile) :
    (((getAllUsers req db).1.count ≠ none ↔ (getAllUsers req db).1.status = 200) ∧
     ((getCoursesByCategory req db).1.count ≠ none ↔
        (getCoursesByCategory req db).1.status = 200) ∧
     ((resetToDefaultCourses req db).1.count ≠ none ↔
        (resetToDefaultCourses req db).1.status = 200)) ∧
    (login env req db).1.count = none ∧
    (register env req db).1.count = none ∧
    (verifyToken env req db).1.count = none ∧
    (getAllCourses req db).1.count = none ∧
    (getCourseById req db).1.count = none ∧
    (createCourse req db).1.count = none ∧
    (updateCourse req db).1.count = none ∧
    (deleteCourse req db).1.count = none ∧
    (getUserById req db).1.count = none ∧
    (createUser env req db).1.count = none ∧
    (updateUser req db).1.count = none ∧
    (deleteUser req db).1.count = none ∧
    (resetPassword env req db).1.count = none ∧
    (uploadFile file).count = none := by
  refine ⟨⟨?_, ?_, ?_⟩, ?_, ?_, ?_, ?_, ?_, ?_, ?_, ?_, ?_, ?_, ?_, ?_, ?_, ?_⟩
  · unfold getAllUsers
    split <;> simp
  · unfold getCoursesByCategory
    split
    · simp [validationFailed]
    · dsimp only
      split <;> simp
  · unfold resetToDefaultCourses
    dsimp only
    split
    · simp
    · split
      · simp
      · split <;> simp
  · unfold login
    dsimp only
    repeat' (first | rfl | split)
  · unfold register
    dsimp only
    repeat' (first | rfl | split)
  · unfold verifyToken
    dsimp only
    repeat' (first | rfl | split)
  · unfold getAllCourses
    dsimp only
    repeat' (first | rfl | split)
  · unfold getCourseById
    dsimp only
    repeat' (first | rfl | split)
  · unfold createCourse
    dsimp only
    repeat' (first | rfl | split)
  · unfold updateCourse
    dsimp only
    repeat' (first | rfl | split)
  · unfold deleteCourse
    dsimp only
    repeat' (first | rfl | split)
  · unfold getUserById
    dsimp only
    repeat' (first | rfl | split)
  · unfold createUser
    dsimp only
    repeat' (first | rfl | split)
  · unfold updateUser updateUserWrite
    dsimp only
    repeat' (first | rfl | split)
  · unfold deleteUser
    dsimp only
    repeat' (first | rfl | split)
  · unfold resetPassword
    dsimp only
    repeat' (first | rfl | split)
  · unfold uploadFile
    split <;> rfl

/-! ### Exceptions -/

theorem guarded_caught {failed : Response} {db : Db} {out : Response × Db}
    (h : guarded failed db out) : caught failed db out := by
  obtain ⟨n, hlog, _, hfail⟩ := h
  intro i hi hlt
  exact hfail ⟨i, by omega, hi⟩

theorem guarded_ret (failed : Response) (db : Db) (r : Response) :
    guarded failed db (r, db) :=
  ⟨0, rfl, rfl, fun ⟨i, hi, _⟩ => absurd hi (Nat.not_lt_zero i)⟩

theorem executeQuery_error_state {α : Type} (st : Statement α) (db : Db) (e : String)
    (d1 : Db) (h : executeQuery st db = (.error e, d1)) : d1 = db.issue st := by
  unfold executeQuery at h
  split at h
  · cases h; rfl
  · split at h
    · cases h; rfl
    · split at h
      · cases h
      · cases h; rfl

theorem guarded_error {α : Type} {st : Statement α} {db : Db} {e : String} {d1 : Db}
    (failed : Response) (h : executeQuery st db = (.error e, d1)) :
    guarded failed db (failed, d1) := by
  have hd := executeQuery_error_state st db e d1 h
  subst hd
  refine ⟨1, by simp [Db.issue], ?_, fun _ => rfl⟩
  cases hf : db.faults <;> simp [Db.issue, hf]

theorem guarded_ok {α : Type} {st : Statement α} {db : Db} {a : α} {d1 : Db}
    {failed : Response} {out : Response × Db}
    (h : executeQuery st db = (.ok a, d1)) (hout : guarded failed d1 out) (hq : st.quiet) :
    guarded failed db out := by
  have hrun := executeQuery_ok_run st db a d1 h
  obtain ⟨hlog, hfaults⟩ := hq _ _ _ hrun
  have hhead : db.faults.head? ≠ some true := by
    intro hf
    rw [executeQuery_fault st db hf] at h
    cases h
  obtain ⟨n, hn, hf, hfail⟩ := hout
  refine ⟨n + 1, ?_, ?_, ?_⟩
  · rw [hn, hlog]; simp [Db.issue]; omega
  · rw [hf, hfaults]
    cases hfl : db.faults with
    | nil => simp [Db.issue, hfl]
    | cons b rest => simp [Db.issue, hfl]
  · rintro ⟨i, hi, hfi⟩
    apply hfail
    cases i with
    | zero =>
      exfalso
      apply hhead
      cases hfl : db.faults with
      | nil => rw [hfl] at hfi; simp at hfi
      | cons b rest => rw [hfl] at hfi; simpa using hfi
    | succ j =>
      refine ⟨j, by omega, ?_⟩
      rw [hfaults]
      cases hfl : db.faults with
      | nil => rw [hfl] at hfi; simp at hfi
      | cons b rest => rw [hfl] at hfi; simpa [Db.issue, hfl] using hfi

theorem selectUserById_quiet (id : Value) : (selectUserById id).quiet := by
  intro d a d' h
  simp only [selectUserById] at h
  cases h
  exact ⟨rfl, rfl⟩

theorem deleteUserById_quiet (id : Value) : (deleteUserById id).quiet := by
  intro d a d' h
  simp only [deleteUserById] at h
  cases h
  exact ⟨rfl, rfl⟩

theorem selectCourseById_quiet (id : Value) : (selectCourseById id).quiet := by
  intro d a d' h
  simp only [selectCourseById] at h
  cases h
  exact ⟨rfl, rfl⟩

theorem selectCourseColumnsById_quiet (id : Value) : (selectCourseColumnsById id).quiet := by
  intro d a d' h
  simp only [selectCourseColumnsById] at h
  cases h
  exact ⟨rfl, rfl⟩

theorem selectUserIdByEmailExcept_quiet (email id : Value) : (selectUserIdByEmailExcept email id).quiet := by
  intro d a d' h
  simp only [selectUserIdByEmailExcept] at h
  cases h
  exact ⟨rfl, rfl⟩

theorem selectUserViewById_quiet (id : Value) : (selectUserViewById id).quiet := by
  intro d a d' h
  simp only [selectUserViewById] at h
  cases h
  exact ⟨rfl, rfl⟩

theorem deleteAllCourses_quiet : deleteAllCourses.quiet := by
  intro d a d' h
  simp only [deleteAllCourses] at h
  cases h
  exact ⟨rfl, rfl⟩

theorem resetCoursesAutoIncrement_quiet : resetCoursesAutoIncrement.quiet := by
  intro d a d' h
  simp only [resetCoursesAutoIncrement] at h
  cases h
  exact ⟨rfl, rfl⟩

theorem insertCourse_quiet (c : CourseFields) : (insertCourse c).quiet := by
  intro d a d' h
  simp only [insertCourse] at h
  cases h
  exact ⟨rfl, rfl⟩

theorem selectSeededCourseById_quiet (id : Value) : (selectSeededCourseById id).quiet := by
  intro d a d' h
  simp only [selectSeededCourseById] at h
  cases h
  exact ⟨rfl, rfl⟩

theorem selectUserByEmail_quiet (email : Value) : (selectUserByEmail email).quiet := by
  intro d a d' h
  simp only [selectUserByEmail] at h
  cases h
  exact ⟨rfl, rfl⟩

theorem selectUserIdByEmail_quiet (email : Value) : (selectUserIdByEmail email).quiet := by
  intro d a d' h
  simp only [selectUserIdByEmail] at h
  cases h
  exact ⟨rfl, rfl⟩

theorem insertUser_quiet (name email password phone gender role avatar : Value) : (insertUser name email password phone gender role avatar).quiet := by
  intro d a d' h
  simp only [insertUser] at h
  cases h
  exact ⟨rfl, rfl⟩

theorem selectAllUsers_quiet : selectAllUsers.quiet := by
  intro d a d' h
  simp only [selectAllUsers] at h
  cases h
  exact ⟨rfl, rfl⟩

theorem selectUserViewWhereId_quiet (id : Value) : (selectUserViewWhereId id).quiet := by
  intro d a d' h
  simp only [selectUserViewWhereId] at h
  cases h
  exact ⟨rfl, rfl⟩

theorem selectCourseWhereId_quiet (id : Value) : (selectCourseWhereId id).quiet := by
  intro d a d' h
  simp only [selectCourseWhereId] at h
  cases h
  exact ⟨rfl, rfl⟩

theorem selectCoursesByCategory_quiet (category : Value) : (selectCoursesByCategory category).quiet := by
  intro d a d' h
  simp only [selectCoursesByCategory] at h
  cases h
  exact ⟨rfl, rfl⟩

theorem deleteCourseById_quiet (id : Value) : (deleteCourseById id).quiet := by
  intro d a d' h
  simp only [deleteCourseById] at h
  cases h
  exact ⟨rfl, rfl⟩

theorem updateCourses_quiet (fs : List String) (vs : List Value) :
    (updateCourses fs vs).quiet := by
  intro d a d' h
  simp only [updateCourses] at h
  split_ifs at h
  cases h
  exact ⟨rfl, rfl⟩

theorem updateUsers_quiet (fs : List String) (vs : List Value) :
    (updateUsers fs vs).quiet := by
  intro d a d' h
  simp only [updateUsers] at h
  split_ifs at h
  cases h
  exact ⟨rfl, rfl⟩

theorem selectCourses_quiet (text : String) (conditions : List String)
    (sortColumn sortOrder : String) (limited paged : Bool) (params : List Value) :
    (selectCourses text conditions sortColumn sortOrder limited paged params).quiet := by
  intro d a d' h
  have := selectCourses_readonly _ _ _ _ _ _ _ d a d' h
  subst this
  exact ⟨rfl, rfl⟩

theorem countCourses_quiet (text : String) (conditions : List String)
    (params : List Value) : (countCourses text conditions params).quiet := by
  intro d a d' h
  simp only [countCourses] at h
  split_ifs at h
  cases h
  exact ⟨rfl, rfl⟩

theorem deleteUser_guarded (req : Request) (db : Db) :
    guarded (serverError "Terjadi kesalahan saat menghapus user") db (deleteUser req db) := by
  unfold deleteUser
  dsimp only
  repeat' first
    | exact guarded_ret _ _ _
    | exact guarded_error _ ‹_›
    | refine guarded_ok ‹_› ?_ (by
        first
        | apply selectUserById_quiet
        | apply deleteUserById_quiet)
    | split

theorem updateCourse_guarded (req : Request) (db : Db) :
    guarded (serverError "Terjadi kesalahan saat mengupdate course") db (updateCourse req db) := by
  unfold updateCourse
  dsimp only
  repeat' first
    | exact guarded_ret _ _ _
    | exact guarded_error _ ‹_›
    | refine guarded_ok ‹_› ?_ (by
        first
        | apply selectCourseById_quiet
        | apply updateCourses_quiet)
    | split

theorem updateUser_guarded (req : Request) (db : Db) :
    guarded (serverError "Terjadi kesalahan saat mengupdate user") db (updateUser req db) := by
  unfold updateUser updateUserWrite
  dsimp only
  repeat' first
    | exact guarded_ret _ _ _
    | exact guarded_error _ ‹_›
    | refine guarded_ok ‹_› ?_ (by
        first
        | apply selectUserById_quiet
        | apply selectUserIdByEmailExcept_quiet
        | apply updateUsers_quiet
        | apply selectUserViewById_quiet)
    | split

theorem getAllCourses_guarded (req : Request) (db : Db) :
    guarded (serverError "Terjadi kesalahan saat mengambil data courses") db (getAllCourses req db) := by
  unfold getAllCourses
  dsimp only
  repeat' first
    | exact guarded_ret _ _ _
    | exact guarded_error _ ‹_›
    | refine guarded_ok ‹_› ?_ (by
        first
        | apply selectCourses_quiet
        | apply countCourses_quiet)
    | split

theorem getCourseById_guarded (req : Request) (db : Db) :
    guarded (serverError "Terjadi kesalahan saat mengambil data course") db (getCourseById req db) := by
  unfold getCourseById
  dsimp only
  repeat' first
    | exact guarded_ret _ _ _
    | exact guarded_error _ ‹_›
    | refine guarded_ok ‹_› ?_ (by
        first
        | apply selectCourseWhereId_quiet)
    | split

theorem getCoursesByCategory_guarded (req : Request) (db : Db) :
    guarded (serverError "Terjadi kesalahan saat mengambil data courses") db (getCoursesByCategory req db) := by
  unfold getCoursesByCategory
  dsimp only
  repeat' first
    | exact guarded_ret _ _ _
    | exact guarded_error _ ‹_›
    | refine guarded_ok ‹_› ?_ (by
        first
        | apply selectCoursesByCategory_quiet)
    | split

theorem createCourse_guarded (req : Request) (db : Db) :
    guarded (serverError "Terjadi kesalahan saat membuat course") db (createCourse req db) := by
  unfold createCourse
  dsimp only
  repeat' first
    | exact guarded_ret _ _ _
    | exact guarded_error _ ‹_›
    | refine guarded_ok ‹_› ?_ (by
        first
        | apply insertCourse_quiet
        | apply selectCourseColumnsById_quiet)
    | split

theorem deleteCourse_guarded (req : Request) (db : Db) :
    guarded (serverError "Terjadi kesalahan saat menghapus course") db (deleteCourse req db) := by
  unfold deleteCourse
  dsimp only
  repeat' first
    | exact guarded_ret _ _ _
    | exact guarded_error _ ‹_›
    | refine guarded_ok ‹_› ?_ (by
        first
        | apply selectCourseById_quiet
        | apply deleteCourseById_quiet)
    | split

theorem getAllUsers_guarded (req : Request) (db : Db) :
    guarded (serverError "Terjadi kesalahan saat mengambil data users") db (getAllUsers req db) := by
  unfold getAllUsers
  repeat' first
    | exact guarded_ret _ _ _
    | exact guarded_error _ ‹_›
    | refine guarded_ok ‹_› ?_ (by
        first
        | apply selectAllUsers_quiet)
    | split

theorem getUserById_guarded (req : Request) (db : Db) :
    guarded (serverError "Terjadi kesalahan saat mengambil data user") db (getUserById req db) := by
  unfold getUserById
  dsimp only
  repeat' first
    | exact guarded_ret _ _ _
    | exact guarded_error _ ‹_›
    | refine guarded_ok ‹_› ?_ (by
        first
        | apply selectUserViewWhereId_quiet)
    | split

theorem createUser_guarded (env : Env) (req : Request) (db : Db) :
    guarded (serverError "Terjadi kesalahan saat membuat user") db (createUser env req db) := by
  unfold createUser
  dsimp only
  repeat' first
    | exact guarded_ret _ _ _
    | exact guarded_error _ ‹_›
    | refine guarded_ok ‹_› ?_ (by
        first
        | apply selectUserIdByEmail_quiet
        | apply insertUser_quiet
        | apply selectUserViewById_quiet)
    | split

theorem resetPassword_guarded (env : Env) (req : Request) (db : Db) :
    guarded (serverError "Terjadi kesalahan saat mereset password") db (resetPassword env req db) := by
  unfold resetPassword
  dsimp only
  repeat' first
    | exact guarded_ret _ _ _
    | exact guarded_error _ ‹_›
    | refine guarded_ok ‹_› ?_ (by
        first
        | apply selectUserById_quiet
        | apply updateUsers_quiet
        | apply selectUserViewById_quiet)
    | split

theorem login_guarded (env : Env) (req : Request) (db : Db) :
    guarded (serverError "Terjadi kesalahan saat login") db (login env req db) := by
  unfold login
  dsimp only
  repeat' first
    | exact guarded_ret _ _ _
    | exact guarded_error _ ‹_›
    | refine guarded_ok ‹_› ?_ (by
        first
        | apply selectUserByEmail_quiet)
    | split

theorem register_guarded (env : Env) (req : Request) (db : Db) :
    guarded (serverError "Terjadi kesalahan saat mendaftar. Silakan coba lagi.") db (register env req db) := by
  unfold register
  dsimp only
  repeat' first
    | exact guarded_ret _ _ _
    | exact guarded_error _ ‹_›
    | refine guarded_ok ‹_› ?_ (by
        first
        | apply selectUserIdByEmail_quiet
        | apply insertUser_quiet
        | apply selectUserById_quiet)
    | split

theorem verifyToken_guarded (env : Env) (req : Request) (db : Db) :
    guarded { status := 401, success := false, message := "Token tidak valid" } db
      (verifyToken env req db) := by
  unfold verifyToken
  dsimp only
  repeat' first
    | exact guarded_ret _ _ _
    | exact guarded_error _ ‹_›
    | refine guarded_ok ‹_› ?_ (by
        first
        | apply selectUserById_quiet)
    | split

theorem insertDefaults_guarded (failed : Response) (k : List (Option CourseRow) → Response)
    (cs : List CourseFields) :
    ∀ (acc : List (Option CourseRow)) (db : Db),
      guarded failed db
        (match insertDefaults cs acc db with
          | (.error _, d) => (failed, d)
          | (.ok created, d) => (k created, d)) := by
  induction cs with
  | nil =>
    intro acc db
    simp only [insertDefaults]
    exact guarded_ret _ _ _
  | cons c rest ih =>
    intro acc db
    simp only [insertDefaults]
    rcases h1 : executeQuery (insertCourse c) db with ⟨r1, d1⟩
    cases r1 with
    | error e => exact guarded_error _ h1
    | ok a1 =>
      refine guarded_ok h1 ?_ (insertCourse_quiet c)
      dsimp only
      rcases h2 : executeQuery (selectSeededCourseById (.num a1.insertId 0)) d1 with ⟨r2, d2⟩
      cases r2 with
      | error e => exact guarded_error _ h2
      | ok a2 =>
        refine guarded_ok h2 ?_ (selectSeededCourseById_quiet _)
        exact ih _ _

theorem resetToDefaultCourses_guarded (req : Request) (db : Db) :
    guarded (serverError "Terjadi kesalahan saat mereset courses") db
      (resetToDefaultCourses req db) := by
  unfold resetToDefaultCourses
  dsimp only
  rcases h1 : executeQuery deleteAllCourses db with ⟨r1, d1⟩
  cases r1 with
  | error e => exact guarded_error _ h1
  | ok a1 =>
    refine guarded_ok h1 ?_ deleteAllCourses_quiet
    dsimp only
    rcases h2 : executeQuery resetCoursesAutoIncrement d1 with ⟨r2, d2⟩
    cases r2 with
    | error e => exact guarded_error _ h2
    | ok a2 =>
      refine guarded_ok h2 ?_ resetCoursesAutoIncrement_quiet
      exact insertDefaults_guarded _
        (fun createdCourses =>
          { status := 200, success := true,
            message := "Courses reset to default successfully",
            data := .created createdCourses, count := some createdCourses.length })
        defaultCourses [] d2

theorem deleteUser_500 (req : Request) (db : Db)
    (h : (deleteUser req db).1.status = 500) :
    (deleteUser req db).1 = serverError "Terjadi kesalahan saat menghapus user" := by
  revert h
  unfold deleteUser
  dsimp only
  repeat' split
  all_goals first
    | (intro _; rfl)
    | (intro h; simp [validationFailed] at h)

theorem updateCourse_500 (req : Request) (db : Db)
    (h : (updateCourse req db).1.status = 500) :
    (updateCourse req db).1 = serverError "Terjadi kesalahan saat mengupdate course" := by
  revert h
  unfold updateCourse
  dsimp only
  repeat' split
  all_goals first
    | (intro _; rfl)
    | (intro h; simp [validationFailed] at h)

theorem updateUser_500 (req : Request) (db : Db)
    (h : (updateUser req db).1.status = 500) :
    (updateUser req db).1 = serverError "Terjadi kesalahan saat mengupdate user" := by
  revert h
  unfold updateUser updateUserWrite
  dsimp only
  repeat' split
  all_goals first
    | (intro _; rfl)
    | (intro h; simp [validationFailed] at h)

theorem getAllCourses_500 (req : Request) (db : Db)
    (h : (getAllCourses req db).1.status = 500) :
    (getAllCourses req db).1 = serverError "Terjadi kesalahan saat mengambil data courses" := by
  revert h
  unfold getAllCourses
  dsimp only
  repeat' split
  all_goals first
    | (intro _; rfl)
    | (intro h; simp [validationFailed] at h)

theorem getCourseById_500 (req : Request) (db : Db)
    (h : (getCourseById req db).1.status = 500) :
    (getCourseById req db).1 = serverError "Terjadi kesalahan saat mengambil data course" := by
  revert h
  unfold getCourseById
  dsimp only
  repeat' split
  all_goals first
    | (intro _; rfl)
    | (intro h; simp [validationFailed] at h)

theorem getCoursesByCategory_500 (req : Request) (db : Db)
    (h : (getCoursesByCategory req db).1.status = 500) :
    (getCoursesByCategory req db).1 = serverError "Terjadi kesalahan saat mengambil data courses" := by
  revert h
  unfold getCoursesByCategory
  dsimp only
  repeat' split
  all_goals first
    | (intro _; rfl)
    | (intro h; simp [validationFailed] at h)

theorem createCourse_500 (req : Request) (db : Db)
    (h : (createCourse req db).1.status = 500) :
    (createCourse req db).1 = serverError "Terjadi kesalahan saat membuat course" := by
  revert h
  unfold createCourse
  dsimp only
  repeat' split
  all_goals first
    | (intro _; rfl)
    | (intro h; simp [validationFailed] at h)

theorem deleteCourse_500 (req : Request) (db : Db)
    (h : (deleteCourse req db).1.status = 500) :
    (deleteCourse req db).1 = serverError "Terjadi kesalahan saat menghapus course" := by
  revert h
  unfold deleteCourse
  dsimp only
  repeat' split
  all_goals first
    | (intro _; rfl)
    | (intro h; simp [validationFailed] at h)

theorem getAllUsers_500 (req : Request) (db : Db)
    (h : (getAllUsers req db).1.status = 500) :
    (getAllUsers req db).1 = serverError "Terjadi kesalahan saat mengambil data users" := by
  revert h
  unfold getAllUsers
  repeat' split
  all_goals first
    | (intro _; rfl)
    | (intro h; simp [validationFailed] at h)

theorem getUserById_500 (req : Request) (db : Db)
    (h : (getUserById req db).1.status = 500) :
    (getUserById req db).1 = serverError "Terjadi kesalahan saat mengambil data user" := by
  revert h
  unfold getUserById
  dsimp only
  repeat' split
  all_goals first
    | (intro _; rfl)
    | (intro h; simp [validationFailed] at h)

theorem createUser_500 (env : Env) (req : Request) (db : Db)
    (h : (createUser env req db).1.status = 500) :
    (createUser env req db).1 = serverError "Terjadi kesalahan saat membuat user" := by
  revert h
  unfold createUser
  dsimp only
  repeat' split
  all_goals first
    | (intro _; rfl)
    | (intro h; simp [validationFailed] at h)

theorem resetPassword_500 (env : Env) (req : Request) (db : Db)
    (h : (resetPassword env req db).1.status = 500) :
    (resetPassword env req db).1 = serverError "Terjadi kesalahan saat mereset password" := by
  revert h
  unfold resetPassword
  dsimp only
  repeat' split
  all_goals first
    | (intro _; rfl)
    | (intro h; simp [validationFailed] at h)

theorem login_500 (env : Env) (req : Request) (db : Db)
    (h : (login env req db).1.status = 500) :
    (login env req db).1 = serverError "Terjadi kesalahan saat login" := by
  revert h
  unfold login
  dsimp only
  repeat' split
  all_goals first
    | (intro _; rfl)
    | (intro h; simp [validationFailed] at h)

theorem register_500 (env : Env) (req : Request) (db : Db)
    (h : (register env req db).1.status = 500) :
    (register env req db).1 = serverError "Terjadi kesalahan saat mendaftar. Silakan coba lagi." := by
  revert h
  unfold register
  dsimp only
  repeat' split
  all_goals first
    | (intro _; rfl)
    | (intro h; simp [validationFailed] at h)

theorem resetToDefaultCourses_500 (req : Request) (db : Db)
    (h : (resetToDefaultCourses req db).1.status = 500) :
    (resetToDefaultCourses req db).1 = serverError "Terjadi kesalahan saat mereset courses" := by
  revert h
  unfold resetToDefaultCourses
  dsimp only
  repeat' split
  all_goals first
    | (intro _; rfl)
    | (intro h; simp [validationFailed] at h)

theorem generateToken_error (env : Env) (h : ¬ env.signs) (userId email role : Value) :
    ∃ e, generateToken env userId email role = .error e := by
  unfold generateToken
  dsimp only
  split
  · exact ⟨_, rfl⟩
  · rename_i secret hs
    split
    · exact ⟨_, rfl⟩
    · split
      · exact ⟨_, rfl⟩
      · rename_i hne ht
        exfalso
        apply h
        refine ⟨⟨secret, hs, hne⟩, ?_⟩
        simpa using ht

/-- C18. Every controller handler answers an exception with its own fixed
response.  If the connection fails on any statement a handler issued, the
response is status 500 (401 `Token tidak valid` for `verifyToken`) with `success`
false and the handler's message; every 500 response of a handler is that one
response, whatever was thrown; and the same response answers `bcrypt.hash`
throwing in `register`, `createUser` and `resetPassword`, `bcrypt.compare` or
`jwt.sign` throwing in `login`, and `jwt.verify` throwing in `verifyToken`. -/
theorem exceptions_are_caught (env : Env) (req : Request) (db : Db) :
    (caught (serverError "Terjadi kesalahan saat login") db (login env req db) ∧
     caught (serverError "Terjadi kesalahan saat mendaftar. Silakan coba lagi.") db
       (register env req db) ∧
     caught tokenInvalid db (verifyToken env req db) ∧
     caught (serverError "Terjadi kesalahan saat mengambil data courses") db
       (getAllCourses req db) ∧
     caught (serverError "Terjadi kesalahan saat mengambil data course") db
       (getCourseById req db) ∧
     caught (serverError "Terjadi kesalahan saat mengambil data courses") db
       (getCoursesByCategory req db) ∧
     caught (serverError "Terjadi kesalahan saat membuat course") db (createCourse req db) ∧
     caught (serverError "Terjadi kesalahan saat mengupdate course") db
       (updateCourse req db) ∧
     caught (serverError "Terjadi kesalahan saat menghapus course") db
       (deleteCourse req db) ∧
     caught (serverError "Terjadi kesalahan saat mereset courses") db
       (resetToDefaultCourses req db) ∧
     caught (serverError "Terjadi kesalahan saat mengambil data users") db
       (getAllUsers req db) ∧
     caught (serverError "Terjadi kesalahan saat mengambil data user") db
       (getUserById req db) ∧
     caught (serverError "Terjadi kesalahan saat membuat user") db (createUser env req db) ∧
     caught (serverError "Terjadi kesalahan saat mengupdate user") db (updateUser req db) ∧
     caught (serverError "Terjadi kesalahan saat menghapus user") db (deleteUser req db) ∧
     caught (serverError "Terjadi kesalahan saat mereset password") db
       (resetPassword env req db)) ∧
    (((login env req db).1.status = 500 →
        (login env req db).1 = serverError "Terjadi kesalahan saat login") ∧
     ((register env req db).1.status = 500 →
        (register env req db).1 =
          serverError "Terjadi kesalahan saat mendaftar. Silakan coba lagi.") ∧
     ((getAllCourses req db).1.status = 500 →
        (getAllCourses req db).1 =
          serverError "Terjadi kesalahan saat mengambil data courses") ∧
     ((getCourseById req db).1.status = 500 →
        (getCourseById req db).1 =
          serverError "Terjadi kesalahan saat mengambil data course") ∧
     ((getCoursesByCategory req db).1.status = 500 →
        (getCoursesByCategory req db).1 =
          serverError "Terjadi kesalahan saat mengambil data courses") ∧
     ((createCourse req db).1.status = 500 →
        (createCourse req db).1 = serverError "Terjadi kesalahan saat membuat course") ∧
     ((updateCourse req db).1.status = 500 →
        (updateCourse req db).1 = serverError "Terjadi kesalahan saat mengupdate course") ∧
     ((deleteCourse req db).1.status = 500 →
        (deleteCourse req db).1 = serverError "Terjadi kesalahan saat menghapus course") ∧
     ((resetToDefaultCourses req db).1.status = 500 →
        (resetToDefaultCourses req db).1 =
          serverError "Terjadi kesalahan saat mereset courses") ∧
     ((getAllUsers req db).1.status = 500 →
        (getAllUsers req db).1 =
          serverError "Terjadi kesalahan saat mengambil data users") ∧
     ((getUserById req db).1.status = 500 →
        (getUserById req db).1 =
          serverError "Terjadi kesalahan saat mengambil data user") ∧
     ((createUser env req db).1.status = 500 →
        (createUser env req db).1 = serverError "Terjadi kesalahan saat membuat user") ∧
     ((updateUser req db).1.status = 500 →
        (updateUser req db).1 = serverError "Terjadi kesalahan saat mengupdate user") ∧
     ((deleteUser req db).1.status = 500 →
        (deleteUser req db).1 = serverError "Terjadi kesalahan saat menghapus user") ∧
     ((resetPassword env req db).1.status = 500 →
        (resetPassword env req db).1 =
          serverError "Terjadi kesalahan saat mereset password")) ∧
    ((∀ e rows d1, req.errors = [] →
        executeQuery (selectUserIdByEmail (req.body.get "email")) db = (.ok rows, d1) →
        rows.length = 0 → hashPassword env (req.body.get "password") = .error e →
        register env req db =
          (serverError "Terjadi kesalahan saat mendaftar. Silakan coba lagi.", d1) ∧
        createUser env req db = (serverError "Terjadi kesalahan saat membuat user", d1)) ∧
     (∀ e rows d1, req.errors = [] →
        executeQuery (selectUserById (req.params.get "id")) db = (.ok rows, d1) →
        rows.length ≠ 0 → hashPassword env (req.body.get "newPassword") = .error e →
        resetPassword env req db = (serverError "Terjadi kesalahan saat mereset password", d1)) ∧
     (req.errors = [] → isHardcoded req = true → ¬ env.signs →
        login env req db = (serverError "Terjadi kesalahan saat login", db)) ∧
     (∀ user rest d1, req.errors = [] → isHardcoded req = false →
        executeQuery (selectUserByEmail (req.body.get "email")) db = (.ok (user :: rest), d1) →
        ((∃ e, checkPassword env (req.body.get "password") user.password = .error e) ∨
         (checkPassword env (req.body.get "password") user.password = .ok true ∧
           ¬ env.signs)) →
        login env req db = (serverError "Terjadi kesalahan saat login", d1)) ∧
     (∀ e, (bearerToken req.headers).truthy = true →
        env.verify (bearerToken req.headers).text env.JWT_SECRET = .error e →
        verifyToken env req db = (tokenInvalid, db))) := by
  refine ⟨⟨guarded_caught (login_guarded env req db),
      guarded_caught (register_guarded env req db),
      guarded_caught (verifyToken_guarded env req db),
      guarded_caught (getAllCourses_guarded req db),
      guarded_caught (getCourseById_guarded req db),
      guarded_caught (getCoursesByCategory_guarded req db),
      guarded_caught (createCourse_guarded req db),
      guarded_caught (updateCourse_guarded req db),
      guarded_caught (deleteCourse_guarded req db),
      guarded_caught (resetToDefaultCourses_guarded req db),
      guarded_caught (getAllUsers_guarded req db),
      guarded_caught (getUserById_guarded req db),
      guarded_caught (createUser_guarded env req db),
      guarded_caught (updateUser_guarded req db),
      guarded_caught (deleteUser_guarded req db),
      guarded_caught (resetPassword_guarded env req db)⟩,
    ⟨login_500 env req db, register_500 env req db, getAllCourses_500 req db,
      getCourseById_500 req db, getCoursesByCategory_500 req db, createCourse_500 req db,
      updateCourse_500 req db, deleteCourse_500 req db, resetToDefaultCourses_500 req db,
      getAllUsers_500 req db, getUserById_500 req db, createUser_500 env req db,
      updateUser_500 req db, deleteUser_500 req db, resetPassword_500 env req db⟩,
    ?_, ?_, ?_, ?_, ?_⟩
  · intro e rows d1 hv hq hlen hh
    have hnot : ¬ rows.length > 0 := by omega
    constructor
    · unfold register
      simp only [hv, hq, hh, hnot, List.isEmpty_nil, Bool.not_true, Bool.false_eq_true,
        if_false]
      rfl
    · unfold createUser
      simp only [hv, hq, hh, hnot, List.isEmpty_nil, Bool.not_true, Bool.false_eq_true,
        if_false]
      rfl
  · intro e rows d1 hv hq hlen hh
    unfold resetPassword
    simp only [hv, hq, hh, hlen, List.isEmpty_nil, Bool.not_true, Bool.false_eq_true,
      if_false]
    rfl
  · intro hv hhard hs
    unfold isHardcoded at hhard
    unfold login
    simp only [hv, List.isEmpty_nil, Bool.not_true, Bool.false_eq_true, if_false]
    split
    · obtain ⟨e, he⟩ := generateToken_error env hs (.str "admin") (req.body.get "email")
        (.str "admin")
      rw [he]; rfl
    · rename_i h1
      have h2 : ((req.body.get "email").strictEq (.str "user@example.com") &&
          (req.body.get "password").strictEq (.str "123456")) = true := by
        simpa [h1] using hhard
      rw [if_pos h2]
      obtain ⟨e, he⟩ := generateToken_error env hs (.str "demo") (req.body.get "email")
        (.str "user")
      rw [he]; rfl
  · intro user rest d1 hv hhard hq hthrow
    unfold isHardcoded at hhard
    simp only [Bool.or_eq_false_iff] at hhard
    unfold login
    simp only [hv, hhard.1, hhard.2, hq, List.isEmpty_nil, Bool.not_true, Bool.false_eq_true,
      if_false]
    rcases hthrow with ⟨e, he⟩ | ⟨hok, hs⟩
    · rw [he]; rfl
    · obtain ⟨e, he⟩ := generateToken_error env hs (.num user.id 0) user.email user.role
      rw [hok]
      simp only [Bool.not_true, Bool.false_eq_true, if_false, he]
      rfl
  · intro e htok hver
    unfold verifyToken
    simp only [htok, hver, Bool.not_true, Bool.false_eq_true, if_false]
    rfl

/-- C18 at a connection that fails on the second statement of `deleteUser`: the
`DELETE` throws and the handler answers its 500 response. -/
theorem exceptions_are_caught_witness :
    sampleFlakyDb.faults[1]? = some true ∧
    sampleFlakyDb.log.length + 1 < (deleteUser sampleDeleteStudent sampleFlakyDb).2.log.length ∧
    (deleteUser sampleDeleteStudent sampleFlakyDb).1 =
      serverError "Terjadi kesalahan saat menghapus user" :=
  ⟨by decide, by decide,
    (exceptions_are_caught sampleEnv sampleDeleteStudent sampleFlakyDb).1.2.2.2.2.2.2.2.2.2.2.2.2.2.2.1
      1 (by decide) (by decide)⟩

/-! ### Passwords stay in the table -/

theorem samePublic_issue {α : Type} {d1 d2 : Db} (st : Statement α) (h : samePublic d1 d2) :
    samePublic (d1.issue st) (d2.issue st) := by
  obtain ⟨h1, h2, h3, h4, h5, h6, h7⟩ := h
  exact ⟨h1, h2, h3, h4, h5, by simp [Db.issue, h6], by simp [Db.issue, h7]⟩

theorem executeQuery_samePublic {α : Type} {st : Statement α} {R : α → α → Prop}
    (hst : st.blind R) {d1 d2 : Db} (h : samePublic d1 d2) :
    (∃ x1 x2 e1 e2, executeQuery st d1 = (.error x1, e1) ∧
      executeQuery st d2 = (.error x2, e2) ∧ samePublic e1 e2) ∨
    (∃ a1 a2 e1 e2, executeQuery st d1 = (.ok a1, e1) ∧ executeQuery st d2 = (.ok a2, e2) ∧
      R a1 a2 ∧ samePublic e1 e2) := by
  have hi := samePublic_issue st h
  have hf : d1.faults = d2.faults := h.2.2.2.2.2.1
  unfold executeQuery
  rw [hf]
  split
  · exact Or.inl ⟨_, _, _, _, rfl, rfl, hi⟩
  · split
    · exact Or.inl ⟨_, _, _, _, rfl, rfl, hi⟩
    · rcases hst _ _ hi with ⟨x1, x2, h1, h2⟩ | ⟨a1, a2, e1, e2, h1, h2, hR, hs⟩
      · rw [h1, h2]
        exact Or.inl ⟨_, _, _, _, rfl, rfl, hi⟩
      · rw [h1, h2]
        exact Or.inr ⟨_, _, _, _, rfl, rfl, hR, hs⟩

theorem sameViews_filter {a1 a2 : List UserRow} (h : sameViews a1 a2) (p : UserView → Bool) :
    sameViews (a1.filter (fun u => p u.view)) (a2.filter (fun u => p u.view)) := by
  unfold sameViews at *
  induction a1 generalizing a2 with
  | nil =>
    cases a2 with
    | nil => rfl
    | cons b bs => simp at h
  | cons a as ih =>
    cases a2 with
    | nil => simp at h
    | cons b bs =>
      simp only [List.map_cons, List.cons.injEq] at h
      have := ih h.2
      simp only [List.filter_cons, h.1]
      split
      · simp only [List.map_cons, h.1, this]
      · exact this

theorem selectUserById_blind (id : Value) : (selectUserById id).blind sameViews := by
  intro d1 d2 h
  refine Or.inr ⟨_, _, _, _, rfl, rfl, ?_, h⟩
  exact sameViews_filter h.1 (fun v => idMatches v.id id)

theorem selectUserByEmail_blind (email : Value) : (selectUserByEmail email).blind sameViews := by
  intro d1 d2 h
  refine Or.inr ⟨_, _, _, _, rfl, rfl, ?_, h⟩
  exact sameViews_filter h.1 (fun v => sqlEq v.email email)

theorem selectUserViewById_blind (id : Value) : (selectUserViewById id).blind Eq := by
  intro d1 d2 h
  refine Or.inr ⟨_, _, _, _, rfl, rfl, ?_, h⟩
  exact sameViews_filter h.1 (fun v => idMatches v.id id)

theorem selectUserViewWhereId_blind (id : Value) : (selectUserViewWhereId id).blind Eq := by
  intro d1 d2 h
  refine Or.inr ⟨_, _, _, _, rfl, rfl, ?_, h⟩
  exact sameViews_filter h.1 (fun v => idMatches v.id id)

theorem map_id_of_sameViews {a1 a2 : List UserRow} (h : sameViews a1 a2) :
    a1.map (fun u => u.id) = a2.map (fun u => u.id) := by
  have := congrArg (List.map (fun v : UserView => v.id)) h
  simpa [List.map_map, Function.comp_def, UserRow.view] using this

theorem selectUserIdByEmail_blind (email : Value) : (selectUserIdByEmail email).blind Eq := by
  intro d1 d2 h
  refine Or.inr ⟨_, _, _, _, rfl, rfl, ?_, h⟩
  exact map_id_of_sameViews (sameViews_filter h.1 (fun v => sqlEq v.email email))

theorem selectUserIdByEmailExcept_blind (email id : Value) :
    (selectUserIdByEmailExcept email id).blind Eq := by
  intro d1 d2 h
  refine Or.inr ⟨_, _, _, _, rfl, rfl, ?_, h⟩
  exact map_id_of_sameViews
    (sameViews_filter h.1 (fun v => sqlEq v.email email && !idMatches v.id id))

theorem selectAllUsers_blind : selectAllUsers.blind Eq := by
  intro d1 d2 h
  refine Or.inr ⟨_, _, _, _, rfl, rfl, ?_, h⟩
  have e : ∀ l : List UserRow, (latestUsersFirst l).map UserRow.view =
      (l.map UserRow.view).insertionSort (fun a b => b.created_at ≤ a.created_at) := by
    intro l
    unfold latestUsersFirst
    exact List.map_insertionSort _ _ _ _ (fun a _ b _ => Iff.rfl)
  show (latestUsersFirst d1.users).map UserRow.view = (latestUsersFirst d2.users).map UserRow.view
  rw [e, e, h.1]

theorem insertUser_blind (name email password phone gender role avatar : Value) :
    (insertUser name email password phone gender role avatar).blind Eq := by
  intro d1 d2 h
  obtain ⟨h1, h2, h3, h4, h5, h6, h7⟩ := h
  refine Or.inr ⟨_, _, _, _, rfl, rfl, ?_, ?_⟩
  · simp [h3]
  · refine ⟨?_, h2, ?_, h4, h5, h6, h7⟩
    · simp [h1, h3, h5]
    · simp [h3]

theorem UserRow.view_assign {r1 r2 : UserRow} (h : r1.view = r2.view) (frag : String)
    (v : Value) : (r1.assign frag v).view = (r2.assign frag v).view := by
  simp only [UserRow.view, UserView.mk.injEq] at h
  obtain ⟨h1, h2, h3, h4, h5, h6, h7, h8, h9⟩ := h
  unfold UserRow.assign
  repeat' split
  all_goals simp [UserRow.view, h1, h2, h3, h4, h5, h6, h7, h8, h9]

theorem UserRow.view_foldl_assign (fvs : List (String × Value)) {r1 r2 : UserRow}
    (h : r1.view = r2.view) :
    (fvs.foldl (fun r fv => r.assign fv.1 fv.2) r1).view =
      (fvs.foldl (fun r fv => r.assign fv.1 fv.2) r2).view := by
  induction fvs generalizing r1 r2 with
  | nil => exact h
  | cons fv rest ih => exact ih (UserRow.view_assign h fv.1 fv.2)

theorem sameViews_map {a1 a2 : List UserRow} (h : sameViews a1 a2) (f : UserRow → UserRow)
    (hf : ∀ r1 r2 : UserRow, r1.view = r2.view → (f r1).view = (f r2).view) :
    sameViews (a1.map f) (a2.map f) := by
  unfold sameViews at *
  induction a1 generalizing a2 with
  | nil =>
    cases a2 with
    | nil => rfl
    | cons b bs => simp at h
  | cons a as ih =>
    cases a2 with
    | nil => simp at h
    | cons b bs =>
      simp only [List.map_cons, List.cons.injEq] at h
      simp only [List.map_cons, hf a b h.1, ih h.2]

theorem updateUsers_blind (fs : List String) (vs : List Value) :
    (updateUsers fs vs).blind Eq := by
  intro d1 d2 h
  obtain ⟨h1, h2, h3, h4, h5, h6, h7⟩ := h
  by_cases hlen : vs.length ≠ fs.length + 1
  · exact Or.inl ⟨_, _, by simp only [updateUsers, if_pos hlen]; rfl, by
      simp only [updateUsers, if_pos hlen]; rfl⟩
  · by_cases hsyn : fs = [] ∨ ¬ (∀ f ∈ fs, f ∈ userAssignments)
    · exact Or.inl ⟨_, _, by simp only [updateUsers, if_neg hlen, if_pos hsyn]; rfl, by
        simp only [updateUsers, if_neg hlen, if_pos hsyn]; rfl⟩
    · have hrun : ∀ d : Db, (updateUsers fs vs).run d =
          .ok (⟨0, (d.users.filter
              (fun u => idMatches u.id (vs.getLast?.getD .null))).length⟩,
            { d with users := d.users.map (fun u =>
                if idMatches u.id (vs.getLast?.getD .null) then
                  { (fs.zip vs).foldl (fun r fv => r.assign fv.1 fv.2) u with
                    updated_at := d.now }
                else u) }) := by
        intro d
        simp only [updateUsers, if_neg hlen, if_neg hsyn]
      have hl : (d1.users.filter (fun u => idMatches u.id (vs.getLast?.getD .null))).length =
          (d2.users.filter (fun u => idMatches u.id (vs.getLast?.getD .null))).length := by
        have := congrArg List.length
          (sameViews_filter h1 (fun v => idMatches v.id (vs.getLast?.getD .null)))
        simp only [List.length_map] at this
        exact this
      refine Or.inr ⟨_, _, _, _, hrun d1, hrun d2, by rw [hl], ?_, h2, h3, h4, h5, h6, h7⟩
      rw [h5]
      refine sameViews_map h1 _ ?_
      intro r1 r2 hr
      have hid : r1.id = r2.id := by
        have := congrArg UserView.id hr
        simpa [UserRow.view] using this
      rw [hid]
      split
      · have := UserRow.view_foldl_assign (fs.zip vs) hr
        simp only [UserRow.view, UserView.mk.injEq] at this ⊢
        obtain ⟨g1, g2, g3, g4, g5, g6, g7, g8, g9⟩ := this
        exact ⟨g1, g2, g3, g4, g5, g6, g7, g8, trivial⟩
      · exact hr

theorem sameViews_nil_left {a : List UserRow} (h : sameViews [] a) : a = [] := by
  cases a with
  | nil => rfl
  | cons b bs => simp [sameViews] at h

theorem sameViews_cons {u1 : UserRow} {r1 a2 : List UserRow} (h : sameViews (u1 :: r1) a2) :
    ∃ u2 r2, a2 = u2 :: r2 ∧ u1.view = u2.view ∧ sameViews r1 r2 := by
  cases a2 with
  | nil => simp [sameViews] at h
  | cons b bs =>
    simp only [sameViews, List.map_cons, List.cons.injEq] at h
    exact ⟨b, bs, rfl, h.1, h.2⟩

theorem userData_of_view {u1 u2 : UserRow} (h : u1.view = u2.view) :
    userData u1 = userData u2 := by
  simp only [UserRow.view, UserView.mk.injEq] at h
  obtain ⟨h1, h2, h3, h4, h5, h6, h7, _, _⟩ := h
  simp [userData, h1, h2, h3, h4, h5, h6, h7]

theorem getAllUsers_sameOutcome (req : Request) {d1 d2 : Db} (h : samePublic d1 d2) :
    sameOutcome (getAllUsers req d1) (getAllUsers req d2) := by
  unfold getAllUsers
  rcases executeQuery_samePublic selectAllUsers_blind h with
    ⟨x1, x2, e1, e2, q1, q2, hs⟩ | ⟨a1, a2, e1, e2, q1, q2, hR, hs⟩
  · rw [q1, q2]; exact ⟨rfl, hs⟩
  · rw [q1, q2]; subst hR; exact ⟨rfl, hs⟩

theorem getUserById_sameOutcome (req : Request) {d1 d2 : Db} (h : samePublic d1 d2) :
    sameOutcome (getUserById req d1) (getUserById req d2) := by
  unfold getUserById
  dsimp only
  by_cases hv : (!req.errors.isEmpty) = true
  · rw [if_pos hv, if_pos hv]; exact ⟨rfl, h⟩
  rw [if_neg hv, if_neg hv]
  rcases executeQuery_samePublic (selectUserViewWhereId_blind (req.params.get "id")) h with
    ⟨x1, x2, e1, e2, q1, q2, hs⟩ | ⟨a1, a2, e1, e2, q1, q2, hR, hs⟩
  · rw [q1, q2]; exact ⟨rfl, hs⟩
  · rw [q1, q2]; subst hR; dsimp only
    split
    · exact ⟨rfl, hs⟩
    · exact ⟨rfl, hs⟩

theorem verifyToken_sameOutcome (env : Env) (req : Request) {d1 d2 : Db}
    (h : samePublic d1 d2) :
    sameOutcome (verifyToken env req d1) (verifyToken env req d2) := by
  unfold verifyToken
  dsimp only
  split
  · exact ⟨rfl, h⟩
  cases hver : env.verify (bearerToken req.headers).text env.JWT_SECRET with
  | error e => exact ⟨rfl, h⟩
  | ok decoded =>
    dsimp only
    rcases executeQuery_samePublic (selectUserById_blind decoded.userId) h with
      ⟨x1, x2, e1, e2, q1, q2, hs⟩ | ⟨a1, a2, e1, e2, q1, q2, hR, hs⟩
    · rw [q1, q2]; exact ⟨rfl, hs⟩
    · rw [q1, q2]
      cases a1 with
      | nil =>
        rw [sameViews_nil_left hR]
        exact ⟨rfl, hs⟩
      | cons u1 r1 =>
        obtain ⟨u2, r2, rfl, hu, _⟩ := sameViews_cons hR
        dsimp only
        rw [userData_of_view hu]
        exact ⟨rfl, hs⟩

theorem register_sameOutcome (env : Env) (req : Request) {d1 d2 : Db}
    (h : samePublic d1 d2) :
    sameOutcome (register env req d1) (register env req d2) := by
  unfold register
  dsimp only
  by_cases hv : (!req.errors.isEmpty) = true
  · rw [if_pos hv, if_pos hv]; exact ⟨rfl, h⟩
  rw [if_neg hv, if_neg hv]
  rcases executeQuery_samePublic (selectUserIdByEmail_blind (req.body.get "email")) h with
    ⟨x1, x2, e1, e2, q1, q2, hs⟩ | ⟨a1, a2, e1, e2, q1, q2, hR, hs⟩
  · rw [q1, q2]; exact ⟨rfl, hs⟩
  rw [q1, q2]; subst hR; dsimp only
  split
  · exact ⟨rfl, hs⟩
  cases hh : hashPassword env (req.body.get "password") with
  | error e => exact ⟨rfl, hs⟩
  | ok hashed =>
    dsimp only
    rcases executeQuery_samePublic (insertUser_blind (req.body.get "name")
      (req.body.get "email") (.str hashed) ((req.body.get "phone").or .null)
      ((req.body.get "gender").or .null) (.str "student")
      (.str (stockAvatar (env.random.val + 1)))) hs with
      ⟨x1, x2, f1, f2, p1, p2, hs2⟩ | ⟨b1, b2, f1, f2, p1, p2, hR2, hs2⟩
    · rw [p1, p2]; exact ⟨rfl, hs2⟩
    rw [p1, p2]; subst hR2; dsimp only
    rcases executeQuery_samePublic (selectUserById_blind (.num b1.insertId 0)) hs2 with
      ⟨x1, x2, g1, g2, r1, r2, hs3⟩ | ⟨c1, c2, g1, g2, r1, r2, hR3, hs3⟩
    · rw [r1, r2]; exact ⟨rfl, hs3⟩
    rw [r1, r2]
    cases c1 with
    | nil =>
      rw [sameViews_nil_left hR3]
      exact ⟨rfl, hs3⟩
    | cons u1 t1 =>
      obtain ⟨u2, t2, rfl, hu, _⟩ := sameViews_cons hR3
      dsimp only
      rw [userData_of_view hu]
      exact ⟨rfl, hs3⟩

theorem createUser_sameOutcome (env : Env) (req : Request) {d1 d2 : Db}
    (h : samePublic d1 d2) :
    sameOutcome (createUser env req d1) (createUser env req d2) := by
  unfold createUser
  dsimp only
  by_cases hv : (!req.errors.isEmpty) = true
  · rw [if_pos hv, if_pos hv]; exact ⟨rfl, h⟩
  rw [if_neg hv, if_neg hv]
  rcases executeQuery_samePublic (selectUserIdByEmail_blind (req.body.get "email")) h with
    ⟨x1, x2, e1, e2, q1, q2, hs⟩ | ⟨a1, a2, e1, e2, q1, q2, hR, hs⟩
  · rw [q1, q2]; exact ⟨rfl, hs⟩
  rw [q1, q2]; subst hR; dsimp only
  split
  · exact ⟨rfl, hs⟩
  cases hh : hashPassword env (req.body.get "password") with
  | error e => exact ⟨rfl, hs⟩
  | ok hashed =>
    dsimp only
    rcases executeQuery_samePublic (insertUser_blind (req.body.get "name")
      (req.body.get "email") (.str hashed) ((req.body.get "phone").or .null)
      ((req.body.get "gender").or .null) ((req.body.get "role").or (.str "student"))
      ((req.body.get "avatar").or (.str (stockAvatar env.random.val)))) hs with
      ⟨x1, x2, f1, f2, p1, p2, hs2⟩ | ⟨b1, b2, f1, f2, p1, p2, hR2, hs2⟩
    · rw [p1, p2]; exact ⟨rfl, hs2⟩
    rw [p1, p2]; subst hR2; dsimp only
    rcases executeQuery_samePublic (selectUserViewById_blind (.num b1.insertId 0)) hs2 with
      ⟨x1, x2, g1, g2, r1, r2, hs3⟩ | ⟨c1, c2, g1, g2, r1, r2, hR3, hs3⟩
    · rw [r1, r2]; exact ⟨rfl, hs3⟩
    rw [r1, r2]; subst hR3
    exact ⟨rfl, hs3⟩

theorem resetPassword_sameOutcome (env : Env) (req : Request) {d1 d2 : Db}
    (h : samePublic d1 d2) :
    sameOutcome (resetPassword env req d1) (resetPassword env req d2) := by
  unfold resetPassword
  dsimp only
  by_cases hv : (!req.errors.isEmpty) = true
  · rw [if_pos hv, if_pos hv]; exact ⟨rfl, h⟩
  rw [if_neg hv, if_neg hv]
  rcases executeQuery_samePublic (selectUserById_blind (req.params.get "id")) h with
    ⟨x1, x2, e1, e2, q1, q2, hs⟩ | ⟨a1, a2, e1, e2, q1, q2, hR, hs⟩
  · rw [q1, q2]; exact ⟨rfl, hs⟩
  rw [q1, q2]; dsimp only
  have hl : a1.length = a2.length := by
    have := congrArg List.length hR
    simpa using this
  rw [hl]
  split
  · exact ⟨rfl, hs⟩
  cases hh : hashPassword env (req.body.get "newPassword") with
  | error e => exact ⟨rfl, hs⟩
  | ok hashed =>
    dsimp only
    rcases executeQuery_samePublic
      (updateUsers_blind ["password = ?"] [.str hashed, req.params.get "id"]) hs with
      ⟨x1, x2, f1, f2, p1, p2, hs2⟩ | ⟨b1, b2, f1, f2, p1, p2, hR2, hs2⟩
    · rw [p1, p2]; exact ⟨rfl, hs2⟩
    rw [p1, p2]; dsimp only
    rcases executeQuery_samePublic (selectUserViewById_blind (req.params.get "id")) hs2 with
      ⟨x1, x2, g1, g2, r1, r2, hs3⟩ | ⟨c1, c2, g1, g2, r1, r2, hR3, hs3⟩
    · rw [r1, r2]; exact ⟨rfl, hs3⟩
    rw [r1, r2]; subst hR3
    exact ⟨rfl, hs3⟩

theorem updateUserWrite_sameOutcome (req : Request) {d1 d2 : Db} (h : samePublic d1 d2) :
    sameOutcome (updateUserWrite req d1) (updateUserWrite req d2) := by
  unfold updateUserWrite
  dsimp only
  rcases hu : userUpdate req.body with ⟨fs, vs⟩
  dsimp only
  split
  · exact ⟨rfl, h⟩
  rcases executeQuery_samePublic (updateUsers_blind fs (vs ++ [req.params.get "id"])) h with
    ⟨x1, x2, f1, f2, p1, p2, hs2⟩ | ⟨b1, b2, f1, f2, p1, p2, hR2, hs2⟩
  · rw [p1, p2]; exact ⟨rfl, hs2⟩
  rw [p1, p2]; dsimp only
  rcases executeQuery_samePublic (selectUserViewById_blind (req.params.get "id")) hs2 with
    ⟨x1, x2, g1, g2, r1, r2, hs3⟩ | ⟨c1, c2, g1, g2, r1, r2, hR3, hs3⟩
  · rw [r1, r2]; exact ⟨rfl, hs3⟩
  rw [r1, r2]; subst hR3
  exact ⟨rfl, hs3⟩

theorem updateUser_sameOutcome (req : Request) {d1 d2 : Db} (h : samePublic d1 d2) :
    sameOutcome (updateUser req d1) (updateUser req d2) := by
  unfold updateUser
  dsimp only
  by_cases hv : (!req.errors.isEmpty) = true
  · rw [if_pos hv, if_pos hv]; exact ⟨rfl, h⟩
  rw [if_neg hv, if_neg hv]
  rcases executeQuery_samePublic (selectUserById_blind (req.params.get "id")) h with
    ⟨x1, x2, e1, e2, q1, q2, hs⟩ | ⟨a1, a2, e1, e2, q1, q2, hR, hs⟩
  · rw [q1, q2]; exact ⟨rfl, hs⟩
  rw [q1, q2]
  cases a1 with
  | nil =>
    rw [sameViews_nil_left hR]
    exact ⟨rfl, hs⟩
  | cons u1 t1 =>
    obtain ⟨u2, t2, rfl, hu, _⟩ := sameViews_cons hR
    have hemail : u1.email = u2.email := by
      have := congrArg UserView.email hu
      simpa [UserRow.view] using this
    dsimp only
    rw [hemail]
    split
    · rcases executeQuery_samePublic
        (selectUserIdByEmailExcept_blind (req.body.get "email") (req.params.get "id")) hs with
        ⟨x1, x2, f1, f2, p1, p2, hs2⟩ | ⟨b1, b2, f1, f2, p1, p2, hR2, hs2⟩
      · rw [p1, p2]; exact ⟨rfl, hs2⟩
      rw [p1, p2]; subst hR2; dsimp only
      split
      · exact ⟨rfl, hs2⟩
      · exact updateUserWrite_sameOutcome req hs2
    · exact updateUserWrite_sameOutcome req hs

/-- The success response of `login`, and the state it leaves, are the same on two
states that differ only in the stored passwords; so is every response of `login`
with a given status. -/
theorem login_sameOutcome (env : Env) (req : Request) {d1 d2 : Db} (h : samePublic d1 d2) :
    ((login env req d1).1.status = (login env req d2).1.status →
      (login env req d1).1 = (login env req d2).1) ∧
    samePublic (login env req d1).2 (login env req d2).2 := by
  unfold login
  dsimp only
  by_cases hv : (!req.errors.isEmpty) = true
  · rw [if_pos hv, if_pos hv]; exact ⟨fun _ => rfl, h⟩
  rw [if_neg hv, if_neg hv]
  split
  · split
    · exact ⟨fun _ => rfl, h⟩
    · exact ⟨fun _ => rfl, h⟩
  split
  · split
    · exact ⟨fun _ => rfl, h⟩
    · exact ⟨fun _ => rfl, h⟩
  rcases executeQuery_samePublic (selectUserByEmail_blind (req.body.get "email")) h with
    ⟨x1, x2, e1, e2, q1, q2, hs⟩ | ⟨a1, a2, e1, e2, q1, q2, hR, hs⟩
  · rw [q1, q2]; exact ⟨fun _ => rfl, hs⟩
  rw [q1, q2]
  cases a1 with
  | nil =>
    rw [sameViews_nil_left hR]
    exact ⟨fun _ => rfl, hs⟩
  | cons u1 t1 =>
    obtain ⟨u2, t2, rfl, hu, _⟩ := sameViews_cons hR
    simp only [UserRow.view, UserView.mk.injEq] at hu
    obtain ⟨h1, h2, h3, h4, h5, h6, h7, _, _⟩ := hu
    dsimp only
    rw [h1, h2, h3, h4, h5, h6, h7]
    cases checkPassword env (req.body.get "password") u1.password with
    | error x =>
      cases checkPassword env (req.body.get "password") u2.password with
      | error y => exact ⟨fun _ => rfl, hs⟩
      | ok v2 =>
        cases v2 with
        | false => exact ⟨fun hst => by simp at hst, hs⟩
        | true =>
          dsimp only
          cases generateToken env (.num u2.id 0) u2.email u2.role with
          | error z => exact ⟨fun _ => rfl, hs⟩
          | ok token => exact ⟨fun hst => by simp at hst, hs⟩
    | ok v1 =>
      cases v1 with
      | false =>
        cases checkPassword env (req.body.get "password") u2.password with
        | error y => exact ⟨fun hst => by simp at hst, hs⟩
        | ok v2 =>
          cases v2 with
          | false => exact ⟨fun _ => rfl, hs⟩
          | true =>
            dsimp only
            cases generateToken env (.num u2.id 0) u2.email u2.role with
            | error z => exact ⟨fun hst => by simp at hst, hs⟩
            | ok token => exact ⟨fun hst => by simp at hst, hs⟩
      | true =>
        dsimp only
        cases checkPassword env (req.body.get "password") u2.password with
        | error y =>
          cases generateToken env (.num u2.id 0) u2.email u2.role with
          | error z => exact ⟨fun _ => rfl, hs⟩
          | ok token => exact ⟨fun hst => by simp at hst, hs⟩
        | ok v2 =>
          cases v2 with
          | false =>
            cases generateToken env (.num u2.id 0) u2.email u2.role with
            | error z => exact ⟨fun hst => by simp at hst, hs⟩
            | ok token => exact ⟨fun hst => by simp at hst, hs⟩
          | true =>
            cases generateToken env (.num u2.id 0) u2.email u2.role with
            | error z => exact ⟨fun _ => rfl, hs⟩
            | ok token => exact ⟨fun _ => rfl, hs⟩

/-- C20. User data is returned without the password.  The payloads are built from
`UserData` and `UserView`, which have no password component, and on two database
states that differ only in the stored password values `register`, `verifyToken`,
`getAllUsers`, `getUserById`, `createUser`, `updateUser` and `resetPassword`
give the same response; `login` gives the same response whenever it gives the
same status, so the stored password decides between success and failure and
nothing else.  The states the handlers leave differ again only in the stored
passwords. -/
theorem passwords_not_disclosed (env : Env) (req : Request) (db1 db2 : Db)
    (h : samePublic db1 db2) :
    ((register env req db1).1 = (register env req db2).1 ∧
     (verifyToken env req db1).1 = (verifyToken env req db2).1 ∧
     (getAllUsers req db1).1 = (getAllUsers req db2).1 ∧
     (getUserById req db1).1 = (getUserById req db2).1 ∧
     (createUser env req db1).1 = (createUser env req db2).1 ∧
     (updateUser req db1).1 = (updateUser req db2).1 ∧
     (resetPassword env req db1).1 = (resetPassword env req db2).1 ∧
     ((login env req db1).1.status = (login env req db2).1.status →
       (login env req db1).1 = (login env req db2).1)) ∧
    (samePublic (register env req db1).2 (register env req db2).2 ∧
     samePublic (verifyToken env req db1).2 (verifyToken env req db2).2 ∧
     samePublic (getAllUsers req db1).2 (getAllUsers req db2).2 ∧
     samePublic (getUserById req db1).2 (getUserById req db2).2 ∧
     samePublic (createUser env req db1).2 (createUser env req db2).2 ∧
     samePublic (updateUser req db1).2 (updateUser req db2).2 ∧
     samePublic (resetPassword env req db1).2 (resetPassword env req db2).2 ∧
     samePublic (login env req db1).2 (login env req db2).2) := by
  have hr := register_sameOutcome env req h
  have hv := verifyToken_sameOutcome env req h
  have ha := getAllUsers_sameOutcome req h
  have hg := getUserById_sameOutcome req h
  have hc := createUser_sameOutcome env req h
  have hu := updateUser_sameOutcome req h
  have hp := resetPassword_sameOutcome env req h
  have hl := login_sameOutcome env req h
  unfold sameOutcome at hr hv ha hg hc hu hp
  exact ⟨⟨hr.1, hv.1, ha.1, hg.1, hc.1, hu.1, hp.1, hl.1⟩,
    ⟨hr.2, hv.2, ha.2, hg.2, hc.2, hu.2, hp.2, hl.2⟩⟩

/-- C20 at two states whose student rows hold different passwords: `GET
/api/users/2` answers 200 with the same body on both. -/
theorem passwords_not_disclosed_witness :
    sampleDb ≠ sampleRehashedDb ∧ samePublic sampleDb sampleRehashedDb ∧
    (getUserById sampleDeleteStudent sampleDb).1 =
      (getUserById sampleDeleteStudent sampleRehashedDb).1 ∧
    (getUserById sampleDeleteStudent sampleDb).1.status = 200 :=
  ⟨by decide, by decide,
    (passwords_not_disclosed sampleEnv sampleDeleteStudent sampleDb sampleRehashedDb
      (by decide)).1.2.2.2.1,
    by decide⟩

/-! ### Email uniqueness -/

theorem idMatches_inj {a b : Nat} {v : Value} (ha : idMatches a v = true)
    (hb : idMatches b v = true) : a = b := by
  cases v with
  | num m s =>
    cases s with
    | zero =>
      simp only [idMatches, beq_iff_eq] at ha hb
      omega
    | succ n => simp [idMatches] at ha
  | str s =>
    simp only [idMatches, beq_iff_eq] at ha hb
    rw [ha] at hb
    simpa using hb
  | undefined => simp [idMatches] at ha
  | null => simp [idMatches] at ha
  | bool _ => simp [idMatches] at ha
  | nan => simp [idMatches] at ha
  | infinity _ => simp [idMatches] at ha

theorem sqlEq_str_self (e : String) : sqlEq (.str e) (.str e) = true := by
  simp [sqlEq]

/-- The invariant is about the table and its counter only. -/
theorem usersInv_of_eq {d d' : Db} (hu : d'.users = d.users)
    (hn : d'.usersNextId = d.usersNextId) (h : usersKeyed d ∧ emailsUnique d) :
    usersKeyed d' ∧ emailsUnique d' := by
  unfold usersKeyed emailsUnique at *
  rw [hu, hn]
  exact h

theorem usersInv_error {α : Type} {st : Statement α} {d d' : Db} {e : String}
    (q : executeQuery st d = (.error e, d')) (h : usersKeyed d ∧ emailsUnique d) :
    usersKeyed d' ∧ emailsUnique d' := by
  have := executeQuery_error_state st d e d' q
  subst this
  exact usersInv_of_eq rfl rfl h

theorem usersInv_ok {α : Type} {st : Statement α} {d d' : Db} {a : α}
    (q : executeQuery st d = (.ok a, d')) (hst : st.keepsUsers)
    (h : usersKeyed d ∧ emailsUnique d) : usersKeyed d' ∧ emailsUnique d' := by
  have hrun := executeQuery_ok_run st d a d' q
  obtain ⟨hu, hn⟩ := hst _ _ _ hrun
  exact usersInv_of_eq hu hn h

theorem selectUserById_keepsUsers (id : Value) : (selectUserById id).keepsUsers := by
  intro d a d' h
  simp only [selectUserById, Except.ok.injEq, Prod.mk.injEq] at h
  obtain ⟨_, rfl⟩ := h
  exact ⟨rfl, rfl⟩

theorem selectUserViewById_keepsUsers (id : Value) : (selectUserViewById id).keepsUsers := by
  intro d a d' h
  simp only [selectUserViewById, Except.ok.injEq, Prod.mk.injEq] at h
  obtain ⟨_, rfl⟩ := h
  exact ⟨rfl, rfl⟩

theorem selectUserIdByEmail_keepsUsers (email : Value) :
    (selectUserIdByEmail email).keepsUsers := by
  intro d a d' h
  simp only [selectUserIdByEmail, Except.ok.injEq, Prod.mk.injEq] at h
  obtain ⟨_, rfl⟩ := h
  exact ⟨rfl, rfl⟩

theorem selectUserIdByEmailExcept_keepsUsers (email id : Value) :
    (selectUserIdByEmailExcept email id).keepsUsers := by
  intro d a d' h
  simp only [selectUserIdByEmailExcept, Except.ok.injEq, Prod.mk.injEq] at h
  obtain ⟨_, rfl⟩ := h
  exact ⟨rfl, rfl⟩

/-- An `INSERT` of a row whose email no stored row has keeps the invariant. -/
theorem usersInv_insert {name email password phone gender role avatar : Value}
    {d d' : Db} {res : ResultHeader}
    (q : executeQuery (insertUser name email password phone gender role avatar) d =
      (.ok res, d'))
    (hfresh : ∀ u ∈ d.users, u.email ≠ email)
    (h : usersKeyed d ∧ emailsUnique d) : usersKeyed d' ∧ emailsUnique d' := by
  have hrun := executeQuery_ok_run _ d res d' q
  simp only [insertUser, Except.ok.injEq, Prod.mk.injEq] at hrun
  obtain ⟨_, rfl⟩ := hrun
  obtain ⟨⟨hid, hlt⟩, hem⟩ := h
  unfold usersKeyed emailsUnique at *
  simp only [Db.issue] at *
  refine ⟨⟨?_, ?_⟩, ?_⟩
  · rw [List.pairwise_append]
    refine ⟨hid, List.pairwise_singleton _ _, ?_⟩
    intro a ha b hb
    simp only [List.mem_singleton] at hb
    subst hb
    have := hlt a ha
    simp only [newUserRow]
    omega
  · intro u hu
    simp only [List.mem_append, List.mem_singleton] at hu
    rcases hu with hu | rfl
    · have := hlt u hu
      omega
    · simp [newUserRow]
  · rw [List.pairwise_append]
    refine ⟨hem, List.pairwise_singleton _ _, ?_⟩
    intro a ha b hb
    simp only [List.mem_singleton] at hb
    subst hb
    exact hfresh a ha

/-- The rows an email check found none of: no stored row has the email. -/
theorem fresh_of_check {email : String} {d d' : Db} {rows : List Nat}
    (q : executeQuery (selectUserIdByEmail (.str email)) d = (.ok rows, d'))
    (hlen : ¬ rows.length > 0) : ∀ u ∈ d'.users, u.email ≠ .str email := by
  have hrun := executeQuery_ok_run _ d rows d' q
  simp only [selectUserIdByEmail, Except.ok.injEq, Prod.mk.injEq] at hrun
  obtain ⟨rfl, rfl⟩ := hrun
  intro u hu he
  apply hlen
  simp only [Db.issue] at hu
  have : u ∈ (d.issue (selectUserIdByEmail (.str email))).users.filter
      (fun u => sqlEq u.email (.str email)) := by
    rw [List.mem_filter]
    exact ⟨hu, by rw [he]; exact sqlEq_str_self email⟩
  rw [List.length_map]
  exact List.length_pos_of_mem this

theorem UserRow.foldl_assign_id (fvs : List (String × Value)) (r : UserRow) :
    (fvs.foldl (fun r fv => UserRow.assign r fv.1 fv.2) r).id = r.id := by
  induction fvs generalizing r with
  | nil => rfl
  | cons fv rest ih =>
    simp only [List.foldl_cons]
    rw [ih, (r.assign_keys _ _).1]

theorem eq_of_id_eq {l : List UserRow} (h : l.Pairwise (fun a b => a.id ≠ b.id))
    {a b : UserRow} (ha : a ∈ l) (hb : b ∈ l) (hab : a.id = b.id) : a = b := by
  by_contra hne
  exact List.Pairwise.forall (fun _ _ h => Ne.symm h) h ha hb hne hab

/-- An `UPDATE ... WHERE id = ?` that keeps the email of the row, or gives it
an email no other row has, keeps the invariant. -/
theorem usersInv_update {fs : List String} {vs : List Value} {d d' : Db}
    {res : ResultHeader}
    (q : executeQuery (updateUsers fs vs) d = (.ok res, d'))
    (hmail :
      (∀ u ∈ d.users, idMatches u.id (vs.getLast?.getD .null) = true →
        ((fs.zip vs).foldl (fun r fv => UserRow.assign r fv.1 fv.2) u).email = u.email) ∨
      (∃ E, (∀ u ∈ d.users, idMatches u.id (vs.getLast?.getD .null) = true →
          ((fs.zip vs).foldl (fun r fv => UserRow.assign r fv.1 fv.2) u).email = E) ∧
        ∀ v ∈ d.users, idMatches v.id (vs.getLast?.getD .null) = false → v.email ≠ E))
    (h : usersKeyed d ∧ emailsUnique d) : usersKeyed d' ∧ emailsUnique d' := by
  have hrun := executeQuery_ok_run _ d res d' q
  simp only [updateUsers] at hrun
  split_ifs at hrun
  simp only [Except.ok.injEq, Prod.mk.injEq] at hrun
  obtain ⟨_, rfl⟩ := hrun
  obtain ⟨⟨hid, hlt⟩, hem⟩ := h
  unfold usersKeyed emailsUnique at *
  simp only [Db.issue] at *
  have hfid : ∀ u : UserRow,
      (if idMatches u.id (vs.getLast?.getD .null) = true then
        { (fs.zip vs).foldl (fun r fv => UserRow.assign r fv.1 fv.2) u with
          updated_at := d.now }
      else u).id = u.id := by
    intro u
    split
    · exact UserRow.foldl_assign_id _ u
    · rfl
  refine ⟨⟨?_, ?_⟩, ?_⟩
  · rw [List.pairwise_map]
    refine hid.imp ?_
    intro a b hab
    rw [hfid a, hfid b]
    exact hab
  · intro u hu
    rw [List.mem_map] at hu
    obtain ⟨v, hv, rfl⟩ := hu
    rw [hfid v]
    exact hlt v hv
  · rw [List.pairwise_map]
    refine List.Pairwise.imp_of_mem ?_ (hid.and hem)
    intro a b ha hb hab
    obtain ⟨hidab, hemab⟩ := hab
    by_cases pa : idMatches a.id (vs.getLast?.getD .null) = true
    · by_cases pb : idMatches b.id (vs.getLast?.getD .null) = true
      · exact absurd (idMatches_inj pa pb) hidab
      · rw [if_pos pa, if_neg pb]
        simp only [Bool.not_eq_true] at pb
        rcases hmail with hk | ⟨E, hE, hother⟩
        · show ((fs.zip vs).foldl (fun r fv => UserRow.assign r fv.1 fv.2) a).email ≠ b.email
          rw [hk a ha pa]
          exact hemab
        · show ((fs.zip vs).foldl (fun r fv => UserRow.assign r fv.1 fv.2) a).email ≠ b.email
          rw [hE a ha pa]
          exact fun h => hother b hb pb h.symm
    · by_cases pb : idMatches b.id (vs.getLast?.getD .null) = true
      · rw [if_neg pa, if_pos pb]
        simp only [Bool.not_eq_true] at pa
        rcases hmail with hk | ⟨E, hE, hother⟩
        · show a.email ≠ ((fs.zip vs).foldl (fun r fv => UserRow.assign r fv.1 fv.2) b).email
          rw [hk b hb pb]
          exact hemab
        · show a.email ≠ ((fs.zip vs).foldl (fun r fv => UserRow.assign r fv.1 fv.2) b).email
          rw [hE b hb pb]
          exact hother a ha pa
      · rw [if_neg pa, if_neg pb]
        exact hemab

/-- A `DELETE` keeps the invariant. -/
theorem usersInv_delete {id : Value} {d d' : Db} {res : ResultHeader}
    (q : executeQuery (deleteUserById id) d = (.ok res, d'))
    (h : usersKeyed d ∧ emailsUnique d) : usersKeyed d' ∧ emailsUnique d' := by
  have hrun := executeQuery_ok_run _ d res d' q
  simp only [deleteUserById, Except.ok.injEq, Prod.mk.injEq] at hrun
  obtain ⟨_, rfl⟩ := hrun
  obtain ⟨⟨hid, hlt⟩, hem⟩ := h
  unfold usersKeyed emailsUnique at *
  simp only [Db.issue] at *
  exact ⟨⟨hid.filter _, fun u hu => hlt u (List.mem_filter.mp hu).1⟩, hem.filter _⟩

theorem deleteUser_usersInv (req : Request) (db : Db) (h : usersKeyed db ∧ emailsUnique db) :
    usersKeyed (deleteUser req db).2 ∧ emailsUnique (deleteUser req db).2 := by
  unfold deleteUser
  dsimp only
  split
  · exact h
  rcases q1 : executeQuery (selectUserById (req.params.get "id")) db with ⟨r1, d1⟩
  cases r1 with
  | error e => exact usersInv_error q1 h
  | ok rows =>
    have h1 := usersInv_ok q1 (selectUserById_keepsUsers _) h
    dsimp only
    split
    · exact h1
    · split
      · exact h1
      · rcases q2 : executeQuery (deleteUserById (req.params.get "id")) d1 with ⟨r2, d2⟩
        cases r2 with
        | error e => exact usersInv_error q2 h1
        | ok res => exact usersInv_delete q2 h1

theorem resetPassword_usersInv (env : Env) (req : Request) (db : Db)
    (h : usersKeyed db ∧ emailsUnique db) :
    usersKeyed (resetPassword env req db).2 ∧ emailsUnique (resetPassword env req db).2 := by
  unfold resetPassword
  dsimp only
  split
  · exact h
  rcases q1 : executeQuery (selectUserById (req.params.get "id")) db with ⟨r1, d1⟩
  cases r1 with
  | error e => exact usersInv_error q1 h
  | ok rows =>
    have h1 := usersInv_ok q1 (selectUserById_keepsUsers _) h
    dsimp only
    split
    · exact h1
    cases hashPassword env (req.body.get "newPassword") with
    | error e => exact h1
    | ok hashed =>
      dsimp only
      rcases q2 : executeQuery
        (updateUsers ["password = ?"] [.str hashed, req.params.get "id"]) d1 with ⟨r2, d2⟩
      cases r2 with
      | error e => exact usersInv_error q2 h1
      | ok res =>
        have h2 : usersKeyed d2 ∧ emailsUnique d2 :=
          usersInv_update q2 (Or.inl (fun u _ _ => by simp [UserRow.assign])) h1
        dsimp only
        rcases q3 : executeQuery (selectUserViewById (req.params.get "id")) d2 with ⟨r3, d3⟩
        cases r3 with
        | error e => exact usersInv_error q3 h2
        | ok views => exact usersInv_ok q3 (selectUserViewById_keepsUsers _) h2

theorem errors_nil_of_not {req : Request} (hv : ¬ (!req.errors.isEmpty) = true) :
    req.errors = [] := by
  cases he : req.errors with
  | nil => rfl
  | cons a as => rw [he] at hv; simp at hv

theorem register_usersInv (env : Env) (req : Request) (db : Db) (hvalid : validatedEmail req)
    (h : usersKeyed db ∧ emailsUnique db) :
    usersKeyed (register env req db).2 ∧ emailsUnique (register env req db).2 := by
  unfold register
  dsimp only
  split
  · exact h
  rename_i hv
  obtain ⟨email, he, _⟩ := hvalid (errors_nil_of_not hv)
  rw [he]
  rcases q1 : executeQuery (selectUserIdByEmail (.str email)) db with ⟨r1, d1⟩
  cases r1 with
  | error e => exact usersInv_error q1 h
  | ok rows =>
    have h1 := usersInv_ok q1 (selectUserIdByEmail_keepsUsers _) h
    dsimp only
    split
    · exact h1
    rename_i hlen
    have hfresh := fresh_of_check q1 hlen
    cases hashPassword env (req.body.get "password") with
    | error e => exact h1
    | ok hashed =>
      dsimp only
      rcases q2 : executeQuery (insertUser (req.body.get "name") (.str email) (.str hashed)
        ((req.body.get "phone").or .null) ((req.body.get "gender").or .null)
        (.str "student") (.str (stockAvatar (env.random.val + 1)))) d1 with ⟨r2, d2⟩
      cases r2 with
      | error e => exact usersInv_error q2 h1
      | ok res =>
        have h2 : usersKeyed d2 ∧ emailsUnique d2 := usersInv_insert q2 hfresh h1
        dsimp only
        rcases q3 : executeQuery (selectUserById (.num res.insertId 0)) d2 with ⟨r3, d3⟩
        cases r3 with
        | error e => exact usersInv_error q3 h2
        | ok newUsers =>
          have h3 := usersInv_ok q3 (selectUserById_keepsUsers _) h2
          dsimp only
          split
          · exact h3
          · exact h3

theorem createUser_usersInv (env : Env) (req : Request) (db : Db)
    (hvalid : validatedEmail req) (h : usersKeyed db ∧ emailsUnique db) :
    usersKeyed (createUser env req db).2 ∧ emailsUnique (createUser env req db).2 := by
  unfold createUser
  dsimp only
  split
  · exact h
  rename_i hv
  obtain ⟨email, he, _⟩ := hvalid (errors_nil_of_not hv)
  rw [he]
  rcases q1 : executeQuery (selectUserIdByEmail (.str email)) db with ⟨r1, d1⟩
  cases r1 with
  | error e => exact usersInv_error q1 h
  | ok rows =>
    have h1 := usersInv_ok q1 (selectUserIdByEmail_keepsUsers _) h
    dsimp only
    split
    · exact h1
    rename_i hlen
    have hfresh := fresh_of_check q1 hlen
    cases hashPassword env (req.body.get "password") with
    | error e => exact h1
    | ok hashed =>
      dsimp only
      rcases q2 : executeQuery (insertUser (req.body.get "name") (.str email) (.str hashed)
        ((req.body.get "phone").or .null) ((req.body.get "gender").or .null)
        ((req.body.get "role").or (.str "student"))
        ((req.body.get "avatar").or (.str (stockAvatar env.random.val)))) d1 with ⟨r2, d2⟩
      cases r2 with
      | error e => exact usersInv_error q2 h1
      | ok res =>
        have h2 : usersKeyed d2 ∧ emailsUnique d2 := usersInv_insert q2 hfresh h1
        dsimp only
        rcases q3 : executeQuery (selectUserViewById (.num res.insertId 0)) d2 with ⟨r3, d3⟩
        cases r3 with
        | error e => exact usersInv_error q3 h2
        | ok newUsers => exact usersInv_ok q3 (selectUserViewById_keepsUsers _) h2

theorem eq_of_strictEq_str {e : String} {v : Value}
    (h : Value.strictEq (.str e) v = true) : v = .str e := by
  cases v <;> simp_all [Value.strictEq]

theorem updateUserWrite_usersInv (req : Request) (d : Db)
    (hmail : req.body.get "email" = .undefined ∨
      (∀ u ∈ d.users, idMatches u.id (req.params.get "id") = true →
        u.email = req.body.get "email") ∨
      (∀ v ∈ d.users, idMatches v.id (req.params.get "id") = false →
        v.email ≠ req.body.get "email"))
    (h : usersKeyed d ∧ emailsUnique d) :
    usersKeyed (updateUserWrite req d).2 ∧ emailsUnique (updateUserWrite req d).2 := by
  unfold updateUserWrite
  rw [userUpdate_eq]
  dsimp only
  split
  · exact h
  rcases q2 : executeQuery
    (updateUsers ((presentFields userFields req.body).map (fun f => f ++ " = ?"))
      ((presentFields userFields req.body).map (userValue req.body) ++
        [req.params.get "id"])) d with ⟨r2, d2⟩
  cases r2 with
  | error e => exact usersInv_error q2 h
  | ok res =>
    have hfold : ∀ u : UserRow,
        ((((presentFields userFields req.body).map (fun f => f ++ " = ?")).zip
          ((presentFields userFields req.body).map (userValue req.body) ++
            [req.params.get "id"])).foldl
          (fun r fv => UserRow.assign r fv.1 fv.2) u).email =
        if req.body.get "email" ≠ .undefined then req.body.get "email" else u.email := by
      intro u
      rw [zip_fragments_values]
      have := (UserRow.foldl_assign (userValue req.body) (presentFields userFields req.body)
        u).2 "email" (by simp [userFields])
      have hmem : "email" ∈ presentFields userFields req.body ↔
          req.body.get "email" ≠ .undefined := mem_presentFields (by simp [userFields])
      by_cases hp : req.body.get "email" = .undefined
      · rw [if_neg (fun hin => hmem.mp hin hp)] at this
        rw [if_neg (fun hne => hne hp)]
        simpa [UserRow.column] using this
      · rw [if_pos (hmem.mpr hp)] at this
        rw [if_pos hp]
        simpa [UserRow.column, userValue] using this
    have hlast : ((presentFields userFields req.body).map (userValue req.body) ++
        [req.params.get "id"]).getLast?.getD .null = req.params.get "id" := by
      simp
    have h2 : usersKeyed d2 ∧ emailsUnique d2 := by
      refine usersInv_update q2 ?_ h
      rw [hlast]
      by_cases hpresent : req.body.get "email" = .undefined
      · left
        intro u _ _
        rw [hfold u, if_neg (by simpa using hpresent)]
      · rcases hmail with hundef | hsame | hother
        · exact absurd hundef hpresent
        · left
          intro u hu hm
          rw [hfold u, if_pos hpresent, hsame u hu hm]
        · right
          refine ⟨req.body.get "email", ?_, hother⟩
          intro u _ _
          rw [hfold u, if_pos hpresent]
    dsimp only
    rcases q3 : executeQuery (selectUserViewById (req.params.get "id")) d2 with ⟨r3, d3⟩
    cases r3 with
    | error e => exact usersInv_error q3 h2
    | ok views => exact usersInv_ok q3 (selectUserViewById_keepsUsers _) h2

theorem updateUser_usersInv (req : Request) (db : Db) (hvalid : validatedOptionalEmail req)
    (h : usersKeyed db ∧ emailsUnique db) :
    usersKeyed (updateUser req db).2 ∧ emailsUnique (updateUser req db).2 := by
  unfold updateUser
  dsimp only
  split
  · exact h
  rename_i hv
  have hemail := hvalid (errors_nil_of_not hv)
  rcases q1 : executeQuery (selectUserById (req.params.get "id")) db with ⟨r1, d1⟩
  cases r1 with
  | error e => exact usersInv_error q1 h
  | ok rows =>
    have h1 := usersInv_ok q1 (selectUserById_keepsUsers _) h
    have hrun := executeQuery_ok_run _ db rows d1 q1
    simp only [selectUserById, Except.ok.injEq, Prod.mk.injEq] at hrun
    obtain ⟨hrows, hd1⟩ := hrun
    cases rows with
    | nil => exact h1
    | cons existing rest =>
      have hex : existing ∈ d1.users ∧ idMatches existing.id (req.params.get "id") = true := by
        have : existing ∈ (db.issue (selectUserById (req.params.get "id"))).users.filter
            (fun u => idMatches u.id (req.params.get "id")) := by
          simp only [selectUserById] at hrows ⊢
          rw [hrows]
          exact List.mem_cons_self _ _
        rw [List.mem_filter] at this
        rw [← hd1]
        exact this
      dsimp only
      split
      · rename_i hc
        rcases q2 : executeQuery (selectUserIdByEmailExcept (req.body.get "email")
          (req.params.get "id")) d1 with ⟨r2, d2⟩
        cases r2 with
        | error e => exact usersInv_error q2 h1
        | ok emailExists =>
          have h2 := usersInv_ok q2 (selectUserIdByEmailExcept_keepsUsers _ _) h1
          dsimp only
          split
          · exact h2
          rename_i hlen
          refine updateUserWrite_usersInv req d2 (Or.inr (Or.inr ?_)) h2
          rcases hemail with hundef | ⟨e, he, _⟩
          · rw [hundef] at hc
            simp [Value.truthy] at hc
          have hrun2 := executeQuery_ok_run _ d1 emailExists d2 q2
          simp only [selectUserIdByEmailExcept, Except.ok.injEq, Prod.mk.injEq] at hrun2
          obtain ⟨rfl, rfl⟩ := hrun2
          intro v hv hm hve
          apply hlen
          rw [List.length_map]
          apply List.length_pos_of_mem (a := v)
          rw [List.mem_filter]
          refine ⟨hv, ?_⟩
          rw [hve, he, sqlEq_str_self, hm]
          rfl
      · rename_i hc
        refine updateUserWrite_usersInv req d1 ?_ h1
        rcases hemail with hundef | ⟨e, he, hne⟩
        · exact Or.inl hundef
        · right
          left
          intro u hu hm
          have hue : u = existing :=
            eq_of_id_eq h1.1.1 hu hex.1 (idMatches_inj hm hex.2)
          rw [hue, he]
          rw [he] at hc
          apply eq_of_strictEq_str
          simpa [Value.truthy, hne] using hc

/-- C16. Email uniqueness is an invariant of the users table.  On a table with a
primary key (no two rows share an id, AUTO_INCREMENT above every id) in which no
two rows share an email, after one `register` or `createUser` request whose email
passed `isEmail()`, one `updateUser` request whose email passed
`optional().isEmail()`, one `deleteUser` or one `resetPassword` request, whatever
its outcome, no two rows share an email, and the primary key still holds. -/
theorem email_uniqueness_invariant (env : Env) (req : Request) (db : Db)
    (hkey : usersKeyed db) (hunique : emailsUnique db) :
    (validatedEmail req →
      emailsUnique (register env req db).2 ∧ emailsUnique (createUser env req db).2) ∧
    (validatedOptionalEmail req → emailsUnique (updateUser req db).2) ∧
    emailsUnique (deleteUser req db).2 ∧
    emailsUnique (resetPassword env req db).2 ∧
    (validatedEmail req →
      usersKeyed (register env req db).2 ∧ usersKeyed (createUser env req db).2) ∧
    (validatedOptionalEmail req → usersKeyed (updateUser req db).2) ∧
    usersKeyed (deleteUser req db).2 ∧
    usersKeyed (resetPassword env req db).2 := by
  have h : usersKeyed db ∧ emailsUnique db := ⟨hkey, hunique⟩
  have hd := deleteUser_usersInv req db h
  have hp := resetPassword_usersInv env req db h
  refine ⟨fun hv => ⟨(register_usersInv env req db hv h).2, (createUser_usersInv env req db hv h).2⟩,
    fun hv => (updateUser_usersInv req db hv h).2, hd.2, hp.2,
    fun hv => ⟨(register_usersInv env req db hv h).1, (createUser_usersInv env req db hv h).1⟩,
    fun hv => (updateUser_usersInv req db hv h).1, hd.1, hp.1⟩

/-- C16 at the sample users: the student asks for the email of the administrator,
`updateUser` answers 400 and no two rows share an email afterwards. -/
theorem email_uniqueness_invariant_witness :
    usersKeyed sampleDb ∧ emailsUnique sampleDb ∧
    (updateUser sampleTakeEmail sampleDb).1.status = 400 ∧
    emailsUnique (updateUser sampleTakeEmail sampleDb).2 :=
  ⟨by decide, by decide, by decide,
    (email_uniqueness_invariant sampleEnv sampleTakeEmail sampleDb (by decide) (by decide)).2.1
      (fun _ => Or.inr ⟨"root@x.com", rfl, by decide⟩)⟩

/-! ### The success flag -/

theorem login_flagged (env : Env) (req : Request) (db : Db) : (login env req db).1.flagged := by
  unfold login
  dsimp only
  repeat' split
  all_goals simp [Response.flagged, validationFailed]

theorem register_flagged (env : Env) (req : Request) (db : Db) : (register env req db).1.flagged := by
  unfold register
  dsimp only
  repeat' split
  all_goals simp [Response.flagged, validationFailed]

theorem verifyToken_flagged (env : Env) (req : Request) (db : Db) : (verifyToken env req db).1.flagged := by
  unfold verifyToken
  dsimp only
  repeat' split
  all_goals simp [Response.flagged, validationFailed]

theorem getAllCourses_flagged (req : Request) (db : Db) : (getAllCourses req db).1.flagged := by
  unfold getAllCourses
  dsimp only
  repeat' split
  all_goals simp [Response.flagged, validationFailed]

theorem getCourseById_flagged (req : Request) (db : Db) : (getCourseById req db).1.flagged := by
  unfold getCourseById
  dsimp only
  repeat' split
  all_goals simp [Response.flagged, validationFailed]

theorem getCoursesByCategory_flagged (req : Request) (db : Db) : (getCoursesByCategory req db).1.flagged := by
  unfold getCoursesByCategory
  dsimp only
  repeat' split
  all_goals simp [Response.flagged, validationFailed]

theorem createCourse_flagged (req : Request) (db : Db) : (createCourse req db).1.flagged := by
  unfold createCourse
  dsimp only
  repeat' split
  all_goals simp [Response.flagged, validationFailed]

theorem updateCourse_flagged (req : Request) (db : Db) : (updateCourse req db).1.flagged := by
  unfold updateCourse
  dsimp only
  repeat' split
  all_goals simp [Response.flagged, validationFailed]

theorem deleteCourse_flagged (req : Request) (db : Db) : (deleteCourse req db).1.flagged := by
  unfold deleteCourse
  dsimp only
  repeat' split
  all_goals simp [Response.flagged, validationFailed]

theorem resetToDefaultCourses_flagged (req : Request) (db : Db) : (resetToDefaultCourses req db).1.flagged := by
  unfold resetToDefaultCourses
  dsimp only
  repeat' split
  all_goals simp [Response.flagged, validationFailed]

theorem getAllUsers_flagged (req : Request) (db : Db) : (getAllUsers req db).1.flagged := by
  unfold getAllUsers
  repeat' split
  all_goals simp [Response.flagged, validationFailed]

theorem getUserById_flagged (req : Request) (db : Db) : (getUserById req db).1.flagged := by
  unfold getUserById
  dsimp only
  repeat' split
  all_goals simp [Response.flagged, validationFailed]

theorem createUser_flagged (env : Env) (req : Request) (db : Db) : (createUser env req db).1.flagged := by
  unfold createUser
  dsimp only
  repeat' split
  all_goals simp [Response.flagged, validationFailed]

theorem updateUser_flagged (req : Request) (db : Db) : (updateUser req db).1.flagged := by
  unfold updateUser updateUserWrite
  dsimp only
  repeat' split
  all_goals simp [Response.flagged, validationFailed]

theorem deleteUser_flagged (req : Request) (db : Db) : (deleteUser req db).1.flagged := by
  unfold deleteUser
  dsimp only
  repeat' split
  all_goals simp [Response.flagged, validationFailed]

theorem resetPassword_flagged (env : Env) (req : Request) (db : Db) : (resetPassword env req db).1.flagged := by
  unfold resetPassword
  dsimp only
  repeat' split
  all_goals simp [Response.flagged, validationFailed]

/-- C28. In every response of the auth, courses, users and upload handlers the
success flag is true exactly when the status is 200 or 201, and false exactly
when it is 400, 401, 403, 404 or 500. -/
theorem success_flag_follows_status (env : Env) (req : Request) (db : Db)
    (file : Option UploadedFile) :
    (login env req db).1.flagged ∧ (register env req db).1.flagged ∧
    (verifyToken env req db).1.flagged ∧
    (getAllCourses req db).1.flagged ∧ (getCourseById req db).1.flagged ∧
    (getCoursesByCategory req db).1.flagged ∧ (createCourse req db).1.flagged ∧
    (updateCourse req db).1.flagged ∧ (deleteCourse req db).1.flagged ∧
    (resetToDefaultCourses req db).1.flagged ∧
    (getAllUsers req db).1.flagged ∧ (getUserById req db).1.flagged ∧
    (createUser env req db).1.flagged ∧ (updateUser req db).1.flagged ∧
    (deleteUser req db).1.flagged ∧ (resetPassword env req db).1.flagged ∧
    (uploadFile file).flagged := by
  refine ⟨login_flagged env req db, register_flagged env req db,
    verifyToken_flagged env req db, getAllCourses_flagged req db,
    getCourseById_flagged req db, getCoursesByCategory_flagged req db,
    createCourse_flagged req db, updateCourse_flagged req db, deleteCourse_flagged req db,
    resetToDefaultCourses_flagged req db, getAllUsers_flagged req db,
    getUserById_flagged req db, createUser_flagged env req db, updateUser_flagged req db,
    deleteUser_flagged req db, resetPassword_flagged env req db, ?_⟩
  cases file with
  | none => simp [uploadFile, Response.flagged]
  | some f => simp [uploadFile, Response.flagged]

/-! ### Offset without limit -/

/-- `parseInt` at a few texts and numbers: radix 16 after `0x`, the digits before
the first other character, `NaN` without a digit, the nearest double beyond
`2 ^ 53`, and the digits `String(x)` starts with for a number. -/
theorem parseInt_examples :
    parseInt (.str "0x1F") = .num 31 0 ∧ parseInt (.str " -12px") = .num (-12) 0 ∧
    parseInt (.str "1e3") = .num 1 0 ∧ parseInt (.str "") = .nan ∧
    parseInt .undefined = .nan ∧
    parseInt (.str "9007199254740993") = .num 9007199254740992 0 ∧
    parseInt (.num 45 1) = .num 4 0 ∧ parseInt (.num 5 7) = .num 5 0 ∧
    parseInt (.num (10 ^ 21) 0) = .num 1 0 := by
  decide

theorem digitsToNat_all {cs : List Char} {n : Nat} (h : digitsToNat cs = some n) :
    cs ≠ [] ∧ cs.all Char.isDigit = true := by
  cases cs with
  | nil => simp [digitsToNat] at h
  | cons c cs =>
    refine ⟨by simp, ?_⟩
    by_cases hall : (c :: cs).all Char.isDigit = true
    · exact hall
    · simp [digitsToNat, hall] at h

theorem isDigit_toNat {c : Char} (h : c.isDigit = true) : 48 ≤ c.toNat ∧ c.toNat ≤ 57 := by
  simp only [Char.isDigit, Bool.and_eq_true, decide_eq_true_eq] at h
  exact ⟨h.1, h.2⟩

theorem isDigit_not_space {c : Char} (h : c.isDigit = true) : isStrWhiteSpace c = false := by
  obtain ⟨h1, h2⟩ := isDigit_toNat h
  simp only [isStrWhiteSpace, Bool.or_eq_false_iff, Bool.and_eq_false_iff,
    decide_eq_false_iff_not]
  omega

theorem isDigit_not_sign {c : Char} (h : c.isDigit = true) : c ≠ '-' ∧ c ≠ '+' := by
  constructor <;> (intro hc; subst hc; revert h; decide)

theorem isDigit_not_letter {c : Char} (h : c.isDigit = true) : c ≠ 'x' ∧ c ≠ 'X' := by
  constructor <;> (intro hc; subst hc; revert h; decide)

theorem radixDigit_ten {c : Char} (h : c.isDigit = true) :
    radixDigit 10 c = some (c.toNat - 48) := by
  obtain ⟨h1, h2⟩ := isDigit_toNat h
  simp only [radixDigit, h, if_true]
  rw [if_pos (by omega)]

theorem leadingRadixDigits_all {cs : List Char} (h : cs.all Char.isDigit = true) :
    leadingRadixDigits 10 cs = cs.map (fun c => c.toNat - 48) := by
  induction cs with
  | nil => rfl
  | cons c cs ih =>
    simp only [List.all_cons, Bool.and_eq_true] at h
    simp only [leadingRadixDigits, radixDigit_ten h.1, ih h.2, List.map_cons]

theorem readSign_digit {c : Char} (cs : List Char) (h : c.isDigit = true) :
    readSign (c :: cs) = (false, c :: cs) := by
  obtain ⟨hm, hp⟩ := isDigit_not_sign h
  unfold readSign
  split
  · rename_i heq; cases heq; exact absurd rfl hm
  · rename_i heq; cases heq; exact absurd rfl hp
  · rfl

theorem readRadix_digits {cs : List Char} (h : cs.all Char.isDigit = true) :
    readRadix cs = (10, cs) := by
  unfold readRadix
  split
  · simp only [List.all_cons, Bool.and_eq_true] at h
    exact absurd rfl (isDigit_not_letter h.2.1).1
  · simp only [List.all_cons, Bool.and_eq_true] at h
    exact absurd rfl (isDigit_not_letter h.2.1).2
  · rfl

/-- After white space and sign, `parseInt` reads a run of decimal digits as the
double nearest to the number it denotes. -/
theorem parseIntText_digits {data ds : List Char} {neg : Bool} {n : Nat}
    (hdrop : data.dropWhile isStrWhiteSpace = data) (hsign : readSign data = (neg, ds))
    (h : digitsToNat ds = some n) :
    parseIntText ⟨data⟩ = integerValue neg n := by
  obtain ⟨hne, hall⟩ := digitsToNat_all h
  unfold parseIntText
  simp only [hdrop, hsign, readRadix_digits hall, leadingRadixDigits_all hall]
  cases ds with
  | nil => exact absurd rfl hne
  | cons c cs =>
    simp only [digitsToNat, hall, if_true, Option.some.injEq] at h
    rw [← h, ← List.foldl_map]
    rfl

/-- A double below `2 ^ 53` is the integer itself, and so is `2 ^ 53`. -/
theorem roundDouble_small {n : Nat} (h : n ≤ 2 ^ 53) : roundDouble n = some n := by
  rcases Nat.lt_or_eq_of_le h with hlt | heq
  · have he : excessBits n n = 0 := by
      cases n with
      | zero => rfl
      | succ k => simp only [excessBits, hlt, if_true]
    simp only [roundDouble, he, pow_zero, Nat.div_one, Nat.mod_one, Nat.zero_sub, mul_one]
    simp
  · subst heq
    decide

theorem integerValue_small {n : Nat} (h : n ≤ 2 ^ 53) (neg : Bool) :
    integerValue neg n = .num (if neg then - (n : Int) else n) 0 := by
  simp only [integerValue, roundDouble_small h]

theorem intLiteral_eq {data : List Char} {z : Int} (h : intLiteral ⟨data⟩ = some z) :
    (∃ ds n, data = '-' :: ds ∧ digitsToNat ds = some n ∧ z = - (n : Int)) ∨
    (∃ ds n, data = '+' :: ds ∧ digitsToNat ds = some n ∧ z = (n : Int)) ∨
    (∃ n, digitsToNat data = some n ∧ z = (n : Int) ∧
      (∀ ds, data ≠ '-' :: ds) ∧ ∀ ds, data ≠ '+' :: ds) := by
  unfold intLiteral at h
  dsimp only at h
  split at h
  · rename_i ds
    cases hd : digitsToNat ds with
    | none => rw [hd] at h; cases h
    | some n =>
      rw [hd] at h
      cases h
      exact Or.inl ⟨ds, n, rfl, hd, rfl⟩
  · rename_i ds
    cases hd : digitsToNat ds with
    | none => rw [hd] at h; cases h
    | some n =>
      rw [hd] at h
      cases h
      exact Or.inr (Or.inl ⟨ds, n, rfl, hd, rfl⟩)
  · rename_i hminus hplus
    cases hd : digitsToNat data with
    | none => rw [hd] at h; cases h
    | some n =>
      rw [hd] at h
      cases h
      exact Or.inr (Or.inr ⟨n, rfl, rfl, fun ds h => hminus ds h, fun ds h => hplus ds h⟩)

/-- What `parseInt` makes of an integer literal `[-+]?[0-9]+` that is not
negative: the double nearest to it. -/
theorem parseInt_intLiteral {s : String} {z : Int} (h : intLiteral s = some z) (h0 : 0 ≤ z) :
    parseInt (.str s) = integerValue false z.toNat := by
  obtain ⟨data⟩ := s
  show parseIntText ⟨data⟩ = _
  rcases intLiteral_eq h with ⟨ds, n, rfl, hd, rfl⟩ | ⟨ds, n, rfl, hd, rfl⟩ |
    ⟨n, hd, rfl, _, _⟩
  · have hn : n = 0 := by omega
    subst hn
    rw [@parseIntText_digits ('-' :: ds) ds true 0
      (by simp [List.dropWhile, isStrWhiteSpace]) rfl hd]
    rfl
  · rw [@parseIntText_digits ('+' :: ds) ds false n
      (by simp [List.dropWhile, isStrWhiteSpace]) rfl hd]
    rfl
  · obtain ⟨hne, hall⟩ := digitsToNat_all hd
    cases data with
    | nil => exact absurd rfl hne
    | cons c cs =>
      have hc : c.isDigit = true := by
        simp only [List.all_cons, Bool.and_eq_true] at hall
        exact hall.1
      rw [parseIntText_digits (by simp [List.dropWhile, isDigit_not_space hc])
        (readSign_digit cs hc) hd]
      rfl

theorem filterParams_defined (category search : Value) :
    (filterParams category search).contains .undefined = false := by
  unfold filterParams
  by_cases hc : category.truthy = true <;> by_cases hs : search.truthy = true <;>
    simp [hc, hs]
  all_goals
    intro hu
    rw [← hu] at hc
    simp [Value.truthy] at hc

theorem courseList_sortColumn_mem (q : Strings) : (courseList q).sortColumn ∈ allowedSort := by
  rw [courseList_sortColumn]
  split
  · rename_i h; exact includes_mem h
  · simp [allowedSort]

/-- The list statement without `LIMIT` returns every course that passes the
filters, in the requested order. -/
theorem selectCourses_unlimited_run (text : String) (category search : Value)
    (column order : String) (paged : Bool) (hcol : column ∈ allowedSort) (d : Db) :
    (selectCourses text (filterConditions category.truthy search.truthy) column order
      false paged (filterParams category search)).run d =
      .ok (orderBy column order (matchingCourses category search d), d) := by
  have hk := filterConditions_known category.truthy search.truthy
  have hfun : courseMatches (filterConditions category.truthy search.truthy)
      (filterParams category search) = (fun c =>
        (!category.truthy || sqlEq c.category category) &&
        (!search.truthy || sqlLike c.title (.str ("%" ++ search.text ++ "%")))) :=
    funext (courseMatches_filter category search)
  simp only [selectCourses, filterParams_length, hfun, matchingCourses, Bool.false_and,
    if_false, Bool.false_eq_true, add_zero, ne_eq, not_true_eq_false]
  rw [if_neg (by
    intro h
    rcases h with h | h
    · exact h hk
    · exact h hcol)]

/-- C29 (as amended). In `getAllCourses` an offset without a limit does not page.
For a request that passed validation, supplies `offset` and no `limit`, on a
connection that answers both statements: the list query ends at its `ORDER BY`
clause, with neither `LIMIT` nor `OFFSET`, and binds the filter values only; the
response holds every course that passes the filters, in the requested order;
`pagination.limit` is null and `pagination.offset` is `parseInt(offset)`.  For
the offsets the route accepts, an integer literal that is not negative, that is
the double nearest to the integer supplied, and the integer itself up to
`2 ^ 53`. -/
theorem offset_without_limit (req : Request) (db : Db) (offset : String)
    (hv : req.errors = []) (hlimit : req.query.get "limit" = .undefined)
    (hoffset : req.query.get "offset" = .str offset) (hne : offset ≠ "")
    (hconn : db.connectedFor 2) :
    (courseList req.query).query =
      courseListSelect ++ whereClause (courseList req.query).conditions ++ " ORDER BY " ++
        (courseList req.query).sortColumn ++ " " ++ (courseList req.query).sortOrder ∧
    (courseList req.query).queryParams =
      filterParams (req.query.get "category") (req.query.get "search") ∧
    (getAllCourses req db).1.status = 200 ∧
    (getAllCourses req db).1.data =
      .courses (orderBy (courseList req.query).sortColumn (courseList req.query).sortOrder
        (matchingCourses (req.query.get "category") (req.query.get "search") db)) ∧
    (getAllCourses req db).1.pagination = some
      { total := (matchingCourses (req.query.get "category") (req.query.get "search")
          db).length,
        count := (orderBy (courseList req.query).sortColumn (courseList req.query).sortOrder
          (matchingCourses (req.query.get "category") (req.query.get "search") db)).length,
        limit := .null, offset := parseInt (.str offset) } ∧
    ∀ z : Int, intLiteral offset = some z → 0 ≤ z →
      parseInt (.str offset) = integerValue false z.toNat ∧
      (z ≤ 2 ^ 53 → parseInt (.str offset) = .num z 0) := by
  have hl : (req.query.get "limit").truthy = false := by rw [hlimit]; rfl
  have ho : (req.query.get "offset").truthy = true := by
    rw [hoffset]
    simp [Value.truthy, hne]
  have hquery := courseList_query req.query
  have hparams := courseList_queryParams req.query
  have hcond := courseList_conditions req.query
  rw [hl, ho] at hquery
  have hparams' : (courseList req.query).queryParams =
      filterParams (req.query.get "category") (req.query.get "search") := by
    rw [hparams, hlimit]; simp [limitParams, Value.truthy]
  have hq : (courseList req.query).query =
      courseListSelect ++ whereClause (courseList req.query).conditions ++ " ORDER BY " ++
        (courseList req.query).sortColumn ++ " " ++ (courseList req.query).sortOrder := by
    rw [hquery, hcond]
    simp [courseListText, limitClause]
  have hc1 : db.connected := connectedFor_succ hconn
  have hc2 : ∀ {α : Type} (st : Statement α), (db.issue st).connected := fun st =>
    connectedFor_succ (connectedFor_issue st hconn)
  have hresult : getAllCourses req db =
      ({ status := 200, success := true, message := "Courses retrieved successfully",
         data := .courses (orderBy (courseList req.query).sortColumn
           (courseList req.query).sortOrder
           (matchingCourses (req.query.get "category") (req.query.get "search") db)),
         pagination := some
           { total := (matchingCourses (req.query.get "category") (req.query.get "search")
               db).length,
             count := (orderBy (courseList req.query).sortColumn
               (courseList req.query).sortOrder
               (matchingCourses (req.query.get "category") (req.query.get "search")
                 db)).length,
             limit := .null, offset := parseInt (.str offset) } },
       (db.issue (selectCourses (courseList req.query).query
          (filterConditions (req.query.get "category").truthy (req.query.get "search").truthy)
          (courseList req.query).sortColumn (courseList req.query).sortOrder false true
          (filterParams (req.query.get "category") (req.query.get "search")))).issue
          (countCourses ("SELECT COUNT(*) as total FROM courses" ++ whereClause
              (filterConditions (req.query.get "category").truthy
                (req.query.get "search").truthy))
            (filterConditions (req.query.get "category").truthy
              (req.query.get "search").truthy)
            (filterParams (req.query.get "category") (req.query.get "search")))) := by
    unfold getAllCourses
    simp only [hv, hl, ho, List.isEmpty_nil, Bool.not_true, Bool.false_eq_true, if_false,
      if_true]
    rw [courseCount_eq, hcond, hparams']
    rw [executeQuery_select_ok _ _
      (selectCourses_unlimited_run _ _ _ _ _ true (courseList_sortColumn_mem req.query))
      db hc1 (filterParams_defined _ _)]
    dsimp only
    rw [executeQuery_select_ok _ _ (countCourses_run _ _ _) _ (hc2 _)
      (filterParams_defined _ _)]
    dsimp only
    rw [hoffset]
    rfl
  rw [hresult]
  refine ⟨hq, hparams', rfl, rfl, rfl, ?_⟩
  intro z hz h0
  refine ⟨parseInt_intLiteral hz h0, fun hle => ?_⟩
  rw [parseInt_intLiteral hz h0, integerValue_small (by omega)]
  simp [Int.toNat_of_nonneg h0]

/-- C29 at `GET /api/courses?offset=1` on the sample catalogue: all three
courses come back, and the pagination reports offset 1 and no limit. -/
theorem offset_without_limit_witness :
    (getAllCourses sampleOffsetRequest sampleCatalog).1.status = 200 ∧
    (∃ rows, (getAllCourses sampleOffsetRequest sampleCatalog).1.data = .courses rows ∧
      rows.length = 3) ∧
    (getAllCourses sampleOffsetRequest sampleCatalog).1.pagination = some
      { total := 3, count := 3, limit := .null, offset := .num 1 0 } := by
  have h := offset_without_limit sampleOffsetRequest sampleCatalog "1" rfl rfl rfl
    (by decide) (by decide)
  refine ⟨h.2.2.1, ⟨_, h.2.2.2.1, by decide⟩, ?_⟩
  rw [h.2.2.2.2.1, (h.2.2.2.2.2 1 (by decide) (by decide)).2 (by decide)]
  decide

set_option maxRecDepth 100000 in
/-- C29 refuted as stated: `GET /api/courses?offset=9007199254740993` passes the
rule `isInt({ min: 0 })`, and the pagination reports the offset
9007199254740992, not the offset supplied. -/
theorem offset_beyond_double_is_rounded :
    sampleLargeOffsetRequest.errors = [] ∧
    sampleLargeOffsetRequest.query.get "limit" = .undefined ∧
    sampleLargeOffsetRequest.query.get "offset" = .str "9007199254740993" ∧
    intLiteral "9007199254740993" = some 9007199254740993 ∧
    (getAllCourses sampleLargeOffsetRequest sampleCatalog).1.status = 200 ∧
    (getAllCourses sampleLargeOffsetRequest sampleCatalog).1.pagination = some
      { total := 3, count := 3, limit := .null, offset := .num 9007199254740992 0 } := by
  decide

/-! ### The course data model -/

theorem coursesModelled_of_eq {d d' : Db} (hc : d'.courses = d.courses)
    (h : coursesModelled d) : coursesModelled d' := by
  unfold coursesModelled at *
  rw [hc]
  exact h

theorem coursesModelled_error {α : Type} {st : Statement α} {d d' : Db} {e : String}
    (q : executeQuery st d = (.error e, d')) (h : coursesModelled d) :
    coursesModelled d' := by
  have := executeQuery_error_state st d e d' q
  subst this
  exact coursesModelled_of_eq rfl h

theorem coursesModelled_ok {α : Type} {st : Statement α} {d d' : Db} {a : α}
    (q : executeQuery st d = (.ok a, d')) (hst : st.keepsCourses)
    (h : coursesModelled d) : coursesModelled d' :=
  coursesModelled_of_eq (hst _ _ _ (executeQuery_ok_run st d a d' q)) h

theorem selectCourseById_keepsCourses (id : Value) : (selectCourseById id).keepsCourses := by
  intro d a d' h
  simp only [selectCourseById, Except.ok.injEq, Prod.mk.injEq] at h
  obtain ⟨_, rfl⟩ := h
  rfl

theorem selectCourseColumnsById_keepsCourses (id : Value) :
    (selectCourseColumnsById id).keepsCourses := by
  intro d a d' h
  simp only [selectCourseColumnsById, Except.ok.injEq, Prod.mk.injEq] at h
  obtain ⟨_, rfl⟩ := h
  rfl

theorem selectSeededCourseById_keepsCourses (id : Value) :
    (selectSeededCourseById id).keepsCourses := by
  intro d a d' h
  simp only [selectSeededCourseById, Except.ok.injEq, Prod.mk.injEq] at h
  obtain ⟨_, rfl⟩ := h
  rfl

theorem resetCoursesAutoIncrement_keepsCourses : resetCoursesAutoIncrement.keepsCourses := by
  intro d a d' h
  simp only [resetCoursesAutoIncrement, Except.ok.injEq, Prod.mk.injEq] at h
  obtain ⟨_, rfl⟩ := h
  rfl

/-- An `INSERT` of a course that fits the model keeps the model. -/
theorem coursesModelled_insert {c : CourseFields} {d d' : Db} {res : ResultHeader}
    (q : executeQuery (insertCourse c) d = (.ok res, d'))
    (hc : (inRating c.rating && inCategories c.category) = true)
    (h : coursesModelled d) : coursesModelled d' := by
  have hrun := executeQuery_ok_run _ d res d' q
  simp only [insertCourse, Except.ok.injEq, Prod.mk.injEq] at hrun
  obtain ⟨_, rfl⟩ := hrun
  intro row hrow
  simp only [Db.issue, List.mem_append, List.mem_singleton] at hrow
  rcases hrow with hrow | rfl
  · exact h row hrow
  · exact hc

theorem coursesModelled_delete {id : Value} {d d' : Db} {res : ResultHeader}
    (q : executeQuery (deleteCourseById id) d = (.ok res, d'))
    (h : coursesModelled d) : coursesModelled d' := by
  have hrun := executeQuery_ok_run _ d res d' q
  simp only [deleteCourseById, Except.ok.injEq, Prod.mk.injEq] at hrun
  obtain ⟨_, rfl⟩ := hrun
  intro row hrow
  exact h row (List.mem_filter.mp hrow).1

theorem coursesModelled_deleteAll {d d' : Db} {res : ResultHeader}
    (q : executeQuery deleteAllCourses d = (.ok res, d')) : coursesModelled d' := by
  have hrun := executeQuery_ok_run _ d res d' q
  simp only [deleteAllCourses, Except.ok.injEq, Prod.mk.injEq] at hrun
  obtain ⟨_, rfl⟩ := hrun
  intro row hrow
  simp at hrow

theorem inRating_or_zero {v : Value} (h : v = .undefined ∨ inRating v = true) :
    inRating (v.or (.num 0 0)) = true := by
  unfold Value.or
  split
  · rcases h with h | h
    · subst h; rename_i ht; simp [Value.truthy] at ht
    · exact h
  · decide

theorem createCourse_modelled (req : Request) (db : Db) (hvalid : singleValuedCourse req)
    (h : coursesModelled db) : coursesModelled (createCourse req db).2 := by
  unfold createCourse
  dsimp only
  split
  · exact h
  rename_i hv
  obtain ⟨hrating, hcategory⟩ := hvalid (errors_nil_of_not hv)
  rcases q1 : executeQuery (insertCourse
      { title := req.body.get "title", description := req.body.get "description",
        photos := (req.body.get "photos").or .null, mentor := req.body.get "mentor",
        rolementor := req.body.get "rolementor", avatar := (req.body.get "avatar").or .null,
        company := req.body.get "company", rating := (req.body.get "rating").or (.num 0 0),
        review_count := (req.body.get "review_count").or (.num 0 0),
        price := req.body.get "price", category := req.body.get "category" }) db
    with ⟨r1, d1⟩
  cases r1 with
  | error e => exact coursesModelled_error q1 h
  | ok res =>
    have h1 : coursesModelled d1 :=
      coursesModelled_insert q1 (by
        simp only [Bool.and_eq_true]
        exact ⟨inRating_or_zero hrating, hcategory⟩) h
    dsimp only
    rcases q2 : executeQuery (selectCourseColumnsById (.num res.insertId 0)) d1 with ⟨r2, d2⟩
    cases r2 with
    | error e => exact coursesModelled_error q2 h1
    | ok rows => exact coursesModelled_ok q2 (selectCourseColumnsById_keepsCourses _) h1

theorem deleteCourse_modelled (req : Request) (db : Db) (h : coursesModelled db) :
    coursesModelled (deleteCourse req db).2 := by
  unfold deleteCourse
  dsimp only
  split
  · exact h
  rcases q1 : executeQuery (selectCourseById (req.params.get "id")) db with ⟨r1, d1⟩
  cases r1 with
  | error e => exact coursesModelled_error q1 h
  | ok rows =>
    have h1 := coursesModelled_ok q1 (selectCourseById_keepsCourses _) h
    dsimp only
    split
    · exact h1
    · rcases q2 : executeQuery (deleteCourseById (req.params.get "id")) d1 with ⟨r2, d2⟩
      cases r2 with
      | error e => exact coursesModelled_error q2 h1
      | ok res => exact coursesModelled_delete q2 h1

theorem insertDefaults_modelled (cs : List CourseFields)
    (hcs : ∀ c ∈ cs, (inRating c.rating && inCategories c.category) = true) :
    ∀ (acc : List (Option CourseRow)) (db : Db), coursesModelled db →
      coursesModelled (insertDefaults cs acc db).2 := by
  induction cs with
  | nil =>
    intro acc db h
    simpa only [insertDefaults] using h
  | cons c rest ih =>
    intro acc db h
    simp only [insertDefaults]
    rcases q1 : executeQuery (insertCourse c) db with ⟨r1, d1⟩
    cases r1 with
    | error e => exact coursesModelled_error q1 h
    | ok res =>
      have h1 := coursesModelled_insert q1 (hcs c (List.mem_cons_self _ _)) h
      dsimp only
      rcases q2 : executeQuery (selectSeededCourseById (.num res.insertId 0)) d1
        with ⟨r2, d2⟩
      cases r2 with
      | error e => exact coursesModelled_error q2 h1
      | ok rows =>
        exact ih (fun c hc => hcs c (List.mem_cons_of_mem _ hc)) _ _
          (coursesModelled_ok q2 (selectSeededCourseById_keepsCourses _) h1)

theorem resetToDefaultCourses_modelled (req : Request) (db : Db) (h : coursesModelled db) :
    coursesModelled (resetToDefaultCourses req db).2 := by
  unfold resetToDefaultCourses
  dsimp only
  rcases q1 : executeQuery deleteAllCourses db with ⟨r1, d1⟩
  cases r1 with
  | error e => exact coursesModelled_error q1 h
  | ok res1 =>
    have h1 := coursesModelled_deleteAll q1
    dsimp only
    rcases q2 : executeQuery resetCoursesAutoIncrement d1 with ⟨r2, d2⟩
    cases r2 with
    | error e => exact coursesModelled_error q2 h1
    | ok res2 =>
      have h2 := coursesModelled_ok q2 resetCoursesAutoIncrement_keepsCourses h1
      have h3 := insertDefaults_modelled defaultCourses (by decide) [] d2 h2
      dsimp only
      rcases q3 : insertDefaults defaultCourses [] d2 with ⟨r3, d3⟩
      rw [q3] at h3
      cases r3 with
      | error e => exact h3
      | ok created => exact h3

/-- An `UPDATE ... WHERE id = ?` whose new rating and category fit the model keeps
the model. -/
theorem coursesModelled_update {fs : List String} {vs : List Value} {d d' : Db}
    {res : ResultHeader}
    (q : executeQuery (updateCourses fs vs) d = (.ok res, d'))
    (hfit : ∀ c : CourseRow, c.modelled = true →
      ((fs.zip vs).foldl (fun r fv => CourseRow.assign r fv.1 fv.2) c).modelled = true)
    (h : coursesModelled d) : coursesModelled d' := by
  have hrun := executeQuery_ok_run _ d res d' q
  simp only [updateCourses] at hrun
  split_ifs at hrun
  simp only [Except.ok.injEq, Prod.mk.injEq] at hrun
  obtain ⟨_, rfl⟩ := hrun
  intro row hrow
  simp only [Db.issue, List.mem_map] at hrow
  obtain ⟨c, hc, rfl⟩ := hrow
  split
  · exact hfit c (h c hc)
  · exact h c hc

theorem updateCourse_modelled (req : Request) (db : Db) (hvalid : singleValuedCourseUpdate req)
    (h : coursesModelled db) : coursesModelled (updateCourse req db).2 := by
  unfold updateCourse
  rw [courseUpdate_eq]
  dsimp only
  split
  · exact h
  rename_i hv
  obtain ⟨hrating, hcategory⟩ := hvalid (errors_nil_of_not hv)
  rcases q1 : executeQuery (selectCourseById (req.params.get "id")) db with ⟨r1, d1⟩
  cases r1 with
  | error e => exact coursesModelled_error q1 h
  | ok rows =>
    have h1 := coursesModelled_ok q1 (selectCourseById_keepsCourses _) h
    dsimp only
    split
    · exact h1
    split
    · exact h1
    rcases q2 : executeQuery
      (updateCourses ((presentFields courseFields req.body).map (fun f => f ++ " = ?"))
        ((presentFields courseFields req.body).map (courseValue req.body) ++
          [req.params.get "id"])) d1 with ⟨r2, d2⟩
    cases r2 with
    | error e => exact coursesModelled_error q2 h1
    | ok res =>
      have h2 : coursesModelled d2 := by
        refine coursesModelled_update q2 ?_ h1
        intro c hc
        rw [zip_fragments_values]
        have hcol := (CourseRow.column_foldl_assign (courseValue req.body)
          (presentFields courseFields req.body) c).2
        have hr := hcol "rating" (by simp [courseFields])
        have hk := hcol "category" (by simp [courseFields])
        have hmr : "rating" ∈ presentFields courseFields req.body ↔
            req.body.get "rating" ≠ .undefined := mem_presentFields (by simp [courseFields])
        have hmk : "category" ∈ presentFields courseFields req.body ↔
            req.body.get "category" ≠ .undefined := mem_presentFields (by simp [courseFields])
        simp only [CourseRow.modelled, Bool.and_eq_true] at hc ⊢
        have hvr : courseValue req.body "rating" = req.body.get "rating" := by
          simp [courseValue]
        have hvk : courseValue req.body "category" = req.body.get "category" := by
          simp [courseValue]
        simp only [CourseRow.column, String.reduceEq, if_true, if_false] at hr hk
        rw [hr, hk, hvr, hvk]
        constructor
        · split
          · rename_i hin
            rcases hrating with hu | hin2
            · exact absurd hu (hmr.mp hin)
            · exact hin2
          · exact hc.1
        · split
          · rename_i hin
            rcases hcategory with hu | hin2
            · exact absurd hu (hmk.mp hin)
            · exact hin2
          · exact hc.2
      dsimp only
      rcases q3 : executeQuery (selectCourseColumnsById (req.params.get "id")) d2
        with ⟨r3, d3⟩
      cases r3 with
      | error e => exact coursesModelled_error q3 h2
      | ok rows3 => exact coursesModelled_ok q3 (selectCourseColumnsById_keepsCourses _) h2

/-- The course data model is kept by requests that give `rating` and `category`
as single values.  If every row has a rating between 0 and 5 and a category
among Pemasaran, Desain, Pengembangan Diri and Bisnis, then so has every row
after one `createCourse` or `updateCourse` request whose body passed validation
with a single plain value for each of the two fields, one `deleteCourse` or one
`resetToDefaultCourses` request, whatever its outcome.  This is one part of C21:
the rules of the routes also accept arrays, whose elements they check one by
one, and what the table stores for a bound array is decided by the schema, not
by the controllers. -/
theorem course_model_kept_by_single_values (req : Request) (db : Db)
    (h : coursesModelled db) :
    (singleValuedCourse req → coursesModelled (createCourse req db).2) ∧
    (singleValuedCourseUpdate req → coursesModelled (updateCourse req db).2) ∧
    coursesModelled (deleteCourse req db).2 ∧
    coursesModelled (resetToDefaultCourses req db).2 :=
  ⟨fun hv => createCourse_modelled req db hv h,
    fun hv => updateCourse_modelled req db hv h,
    deleteCourse_modelled req db h, resetToDefaultCourses_modelled req db h⟩

/-- At the sample catalogue: a course rated `4.5` in `Desain` is created, and the
four rows fit the model. -/
theorem course_model_kept_at_sample :
    coursesModelled sampleCatalog ∧
    (createCourse sampleCreateCourse sampleCatalog).1.status = 201 ∧
    (createCourse sampleCreateCourse sampleCatalog).2.courses.length = 4 ∧
    coursesModelled (createCourse sampleCreateCourse sampleCatalog).2 :=
  ⟨by decide, by decide, by decide,
    (course_model_kept_by_single_values sampleCreateCourse sampleCatalog (by decide)).1
      (fun _ => ⟨Or.inr (by decide), by decide⟩)⟩

/-! ### The slices as state machines -/

/-- C22. In the courses slices and the users slice every async action drives the
same state machine: `pending` sets `loading` and clears `error`; `fulfilled`
clears `loading` and `error`; `rejected` clears `loading`, stores its payload in
`error` and leaves the list, and `activeCategory`, as they were. -/
theorem async_actions_state_machine (cs : CoursesState) (us : UsersState) :
    (∀ t, (updatedCoursesReducer cs (.pending t)).loading = true ∧
        (updatedCoursesReducer cs (.pending t)).error = .null) ∧
    (∀ t payload, (updatedCoursesReducer cs (.fulfilled t payload)).loading = false ∧
        (updatedCoursesReducer cs (.fulfilled t payload)).error = .null) ∧
    (∀ t payload, (updatedCoursesReducer cs (.rejected t payload)).loading = false ∧
        (updatedCoursesReducer cs (.rejected t payload)).error = payload ∧
        (updatedCoursesReducer cs (.rejected t payload)).courses = cs.courses ∧
        (updatedCoursesReducer cs (.rejected t payload)).activeCategory = cs.activeCategory) ∧
    (∀ t, t.mock → (coursesReducer cs (.pending t)).loading = true ∧
        (coursesReducer cs (.pending t)).error = .null) ∧
    (∀ t payload, t.mock → (coursesReducer cs (.fulfilled t payload)).loading = false ∧
        (coursesReducer cs (.fulfilled t payload)).error = .null) ∧
    (∀ t payload, t.mock → (coursesReducer cs (.rejected t payload)).loading = false ∧
        (coursesReducer cs (.rejected t payload)).error = payload ∧
        (coursesReducer cs (.rejected t payload)).courses = cs.courses ∧
        (coursesReducer cs (.rejected t payload)).activeCategory = cs.activeCategory) ∧
    (∀ t, (updatedUsersReducer us (.pending t)).loading = true ∧
        (updatedUsersReducer us (.pending t)).error = .null) ∧
    (∀ t payload, (updatedUsersReducer us (.fulfilled t payload)).loading = false ∧
        (updatedUsersReducer us (.fulfilled t payload)).error = .null) ∧
    (∀ t payload, (updatedUsersReducer us (.rejected t payload)).loading = false ∧
        (updatedUsersReducer us (.rejected t payload)).error = payload ∧
        (updatedUsersReducer us (.rejected t payload)).users = us.users) := by
  refine ⟨?_, ?_, ?_, ?_, ?_, ?_, ?_, ?_, ?_⟩
  · intro t; cases t <;> exact ⟨rfl, rfl⟩
  · intro t payload; cases t <;> exact ⟨rfl, rfl⟩
  · intro t payload; cases t <;> exact ⟨rfl, rfl, rfl, rfl⟩
  · intro t ht; cases t <;> first | exact ⟨rfl, rfl⟩ | exact absurd rfl ht
  · intro t payload ht; cases t <;> first | exact ⟨rfl, rfl⟩ | exact absurd rfl ht
  · intro t payload ht; cases t <;> first | exact ⟨rfl, rfl, rfl, rfl⟩ | exact absurd rfl ht
  · intro t; cases t <;> exact ⟨rfl, rfl⟩
  · intro t payload; cases t <;> exact ⟨rfl, rfl⟩
  · intro t payload; cases t <;> exact ⟨rfl, rfl, rfl⟩

/-- C22 at a failed `updateCourse` in the slice of the mock API: the message is
stored and the list is as it was. -/
theorem async_actions_state_machine_witness :
    CourseThunk.updateCourse.mock ∧
    (coursesReducer CoursesState.initialState
      (.rejected .updateCourse (.str "Failed to update course"))).error =
        .str "Failed to update course" ∧
    (coursesReducer CoursesState.initialState
      (.rejected .updateCourse (.str "Failed to update course"))).courses = [] :=
  ⟨by simp [CourseThunk.mock],
    ((async_actions_state_machine CoursesState.initialState
      UsersState.initialState).2.2.2.2.2.1 .updateCourse (.str "Failed to update course")
      (by simp [CourseThunk.mock])).2.1,
    rfl⟩

/-! ### Update and delete in the courses slice -/

theorem findIndex_none {α : Type} {p : α → Bool} {l : List α}
    (h : ∀ a ∈ l, p a = false) : findIndex p l = none := by
  induction l with
  | nil => rfl
  | cons a as ih =>
    simp only [findIndex, h a (List.mem_cons_self _ _), Bool.false_eq_true, if_false,
      ih (fun b hb => h b (List.mem_cons_of_mem _ hb)), Option.map_none']

/-- The index `findIndex` returns splits the list at the first element that
satisfies the test. -/
theorem findIndex_some {α : Type} {p : α → Bool} {l : List α} {i : Nat}
    (h : findIndex p l = some i) (x : α) :
    ∃ before entry after, l = before ++ entry :: after ∧
      (∀ a ∈ before, p a = false) ∧ p entry = true ∧ l.set i x = before ++ x :: after := by
  induction l generalizing i with
  | nil => simp [findIndex] at h
  | cons a as ih =>
    simp only [findIndex] at h
    by_cases hp : p a = true
    · rw [if_pos hp] at h
      cases h
      exact ⟨[], a, as, rfl, by simp, hp, rfl⟩
    · rw [if_neg hp] at h
      cases hf : findIndex p as with
      | none => rw [hf] at h; simp at h
      | some j =>
        rw [hf] at h
        simp only [Option.map_some', Option.some.injEq] at h
        subst h
        obtain ⟨before, entry, after, hl, hb, he, hs⟩ := ih hf
        refine ⟨a :: before, entry, after, by rw [hl]; rfl, ?_, he, ?_⟩
        · intro b hb'
          rcases List.mem_cons.mp hb' with rfl | hb'
          · simpa using hp
          · exact hb b hb'
        · simp only [List.set_cons_succ, hs, List.cons_append]

theorem findIndex_of_mem {α : Type} {p : α → Bool} {l : List α} {a : α} (ha : a ∈ l)
    (hp : p a = true) : ∃ i, findIndex p l = some i := by
  cases hf : findIndex p l with
  | some i => exact ⟨i, rfl⟩
  | none =>
    exfalso
    induction l with
    | nil => simp at ha
    | cons b bs ih =>
      simp only [findIndex] at hf
      by_cases hb : p b = true
      · rw [if_pos hb] at hf; cases hf
      · rw [if_neg hb] at hf
        rcases List.mem_cons.mp ha with rfl | ha
        · exact hb hp
        · cases hg : findIndex p bs with
          | none => exact ih ha hg
          | some j => rw [hg] at hf; simp at hf

/-- C23. `updateCourse.fulfilled` replaces the first entry whose id is the id of
the payload by the payload, and keeps the length of the list, every other entry
and the order; when no entry has that id the list is as it was.
`deleteCourse.fulfilled` keeps, in order, exactly the entries whose id is not the
payload.  Both hold in `updatedCoursesSlice.js` and in `coursesSlice.js`. -/
theorem fulfilled_update_and_delete (state : CoursesState) (payload : Obj) (id : Value) :
    ((updatedCoursesReducer state (.fulfilled .updateCourse payload)).courses.length =
        state.courses.length ∧
     ((∀ c ∈ state.courses, (c.get "id").strictEq (payload.get "id") = false) →
        (updatedCoursesReducer state (.fulfilled .updateCourse payload)).courses =
          state.courses) ∧
     ((∃ c ∈ state.courses, (c.get "id").strictEq (payload.get "id") = true) →
        ∃ before entry after, state.courses = before ++ entry :: after ∧
          (∀ c ∈ before, (c.get "id").strictEq (payload.get "id") = false) ∧
          (entry.get "id").strictEq (payload.get "id") = true ∧
          (updatedCoursesReducer state (.fulfilled .updateCourse payload)).courses =
            before ++ payload :: after) ∧
     (coursesReducer state (.fulfilled .updateCourse payload)).courses =
       (updatedCoursesReducer state (.fulfilled .updateCourse payload)).courses) ∧
    ((updatedCoursesReducer state (.fulfilled .deleteCourse id)).courses.Sublist
        state.courses ∧
     (∀ c ∈ (updatedCoursesReducer state (.fulfilled .deleteCourse id)).courses,
        (c.get "id").strictEq id = false) ∧
     (∀ c : Obj, (c.get "id").strictEq id = false →
        (updatedCoursesReducer state (.fulfilled .deleteCourse id)).courses.count c =
          state.courses.count c) ∧
     (coursesReducer state (.fulfilled .deleteCourse id)).courses =
       (updatedCoursesReducer state (.fulfilled .deleteCourse id)).courses) := by
  refine ⟨⟨?_, ?_, ?_, rfl⟩, ⟨?_, ?_, ?_, rfl⟩⟩
  · show (match findIndex (fun course : Obj => (course.get "id").strictEq (payload.get "id"))
        state.courses with
      | some i => state.courses.set i payload
      | none => state.courses).length = state.courses.length
    split
    · exact List.length_set _ _ _
    · rfl
  · intro hnone
    show (match findIndex (fun course : Obj => (course.get "id").strictEq (payload.get "id"))
        state.courses with
      | some i => state.courses.set i payload
      | none => state.courses) = state.courses
    rw [findIndex_none hnone]
  · rintro ⟨c, hc, hid⟩
    obtain ⟨i, hi⟩ := findIndex_of_mem
      (p := fun course : Obj => (course.get "id").strictEq (payload.get "id")) hc hid
    obtain ⟨before, entry, after, hl, hb, he, hs⟩ := findIndex_some hi payload
    refine ⟨before, entry, after, hl, hb, he, ?_⟩
    show (match findIndex (fun course : Obj => (course.get "id").strictEq (payload.get "id"))
        state.courses with
      | some i => state.courses.set i payload
      | none => state.courses) = before ++ payload :: after
    rw [hi]
    exact hs
  · exact List.filter_sublist _
  · intro c hc
    have := (List.mem_filter.mp hc).2
    simpa using this
  · intro c hc
    show (state.courses.filter (fun course => !(course.get "id").strictEq id)).count c = _
    exact List.count_filter (by simp [hc])

/-- C23 at the three sample entries: an update of id 2 replaces the second entry,
and a delete of id 2 leaves the first and the third. -/
theorem fulfilled_update_and_delete_witness :
    (∃ c ∈ sampleCoursesState.courses,
      (c.get "id").strictEq (.num 2 0) = true) ∧
    (updatedCoursesReducer sampleCoursesState
      (.fulfilled .updateCourse [("id", .num 2 0), ("title", .str "Brand building")])).courses =
      [[("id", .num 1 0), ("title", .str "Data")],
       [("id", .num 2 0), ("title", .str "Brand building")],
       [("id", .num 3 0), ("title", .str "UX")]] ∧
    (updatedCoursesReducer sampleCoursesState (.fulfilled .deleteCourse (.num 2 0))).courses =
      [[("id", .num 1 0), ("title", .str "Data")], [("id", .num 3 0), ("title", .str "UX")]] := by
  have hex : ∃ c ∈ sampleCoursesState.courses,
      (c.get "id").strictEq (Obj.get [("id", .num 2 0), ("title", .str "Brand building")] "id")
        = true := ⟨[("id", .num 2 0), ("title", .str "Brand")], by decide, by decide⟩
  obtain ⟨before, entry, after, hl, hb, he, hs⟩ :=
    (fulfilled_update_and_delete sampleCoursesState
      [("id", .num 2 0), ("title", .str "Brand building")] (.num 2 0)).1.2.2.1 hex
  exact ⟨⟨[("id", .num 2 0), ("title", .str "Brand")], by decide, by decide⟩, by decide,
    by decide⟩

/-! ### The auth slices -/

/-- C30 refuted as stated: from the initial state, where the sentence holds,
`setUserFromStorage(0)` stores the user `0`, which is not null, and sets
`isLoggedIn` to `!!0`, false, in both slices; `setUserFromStorage(undefined)`
does the same with the user `undefined`. -/
theorem setUserFromStorage_falsy_payload :
    loggedInIffUser AuthState.initialState.isLoggedIn AuthState.initialState.user ∧
    (AuthAction.setUserFromStorage (.prim (.num 0 0))).nonNullFulfilled ∧
    ¬ loggedInIffUser
      (authReducer AuthState.initialState (.setUserFromStorage (.prim (.num 0 0)))).isLoggedIn
      (authReducer AuthState.initialState (.setUserFromStorage (.prim (.num 0 0)))).user ∧
    updatedAuthReducer UpdatedAuthState.initialState (.setUserFromStorage (.prim (.num 0 0))) =
      .ok { UpdatedAuthState.initialState with user := .prim (.num 0 0) } ∧
    ¬ loggedInIffUser
      (authReducer AuthState.initialState (.setUserFromStorage (.prim .undefined))).isLoggedIn
      (authReducer AuthState.initialState (.setUserFromStorage (.prim .undefined))).user := by
  refine ⟨by decide, trivial, by decide, rfl, by decide⟩

/-- C30 (as amended). `isLoggedIn is true iff user is not null` holds in the
initial state of both auth slices and is preserved by `logout`, `clearAuthError`,
`setGuestUser`, by `setUserFromStorage` for a payload that is null or truthy, and
by the pending, fulfilled and rejected actions of the thunks for every non-null
fulfilled payload.  The reducer of `updatedAuthSlice.js` throws only at
`loginUser.fulfilled` with the payload `undefined`; `logout`, `setGuestUser`,
`loginUser.rejected` and `verifyToken.rejected` leave `token` null. -/
theorem logged_in_iff_user (s : AuthState) (u : UpdatedAuthState) (a : AuthAction)
    (hs : loggedInIffUser s.isLoggedIn s.user) (hu : loggedInIffUser u.isLoggedIn u.user)
    (ha : a.nonNullFulfilled) (hstored : a.storedUser) :
    loggedInIffUser AuthState.initialState.isLoggedIn AuthState.initialState.user ∧
    loggedInIffUser UpdatedAuthState.initialState.isLoggedIn
      UpdatedAuthState.initialState.user ∧
    loggedInIffUser (authReducer s a).isLoggedIn (authReducer s a).user ∧
    (match updatedAuthReducer u a with
      | .ok u' => loggedInIffUser u'.isLoggedIn u'.user
      | .error _ => a = .fulfilled .loginUser (.prim .undefined)) ∧
    (∀ payload, a = .logout ∨ a = .setGuestUser ∨ a = .rejected .loginUser payload ∨
        a = .rejected .verifyToken payload →
      ∃ u', updatedAuthReducer u a = .ok u' ∧ u'.token = .null) := by
  refine ⟨by decide, by decide, ?_, ?_, ?_⟩
  · cases a with
    | logout => simp [authReducer, loggedInIffUser]
    | clearAuthError => exact hs
    | setUserFromStorage payload =>
      rcases hstored with h | h
      · subst h; simp [authReducer, loggedInIffUser, Js.truthy, Value.truthy]
      · have hne : payload ≠ .prim .null := by
          intro h0; subst h0; simp [Js.truthy, Value.truthy] at h
        simp [authReducer, loggedInIffUser, h, hne]
    | setGuestUser => simp [authReducer, loggedInIffUser]
    | pending t => cases t <;> exact hs
    | fulfilled t payload =>
      cases t
      · simpa [authReducer, loggedInIffUser] using ha
      · exact hs
      · exact hs
    | rejected t payload =>
      cases t
      · simp [authReducer, loggedInIffUser]
      · exact hs
      · exact hs
  · cases a with
    | logout => simp [updatedAuthReducer, loggedInIffUser]
    | clearAuthError => exact hu
    | setUserFromStorage payload =>
      rcases hstored with h | h
      · subst h; simp [updatedAuthReducer, loggedInIffUser, Js.truthy, Value.truthy]
      · have hne : payload ≠ .prim .null := by
          intro h0; subst h0; simp [Js.truthy, Value.truthy] at h
        simp [updatedAuthReducer, loggedInIffUser, h, hne]
    | setGuestUser => simp [updatedAuthReducer, loggedInIffUser]
    | pending t => cases t <;> exact hu
    | fulfilled t payload =>
      cases t
      · have hne : payload ≠ .prim .null := ha
        cases payload with
        | obj fields => simp [updatedAuthReducer, Js.getProp, loggedInIffUser]
        | prim v =>
          cases v <;> first
            | exact absurd rfl hne
            | simp [updatedAuthReducer, Js.getProp, loggedInIffUser]
      · exact hu
      · simp [updatedAuthReducer, loggedInIffUser]
    | rejected t payload =>
      cases t
      · simp [updatedAuthReducer, loggedInIffUser]
      · exact hu
      · simp [updatedAuthReducer, loggedInIffUser]
  · intro payload h
    rcases h with rfl | rfl | rfl | rfl <;> exact ⟨_, rfl, rfl⟩

/-- C30 at a stored user: `setUserFromStorage` logs the user in and, in the slice
of the Node API, takes the token of the stored user. -/
theorem logged_in_iff_user_witness :
    (authReducer AuthState.initialState (.setUserFromStorage sampleStoredUser)).isLoggedIn
      = true ∧
    loggedInIffUser
      (authReducer AuthState.initialState (.setUserFromStorage sampleStoredUser)).isLoggedIn
      (authReducer AuthState.initialState (.setUserFromStorage sampleStoredUser)).user ∧
    updatedAuthReducer UpdatedAuthState.initialState (.setUserFromStorage sampleStoredUser) =
      .ok { UpdatedAuthState.initialState with
        user := sampleStoredUser, isLoggedIn := true, token := .str "good" } :=
  ⟨by decide,
    (logged_in_iff_user AuthState.initialState UpdatedAuthState.initialState
      (.setUserFromStorage sampleStoredUser) (by decide) (by decide) trivial
      (Or.inr rfl)).2.2.1,
    rfl⟩

/-! ### Email lookup in the services -/

theorem find?_split {α : Type} {p : α → Bool} {l : List α} {a : α}
    (h : l.find? p = some a) :
    ∃ before after, l = before ++ a :: after ∧ (∀ b ∈ before, p b = false) ∧ p a = true := by
  induction l with
  | nil => simp at h
  | cons b bs ih =>
    by_cases hb : p b = true
    · simp only [List.find?_cons, hb] at h
      cases h
      exact ⟨[], bs, rfl, by simp, hb⟩
    · have hb' : p b = false := by simpa using hb
      simp only [List.find?_cons, hb'] at h
      obtain ⟨before, after, hl, hbefore, ha⟩ := ih h
      refine ⟨b :: before, after, by rw [hl]; rfl, ?_, ha⟩
      intro c hc
      rcases List.mem_cons.mp hc with rfl | hc
      · exact hb'
      · exact hbefore c hc

/-- The lookups of the mock-API service are right: `emailExists` resolves to true
exactly when a served user has the email, and `findByEmail` to the first such
user. -/
theorem mock_email_lookup (users : List Obj) (email : Value) :
    (ApiService.emailExists (.ok users) email = .ok true ↔
      ∃ user ∈ users, (user.get "email").strictEq email = true) ∧
    (∃ b, ApiService.emailExists (.ok users) email = .ok b) ∧
    (∀ user, ApiService.findByEmail (.ok users) email = .ok (some user) ↔
      ∃ before after, users = before ++ user :: after ∧
        (∀ other ∈ before, (other.get "email").strictEq email = false) ∧
        (user.get "email").strictEq email = true) ∧
    (ApiService.findByEmail (.ok users) email = .ok none ↔
      ∀ user ∈ users, (user.get "email").strictEq email = false) := by
  refine ⟨?_, ⟨_, rfl⟩, ?_, ?_⟩
  · simp [ApiService.emailExists]
  · intro user
    simp only [ApiService.findByEmail, Except.ok.injEq]
    constructor
    · exact find?_split
    · rintro ⟨before, after, hl, hb, hu⟩
      rw [hl, List.find?_append]
      have : before.find? (fun user => (user.get "email").strictEq email) = none := by
        rw [List.find?_eq_none]
        intro x hx
        simpa using hb x hx
      rw [this]
      simp [List.find?_cons, hu]
  · simp only [ApiService.findByEmail, Except.ok.injEq, List.find?_eq_none]
    simp

/-- C27 fails in the service of the Node API: whatever list the API serves,
`findByEmail` rejects and `emailExists` resolves to false, because `this.getAll`
is read off `undefined`; so for the two sample users `emailExists('ann@x.com')`
is false, where the service of the mock API answers true. -/
theorem node_email_lookup_fails :
    (∀ served email, NodeApiServices.emailExists served email = .ok false) ∧
    (∀ served email, NodeApiServices.findByEmail served email =
      .error "Cannot read properties of undefined (reading 'getAll')") ∧
    (∃ user ∈ sampleServedUsers, (user.get "email").strictEq (.str "ann@x.com") = true) ∧
    NodeApiServices.emailExists (.ok sampleServedUsers) (.str "ann@x.com") = .ok false ∧
    ApiService.emailExists (.ok sampleServedUsers) (.str "ann@x.com") = .ok true ∧
    ApiService.findByEmail (.ok sampleServedUsers) (.str "ann@x.com") =
      .ok (some [("id", .num 2 0), ("email", .str "ann@x.com")]) := by
  refine ⟨fun _ _ => rfl, fun _ _ => rfl, ?_, rfl, ?_, ?_⟩
  · exact ⟨[("id", .num 2 0), ("email", .str "ann@x.com")], by decide, by decide⟩
  · rfl
  · rfl

/-! ### The form round trip -/

theorem removeFirst_append_of_not_mem (c : Char) (cs : List Char) (h : c ∉ cs) :
    removeFirst c (cs ++ [c]) = cs := by
  induction cs with
  | nil => simp [removeFirst]
  | cons d ds ih =>
    have hd : d ≠ c := fun hdc => h (by rw [hdc]; exact List.mem_cons_self _ _)
    have hds : c ∉ ds := fun hm => h (List.mem_cons_of_mem _ hm)
    rw [List.cons_append]
    simp only [removeFirst, if_neg hd]
    rw [ih hds]

theorem replaceK_append (p : String) (h : 'K' ∉ p.data) :
    replaceK (.str (p ++ "K")) = .ok p := by
  have : (p ++ "K").data = p.data ++ ['K'] := rfl
  simp only [replaceK, this, removeFirst_append_of_not_mem 'K' p.data h]

theorem float_toStringOf (js : Builtins) (x : Value) :
    ∃ s, js.toStringOf (js.float x) = .ok s := by
  unfold Builtins.float
  cases js.parseFloat x with
  | none => exact ⟨_, rfl⟩
  | some ms => exact ⟨_, rfl⟩

theorem parseInt_toStringOf (js : Builtins) (x : Value) :
    ∃ s, js.toStringOf (parseInt x) = .ok s := by
  have h : (∃ m s, parseInt x = .num m s) ∨ parseInt x = .nan ∨
      ∃ b, parseInt x = .infinity b := by
    unfold parseInt parseIntText
    dsimp only
    split
    · exact Or.inr (Or.inl rfl)
    · unfold integerValue
      split
      · exact Or.inl ⟨_, _, rfl⟩
      · exact Or.inr (Or.inr ⟨_, rfl⟩)
  rcases h with ⟨m, s, h⟩ | h | ⟨b, h⟩ <;> rw [h] <;> exact ⟨_, rfl⟩

/-- C26 refuted as stated: in the Node-API service the form with the empty price
comes back with the price `0`. -/
theorem empty_price_comes_back_zero :
    sampleEmptyPriceForm.get "price" = .str "" ∧
    NodeApiServices.transformApiProductToForm sampleBuiltins
      (NodeApiServices.transformProductData sampleBuiltins sampleEmptyPriceForm) =
      .ok [("title", .str "Figma"), ("description", .str "Design with Figma"),
        ("tutorName", .str "Ann"), ("position", .str "Designer"), ("company", .str "Grab"),
        ("rating", .str "4"), ("reviewCount", .str "10"), ("price", .str "0"),
        ("category", .str "Desain"), ("courseImage", .str "/a.png"),
        ("tutorImage", .str "/b.png")] := by
  exact ⟨rfl, rfl⟩

/-- C26 (as amended). For every course form whose price is a string without the
letter `K`, `transformApiProductToForm(transformProductData(form))` returns a form
with the original title, description, tutorName, position, company, category,
courseImage and tutorImage, in both services; it has the original price too in the
mock-API service, and in the Node-API service when the price is not empty, where
an empty price comes back as `0`. -/
theorem form_round_trip (js : Builtins) (form : Obj) (price : String)
    (hprice : form.get "price" = .str price) (hK : 'K' ∉ price.data) :
    (∃ out, ApiService.transformApiProductToForm js
        (ApiService.transformProductData js form) = .ok out ∧
      ∀ f ∈ roundTripFields, out.get f = form.get f) ∧
    (∃ out, NodeApiServices.transformApiProductToForm js
        (NodeApiServices.transformProductData js form) = .ok out ∧
      (∀ f ∈ roundTripFields, f ≠ "price" → out.get f = form.get f) ∧
      (price ≠ "" → out.get "price" = form.get "price") ∧
      (price = "" → out.get "price" = .str "0")) := by
  have hrep := replaceK_append price hK
  have hstring : js.string (form.get "price") = price := by rw [hprice]; rfl
  constructor
  · obtain ⟨rating, hr⟩ := float_toStringOf js (form.get "rating")
    obtain ⟨reviewCount, hc⟩ := parseInt_toStringOf js (form.get "reviewCount")
    have hout : ApiService.transformApiProductToForm js
        (ApiService.transformProductData js form) =
        .ok [("title", form.get "title"), ("description", form.get "description"),
          ("tutorName", form.get "tutorName"), ("position", form.get "position"),
          ("company", form.get "company"), ("rating", .str rating),
          ("reviewCount", .str reviewCount), ("price", .str price),
          ("category", form.get "category"), ("courseImage", form.get "courseImage"),
          ("tutorImage", form.get "tutorImage")] := by
      unfold ApiService.transformApiProductToForm
      have h1 : (ApiService.transformProductData js form).get "rating" =
          js.float (form.get "rating") := rfl
      have h2 : (ApiService.transformProductData js form).get "reviewCount" =
          parseInt (form.get "reviewCount") := rfl
      have h3 : (ApiService.transformProductData js form).get "price" =
          .str (price ++ "K") := by rw [← hstring]; rfl
      rw [h1, hr, h2, hc, h3, hrep]
      rfl
    refine ⟨_, hout, ?_⟩
    intro f hf
    simp only [roundTripFields, List.mem_cons, List.mem_singleton, List.not_mem_nil,
      or_false] at hf
    rcases hf with rfl | rfl | rfl | rfl | rfl | rfl | rfl | rfl | rfl
    · exact hprice.symm
    all_goals rfl
  · have h3 : (NodeApiServices.transformProductData js form).get "price" =
        .str (price ++ "K") := by rw [← hstring]; rfl
    have hzero : replaceKOrZero (.str (price ++ "K")) =
        .ok (if price = "" then "0" else price) := by
      simp only [replaceKOrZero, hrep]
    have hout : NodeApiServices.transformApiProductToForm js
        (NodeApiServices.transformProductData js form) =
        .ok [("title", form.get "title"), ("description", form.get "description"),
          ("tutorName", form.get "tutorName"), ("position", form.get "position"),
          ("company", form.get "company"),
          ("rating", .str (js.toStringOrZero (js.float (form.get "rating")))),
          ("reviewCount", .str (js.toStringOrZero (parseInt (form.get "reviewCount")))),
          ("price", .str (if price = "" then "0" else price)),
          ("category", form.get "category"), ("courseImage", form.get "courseImage"),
          ("tutorImage", form.get "tutorImage")] := by
      unfold NodeApiServices.transformApiProductToForm
      rw [h3, hzero]
      rfl
    refine ⟨_, hout, ?_, ?_, ?_⟩
    · intro f hf hne
      simp only [roundTripFields, List.mem_cons, List.mem_singleton, List.not_mem_nil,
        or_false] at hf
      rcases hf with rfl | rfl | rfl | rfl | rfl | rfl | rfl | rfl | rfl
      · exact absurd rfl hne
      all_goals rfl
    · intro hne
      rw [hprice]
      show Value.str (if price = "" then "0" else price) = .str price
      rw [if_neg hne]
    · intro he
      show Value.str (if price = "" then "0" else price) = .str "0"
      rw [if_pos he]

/-- C26 at the form with the price `300`: both services return the nine fields
as they were. -/
theorem form_round_trip_witness :
    samplePricedForm.get "price" = .str "300" ∧ 'K' ∉ "300".data ∧
    ∃ out, NodeApiServices.transformApiProductToForm sampleBuiltins
        (NodeApiServices.transformProductData sampleBuiltins samplePricedForm) = .ok out ∧
      out.get "price" = .str "300" ∧ out.get "title" = .str "Figma" := by
  obtain ⟨out, hout, hrest, hprice, _⟩ :=
    (form_round_trip sampleBuiltins samplePricedForm "300" rfl (by decide)).2
  exact ⟨rfl, by decide, out, hout, hprice (by decide),
    hrest "title" (by decide) (by decide)⟩

/-! ### The course cache and its fallbacks -/

theorem CoursesData.getAllCourses_hit {s : CoursesData.State} {r : List Obj} {t : Int}
    (h : s.holds r t) (now : Int) (api : Except String (List Obj))
    (hnow : now - t < 30000) : CoursesData.getAllCourses now api s = (.ok r, s) := by
  obtain ⟨hc, ht⟩ := h
  unfold CoursesData.getAllCourses
  rw [ht, hc, if_pos (by simpa [CoursesData.CACHE_DURATION] using hnow)]

theorem CoursesData.getAllCourses_miss {s : CoursesData.State} {now : Int}
    (h : s.coursesCache = none ∨ ¬ now - s.cacheTimestamp < 30000)
    (api : Except String (List Obj)) : CoursesData.queries now api s := by
  unfold CoursesData.queries CoursesData.getAllCourses
  have hnone : (if now - s.cacheTimestamp < CoursesData.CACHE_DURATION then s.coursesCache
      else none) = none := by
    rcases h with h | h
    · rw [h]; simp
    · rw [if_neg (by simpa [CoursesData.CACHE_DURATION] using h)]
  rw [hnone]
  cases api <;> rfl

theorem CoursesData.Read.run_holds {s : CoursesData.State} {r : List Obj} {t : Int}
    (h : s.holds r t) (call : CoursesData.Read) (hw : call.within t) :
    (call.run s).holds r t := by
  cases call with
  | getAllCourses now api =>
    simp only [CoursesData.Read.run, CoursesData.getAllCourses_hit h now api hw]
    exact h
  | getCoursesByCategory category api =>
    simp only [CoursesData.Read.run, CoursesData.getCoursesByCategory]
    cases api with
    | ok products => exact h
    | error e =>
      dsimp only
      split <;> exact h
  | getFeaturedCourses limit now api =>
    simp only [CoursesData.Read.run, CoursesData.getFeaturedCourses,
      CoursesData.getAllCourses_hit h now api hw]
    exact h

theorem CoursesData.runReads_holds (calls : List CoursesData.Read) {t : Int} {r : List Obj} :
    ∀ {s : CoursesData.State}, s.holds r t → (∀ call ∈ calls, call.within t) →
      (CoursesData.runReads calls s).holds r t := by
  induction calls with
  | nil => intro s h _; exact h
  | cons call rest ih =>
    intro s h hw
    exact ih (CoursesData.Read.run_holds h call (hw call (List.mem_cons_self _ _)))
      (fun c hc => hw c (List.mem_cons_of_mem _ hc))

theorem CoursesData.reset_success_clears {getAll : Except String (List Obj)}
    {delete : Value → Except String Unit} {create : Obj → Except String Obj}
    {s s' : CoursesData.State}
    (h : CoursesData.resetToDefaultCourses getAll delete create s = (.ok true, s')) :
    s'.coursesCache = none := by
  unfold CoursesData.resetToDefaultCourses at h
  split at h
  · cases h
  · split at h
    · cases h
    · split at h
      · cases h
      · cases h
        rfl

/-- C24. The course cache is valid for 30 seconds.  A `getAllCourses` call at
time `t` that finds no valid cache queries the API and stores the result with
`t`.  While the cache holds a result stored at `t`, after any sequence of
`getAllCourses`, `getCoursesByCategory` and `getFeaturedCourses` calls made less
than 30000 ms after `t`, a `getAllCourses` call at a time `t'` with
`t' - t < 30000` resolves to the stored result and changes nothing, so it makes no
request; a call with `t' - t >= 30000` queries the API again.  After a successful
`addCourse`, `updateCourse`, `deleteCourse` or `resetToDefaultCourses` the next
`getAllCourses` call queries the API, at any time, and `refreshCoursesData`
queries it itself. -/
theorem cache_valid_for_30_seconds (s : CoursesData.State) (t : Int) (r : List Obj) :
    (∀ api, (s.coursesCache = none ∨ ¬ t - s.cacheTimestamp < 30000) →
      CoursesData.queries t api s ∧
      (CoursesData.getAllCourses t api s).2.holds (CoursesData.fresh api) t) ∧
    (∀ calls now api, s.holds r t → (∀ call ∈ calls, call.within t) → now - t < 30000 →
      CoursesData.getAllCourses now api (CoursesData.runReads calls s) =
        (.ok r, CoursesData.runReads calls s)) ∧
    (∀ now api, s.holds r t → now - t ≥ 30000 → CoursesData.queries now api s) ∧
    (∀ now api course, CoursesData.queries now api (CoursesData.addCourse (.ok course) s).2 ∧
      CoursesData.queries now api (CoursesData.updateCourse (.ok course) s).2 ∧
      CoursesData.queries now api (CoursesData.deleteCourse (.ok ()) s).2) ∧
    (∀ now api getAll delete create s',
      CoursesData.resetToDefaultCourses getAll delete create s = (.ok true, s') →
      CoursesData.queries now api s') ∧
    (∀ now api, CoursesData.refreshCoursesData now api s =
      (.ok (CoursesData.fresh api),
        { coursesCache := some (CoursesData.fresh api), cacheTimestamp := now,
          requests := s.requests ++ ["getAll"] })) := by
  refine ⟨?_, ?_, ?_, ?_, ?_, ?_⟩
  · intro api hmiss
    have hq := CoursesData.getAllCourses_miss hmiss api
    refine ⟨hq, ?_⟩
    unfold CoursesData.queries at hq
    rw [hq]
    exact ⟨rfl, rfl⟩
  · intro calls now api h hw hnow
    exact CoursesData.getAllCourses_hit (CoursesData.runReads_holds calls h hw) now api hnow
  · intro now api h hnow
    refine CoursesData.getAllCourses_miss (Or.inr ?_) api
    rw [h.2]
    omega
  · intro now api course
    exact ⟨CoursesData.getAllCourses_miss (Or.inl rfl) api,
      CoursesData.getAllCourses_miss (Or.inl rfl) api,
      CoursesData.getAllCourses_miss (Or.inl rfl) api⟩
  · intro now api getAll delete create s' h
    exact CoursesData.getAllCourses_miss (Or.inl (CoursesData.reset_success_clears h)) api
  · intro now api
    exact CoursesData.getAllCourses_miss (s := CoursesData.clearCache s) (Or.inl rfl) api

/-- C24 at a cache stored at time 1000: a call at 30999, after a call at 2000 and
a category listing, gives the two stored courses and makes no request; a call at
31000 makes one. -/
theorem cache_valid_for_30_seconds_witness :
    sampleCached.holds (CoursesData.transformApiDataForComponents sampleProducts) 1000 ∧
    CoursesData.getAllCourses 30999 (.error "offline")
      (CoursesData.runReads
        [.getAllCourses 2000 (.error "offline"),
         .getCoursesByCategory (.str "Desain") (.error "offline")] sampleCached) =
      (.ok (CoursesData.transformApiDataForComponents sampleProducts),
        CoursesData.runReads
          [.getAllCourses 2000 (.error "offline"),
           .getCoursesByCategory (.str "Desain") (.error "offline")] sampleCached) ∧
    (CoursesData.getAllCourses 31000 (.ok sampleProducts) sampleCached).2.requests =
      ["getAll", "getAll"] := by
  have h : sampleCached.holds (CoursesData.transformApiDataForComponents sampleProducts)
      1000 := ⟨rfl, rfl⟩
  refine ⟨h, ?_, by decide⟩
  exact (cache_valid_for_30_seconds sampleCached 1000
    (CoursesData.transformApiDataForComponents sampleProducts)).2.1
    [.getAllCourses 2000 (.error "offline"),
     .getCoursesByCategory (.str "Desain") (.error "offline")] 30999 (.error "offline") h
    (by
      intro call hc
      simp only [List.mem_cons, List.mem_singleton, List.not_mem_nil, or_false] at hc
      rcases hc with rfl | rfl
      · show (2000 : Int) - 1000 < 30000
        decide
      · trivial)
    (by decide)

/-- C25. `getAllCourses` never rejects, and when its API call fails it resolves to
the three default courses, ids 1, 2 and 3, in component shape.
`getCoursesByCategory` never rejects either, and when its API call fails it
resolves to those defaults: all of them for `Semua Kelas`, and otherwise exactly
those whose category is the requested one. -/
theorem reads_fall_back_to_defaults (s : CoursesData.State) (now : Int)
    (api : Except String (List Obj)) (category : Value) (e : String) :
    (∃ courses, (CoursesData.getAllCourses now api s).1 = .ok courses) ∧
    ((s.coursesCache = none ∨ ¬ now - s.cacheTimestamp < 30000) →
      (CoursesData.getAllCourses now (.error e) s).1 =
        .ok (CoursesData.transformApiDataForComponents CoursesData.defaultCoursesData)) ∧
    (CoursesData.transformApiDataForComponents CoursesData.defaultCoursesData).map
      (fun course => course.get "id") = [.num 1 0, .num 2 0, .num 3 0] ∧
    (∃ courses, (CoursesData.getCoursesByCategory category api s).1 = .ok courses) ∧
    (category = .str "Semua Kelas" →
      (CoursesData.getCoursesByCategory category (.error e) s).1 =
        .ok (CoursesData.transformApiDataForComponents CoursesData.defaultCoursesData)) ∧
    (category ≠ .str "Semua Kelas" →
      (CoursesData.getCoursesByCategory category (.error e) s).1 =
        .ok ((CoursesData.transformApiDataForComponents CoursesData.defaultCoursesData).filter
          (fun course => (course.get "category").strictEq category))) := by
  refine ⟨?_, ?_, by decide, ?_, ?_, ?_⟩
  · unfold CoursesData.getAllCourses
    split
    · exact ⟨_, rfl⟩
    · cases api <;> exact ⟨_, rfl⟩
  · intro hmiss
    have hq := CoursesData.getAllCourses_miss hmiss (.error e)
    unfold CoursesData.queries at hq
    rw [hq]
    rfl
  · unfold CoursesData.getCoursesByCategory
    cases api with
    | ok products => exact ⟨_, rfl⟩
    | error e' =>
      dsimp only
      split <;> exact ⟨_, rfl⟩
  · intro hc
    subst hc
    rfl
  · intro hc
    have hs : category.strictEq (.str "Semua Kelas") = false := by
      cases category <;> simp_all [Value.strictEq]
    simp only [CoursesData.getCoursesByCategory, hs, Bool.false_eq_true, if_false]

/-- C25 with the API down since the module was imported: the listing for
`Desain` is the third default course. -/
theorem reads_fall_back_to_defaults_witness :
    Value.str "Desain" ≠ .str "Semua Kelas" ∧
    ((CoursesData.getCoursesByCategory (.str "Desain") (.error "offline")
      sampleOffline).1.toOption.getD []).map (fun course => course.get "id") =
      [.num 3 0] := by
  have h := (reads_fall_back_to_defaults sampleOffline 0 (.error "offline")
    (.str "Desain") "offline").2.2.2.2.2 (by decide)
  refine ⟨by decide, ?_⟩
  rw [h]
  decide

end VideoBelajar
